import Mathlib

/-!
# S52CS.c : Conditional Symbology procedures (CS) of OpENCview

A shallow embedding of `src/S52CS.c` and the properties of its specification.

Conventions of the embedding

* a finite C `double` is a rational number (`ℚ`); comparisons of doubles are exact,
  and every sum, difference, product and quotient of doubles is the exact result
  rounded to the nearest double (`roundDouble`, IEEE 754 binary64 with ties to even,
  each operation rounded once): `dadd`, `dsub`, `dmul`, `ddiv`;
* a `GString *` is an `Option String` (`none` is `NULL`) where the source returns
  or tests `NULL`, and a `String` where it cannot be `NULL`;
* a `S57_geo *` is an address (`Ptr`) into a store `S57_state`; the store holds
  the feature records and, per address, the touch references and the scale-minimum
  override that the accessors `S57_getTouch*`, `S57_setTouch*`, `S57_setScamin`
  read and write;
* functions of other compilation units (`S52_atof`, `S52_atoi`, the spatial
  predicates of `S57data.c`) are fields of `S57_ext` and stay arbitrary in every
  general theorem; `decExt` is a concrete instance used to evaluate the code on
  explicit inputs;
* `for` loops over a `GPtrArray` are recursive functions over the list of its
  entries that thread the store; `g_assert(0)` ends a call with `CS_result.assertFail`.
-/

namespace S52CS

/-! ## Constants and external types -/

/-- `#define UNKNOWN_DEPTH -1000.0`: depth of 1km above sea level. -/
def UNKNOWN_DEPTH : ℚ := -1000

/-- `#define LISTSIZE 16`: size of attributes value list buffer. -/
def LISTSIZE : Nat := 16

/-- Modelled from the spec: the sentinel of `S57data.h` that marks an attribute as
"present but empty/unknown" (the header is not part of `src/`). -/
def EMPTY_NUMBER_MARKER : String := "2147483641"

/-- Geometry kind of a feature (`S57_Obj_t` of `S57data.h`). -/
inductive S57_Obj_t where
  | S57__META_T
  | S57_AREAS_T
  | S57_LINES_T
  | S57_POINT_T
  deriving DecidableEq, Repr

/-- Names of the mariner parameters read by this file through `S52_MP_get`. -/
inductive S52MarinerParameter where
  | S52_MAR_SHALLOW_PATTERN
  | S52_MAR_SHIPS_OUTLINE
  | S52_MAR_TWO_SHADES
  | S52_MAR_SAFETY_CONTOUR
  | S52_MAR_SAFETY_DEPTH
  | S52_MAR_SHALLOW_CONTOUR
  | S52_MAR_DEEP_CONTOUR
  | S52_MAR_DISTANCE_TAGS
  | S52_MAR_TIME_TAGS
  | S52_MAR_BEAM_BRG_NM
  | S52_MAR_SYMBOLIZED_BND
  | S52_MAR_DATUM_OFFSET
  | S52_MAR_HEADNG_LINE
  | S52_MAR_VECMRK
  | S52_MAR_VECPER
  | S52_MAR_VECSTB
  | S52_MAR_SPECS_ED_NO
  deriving DecidableEq, Repr

/-- The mariner parameter store: `S52_MP_get` as a function of the parameter name. -/
abbrev S52_MP := S52MarinerParameter → ℚ

/-! ## C doubles

A finite `double` is a rational number.  The sum, difference and product of two
doubles are the exact result rounded to the nearest double, ties to the even
significand (IEEE 754 binary64, each operation rounded once); comparisons are exact.
Overflow to an infinity is not part of the embedding. -/

/-- The power `2^e` for an integer exponent. -/
def pow2 (e : Int) : ℚ :=
  if 0 ≤ e then ((2 ^ e.toNat : Nat) : ℚ) else 1 / ((2 ^ (-e).toNat : Nat) : ℚ)

/-- The integer nearest to `r`, the even one on a tie. -/
def roundHalfEven (r : ℚ) : Int :=
  if r - ⌊r⌋ < 1 / 2 then ⌊r⌋
  else if 1 / 2 < r - ⌊r⌋ then ⌊r⌋ + 1
  else if ⌊r⌋ % 2 = 0 then ⌊r⌋ else ⌊r⌋ + 1

/-- The number of halvings that bring `n` below 2, at most `fuel` of them. -/
def log2Fuel : Nat → Nat → Nat
  | 0, _ => 0
  | fuel + 1, n => if 2 ≤ n then log2Fuel fuel (n / 2) + 1 else 0

/-- The binary logarithm of a natural number, rounded down. -/
def ilog2 (n : Nat) : Nat := log2Fuel n n

/-- The binary exponent of `q`: `2^e ≤ |q| < 2^(e+1)` when `q` is not zero. -/
def binade (q : ℚ) : Int :=
  let e0 : Int := (ilog2 q.num.natAbs : Int) - (ilog2 q.den : Int)
  if pow2 e0 ≤ |q| then e0 else e0 - 1

/-- The distance of two neighbouring doubles around `q`: 53 significant bits, the
exponent not below `-1022` (subnormal numbers). -/
def ulp (q : ℚ) : ℚ := pow2 (max (binade q) (-1022) - 52)

/-- The double nearest to the rational `q`, ties to even. -/
def roundDouble (q : ℚ) : ℚ :=
  if q < 0 then -((roundHalfEven (-q / ulp q) : ℚ) * ulp q)
  else (roundHalfEven (q / ulp q) : ℚ) * ulp q

/-- The values a `double` can hold. -/
def isDouble (q : ℚ) : Prop := roundDouble q = q

instance (q : ℚ) : Decidable (isDouble q) := by unfold isDouble; infer_instance

/-- The addition of doubles `a + b`. -/
def dadd (a b : ℚ) : ℚ := roundDouble (a + b)

/-- The subtraction of doubles `a - b`. -/
def dsub (a b : ℚ) : ℚ := roundDouble (a - b)

/-- The multiplication of doubles `a * b`. -/
def dmul (a b : ℚ) : ℚ := roundDouble (a * b)

/-- The division of doubles `a / b`. -/
def ddiv (a b : ℚ) : ℚ := roundDouble (a / b)

/-- The constant `0.01` of the source: the double nearest to one hundredth. -/
def dbl_0_01 : ℚ := roundDouble 0.01

/-- The C cast `(int) x` of a double: truncation toward zero (the value must fit an
`int`, the cast of a larger one is undefined in C). -/
def castInt (x : ℚ) : Int := Int.tdiv x.num x.den

/-- The test `TRUE == (int) x` applied to a mariner flag. -/
def isTRUE (x : ℚ) : Bool := castInt x == 1

/-- Address of a feature (`S57_geo *`). -/
abbrev Ptr := Nat

/-- The record of a feature as the accessors of the feature store present it:
identifier, class name, geometry kind, attribute list and the coordinates of
ring 0 (`none` when `S57_getGeoData` returns `FALSE`, else `npt` and the `xyz` array). -/
structure S57_geo where
  S57ID : Nat
  name : String
  objtype : S57_Obj_t
  attribs : List (String × String)
  geoData : Option (Nat × List ℚ)

/-- `S57_getAttValALL`: the raw attribute value, `none` when the attribute is absent. -/
def S57_getAttValALL (geo : S57_geo) (att_name : String) : Option String :=
  geo.attribs.lookup att_name

/-- Modelled from the spec: `S57_getAttVal` of the feature store (`S57data.c` is not
part of `src/`); it returns the attribute value, and `none` when the attribute is
absent or carries the "present but empty/unknown" sentinel. -/
def S57_getAttVal (geo : S57_geo) (att_name : String) : Option String :=
  match geo.attribs.lookup att_name with
  | some v => if v = EMPTY_NUMBER_MARKER then none else some v
  | none => none

/-- Functions of other compilation units used by the procedures: number parsing
(`S52utils.c`) and the spatial predicates of the feature store (`S57data.c`). -/
structure S57_ext where
  S52_atof : String → ℚ
  S52_atoi : String → Int
  S57_cmpGeoExt : S57_geo → S57_geo → Bool
  S57_isPtInSet : S57_geo → ℚ → ℚ → Bool
  S57_isPtOnLine : S57_geo → ℚ → ℚ → Bool
  S57_isPtInArea : S57_geo → ℚ → ℚ → Bool

/-- Element `i` of a C array of doubles (`ppt[i]`). -/
def ppt_at (ppt : List ℚ) (i : Nat) : ℚ := ppt.getD i 0

/-! ## `_strpbrk`, `_parseList` -/

/-- `_strpbrk(s, list)`: the suffix of the NUL-terminated byte string `s` that starts
at its first byte occurring in `list`, `none` (NULL) when there is none. -/
def _strpbrk : List Nat → List Nat → Option (List Nat)
  | [], _ => none
  | r :: rs, list =>
    if r = 0 then none
    else if r ∈ list then some (r :: rs)
    else _strpbrk rs list

/-- The inner loop `while('0'<=*str && *str<='9') str++;`. -/
def skipDigits : List Char → List Char
  | [] => []
  | c :: cs => if '0' ≤ c ∧ c ≤ '9' then skipDigits cs else c :: cs

/-- The `do ... while` loop of `_parseList`; `buf` holds the bytes written so far
(`i = buf.length`), `str` the rest of the string.  Every round consumes a
character, so `fuel = str.length + 1` rounds are enough. -/
def _parseList_loop (atoi : String → Int) : Nat → List Char → List Nat → List Nat
  | 0, _, buf => buf
  | fuel + 1, str, buf =>
    if buf.length ≥ LISTSIZE - 1 then buf
    else
      let buf := buf ++ [(Int.emod (atoi (String.mk str)) 256).toNat]
      match skipDigits str with
      | [] => buf
      | _ :: str => _parseList_loop atoi fuel str buf

/-- `_parseList(str, buf)`: put a string of comma delimited numbers in an array.
Returns the number of values and the buffer with its `\0` terminator. -/
def _parseList (atoi : String → Int) (str : Option String) : Nat × List Nat :=
  let vals :=
    match str with
    | none => []
    | some s => if s.data = [] then [] else _parseList_loop atoi (s.data.length + 1) s.data []
  (vals.length, vals ++ [0])

/-! ## `_RESCSP01`, `_SEABED01`, `DEPARE01` -/

/-- `_RESCSP01(restrnstr)`: symbol of a restriction list. -/
def _RESCSP01 (E : S57_ext) (restrnstr : String) : Option String :=
  let restrn := (_parseList E.S52_atoi (some restrnstr)).2
  let symb :=
    if (_strpbrk restrn [7, 8, 14]).isSome then
      -- continuation A
      if (_strpbrk restrn [1, 2, 3, 4, 5, 6]).isSome then ";SY(ENTRES61)"
      else if (_strpbrk restrn [9, 10, 11, 12, 13]).isSome then ";SY(ENTRES71)"
      else ";SY(ENTRES51)"
    else if (_strpbrk restrn [1, 2]).isSome then
      -- continuation B
      if (_strpbrk restrn [3, 4, 5, 6]).isSome then ";SY(ACHRES61)"
      else if (_strpbrk restrn [9, 10, 11, 12, 13]).isSome then ";SY(ACHRES71)"
      else ";SY(ACHRES51)"
    else if (_strpbrk restrn [3, 4, 5, 6]).isSome then
      -- continuation C
      if (_strpbrk restrn [9, 10, 11, 12, 13]).isSome then ";SY(FSHRES71)"
      else ";SY(FSHRES51)"
    else if (_strpbrk restrn [9, 10, 11, 12, 13]).isSome then ";SY(INFARE51)"
    else ";SY(RSRDEF51)"
  some symb

/-- The locals `arecol` and `shallow` of `_SEABED01` when the colour tests are done. -/
def _SEABED01_locals (mp : S52_MP) (drval1 drval2 : ℚ) : String × Bool :=
  let shallow := true
  let arecol := ";AC(DEPIT)"
  let arecol := if drval1 ≥ 0 ∧ drval2 > 0 then ";AC(DEPVS)" else arecol
  if isTRUE (mp .S52_MAR_TWO_SHADES) then
    if drval1 ≥ mp .S52_MAR_SAFETY_CONTOUR ∧ drval2 > mp .S52_MAR_SAFETY_CONTOUR then
      (";AC(DEPDW)", false)
    else (arecol, shallow)
  else
    let arecol :=
      if drval1 ≥ mp .S52_MAR_SHALLOW_CONTOUR ∧ drval2 > mp .S52_MAR_SHALLOW_CONTOUR then
        ";AC(DEPMS)"
      else arecol
    let (arecol, shallow) :=
      if drval1 ≥ mp .S52_MAR_SAFETY_CONTOUR ∧ drval2 > mp .S52_MAR_SAFETY_CONTOUR then
        (";AC(DEPMD)", false)
      else (arecol, shallow)
    let (arecol, shallow) :=
      if drval1 ≥ mp .S52_MAR_DEEP_CONTOUR ∧ drval2 > mp .S52_MAR_DEEP_CONTOUR then
        (";AC(DEPDW)", false)
      else (arecol, shallow)
    (arecol, shallow)

/-- `_SEABED01(drval1, drval2)`: colour of a seabed area, with the shallow pattern. -/
def _SEABED01 (mp : S52_MP) (drval1 drval2 : ℚ) : String :=
  let (arecol, shallow) := _SEABED01_locals mp drval1 drval2
  let seabed01 := arecol
  if isTRUE (mp .S52_MAR_SHALLOW_PATTERN) ∧ shallow = true then
    seabed01 ++ ";AP(DIAMOND1)"
  else seabed01

/-- `DEPARE01(geo)`: depth area and dredged area. -/
def DEPARE01 (E : S57_ext) (mp : S52_MP) (geo : S57_geo) : String :=
  let drval1str := S57_getAttVal geo "DRVAL1"
  let drval1 : ℚ :=
    match drval1str with
    | none => -1
    | some s => E.S52_atof s
  let drval2str := S57_getAttVal geo "DRVAL2"
  let drval2 : ℚ :=
    match drval2str with
    | none => dadd drval1 dbl_0_01
    | some s => E.S52_atof s
  -- adjuste datum
  let drval1 := dadd drval1 (mp .S52_MAR_DATUM_OFFSET)
  let drval2 := dadd drval2 (mp .S52_MAR_DATUM_OFFSET)
  let depare01 := _SEABED01 mp drval1 drval2
  if geo.name = "DRGARE" then
    let depare01 := depare01 ++ ";AP(DRGARE01)"
    let depare01 := depare01 ++ ";LS(DASH,1,CHGRF)"
    match S57_getAttVal geo "RESTRN" with
    | some restrn01str =>
      match _RESCSP01 E restrn01str with
      | some rescsp01 => depare01 ++ rescsp01
      | none => depare01
    | none => depare01
  else depare01

/-- The depth `DRVAL1` of a depth area as `DEPARE01` passes it to `_SEABED01`:
`-1.0` when the attribute is absent, datum offset added. -/
def DEPARE01_drval1 (E : S57_ext) (mp : S52_MP) (geo : S57_geo) : ℚ :=
  let drval1 : ℚ :=
    match S57_getAttVal geo "DRVAL1" with
    | none => -1
    | some s => E.S52_atof s
  dadd drval1 (mp .S52_MAR_DATUM_OFFSET)

/-- The depth `DRVAL2` of a depth area as `DEPARE01` passes it to `_SEABED01`:
`DRVAL1 + 0.01` when the attribute is absent, datum offset added. -/
def DEPARE01_drval2 (E : S57_ext) (mp : S52_MP) (geo : S57_geo) : ℚ :=
  let drval1 : ℚ :=
    match S57_getAttVal geo "DRVAL1" with
    | none => -1
    | some s => E.S52_atof s
  let drval2 : ℚ :=
    match S57_getAttVal geo "DRVAL2" with
    | none => dadd drval1 dbl_0_01
    | some s => E.S52_atof s
  dadd drval2 (mp .S52_MAR_DATUM_OFFSET)

/-! ## The feature store: touch references, scale minimum, diagnostics -/

/-- Scale-minimum override of a feature: never written, reset
(`S57_RESET_SCAMIN`), or forced always visible (`INFINITY`). -/
inductive Scamin where
  | unset
  | S57_RESET_SCAMIN
  | INFINITY
  deriving DecidableEq, Repr

/-- The state behind the `S57_geo *` accessors: the feature records, one touch slot
per category and feature, the scale-minimum overrides, the `static int silent`
flags of this file (keyed by the place of their declaration) and the `PRINTF` log. -/
structure S57_state where
  obj : Ptr → S57_geo
  touchTOPMAR : Ptr → Option Ptr
  touchLIGHTS : Ptr → Option Ptr
  touchDEPCNT : Ptr → Option Ptr
  touchUDWHAZ : Ptr → Option Ptr
  touchDEPVAL : Ptr → Option Ptr
  scamin : Ptr → Scamin
  silent : String → Bool
  log : List String

/-- Modelled from the spec: `S57_setTouchTOPMAR` writes the platform slot of `geo`. -/
def S57_setTouchTOPMAR (st : S57_state) (geo touch : Ptr) : S57_state :=
  { st with touchTOPMAR := Function.update st.touchTOPMAR geo (some touch) }

/-- Modelled from the spec: `S57_setTouchLIGHTS` writes the light-chain slot of `geo`. -/
def S57_setTouchLIGHTS (st : S57_state) (geo touch : Ptr) : S57_state :=
  { st with touchLIGHTS := Function.update st.touchLIGHTS geo (some touch) }

/-- Modelled from the spec: `S57_setTouchDEPCNT` writes the contour slot of `geo`. -/
def S57_setTouchDEPCNT (st : S57_state) (geo touch : Ptr) : S57_state :=
  { st with touchDEPCNT := Function.update st.touchDEPCNT geo (some touch) }

/-- Modelled from the spec: `S57_setTouchUDWHAZ` writes the hazard slot of `geo`. -/
def S57_setTouchUDWHAZ (st : S57_state) (geo touch : Ptr) : S57_state :=
  { st with touchUDWHAZ := Function.update st.touchUDWHAZ geo (some touch) }

/-- Modelled from the spec: `S57_setTouchDEPVAL` writes the least-depth slot of `geo`. -/
def S57_setTouchDEPVAL (st : S57_state) (geo touch : Ptr) : S57_state :=
  { st with touchDEPVAL := Function.update st.touchDEPVAL geo (some touch) }

/-- Modelled from the spec: `S57_setScamin` writes the scale-minimum override of `geo`. -/
def S57_setScamin (st : S57_state) (geo : Ptr) (v : Scamin) : S57_state :=
  { st with scamin := Function.update st.scamin geo v }

/-- `PRINTF(fmt, ...)`: the format string is appended to the log (its arguments are
not rendered). -/
def PRINTF (st : S57_state) (fmt : String) : S57_state :=
  { st with log := st.log ++ [fmt] }

/-- The assignment `silent = TRUE` to the static flag declared at `key`. -/
def setSilent (st : S57_state) (key : String) : S57_state :=
  { st with silent := Function.update st.silent key true }

/-- Outcome of a call that can hit `g_assert(0)`: it returns a value in a new state,
or the assertion fails in the state reached. -/
inductive CS_result (α : Type) where
  | ret : S57_state → α → CS_result α
  | assertFail : S57_state → CS_result α

/-- The state in which a call ends. -/
def CS_result.state {α : Type} : CS_result α → S57_state
  | .ret st _ => st
  | .assertFail st => st

/-- The value a call returns, `none` when an assertion failed. -/
def CS_result.val? {α : Type} : CS_result α → Option α
  | .ret _ v => some v
  | .assertFail _ => none

/-- `GLib`: `g_string_prepend(string, val)` puts `val` in front of `string`, and
returns `NULL` when `string` is `NULL`. -/
def g_string_prepend (string : Option String) (val : String) : Option String :=
  match string with
  | some s => some (val ++ s)
  | none => none

/-! ## `S52_CS_init`, `S52_CS_add` -/

/-- The five lists of `_localObj`, in the order of their entries. -/
structure localObj where
  lights_list : List Ptr
  topmar_list : List Ptr
  depcnt_list : List Ptr
  udwhaz_list : List Ptr
  depval_list : List Ptr
  deriving DecidableEq, Repr

/-- `S52_CS_init()`: five empty lists. -/
def S52_CS_init : localObj :=
  { lights_list := [], topmar_list := [], depcnt_list := [], udwhaz_list := [],
    depval_list := [] }

/-- `S52_CS_add(local, geo)`: keep a reference on `geo` for the later passes.
Returns the new lists and the value returned by the C function. -/
def S52_CS_add (st : S57_state) (loc : localObj) (geo : Ptr) : localObj × Bool :=
  let name := (st.obj geo).name
  -- set floating platform
  if name = "LITFLT" ∨ name = "LITVES" ∨ "BOY".data.isPrefixOf name.data = true then
    ({ loc with topmar_list := loc.topmar_list ++ [geo] }, true)
  -- set light object
  else if name = "LIGHTS" then
    ({ loc with lights_list := loc.lights_list ++ [geo] }, true)
  else
    let loc :=
      if name = "DEPARE" ∨ name = "DRGARE" then
        -- DEPARE:A/L and DRGARE:A
        let loc := { loc with udwhaz_list := loc.udwhaz_list ++ [geo] }
        -- DEPARE:A and DRGARE:A
        if (st.obj geo).objtype = .S57_AREAS_T then
          { loc with depcnt_list := loc.depcnt_list ++ [geo] }
        else loc
      else loc
    let loc :=
      if name = "DEPARE" ∨ name = "UNSARE" then
        -- DEPARE:A/L and UNSARE:A
        { loc with depval_list := loc.depval_list ++ [geo] }
      else loc
    (loc, true)

/-! ## `S52_CS_touch` -/

/-- Key of the `static int silent` of the `TOPMAR` block of `S52_CS_touch`. -/
def silent_TOPMAR : String := "S52_CS_touch:TOPMAR"

/-- Key of the `static int silent` of the `BOYLAT` block of `S52_CS_touch`. -/
def silent_BOYLAT : String := "S52_CS_touch:BOYLAT"

/-- The loop of the `TOPMAR` block over `topmar_list`. -/
def S52_CS_touch_TOPMAR (E : S57_ext) (geo : Ptr) : List Ptr → S57_state → CS_result Unit
  | [], st => .ret st ()
  | other :: rest, st =>
    -- skip if not at same position
    if E.S57_cmpGeoExt (st.obj geo) (st.obj other) = false then
      S52_CS_touch_TOPMAR E geo rest st
    else if st.touchTOPMAR geo = none then
      S52_CS_touch_TOPMAR E geo rest (S57_setTouchTOPMAR st geo other)
    else if st.silent silent_TOPMAR = false then
      .assertFail (setSilent
        (PRINTF (PRINTF st "FIXME: more than 1 TOPMAR\n") "FIXME: (this msg will not repeat)\n")
        silent_TOPMAR)
    else S52_CS_touch_TOPMAR E geo rest st

/-- The loop of the `BOYLAT` block over `lights_list` (left at the first match). -/
def S52_CS_touch_BOYLAT (E : S57_ext) (geo : Ptr) : List Ptr → S57_state → S57_state
  | [], st => st
  | light :: rest, st =>
    -- skip if this light is not at buoy's position
    if E.S57_cmpGeoExt (st.obj geo) (st.obj light) = false then
      S52_CS_touch_BOYLAT E geo rest st
    else
      let st :=
        if st.touchLIGHTS light ≠ none ∧ st.silent silent_BOYLAT = false then
          setSilent
            (PRINTF (PRINTF st "FIXME: A) more than 1 LIGHT for the same BOYLAT\n")
              "FIXME: (this msg will not repeat)\n")
            silent_BOYLAT
        else st
      -- reverse chaining, bailout as soon as we got one
      S57_setTouchLIGHTS st light geo

/-- The loop of the `LIGHTS` block over `lights_list` (left at the first match). -/
def S52_CS_touch_LIGHTS (E : S57_ext) (geo : Ptr) : List Ptr → S57_state → CS_result Unit
  | [], st => .ret st ()
  | candidate :: rest, st =>
    -- skip if allready processed / same LIGHTS
    if (st.obj candidate).S57ID ≤ (st.obj geo).S57ID then
      S52_CS_touch_LIGHTS E geo rest st
    -- skip if not at same position
    else if E.S57_cmpGeoExt (st.obj geo) (st.obj candidate) = false then
      S52_CS_touch_LIGHTS E geo rest st
    else if st.touchLIGHTS geo = none then
      .ret (S57_setTouchLIGHTS st geo candidate) ()
    else
      .assertFail (PRINTF st "FIXME: chaining prob.: more than 1 LIGHT touch this LIGHT\n")

/-- The loop of the `DEPCNT02` block over `depcnt_list`; `drvalmin` is the tracked
depth, `ppt` the coordinates of the line. -/
def S52_CS_touch_DEPCNT (E : S57_ext) (geo : Ptr) (ppt : List ℚ) :
    List Ptr → S57_state → ℚ → S57_state
  | [], st, _ => st
  | candidate :: rest, st, drvalmin =>
    -- skip if it's same S57 object (DEPARE)
    if (st.obj geo).S57ID = (st.obj candidate).S57ID then
      S52_CS_touch_DEPCNT E geo ppt rest st drvalmin
    else if E.S57_cmpGeoExt (st.obj geo) (st.obj candidate) = false then
      S52_CS_touch_DEPCNT E geo ppt rest st drvalmin
    else if E.S57_isPtInSet (st.obj candidate) (ppt_at ppt 0) (ppt_at ppt 1) = false then
      S52_CS_touch_DEPCNT E geo ppt rest st drvalmin
    else
      match S57_getAttVal (st.obj candidate) "DRVAL1" with
      | some can_drval1str =>
        let can_drval1 := E.S52_atof can_drval1str
        -- clear default
        if UNKNOWN_DEPTH = drvalmin then
          S52_CS_touch_DEPCNT E geo ppt rest st can_drval1
        -- deeper
        else if can_drval1 > drvalmin then
          S52_CS_touch_DEPCNT E geo ppt rest (S57_setTouchDEPCNT st geo candidate) can_drval1
        else S52_CS_touch_DEPCNT E geo ppt rest st drvalmin
      | none => S52_CS_touch_DEPCNT E geo ppt rest st drvalmin

/-- The test "is geo touching this candidate?" of the `_UDWHAZ03` block. -/
def UDWHAZ_touching (E : S57_ext) (g c : S57_geo) (ppt : List ℚ) : Bool :=
  if E.S57_cmpGeoExt g c = false then false
  -- geo point (IsolatedNode)
  else if g.objtype = .S57_POINT_T then
    if c.objtype = .S57_LINES_T then E.S57_isPtOnLine c (ppt_at ppt 0) (ppt_at ppt 1)
    else E.S57_isPtInArea c (ppt_at ppt 0) (ppt_at ppt 1)
  -- geo:A/L, candidate:A/L
  else E.S57_isPtInSet c (ppt_at ppt 0) (ppt_at ppt 1)

/-- The depth attribute read from a candidate of the `_UDWHAZ03` block: `DRVAL2` of a
line, `DRVAL1` of an area. -/
def UDWHAZ_depthstr (c : S57_geo) : Option String :=
  if c.objtype = .S57_LINES_T then S57_getAttVal c "DRVAL2" else S57_getAttVal c "DRVAL1"

/-- The loop of the `_UDWHAZ03` block over `udwhaz_list`; `depth_max` is the tracked
depth. -/
def S52_CS_touch_UDWHAZ (E : S57_ext) (geo : Ptr) (ppt : List ℚ) :
    List Ptr → S57_state → ℚ → S57_state
  | [], st, _ => st
  | candidate :: rest, st, depth_max =>
    if UDWHAZ_touching E (st.obj geo) (st.obj candidate) ppt = false then
      S52_CS_touch_UDWHAZ E geo ppt rest st depth_max
    else
      -- geo do touch this candidate: get depth_max
      match UDWHAZ_depthstr (st.obj candidate) with
      | some drvalstr =>
        let drval := E.S52_atof drvalstr
        if drval > depth_max then
          S52_CS_touch_UDWHAZ E geo ppt rest (S57_setTouchUDWHAZ st geo candidate) drval
        else S52_CS_touch_UDWHAZ E geo ppt rest st depth_max
      | none => S52_CS_touch_UDWHAZ E geo ppt rest st depth_max

/-- The test "is geo touching this candidate?" of the `_DEPVAL01` block (the result of
`S57_isPtOnLine` on a line candidate is dropped there). -/
def DEPVAL_touching (E : S57_ext) (g c : S57_geo) (ppt : List ℚ) : Bool :=
  if E.S57_cmpGeoExt g c = false then false
  -- geo:P (IsolatedNode)
  else if g.objtype = .S57_POINT_T then E.S57_isPtInArea c (ppt_at ppt 0) (ppt_at ppt 1)
  -- geo:A/L, candidate:A/L
  else E.S57_isPtInSet c (ppt_at ppt 0) (ppt_at ppt 1)

/-- One round of the loop of the `_DEPVAL01` block on `candidate`: the state and the
tracked depth `least_depth` (`none` is `INFINITY`) at the end of the round, or the
state in which `g_assert(0)` fails. -/
def S52_CS_touch_DEPVAL_round (E : S57_ext) (geo : Ptr) (ppt : List ℚ) (candidate : Ptr)
    (st : S57_state) (least_depth : Option ℚ) : Except S57_state (S57_state × Option ℚ) :=
  if DEPVAL_touching E (st.obj geo) (st.obj candidate) ppt = false then .ok (st, least_depth)
  -- first check if UNSARE
  else if (st.obj candidate).name = "UNSARE" then
    .error (PRINTF (S57_setTouchDEPVAL st geo candidate)
      "DEBUG: UNSARE found value under this: %s:%c:%i\n")
  else
    match st.touchDEPVAL geo with
    | none => .ok (S57_setTouchDEPVAL st geo candidate, least_depth)
    | some _ =>
      match S57_getAttVal (st.obj candidate) "DRVAL1" with
      | none => .ok (st, least_depth)
      | some drval1str =>
        let drval1 := E.S52_atof drval1str
        -- if (isinf(least_depth)) { least_depth = drval1; S57_setTouchDEPVAL(geo, candidate); }
        let st1 :=
          match least_depth with
          | none => S57_setTouchDEPVAL st geo candidate
          | some _ => st
        let least :=
          match least_depth with
          | none => drval1
          | some l => l
        if drval1 < least then .ok (st1, some least)
        else .ok (S57_setTouchDEPVAL st1 geo candidate, some drval1)

/-- The loop of the `_DEPVAL01` block over `depval_list`. -/
def S52_CS_touch_DEPVAL (E : S57_ext) (geo : Ptr) (ppt : List ℚ) :
    List Ptr → S57_state → Option ℚ → CS_result Unit
  | [], st, _ => .ret st ()
  | candidate :: rest, st, least_depth =>
    match S52_CS_touch_DEPVAL_round E geo ppt candidate st least_depth with
    | .ok (st, least_depth) => S52_CS_touch_DEPVAL E geo ppt rest st least_depth
    | .error st => .assertFail st

/-- The feature calls `OBSTRN04` or `WRECKS02`: its class is `OBSTRN`, `UWTROC` or
`WRECKS`. -/
def isHazardClass (name : String) : Bool :=
  name = "OBSTRN" ∨ name = "UWTROC" ∨ name = "WRECKS"

/-- The `_UDWHAZ03` block of `S52_CS_touch`; `none` is the early `return FALSE`. -/
def S52_CS_touch_UDWHAZ_block (E : S57_ext) (loc : localObj) (st : S57_state) (geo : Ptr) :
    Option S57_state :=
  match (st.obj geo).geoData with
  | none => none
  | some (_, ppt) =>
    -- find the deepest group 1 under this geo
    let st := S52_CS_touch_UDWHAZ E geo ppt loc.udwhaz_list st UNKNOWN_DEPTH
    if st.touchUDWHAZ geo = none then
      some (PRINTF st "DEBUG: no group 1 candidate under this: %s:%c:%i\n")
    else some st

/-- The `_DEPVAL01` block of `S52_CS_touch`. -/
def S52_CS_touch_DEPVAL_block (E : S57_ext) (loc : localObj) (st : S57_state) (geo : Ptr) :
    CS_result Bool :=
  match (st.obj geo).geoData with
  | none => .ret st false
  | some (npt, ppt) =>
    -- take the first EN
    let ppt := if 2 < npt then ppt.drop 3 else ppt
    match S52_CS_touch_DEPVAL E geo ppt loc.depval_list st none with
    | .assertFail st => .assertFail st
    | .ret st _ =>
      if st.touchDEPVAL geo = none then
        .ret (PRINTF st "DEBUG: no group 1 candidate under this: %s:%c:%i\n") true
      else .ret st true

/-- The `DEPCNT02` block of `S52_CS_touch`. -/
def S52_CS_touch_DEPCNT_block (E : S57_ext) (loc : localObj) (st : S57_state) (geo : Ptr) :
    CS_result Bool :=
  let drvalstr :=
    if (st.obj geo).name = "DEPCNT" then S57_getAttValALL (st.obj geo) "VALDCO"
    else S57_getAttValALL (st.obj geo) "DRVAL1"
  match drvalstr with
  | none =>
    .ret (PRINTF st "DEBUG: line DEPCNT/DEPARE:%u has no mandatory depth or (VALDCO/DRVAL1)\n")
      true
  | some str =>
    let drvalmin := if str ≠ EMPTY_NUMBER_MARKER then E.S52_atof str else UNKNOWN_DEPTH
    -- debug - DEPARE:3653
    let st :=
      if (st.obj geo).S57ID = 3653 then PRINTF st "DEBUG: line DEPARE:%u found\n" else st
    match (st.obj geo).geoData with
    | none => .ret st false
    | some (_, ppt) =>
      -- select the next deeper contour as the safety contour
      .ret (S52_CS_touch_DEPCNT E geo ppt loc.depcnt_list st drvalmin) true

/-- `S52_CS_touch(local, geo)`: compute which objects of the cell "touch" `geo`. -/
def S52_CS_touch (E : S57_ext) (loc : localObj) (st : S57_state) (geo : Ptr) : CS_result Bool :=
  let name := (st.obj geo).name
  -- floating object
  if name = "TOPMAR" then
    match S52_CS_touch_TOPMAR E geo loc.topmar_list st with
    | .ret st _ => .ret st true
    | .assertFail st => .assertFail st
  -- check if this buoy has a lights
  else if name = "BOYLAT" then
    .ret (S52_CS_touch_BOYLAT E geo loc.lights_list st) true
  -- LIGHTS05:sector, chaine light at same position
  else if name = "LIGHTS" then
    match S52_CS_touch_LIGHTS E geo loc.lights_list st with
    | .ret st _ => .ret st true
    | .assertFail st => .assertFail st
  -- DEPCNT:L, DEPARE:L call CS(DEPCNT02)
  else if name = "DEPCNT" ∨ (name = "DEPARE" ∧ (st.obj geo).objtype = .S57_LINES_T) then
    S52_CS_touch_DEPCNT_block E loc st geo
  -- _UDWHAZ03 then _DEPVAL01 (via OBSTRN04, WRECKS02)
  else if isHazardClass name = true then
    match S52_CS_touch_UDWHAZ_block E loc st geo with
    | none => .ret st false
    | some st => S52_CS_touch_DEPVAL_block E loc st geo
  else .ret st true

/-- Modelled from the spec: the first pass of the cell loader, `classify` (here
`S52_CS_add`) for every feature of the cell in the order given. -/
def S52_CS_addAll (st : S57_state) : List Ptr → localObj → localObj
  | [], loc => loc
  | geo :: rest, loc => S52_CS_addAll st rest (S52_CS_add st loc geo).1

/-- Modelled from the spec: the second pass of the cell loader, `link` (here
`S52_CS_touch`) for every feature of the cell in the order given; a failed assertion
ends the pass. -/
def S52_CS_touchAll (E : S57_ext) (loc : localObj) : List Ptr → S57_state → CS_result Unit
  | [], st => .ret st ()
  | geo :: rest, st =>
    match S52_CS_touch E loc st geo with
    | .ret st _ => S52_CS_touchAll E loc rest st
    | .assertFail st => .assertFail st

/-- Modelled from the spec: the two-pass index build, classify-all then link-all. -/
def loadCell (E : S57_ext) (st : S57_state) (geos : List Ptr) : CS_result Unit :=
  S52_CS_touchAll E (S52_CS_addAll st geos S52_CS_init) geos st

/-! ## `_DEPCNT02_isSafetyCnt`, `DEPCNT02` -/

/-- `_DEPCNT02_isSafetyCnt(geo)`: true if safety contour else false. -/
def _DEPCNT02_isSafetyCnt (E : S57_ext) (mp : S52_MP) (st : S57_state) (geo : Ptr) : Bool :=
  match st.touchDEPCNT geo with
  | none => false
  | some geoTouch =>
    match S57_getAttVal (st.obj geoTouch) "DRVAL1" with
    | none => false
    | some drval1touchstr =>
      -- adjuste datum
      let drval1touch := dadd (E.S52_atof drval1touchstr) (mp .S52_MAR_DATUM_OFFSET)
      if drval1touch < mp .S52_MAR_SAFETY_CONTOUR then
        -- Note: not is S52 - fix false positive safety_cnt
        let drval2 :=
          match S57_getAttVal (st.obj geo) "DRVAL2" with
          | none => 0
          | some drval2str => E.S52_atof drval2str
        -- (the second `drval1touch += S52_MP_get(S52_MAR_DATUM_OFFSET)` is not read again)
        if drval2 ≥ mp .S52_MAR_SAFETY_CONTOUR then true else false
      else false

/-- The local `safety_contour` of `DEPCNT02` at "Continuation B". -/
def DEPCNT02_safety_contour (E : S57_ext) (mp : S52_MP) (st : S57_state) (geo : Ptr) : Bool :=
  -- DEPARE (line)
  if (st.obj geo).name = "DEPARE" then
    let drval1 :=
      match S57_getAttVal (st.obj geo) "DRVAL1" with
      | none => 0
      | some s => E.S52_atof s
    let drval2 :=
      match S57_getAttVal (st.obj geo) "DRVAL2" with
      | none => drval1
      | some s => E.S52_atof s
    -- adjuste datum
    let drval1 := dadd drval1 (mp .S52_MAR_DATUM_OFFSET)
    let drval2 := dadd drval2 (mp .S52_MAR_DATUM_OFFSET)
    if drval1 ≤ mp .S52_MAR_SAFETY_CONTOUR then
      if drval2 ≥ mp .S52_MAR_SAFETY_CONTOUR then true else false
    else
      -- collect area DEPARE & DRGARE that touch this line
      _DEPCNT02_isSafetyCnt E mp st geo
  else
    -- continuation A (DEPCNT (line))
    let valdco :=
      match S57_getAttVal (st.obj geo) "VALDCO" with
      | none => 0
      | some s => E.S52_atof s
    -- adjuste datum
    let valdco := dadd valdco (mp .S52_MAR_DATUM_OFFSET)
    if valdco = mp .S52_MAR_SAFETY_CONTOUR then true
    else if valdco > mp .S52_MAR_SAFETY_CONTOUR then
      -- collect area DEPARE & DRGARE that touche this line
      _DEPCNT02_isSafetyCnt E mp st geo
    else false

/-- `DEPCNT02(geo)`: depth contour or line depth area; returns the new state and the
instruction (`none` is `NULL`). -/
def DEPCNT02 (E : S57_ext) (mp : S52_MP) (st : S57_state) (geo : Ptr) :
    S57_state × Option String :=
  -- first reset original scamin
  let st := S57_setScamin st geo .S57_RESET_SCAMIN
  let safety_contour := DEPCNT02_safety_contour E mp st geo
  -- Continuation B
  let depcnt02 : Option String :=
    match S57_getAttVal (st.obj geo) "QUAPOS" with
    | some quaposstr =>
      let quapos := E.S52_atoi quaposstr
      if 2 ≤ quapos ∧ quapos < 10 then
        if safety_contour = true then some ";LS(DASH,2,DEPSC)" else some ";LS(DASH,1,DEPCN)"
      else none
    | none =>
      if safety_contour = true then some ";LS(SOLD,2,DEPSC)" else some ";LS(SOLD,1,DEPCN)"
  if safety_contour = true then
    (S57_setScamin st geo .INFINITY, g_string_prepend depcnt02 ";OP(8OD13010)")
  else
    (st, g_string_prepend depcnt02 ";OP(---33020)")

/-! ## A concrete instance of the external functions -/

/-- Value of a run of decimal digits. -/
def decDigits (cs : List Char) : Nat := cs.foldl (fun n c => 10 * n + (c.toNat - 48)) 0

/-- A decimal reading of `[-]digits[.digits]`, the behaviour of `S52_atof` on plain
decimal numbers: the double nearest to the decimal value. -/
def decAtof (s : String) : ℚ :=
  let cs := s.data
  let neg := cs.head? = some '-'
  let cs := if neg then cs.drop 1 else cs
  let ip := cs.takeWhile Char.isDigit
  let fp := match cs.dropWhile Char.isDigit with
    | '.' :: r => r.takeWhile Char.isDigit
    | _ => []
  let v : ℚ := roundDouble ((decDigits (ip ++ fp) : ℚ) / ((10 ^ fp.length : Nat) : ℚ))
  if neg then -v else v

/-- A decimal reading of `[-]digits`, the behaviour of `S52_atoi` on plain integers. -/
def decAtoi (s : String) : Int :=
  let cs := s.data
  let neg := cs.head? = some '-'
  let cs := if neg then cs.drop 1 else cs
  let v : Int := (decDigits (cs.takeWhile Char.isDigit) : Int)
  if neg then -v else v

/-- Decimal number parsing and a scene in which every spatial test succeeds:
all features share one extent and the tested point lies on every feature. -/
def decExt : S57_ext where
  S52_atof := decAtof
  S52_atoi := decAtoi
  S57_cmpGeoExt := fun _ _ => true
  S57_isPtInSet := fun _ _ _ => true
  S57_isPtOnLine := fun _ _ _ => true
  S57_isPtInArea := fun _ _ _ => true


/-! ## Reading an instruction string -/

/-- The first directive of a depth-area instruction: its first ten characters,
the area colour `;AC(.....)`. -/
def fillColour (s : String) : String := String.mk (s.data.take 10)

/-- Rank of a colour in the band order `DEPIT < DEPVS < DEPMS < DEPMD < DEPDW`. -/
def bandRank (arecol : String) : Option Nat :=
  if arecol = ";AC(DEPIT)" then some 0
  else if arecol = ";AC(DEPVS)" then some 1
  else if arecol = ";AC(DEPMS)" then some 2
  else if arecol = ";AC(DEPMD)" then some 3
  else if arecol = ";AC(DEPDW)" then some 4
  else none

/-- The instruction is its colour directive followed by the pattern `;AP(DIAMOND1)`. -/
def patternAppended (out : String) : Prop := out = fillColour out ++ ";AP(DIAMOND1)"

instance (out : String) : Decidable (patternAppended out) := by
  unfold patternAppended; infer_instance

/-! ## Concrete inputs -/

/-- Mariner parameters of the end-to-end scenarios: safety contour 10, shallow
contour 5, deep contour 30, four shades, no datum offset, every flag clear. -/
def mpScenario : S52_MP := fun p =>
  match p with
  | .S52_MAR_SAFETY_CONTOUR => 10
  | .S52_MAR_SHALLOW_CONTOUR => 5
  | .S52_MAR_DEEP_CONTOUR => 30
  | _ => 0

/-- The scenario parameters with the shallow-pattern flag set. -/
def mpPattern : S52_MP := Function.update mpScenario .S52_MAR_SHALLOW_PATTERN 1

/-- The scenario parameters with the two-shade flag set. -/
def mpTwoShades : S52_MP := Function.update mpScenario .S52_MAR_TWO_SHADES 1

/-- The two-shade parameters with other shallow and deep contours. -/
def mpTwoShadesAlt : S52_MP :=
  Function.update (Function.update mpTwoShades .S52_MAR_SHALLOW_CONTOUR 2) .S52_MAR_DEEP_CONTOUR 50

/-- A depth area with `DRVAL1=5`, `DRVAL2=20`. -/
def depare_5_20 : S57_geo :=
  { S57ID := 1, name := "DEPARE", objtype := .S57_AREAS_T,
    attribs := [("DRVAL1", "5"), ("DRVAL2", "20")], geoData := none }

/-- A depth area with `DRVAL1=12`, `DRVAL2=20`. -/
def depare_12_20 : S57_geo :=
  { S57ID := 2, name := "DEPARE", objtype := .S57_AREAS_T,
    attribs := [("DRVAL1", "12"), ("DRVAL2", "20")], geoData := none }

/-! ## Reading the scans of `S52_CS_touch` -/

/-- A scan that keeps the entry whose key is strictly greater than the tracked value
`m`: the shape shared by the loops of the `DEPCNT02` and `_UDWHAZ03` blocks. -/
def scanGreater (key : Ptr → Option ℚ) : List Ptr → ℚ → Option Ptr → Option Ptr
  | [], _, r => r
  | c :: rest, m, r =>
    match key c with
    | some d => if d > m then scanGreater key rest d (some c) else scanGreater key rest m r
    | none => scanGreater key rest m r

/-- The candidate test of the `DEPCNT02` block: another identifier, the same extent,
and the first point of the line lies in the candidate. -/
def DEPCNT_candidate (E : S57_ext) (g c : S57_geo) (ppt : List ℚ) : Bool :=
  g.S57ID ≠ c.S57ID ∧ E.S57_cmpGeoExt g c = true ∧
    E.S57_isPtInSet c (ppt_at ppt 0) (ppt_at ppt 1) = true

/-- Depth of a candidate of the `DEPCNT02` block: its `DRVAL1`, when it passes the
candidate test and carries the attribute. -/
def DEPCNT_key (E : S57_ext) (obj : Ptr → S57_geo) (geo : Ptr) (ppt : List ℚ) (c : Ptr) :
    Option ℚ :=
  if DEPCNT_candidate E (obj geo) (obj c) ppt = true then
    (S57_getAttVal (obj c) "DRVAL1").map E.S52_atof
  else none

/-- Depth of a candidate of the `_UDWHAZ03` block: `DRVAL2` of a line, `DRVAL1` of an
area, when the candidate touches the feature and carries the attribute. -/
def UDWHAZ_key (E : S57_ext) (obj : Ptr → S57_geo) (geo : Ptr) (ppt : List ℚ) (c : Ptr) :
    Option ℚ :=
  if UDWHAZ_touching E (obj geo) (obj c) ppt = true then
    (UDWHAZ_depthstr (obj c)).map E.S52_atof
  else none

/-- The own depth string read by the `DEPCNT02` block of `S52_CS_touch`: `VALDCO` of a
`DEPCNT`, `DRVAL1` of a line `DEPARE`. -/
def DEPCNT_drvalstr (g : S57_geo) : Option String :=
  if g.name = "DEPCNT" then S57_getAttValALL g "VALDCO" else S57_getAttValALL g "DRVAL1"

/-- The feature enters the `DEPCNT02` block of `S52_CS_touch`. -/
def isContourLine (g : S57_geo) : Bool :=
  g.name = "DEPCNT" ∨ (g.name = "DEPARE" ∧ g.objtype = .S57_LINES_T)

/-- The part of the state that only the `DEPCNT02` and `_UDWHAZ03` blocks of
`S52_CS_touch` can change, with the feature records. -/
def contourHazardView (st : S57_state) :
    (Ptr → S57_geo) × (Ptr → Option Ptr) × (Ptr → Option Ptr) :=
  (st.obj, st.touchDEPCNT, st.touchUDWHAZ)

/-- The hazard touch of `geo` after `S52_CS_touch`, from its value `r` before. -/
def UDWHAZ_result (E : S57_ext) (loc : localObj) (obj : Ptr → S57_geo) (geo : Ptr)
    (r : Option Ptr) : Option Ptr :=
  if isHazardClass (obj geo).name = true then
    match (obj geo).geoData with
    | none => r
    | some (_, ppt) => scanGreater (UDWHAZ_key E obj geo ppt) loc.udwhaz_list UNKNOWN_DEPTH r
  else r

/-- The contour touch of `geo` after `S52_CS_touch`, from its value `r` before, for a
line whose own depth is known. -/
def DEPCNT_result (E : S57_ext) (loc : localObj) (obj : Ptr → S57_geo) (geo : Ptr)
    (r : Option Ptr) : Option Ptr :=
  if isContourLine (obj geo) = true then
    match DEPCNT_drvalstr (obj geo), (obj geo).geoData with
    | some s, some (_, ppt) =>
      scanGreater (DEPCNT_key E obj geo ppt) loc.depcnt_list (E.S52_atof s) r
    | _, _ => r
  else r

/-- The state at the end of a round of the `_DEPVAL01` loop. -/
def roundState : Except S57_state (S57_state × Option ℚ) → S57_state
  | .ok (st, _) => st
  | .error st => st

/-- The record read at an address that holds no feature. -/
def geoNull : S57_geo :=
  { S57ID := 0, name := "", objtype := .S57__META_T, attribs := [], geoData := none }

/-- The store of a cell just loaded: the feature at address `i` is the `i`-th record,
every touch reference and scale minimum is unset, no diagnostic was printed. -/
def mkState (objs : List S57_geo) : S57_state :=
  { obj := fun p => objs.getD p geoNull,
    touchTOPMAR := fun _ => none,
    touchLIGHTS := fun _ => none,
    touchDEPCNT := fun _ => none,
    touchUDWHAZ := fun _ => none,
    touchDEPVAL := fun _ => none,
    scamin := fun _ => .unset,
    silent := fun _ => false,
    log := [] }

/-- A line of two points. -/
def lineData : Option (Nat × List ℚ) := some (2, [0, 0, 0, 1, 1, 0])

/-- An isolated point. -/
def pointData : Option (Nat × List ℚ) := some (1, [0, 0, 0])

/-- A depth contour with `VALDCO=10` and no `QUAPOS`. -/
def depcnt_10 : S57_geo :=
  { S57ID := 1, name := "DEPCNT", objtype := .S57_LINES_T,
    attribs := [("VALDCO", "10")], geoData := lineData }

/-- A depth contour with `VALDCO=0.7` and no `QUAPOS`. -/
def depcnt_0_7 : S57_geo :=
  { S57ID := 1, name := "DEPCNT", objtype := .S57_LINES_T,
    attribs := [("VALDCO", "0.7")], geoData := lineData }

/-- Mariner parameters in tenths: datum offset `0.1`, safety contour `0.8` (the
doubles nearest to these decimals), the other parameters 0. -/
def mpTenths : S52_MP := fun p =>
  match p with
  | .S52_MAR_DATUM_OFFSET => roundDouble 0.1
  | .S52_MAR_SAFETY_CONTOUR => roundDouble 0.8
  | _ => 0

/-- A depth contour with `VALDCO=10` and `QUAPOS=4` (approximate position). -/
def depcnt_10_quapos4 : S57_geo :=
  { S57ID := 1, name := "DEPCNT", objtype := .S57_LINES_T,
    attribs := [("VALDCO", "10"), ("QUAPOS", "4")], geoData := lineData }

/-- A depth contour with `VALDCO=10` and `QUAPOS=1` (surveyed position). -/
def depcnt_10_quapos1 : S57_geo :=
  { S57ID := 1, name := "DEPCNT", objtype := .S57_LINES_T,
    attribs := [("VALDCO", "10"), ("QUAPOS", "1")], geoData := lineData }

/-- A depth contour with `VALDCO=20`. -/
def depcnt_20 : S57_geo :=
  { S57ID := 1, name := "DEPCNT", objtype := .S57_LINES_T,
    attribs := [("VALDCO", "20")], geoData := lineData }

/-- A 20 m contour whose contour touch is a depth area `5 .. 20`. -/
def stLinked : S57_state :=
  S57_setTouchDEPCNT
    (mkState [depcnt_20,
      { S57ID := 2, name := "DEPARE", objtype := .S57_AREAS_T,
        attribs := [("DRVAL1", "5"), ("DRVAL2", "20")], geoData := none }]) 0 1

/-- Safety contour 1 and datum offset 2, everything else 0. -/
def mpOffset : S52_MP := fun p =>
  match p with
  | .S52_MAR_SAFETY_CONTOUR => 1
  | .S52_MAR_DATUM_OFFSET => 2
  | _ => 0

/-- A cell of a depth contour whose `VALDCO` is present but empty and two drying
depth areas `-5 .. 0` and `-3 .. 5`. -/
def stEmptyValdco : S57_state :=
  mkState
    [{ S57ID := 1, name := "DEPCNT", objtype := .S57_LINES_T,
       attribs := [("VALDCO", EMPTY_NUMBER_MARKER)], geoData := lineData },
     { S57ID := 2, name := "DEPARE", objtype := .S57_AREAS_T,
       attribs := [("DRVAL1", "-5"), ("DRVAL2", "0")], geoData := none },
     { S57ID := 3, name := "DEPARE", objtype := .S57_AREAS_T,
       attribs := [("DRVAL1", "-3"), ("DRVAL2", "5")], geoData := none }]

/-- `S52_CS_add` appends a feature with this record to `udwhaz_list`. -/
def addsToUdwhaz (g : S57_geo) : Bool :=
  ¬ (g.name = "LITFLT" ∨ g.name = "LITVES" ∨ "BOY".data.isPrefixOf g.name.data = true) ∧
  ¬ g.name = "LIGHTS" ∧ (g.name = "DEPARE" ∨ g.name = "DRGARE")

/-- `S52_CS_add` appends a feature with this record to `depcnt_list`. -/
def addsToDepcnt (g : S57_geo) : Bool :=
  addsToUdwhaz g = true ∧ g.objtype = .S57_AREAS_T

/-- Depth of `c` as a candidate of the hazard scan of the feature `p`: the key of the
`_UDWHAZ03` block at the first point of `p`, `none` without readable geometry. -/
def hazardDepth (E : S57_ext) (obj : Ptr → S57_geo) (p c : Ptr) : Option ℚ :=
  match (obj p).geoData with
  | some (_, ppt) => UDWHAZ_key E obj p ppt c
  | none => none

/-- Depth of `c` as a candidate of the contour scan of the line `p`: the key of the
`DEPCNT02` block at the first point of `p`, `none` without readable geometry. -/
def contourDepth (E : S57_ext) (obj : Ptr → S57_geo) (p c : Ptr) : Option ℚ :=
  match (obj p).geoData with
  | some (_, ppt) => DEPCNT_key E obj p ppt c
  | none => none

/-- A depth area with `DRVAL1 = drval1`, identifier `id`. -/
def depareArea (id : Nat) (drval1 : String) : S57_geo :=
  { S57ID := id, name := "DEPARE", objtype := .S57_AREAS_T,
    attribs := [("DRVAL1", drval1)], geoData := none }

/-- An obstruction point without attributes. -/
def obstrnPoint : S57_geo :=
  { S57ID := 1, name := "OBSTRN", objtype := .S57_POINT_T, attribs := [], geoData := pointData }

/-- A cell of a 5 m depth contour and two depth areas from 10 m and from 20 m. -/
def stContour : S57_state :=
  mkState
    [{ S57ID := 1, name := "DEPCNT", objtype := .S57_LINES_T,
       attribs := [("VALDCO", "5")], geoData := lineData },
     depareArea 2 "10", depareArea 3 "20"]

/-- A cell of an obstruction and two depth areas of the same depth 10 m. -/
def stTie : S57_state := mkState [obstrnPoint, depareArea 2 "10", depareArea 3 "10"]

/-- A cell of an obstruction and two depth areas from 10 m and from 20 m. -/
def stDistinct : S57_state := mkState [obstrnPoint, depareArea 2 "10", depareArea 3 "20"]

/-- A cell of an obstruction and one depth area whose `DRVAL1` is `-1000`. -/
def stSentinel : S57_state := mkState [obstrnPoint, depareArea 2 "-1000"]

/-- The class names that `S52_CS_add` keeps in `topmar_list`: `LITFLT`, `LITVES` and
every name that starts with `BOY`. -/
def isPlatformClass (name : String) : Bool :=
  name = "LITFLT" ∨ name = "LITVES" ∨ "BOY".data.isPrefixOf name.data = true

/-- The candidate test of the `LIGHTS` block: a strictly greater identifier and the
same extent. -/
def LIGHTS_candidate (E : S57_ext) (g c : S57_geo) : Bool :=
  decide (g.S57ID < c.S57ID) && E.S57_cmpGeoExt g c

/-- The test of the `_DEPVAL01` block for a touching unsurveyed area. -/
def DEPVAL_unsare (E : S57_ext) (g c : S57_geo) (ppt : List ℚ) : Bool :=
  DEPVAL_touching E g c ppt && decide (c.name = "UNSARE")

/-- The coordinates used by the `_DEPVAL01` block: the first edge node when the
geometry has more than two points (`ppt += 3`). -/
def DEPVAL_ppt (npt : Nat) (ppt : List ℚ) : List ℚ :=
  if 2 < npt then ppt.drop 3 else ppt

/-- The places where `S52_CS_touch` fails an assertion: a `TOPMAR` that meets a
same-extent entry of `topmar_list` while its platform touch is set (the second such
entry when the touch was unset) and the one-time notice was not yet printed; a
`LIGHTS` whose light-chain touch is already set and that meets a same-extent light
of greater identifier; a feature of class `OBSTRN`, `UWTROC` or `WRECKS` with
readable geometry that touches an `UNSARE` of `depval_list`. -/
def touchFatal (E : S57_ext) (loc : localObj) (st : S57_state) (geo : Ptr) : Prop :=
  if (st.obj geo).name = "TOPMAR" then
    st.silent silent_TOPMAR = false ∧
      (if st.touchTOPMAR geo = none then 2 else 1) ≤
        (loc.topmar_list.filter
          (fun o => E.S57_cmpGeoExt (st.obj geo) (st.obj o))).length
  else if (st.obj geo).name = "LIGHTS" then
    st.touchLIGHTS geo ≠ none ∧
      ∃ c ∈ loc.lights_list, LIGHTS_candidate E (st.obj geo) (st.obj c) = true
  else if isHazardClass (st.obj geo).name = true then
    ∃ npt ppt, (st.obj geo).geoData = some (npt, ppt) ∧
      ∃ c ∈ loc.depval_list,
        DEPVAL_unsare E (st.obj geo) (st.obj c) (DEPVAL_ppt npt ppt) = true
  else False

/-- The entries of a list at the extent of the feature `geo`. -/
def sameExtent (E : S57_ext) (st : S57_state) (geo : Ptr) (l : List Ptr) : List Ptr :=
  l.filter (fun o => E.S57_cmpGeoExt (st.obj geo) (st.obj o))

/-- An unsurveyed area, identifier `id`. -/
def unsareArea (id : Nat) : S57_geo :=
  { S57ID := id, name := "UNSARE", objtype := .S57_AREAS_T, attribs := [], geoData := none }

/-- A cell of an obstruction, a depth area from 10 m and an unsurveyed area. -/
def stUnsare : S57_state := mkState [obstrnPoint, depareArea 2 "10", unsareArea 3]

/-- A cell of a topmark and two lateral buoys at its position. -/
def stTopmar : S57_state :=
  mkState
    [{ S57ID := 1, name := "TOPMAR", objtype := .S57_POINT_T, attribs := [], geoData := pointData },
     { S57ID := 2, name := "BOYLAT", objtype := .S57_POINT_T, attribs := [], geoData := pointData },
     { S57ID := 3, name := "BOYLAT", objtype := .S57_POINT_T, attribs := [], geoData := pointData }]

/-- A light, identifier `id`. -/
def lightPoint (id : Nat) : S57_geo :=
  { S57ID := id, name := "LIGHTS", objtype := .S57_POINT_T, attribs := [], geoData := pointData }

/-- A cell of three lights at one position, stored with identifiers 5, 3 and 7. -/
def stLights : S57_state := mkState [lightPoint 5, lightPoint 3, lightPoint 7]

/-! ## `RESTRN01`, `RESARE02` -/

/-- Whether the code list `cs` holds one of the codes of `l`. -/
def containsAny (cs l : List Nat) : Bool := cs.any (fun c => decide (c ∈ l))

/-- `RESTRN01(geo)`: the signpost to `_RESCSP01`; `none` (NULL) without `RESTRN`. -/
def RESTRN01 (E : S57_ext) (geo : S57_geo) : Option String :=
  match S57_getAttVal geo "RESTRN" with
  | some restrn01str => _RESCSP01 E restrn01str
  | none => none

/-- The boundary instruction of `RESARE02`: the complex line `lc` when the mariner
asks for symbolized boundaries, a dashed line otherwise. -/
def RESARE02_line (mp : S52_MP) (lc : String) : String :=
  if isTRUE (mp .S52_MAR_SYMBOLIZED_BND) then lc else ";LS(DASH,2,CHMGD)"

/-- The locals `prio`, `line` and `symb` of `RESARE02(geo)` when the command word is
built (`prio = none` is NULL).  `catrea` is parsed only in the `RESTRN` branch; in
continuation D the buffer still holds its initial `\0`. -/
def RESARE02_locals (E : S57_ext) (mp : S52_MP) (geo : S57_geo) :
    Option String × String × String :=
  let restrnstr := S57_getAttVal geo "RESTRN"
  let catreastr := S57_getAttVal geo "CATREA"
  let catrea : List Nat := [0]
  match restrnstr with
  | some rs =>
    let restrn := (_parseList E.S52_atoi (some rs)).2
    let catrea :=
      match catreastr with
      | some cs => (_parseList E.S52_atoi (some cs)).2
      | none => catrea
    if (_strpbrk restrn [7, 8, 14]).isSome then
      -- Continuation A
      let symb :=
        if (_strpbrk restrn [1, 2, 3, 4, 5, 6]).isSome then ";SY(ENTRES61)"
        else if catreastr.isSome ∧ (_strpbrk catrea [1, 8, 9, 12, 14, 19, 21, 25]).isSome then
          ";SY(ENTRES61)"
        else if (_strpbrk restrn [9, 10, 11, 12, 13]).isSome then ";SY(ENTRES71)"
        else if catreastr.isSome ∧
            (_strpbrk catrea [4, 5, 6, 7, 10, 18, 20, 22, 23, 24]).isSome then
          ";SY(ENTRES71)"
        else ";SY(ENTRES51)"
      (some ";OP(6---)", RESARE02_line mp ";LC(CTYARE51)", symb)
    else if (_strpbrk restrn [1, 2]).isSome then
      -- Continuation B
      let symb :=
        if (_strpbrk restrn [3, 4, 5, 6]).isSome then ";SY(ACHRES61)"
        else if catreastr.isSome ∧ (_strpbrk catrea [1, 8, 9, 12, 14, 19, 21, 25]).isSome then
          ";SY(ACHRES61)"
        else if (_strpbrk restrn [9, 10, 11, 12, 13]).isSome then ";SY(ACHRES71)"
        else if catreastr.isSome ∧
            (_strpbrk catrea [4, 5, 6, 7, 10, 18, 20, 22, 23, 24]).isSome then
          ";SY(ACHRES71)"
        else ";SY(ACHRES51)"
      (some ";OP(6---)", RESARE02_line mp ";LC(ACHRES51)", symb)
    else if (_strpbrk restrn [3, 4, 5, 6]).isSome then
      -- Continuation C
      let symb :=
        if catreastr.isSome ∧ (_strpbrk catrea [1, 8, 9, 12, 14, 19, 21, 25]).isSome then
          ";SY(FSHRES51)"
        else if (_strpbrk restrn [9, 10, 11, 12, 13]).isSome then ";SY(FSHRES71)"
        else if catreastr.isSome ∧
            (_strpbrk catrea [4, 5, 6, 7, 10, 18, 20, 22, 23, 24]).isSome then
          ";SY(FSHRES71)"
        else ";SY(FSHRES51)"
      (some ";OP(6---)", RESARE02_line mp ";LC(FSHRES51)", symb)
    else
      let symb :=
        if (_strpbrk restrn [9, 10, 11, 12, 13]).isSome then ";SY(INFARE51)"
        else ";SY(RSRDEF51)"
      (none, RESARE02_line mp ";LC(CTYARE51)", symb)
  | none =>
    -- Continuation D
    let symb :=
      if catreastr.isSome then
        if (_strpbrk catrea [1, 8, 9, 12, 14, 19, 21, 25]).isSome then
          if (_strpbrk catrea [4, 5, 6, 7, 10, 18, 20, 22, 23, 24]).isSome then ";SY(CTYARE71)"
          else ";SY(CTYARE51)"
        else
          if (_strpbrk catrea [4, 5, 6, 7, 10, 18, 20, 22, 23, 24]).isSome then ";SY(INFARE71)"
          else ";SY(RSRDEF51)"
      else ";SY(RSRDEF51)"
    (none, RESARE02_line mp ";LC(CTYARE51)", symb)

/-- `RESARE02(geo)`: the command word `prio` (when set), `line`, `symb`. -/
def RESARE02 (E : S57_ext) (mp : S52_MP) (geo : S57_geo) : String :=
  let l := RESARE02_locals E mp geo
  (match l.1 with
    | some prio => prio
    | none => "") ++ l.2.1 ++ l.2.2

/-- A restricted area with the given `RESTRN` value and, when given, `CATREA` value. -/
def resare (restrn : String) (catrea : Option String) : S57_geo :=
  { S57ID := 1, name := "RESARE", objtype := .S57_AREAS_T,
    attribs := ("RESTRN", restrn) ::
      (match catrea with
        | some c => [("CATREA", c)]
        | none => []),
    geoData := none }

/-! ## `_UDWHAZ03` -/

/-- The byte `*s->str`: the first character of a string, `\0` for the empty string. -/
def deref (s : String) : Char := s.data.headD (Char.ofNat 0)

/-- The test `NULL != watlevstr && ('1' == *watlevstr->str || '2' == *watlevstr->str)`
of `_UDWHAZ03`. -/
def WATLEV_1_or_2 (geo : S57_geo) : Bool :=
  match S57_getAttVal geo "WATLEV" with
  | some watlevstr => decide (deref watlevstr = '1' ∨ deref watlevstr = '2')
  | none => false

/-- `_UDWHAZ03(geo, depth_value)`: the hazard instruction of an obstruction, rock or
wreck (`none` is NULL) and the new state of the store. -/
def _UDWHAZ03 (E : S57_ext) (mp : S52_MP) (st : S57_state) (geo : Ptr) (depth_value : ℚ) :
    S57_state × Option String :=
  -- first reset trigger scamin
  let st := S57_setScamin st geo .S57_RESET_SCAMIN
  let hazard (st : S57_state) (danger : Bool) : S57_state × Option String :=
    if danger = true then
      if WATLEV_1_or_2 (st.obj geo) = true then (st, some ";OP(--D14050)")
      else
        let udwhaz03 :=
          if (st.obj geo).objtype ≠ .S57_LINES_T then ";OP(8OD14010);SY(ISODGR01)"
          else ";OP(8O-14010)"
        (S57_setScamin st geo .INFINITY, some udwhaz03)
    else (st, none)
  if depth_value ≤ mp .S52_MAR_SAFETY_CONTOUR then
    match st.touchUDWHAZ geo with
    | none =>
      -- no danger - no need to process further - bailout
      (PRINTF st ("DEBUG: NULL geo _UDWHAZ03/getTouchDEPARE - case where depth_value < " ++
        "S52_MAR_SAFETY_CONTOUR\n"), none)
    | some geoTouch =>
      -- DEPARE:L
      if (st.obj geoTouch).objtype = .S57_LINES_T then
        match S57_getAttVal (st.obj geoTouch) "DRVAL2" with
        | none => (st, none)
        | some drval2str =>
          -- adjuste datum
          let drval2 := dadd (E.S52_atof drval2str) (mp .S52_MAR_DATUM_OFFSET)
          hazard st (decide (drval2 > mp .S52_MAR_SAFETY_CONTOUR))
      else
        -- area DEPARE:A or DRGARE:A
        match S57_getAttVal (st.obj geoTouch) "DRVAL1" with
        | none => (st, none)
        | some drval1str =>
          -- adjuste datum
          let drval1 := dadd (E.S52_atof drval1str) (mp .S52_MAR_DATUM_OFFSET)
          hazard st (decide (drval1 ≥ mp .S52_MAR_SAFETY_CONTOUR))
  else (st, none)

/-- The depth that `_UDWHAZ03` compares with the safety contour for the linked
feature `t`: `DRVAL2` of a line, `DRVAL1` otherwise, datum offset added; `none` when
the attribute is absent. -/
def UDWHAZ03_linkedDepth (E : S57_ext) (mp : S52_MP) (t : S57_geo) : Option ℚ :=
  (S57_getAttVal t (if t.objtype = .S57_LINES_T then "DRVAL2" else "DRVAL1")).map
    (fun s => dadd (E.S52_atof s) (mp .S52_MAR_DATUM_OFFSET))

/-- A depth area given as a line, `DRVAL1 = 5`, `DRVAL2 = drval2`. -/
def depareLine (id : Nat) (drval2 : String) : S57_geo :=
  { S57ID := id, name := "DEPARE", objtype := .S57_LINES_T,
    attribs := [("DRVAL1", "5"), ("DRVAL2", drval2)], geoData := lineData }

/-- An obstruction of geometry `t` with the attributes `atts`, hazard touch on the
feature at address 1, which is `link`. -/
def stHazard (t : S57_Obj_t) (atts : List (String × String)) (link : S57_geo) : S57_state :=
  S57_setTouchUDWHAZ
    (mkState [{ S57ID := 1, name := "OBSTRN", objtype := t, attribs := atts,
                geoData := pointData }, link]) 0 1

/-! ## `_SNDFRM02`, `_QUAPNT01`, `_DEPVAL01` -/

/-- The conversion `%1i` of `g_string_sprintfa`: the decimal digits of an `int`, with
a minus sign when it is negative. -/
def fmt_i (i : Int) : String :=
  match i with
  | .ofNat n => String.mk (Nat.toDigits 10 n)
  | .negSucc n => "-" ++ String.mk (Nat.toDigits 10 (n + 1))

/-- The text of `g_string_sprintfa(sndfrm02, ";SY(%s<k>%1i)", symbol_prefix, i)`. -/
def SNDFRM02_glyph ( symbol_prefix k : String) (i : Int) : String :=
  ";SY(" ++ symbol_prefix ++ k ++ fmt_i i ++ ")"

/-- The buffer of a coded-list attribute: parsed when the attribute is present, the
initial `\0` otherwise (`if (NULL != str) _parseList(str->str, buf)`). -/
def listBuf (E : S57_ext) (str : Option String) : List Nat :=
  match str with
  | some s => (_parseList E.S52_atoi (some s)).2
  | none => [0]

/-- The first part of `_SNDFRM02`: the buffer `sndfrm02` when the tests of `TECSOU`,
`QUASOU`, `STATUS` and `QUAPOS` are done. -/
def SNDFRM02_quality (E : S57_ext) (geo : S57_geo) ( symbol_prefix : String) : String :=
  let sndfrm02 := ""
  let tecsoustr := S57_getAttVal geo "TECSOU"
  let quasoustr := S57_getAttVal geo "QUASOU"
  let statusstr := S57_getAttVal geo "STATUS"
  let sndfrm02 :=
    match tecsoustr with
    | some s =>
      if (_strpbrk (_parseList E.S52_atoi (some s)).2 [6]).isSome then
        sndfrm02 ++ (";SY(" ++ symbol_prefix ++ "B1)")
      else sndfrm02
    | none => sndfrm02
  let quasou := listBuf E quasoustr
  let status := listBuf E statusstr
  if (_strpbrk quasou [3, 4, 5, 8, 9]).isSome ∨ (_strpbrk status [18]).isSome then
    sndfrm02 ++ (";SY(" ++ symbol_prefix ++ "C2)")
  else
    match S57_getAttVal geo "QUAPOS" with
    | some quaposstr =>
      let quapos := E.S52_atoi quaposstr
      if 2 ≤ quapos ∧ quapos < 10 then sndfrm02 ++ (";SY(" ++ symbol_prefix ++ "C2)")
      else sndfrm02
    | none => sndfrm02

/-- Continuations B and C of `_SNDFRM02`: the glyphs of the integer `leading_digit`
appended to the buffer `sndfrm02`. -/
def SNDFRM02_integer (sndfrm02 symbol_prefix : String) (leading_digit : ℚ) : String :=
  -- truncate to integer
  let depth_value := leading_digit
  if depth_value < 100 then
    let first_digit : ℚ := Rat.floor (ddiv leading_digit 10)
    let secnd_digit : ℚ := Rat.floor (dsub leading_digit (dmul first_digit 10))
    sndfrm02 ++ SNDFRM02_glyph symbol_prefix "1" (castInt first_digit)
      ++ SNDFRM02_glyph symbol_prefix "0" (castInt secnd_digit)
  else if depth_value < 1000 then
    let first_digit : ℚ := Rat.floor (ddiv leading_digit 100)
    let secnd_digit : ℚ := Rat.floor (ddiv (dsub leading_digit (dmul first_digit 100)) 10)
    let third_digit : ℚ :=
      Rat.floor (dsub (dsub leading_digit (dmul first_digit 100)) (dmul secnd_digit 10))
    sndfrm02 ++ SNDFRM02_glyph symbol_prefix "2" (castInt first_digit)
      ++ SNDFRM02_glyph symbol_prefix "1" (castInt secnd_digit)
      ++ SNDFRM02_glyph symbol_prefix "0" (castInt third_digit)
  else if depth_value < 10000 then
    let first_digit : ℚ := Rat.floor (ddiv leading_digit 1000)
    let secnd_digit : ℚ := Rat.floor (ddiv (dsub leading_digit (dmul first_digit 1000)) 100)
    let third_digit : ℚ :=
      Rat.floor (ddiv (dsub (dsub leading_digit (dmul first_digit 1000))
        (dmul secnd_digit 100)) 10)
    let last_digit : ℚ :=
      Rat.floor (dsub (dsub (dsub leading_digit (dmul first_digit 1000))
        (dmul secnd_digit 100)) (dmul third_digit 10))
    sndfrm02 ++ SNDFRM02_glyph symbol_prefix "2" (castInt first_digit)
      ++ SNDFRM02_glyph symbol_prefix "1" (castInt secnd_digit)
      ++ SNDFRM02_glyph symbol_prefix "0" (castInt third_digit)
      ++ SNDFRM02_glyph symbol_prefix "4" (castInt last_digit)
  else
    -- Continuation C
    let first_digit : ℚ := Rat.floor (ddiv leading_digit 10000)
    let secnd_digit : ℚ := Rat.floor (ddiv (dsub leading_digit (dmul first_digit 10000)) 1000)
    let third_digit : ℚ :=
      Rat.floor (ddiv (dsub (dsub leading_digit (dmul first_digit 10000))
        (dmul secnd_digit 1000)) 100)
    let fourth_digit : ℚ :=
      Rat.floor (ddiv (dsub (dsub (dsub leading_digit (dmul first_digit 10000))
        (dmul secnd_digit 1000)) (dmul third_digit 100)) 10)
    let last_digit : ℚ :=
      Rat.floor (dsub (dsub (dsub (dsub leading_digit (dmul first_digit 10000))
        (dmul secnd_digit 1000)) (dmul third_digit 100)) (dmul fourth_digit 10))
    sndfrm02 ++ SNDFRM02_glyph symbol_prefix "3" (castInt first_digit)
      ++ SNDFRM02_glyph symbol_prefix "2" (castInt secnd_digit)
      ++ SNDFRM02_glyph symbol_prefix "1" (castInt third_digit)
      ++ SNDFRM02_glyph symbol_prefix "0" (castInt fourth_digit)
      ++ SNDFRM02_glyph symbol_prefix "4" (castInt last_digit)

/-- The second part of `_SNDFRM02`, from continuation A on: the digit glyphs appended
to the buffer `sndfrm02` for the biased `depth_value` and its integer part
`leading_digit`. -/
def SNDFRM02_digits (sndfrm02 symbol_prefix : String) (depth_value leading_digit : ℚ) :
    String :=
  -- Continuation A
  if depth_value < 10 then
    -- can be above water (negative)
    let fraction : Int := castInt |dmul (dsub depth_value leading_digit) 10|
    let sndfrm02 := sndfrm02 ++ SNDFRM02_glyph symbol_prefix "1" (castInt |leading_digit|)
    let sndfrm02 := sndfrm02 ++ SNDFRM02_glyph symbol_prefix "5" fraction
    -- above sea level (negative)
    if depth_value < 0 then sndfrm02 ++ (";SY(" ++ symbol_prefix ++ "A1)") else sndfrm02
  else if depth_value < 31 then
    let fraction : ℚ := dsub depth_value leading_digit
    if fraction ≠ 0 then
      let fraction := dmul fraction 10
      let sndfrm02 :=
        if leading_digit ≥ 10 then
          sndfrm02 ++ SNDFRM02_glyph symbol_prefix "2" (Int.tdiv (castInt leading_digit) 10)
        else sndfrm02
      -- remove tenth
      let leading_digit : ℚ :=
        if leading_digit ≥ 10 then
          dsub leading_digit (dmul (Rat.floor (ddiv leading_digit 10)) 10)
        else leading_digit
      sndfrm02 ++ SNDFRM02_glyph symbol_prefix "1" (castInt leading_digit)
        ++ SNDFRM02_glyph symbol_prefix "5" (castInt fraction)
    else SNDFRM02_integer sndfrm02 symbol_prefix leading_digit
  else SNDFRM02_integer sndfrm02 symbol_prefix leading_digit

/-- `_SNDFRM02(geo, depth_value)`: the sounding label of a depth.  `(int) x` is
`castInt`, `floor` is `Rat.floor`, `int` values are not bounded; the sums and products
are those of doubles. -/
def _SNDFRM02 (E : S57_ext) (mp : S52_MP) (geo : S57_geo) (depth_value : ℚ) : String :=
  -- FIXME: test to fix the rounding error (!?)
  let depth_value := dadd depth_value (if depth_value > 0 then dbl_0_01 else -dbl_0_01)
  let leading_digit : ℚ := castInt depth_value
  let symbol_prefix :=
    if depth_value ≤ mp .S52_MAR_SAFETY_DEPTH then "SOUNDS" else "SOUNDG"
  SNDFRM02_digits (SNDFRM02_quality E geo symbol_prefix) symbol_prefix depth_value
    leading_digit

/-- `_QUAPNT01(geo)`: the symbol of the positional accuracy of a point (`none` is
NULL). -/
def _QUAPNT01 (E : S57_ext) (geo : S57_geo) : Option String :=
  let quaposstr := S57_getAttVal geo "QUAPOS"
  let quapos : Int :=
    match quaposstr with
    | none => 0
    | some s => E.S52_atoi s
  let accurate : Bool :=
    if quaposstr.isSome ∧ (2 ≤ quapos ∧ quapos < 10) then false else true
  if accurate = true then some ";SY(LOWACC01)" else none

/-- `_DEPVAL01(geo, least_depth)`: the depth of the least-depth touch of `geo`. -/
def _DEPVAL01 (E : S57_ext) (mp : S52_MP) (st : S57_state) (geo : Ptr) (least_depth : ℚ) :
    CS_result ℚ :=
  let rest (st : S57_state) (drval1str : Option String) : CS_result ℚ :=
    let drval1 : ℚ :=
      match drval1str with
      | none => UNKNOWN_DEPTH
      | some s => E.S52_atof s
    if UNKNOWN_DEPTH ≠ drval1 ∧ least_depth > drval1 then
      .assertFail (PRINTF st
        "DEBUG: chenzunfeng found this bug: 'least_depth<drval1' (should be '>='), %s:%i\n")
    else if UNKNOWN_DEPTH ≠ least_depth then
      -- adjuste datum
      .ret st (dadd least_depth (mp .S52_MAR_DATUM_OFFSET))
    else .ret st least_depth
  match st.touchDEPVAL geo with
  | none => rest (PRINTF st "DEBUG: NULL geo _DEPVAL01/getTouchDEPVAL\n") none
  | some geoTouch =>
    -- Note: if an UNSARE is found then all other underlying objects can be ignore
    if (st.obj geoTouch).name = "UNSARE" then
      .ret (PRINTF st "DEBUG: %s:%c\n") UNKNOWN_DEPTH
    else rest st (S57_getAttVal (st.obj geoTouch) "DRVAL1")

/-! ## `OBSTRN04`, `WRECKS02`

Both are translated for a build without `S52_DEBUG`: the blocks under
`#ifdef S52_DEBUG` are left out. -/

/-- The test `NULL != str && c == *str->str`. -/
def derefIs (str : Option String) (c : Char) : Bool :=
  match str with
  | some s => decide (deref s = c)
  | none => false

/-- `if (NULL != val) g_string_append(string, val->str)`. -/
def g_string_append_opt (string : String) (val : Option String) : String :=
  match val with
  | some v => string ++ v
  | none => string

/-- The search of `strstr` from every position of the haystack. -/
def occursIn (sub : List Char) : List Char → Bool
  | [] => sub.isPrefixOf []
  | c :: cs => sub.isPrefixOf (c :: cs) || occursIn sub cs

/-- `NULL != strstr(s, sub)`: whether `sub` occurs in `s`. -/
def strstr (s sub : String) : Bool := occursIn sub.data s.data

/-- The first part of `OBSTRN04(geo)`, up to the call of `_UDWHAZ03`: the locals
`valsou`, `depth_value` and `sndfrm02` (`none` is NULL). -/
def OBSTRN04_depth (E : S57_ext) (mp : S52_MP) (st : S57_state) (geo : Ptr) :
    CS_result (ℚ × ℚ × Option String) :=
  match S57_getAttVal (st.obj geo) "VALSOU" with
  | some valsoustr =>
    let valsou := E.S52_atof valsoustr
    .ret st (valsou, valsou, some (_SNDFRM02 E mp (st.obj geo) valsou))
  | none =>
    let r : CS_result ℚ :=
      if (st.obj geo).objtype = .S57_AREAS_T then _DEPVAL01 E mp st geo UNKNOWN_DEPTH
      else .ret st UNKNOWN_DEPTH
    match r with
    | .assertFail st => .assertFail st
    | .ret st least_depth =>
      if UNKNOWN_DEPTH = least_depth then
        let catobsstr := S57_getAttVal (st.obj geo) "CATOBS"
        let watlevstr := S57_getAttVal (st.obj geo) "WATLEV"
        let depth_value : ℚ :=
          if derefIs catobsstr '6' = true then dbl_0_01
          else
            match watlevstr with
            | none => -15
            | some w =>
              if deref w = '5' then 0
              else if deref w = '3' then dbl_0_01
              else -15
        .ret st (UNKNOWN_DEPTH, depth_value, none)
      else .ret st (UNKNOWN_DEPTH, least_depth, none)

/-- Continuation A of `OBSTRN04` (point geometry). -/
def OBSTRN04_point (E : S57_ext) (geo : S57_geo) (valsou : ℚ)
    (sndfrm02 udwhaz03 : Option String) : String :=
  let obstrn04 := ""
  let quapnt01 := _QUAPNT01 E geo
  match udwhaz03 with
  | some u => g_string_append_opt (obstrn04 ++ u) quapnt01
  | none =>
    let watlevstr := S57_getAttVal geo "WATLEV"
    let r : String × Bool :=
      if UNKNOWN_DEPTH ≠ valsou then
        if valsou ≤ 20 then
          if geo.name = "UWTROC" then
            match watlevstr with
            | none => (obstrn04 ++ ";SY(DANGER01)", true)
            | some w =>
              if deref w = '3' then (obstrn04 ++ ";SY(DANGER01)", true)
              else if deref w = '4' ∨ deref w = '5' then (obstrn04 ++ ";SY(UWTROC04)", false)
              else (obstrn04 ++ ";SY(DANGER01)", true)
          else
            match watlevstr with
            | none => (obstrn04 ++ ";SY(DANGER01)", true)
            | some w =>
              if deref w = '1' ∨ deref w = '2' then (obstrn04 ++ ";SY(OBSTRN11)", false)
              else if deref w = '3' then (obstrn04 ++ ";SY(DANGER01)", true)
              else if deref w = '4' ∨ deref w = '5' then (obstrn04 ++ ";SY(DANGER03)", true)
              else (obstrn04 ++ ";SY(DANGER01)", true)
        else (obstrn04 ++ ";SY(DANGER02)", false)
      else
        -- NO valsou
        if geo.name = "UWTROC" then
          match watlevstr with
          | none => (obstrn04 ++ ";SY(UWTROC04)", false)
          | some w =>
            if deref w = '3' then (obstrn04 ++ ";SY(UWTROC03)", false)
            else (obstrn04 ++ ";SY(UWTROC04)", false)
        else
          match watlevstr with
          | none => (obstrn04 ++ ";SY(OBSTRN01)", false)
          | some w =>
            if deref w = '1' ∨ deref w = '2' then (obstrn04 ++ ";SY(OBSTRN11)", false)
            else if deref w = '3' then (obstrn04 ++ ";SY(OBSTRN01)", false)
            else if deref w = '4' ∨ deref w = '5' then (obstrn04 ++ ";SY(OBSTRN03)", false)
            else (obstrn04 ++ ";SY(OBSTRN01)", false)
    let obstrn04 := r.1
    let sounding := r.2
    let obstrn04 :=
      if sounding = true ∧ sndfrm02.isSome then g_string_append_opt obstrn04 sndfrm02
      else obstrn04
    g_string_append_opt obstrn04 quapnt01

/-- Continuation B of `OBSTRN04` (line geometry). -/
def OBSTRN04_line (E : S57_ext) (geo : S57_geo) (valsou : ℚ)
    (sndfrm02 udwhaz03 : Option String) : String :=
  let obstrn04 := ""
  let obstrn04 :=
    match S57_getAttVal geo "QUAPOS" with
    | some quaposstr =>
      let quapos := E.S52_atoi quaposstr
      if 2 ≤ quapos ∧ quapos < 10 then
        if udwhaz03.isSome then obstrn04 ++ ";LC(LOWACC41)" else obstrn04 ++ ";LC(LOWACC31)"
      else obstrn04
    | none =>
      if udwhaz03.isSome then obstrn04 ++ ";LS(DOTT,2,CHBLK)"
      else if UNKNOWN_DEPTH ≠ valsou then
        if valsou ≤ 20 then obstrn04 ++ ";LS(DOTT,2,CHBLK)"
        else obstrn04 ++ ";LS(DASH,2,CHBLK)"
      else obstrn04 ++ ";LS(DOTT,2,CHBLK)"
  match udwhaz03 with
  | some u => obstrn04 ++ u
  | none =>
    if UNKNOWN_DEPTH ≠ valsou then
      if valsou ≤ 20 ∧ sndfrm02.isSome then g_string_append_opt obstrn04 sndfrm02
      else obstrn04
    else obstrn04

/-- Continuation C of `OBSTRN04` (area geometry): the new state and the instruction. -/
def OBSTRN04_area (E : S57_ext) (st : S57_state) (geo : Ptr) (valsou : ℚ)
    (sndfrm02 udwhaz03 : Option String) : S57_state × String :=
  let obstrn04 := ""
  let quapnt01 := _QUAPNT01 E (st.obj geo)
  let isodgr : Bool :=
    match udwhaz03 with
    | some u => strstr u "ISODGR"
    | none => false
  if isodgr = true then
    let obstrn04 := obstrn04 ++ ";AC(DEPVS);AP(FOULAR01)"
    let obstrn04 := obstrn04 ++ ";LS(DOTT,2,CHBLK)"
    let obstrn04 := g_string_append_opt obstrn04 udwhaz03
    (st, g_string_append_opt obstrn04 quapnt01)
  else
    let r : S57_state × String :=
      if UNKNOWN_DEPTH ≠ valsou then
        let obstrn04 :=
          if valsou ≤ 20 then obstrn04 ++ ";LS(DOTT,2,CHBLK)"
          else obstrn04 ++ ";LS(DASH,2,CHGRD)"
        (st, g_string_append_opt obstrn04 sndfrm02)
      else
        -- NO valsou
        match S57_getAttVal (st.obj geo) "WATLEV" with
        | some w =>
          let catobsstr := S57_getAttVal (st.obj geo) "CATOBS"
          if deref w = '3' ∧ derefIs catobsstr '6' = true then
            (PRINTF st "DEBUG: S64 GB4X0000.000/GB5X01NE.000 pass here (%s:%i)\n",
              obstrn04 ++ ";AC(DEPVS)")
          else if deref w = '1' ∨ deref w = '2' then
            (st, obstrn04 ++ ";AC(CHBRN);LS(SOLD,2,CSTLN)")
          else if deref w = '4' then (st, obstrn04 ++ ";AC(DEPIT);LS(DASH,2,CSTLN)")
          else (st, obstrn04 ++ ";AC(DEPVS);LS(DOTT,2,CHBLK)")
        | none =>
          -- default
          (st, obstrn04 ++ ";AC(DEPVS);LS(DOTT,2,CHBLK)")
    (r.1, g_string_append_opt r.2 quapnt01)

/-- `OBSTRN04(geo)`: obstruction or underwater rock. -/
def OBSTRN04 (E : S57_ext) (mp : S52_MP) (st : S57_state) (geo : Ptr) :
    CS_result (Option String) :=
  match OBSTRN04_depth E mp st geo with
  | .assertFail st => .assertFail st
  | .ret st v =>
    let valsou := v.1
    let depth_value := v.2.1
    let sndfrm02 := v.2.2
    let r := _UDWHAZ03 E mp st geo depth_value
    let st := r.1
    let udwhaz03 := r.2
    if (st.obj geo).objtype = .S57_POINT_T then
      .ret st (some (OBSTRN04_point E (st.obj geo) valsou sndfrm02 udwhaz03))
    else if (st.obj geo).objtype = .S57_LINES_T then
      .ret st (some (OBSTRN04_line E (st.obj geo) valsou sndfrm02 udwhaz03))
    else
      let a := OBSTRN04_area E st geo valsou sndfrm02 udwhaz03
      .ret a.1 (some a.2)

/-- The first part of `WRECKS02(geo)`, up to the call of `_UDWHAZ03`: the locals
`valsou`, `depth_value` and `sndfrm02` (`none` is NULL). -/
def WRECKS02_depth (E : S57_ext) (mp : S52_MP) (st : S57_state) (geo : Ptr) :
    CS_result (ℚ × ℚ × Option String) :=
  match S57_getAttVal (st.obj geo) "VALSOU" with
  | some valsoustr =>
    let valsou := E.S52_atof valsoustr
    .ret st (valsou, valsou, some (_SNDFRM02 E mp (st.obj geo) valsou))
  | none =>
    let r : CS_result ℚ :=
      if (st.obj geo).objtype = .S57_AREAS_T then _DEPVAL01 E mp st geo UNKNOWN_DEPTH
      else .ret st UNKNOWN_DEPTH
    match r with
    | .assertFail st => .assertFail st
    | .ret st least_depth =>
      if UNKNOWN_DEPTH = least_depth then
        let watlevstr := S57_getAttVal (st.obj geo) "WATLEV"
        let catwrkstr := S57_getAttVal (st.obj geo) "CATWRK"
        let depth_value : ℚ :=
          match watlevstr with
          | none => -15
          | some w =>
            let depth_value : ℚ :=
              if deref w = '1' ∨ deref w = '2' then -15
              else if deref w = '3' then dbl_0_01
              else if deref w = '4' then -15
              else if deref w = '5' then 0
              else if deref w = '6' then -15
              else UNKNOWN_DEPTH
            match catwrkstr with
            | some k =>
              if deref k = '1' then 20
              else if deref k = '2' then 0
              else if deref k = '4' ∨ deref k = '5' then -15
              else depth_value
            | none => depth_value
        .ret st (UNKNOWN_DEPTH, depth_value, none)
      else .ret st (UNKNOWN_DEPTH, least_depth, none)

/-- The point branch of `WRECKS02` with its continuation A. -/
def WRECKS02_point (geo : S57_geo) (valsou : ℚ)
    (sndfrm02 udwhaz03 quapnt01 : Option String) : String :=
  let isodgr : Bool :=
    match udwhaz03 with
    | some u => strstr u "ISODGR"
    | none => false
  if isodgr = true then g_string_append_opt (g_string_append_opt "" udwhaz03) quapnt01
  else
    -- Continuation A (POINT_T)
    if UNKNOWN_DEPTH ≠ valsou then
      let wrecks02 :=
        if valsou ≤ 20 then g_string_append_opt ";SY(DANGER01)" sndfrm02
        else ";SY(DANGER02)"
      g_string_append_opt (g_string_append_opt wrecks02 udwhaz03) quapnt01
    else
      let sym := ";SY(WRECKS05)"
      let catwrkstr := S57_getAttVal geo "CATWRK"
      let watlevstr := S57_getAttVal geo "WATLEV"
      let sym :=
        if catwrkstr.isSome ∧ watlevstr.isSome then
          if derefIs catwrkstr '1' = true ∧ derefIs watlevstr '3' = true then ";SY(WRECKS04)"
          else if derefIs catwrkstr '2' = true ∧ derefIs watlevstr '3' = true then
            ";SY(WRECKS05)"
          else sym
        else sym
      let sym :=
        if derefIs catwrkstr '4' = true ∨ derefIs catwrkstr '5' = true then ";SY(WRECKS01)"
        else sym
      let sym :=
        if derefIs watlevstr '1' = true ∨ derefIs watlevstr '2' = true ∨
            derefIs watlevstr '5' = true ∨ derefIs watlevstr '4' = true then ";SY(WRECKS01)"
        else sym
      g_string_append_opt sym quapnt01

/-- Continuation B of `WRECKS02` (every geometry but a point). -/
def WRECKS02_area (E : S57_ext) (geo : S57_geo) (valsou : ℚ)
    (sndfrm02 udwhaz03 quapnt01 : Option String) : String :=
  let quaposstr := S57_getAttVal geo "QUAPOS"
  let quapos : Int :=
    match quaposstr with
    | none => 0
    | some s => E.S52_atoi s
  let watlevstr := S57_getAttVal geo "WATLEV"
  let line :=
    if 2 ≤ quapos ∧ quapos < 10 then ";LC(LOWACC41)"
    else if udwhaz03.isSome then ";LS(DOTT,2,CHBLK)"
    else if UNKNOWN_DEPTH ≠ valsou then
      if valsou ≤ 20 then ";LS(DOTT,2,CHBLK)" else ";LS(DASH,2,CHBLK)"
    else
      match watlevstr with
      | none => ";LS(DOTT,2,CSTLN)"
      | some w =>
        if deref w = '1' ∨ deref w = '2' then ";LS(SOLD,2,CSTLN)"
        else if deref w = '4' then ";LS(DASH,2,CSTLN)"
        else ";LS(DOTT,2,CSTLN)"
  let wrecks02 := line
  if UNKNOWN_DEPTH ≠ valsou then
    if valsou ≤ 20 then
      g_string_append_opt (g_string_append_opt (g_string_append_opt wrecks02 udwhaz03) quapnt01)
        sndfrm02
    else g_string_append_opt (g_string_append_opt wrecks02 udwhaz03) quapnt01
  else
    let ac :=
      match watlevstr with
      | none => ";AC(DEPVS)"
      | some w =>
        if deref w = '1' ∨ deref w = '2' then ";AC(CHBRN)"
        else if deref w = '4' then ";AC(DEPIT)"
        else ";AC(DEPVS)"
    g_string_append_opt (g_string_append_opt (wrecks02 ++ ac) udwhaz03) quapnt01

/-- `WRECKS02(geo)`: wreck. -/
def WRECKS02 (E : S57_ext) (mp : S52_MP) (st : S57_state) (geo : Ptr) :
    CS_result (Option String) :=
  match WRECKS02_depth E mp st geo with
  | .assertFail st => .assertFail st
  | .ret st v =>
    let valsou := v.1
    let depth_value := v.2.1
    let sndfrm02 := v.2.2
    let r := _UDWHAZ03 E mp st geo depth_value
    let st := r.1
    let udwhaz03 := r.2
    let quapnt01 := _QUAPNT01 E (st.obj geo)
    if (st.obj geo).objtype = .S57_POINT_T then
      .ret st (some (WRECKS02_point (st.obj geo) valsou sndfrm02 udwhaz03 quapnt01))
    else
      .ret st (some (WRECKS02_area E (st.obj geo) valsou sndfrm02 udwhaz03 quapnt01))

/-! ## Hazard directives in an instruction -/

/-- Whether the character `x` is directly followed by `y` somewhere in `s`. -/
def hasPair (x y : Char) : List Char → Bool
  | a :: b :: r => (a == x && b == y) || hasPair x y (b :: r)
  | _ => false

/-- The hazard directives of `_UDWHAZ03` and the isolated-danger symbol. -/
def hazardDirectives : List String :=
  ["SY(ISODGR01)", ";OP(8OD14010)", ";OP(8O-14010)", ";OP(--D14050)"]

/-- An instruction text without the character pairs `OP` and `IS` that does not
start with `P` or `S`: such texts can be appended to each other without forming a
hazard directive. -/
def plainText (s : String) : Prop :=
  hasPair 'O' 'P' s.data = false ∧ hasPair 'I' 'S' s.data = false ∧
  s.data.head? ≠ some 'P' ∧ s.data.head? ≠ some 'S'

instance (s : String) : Decidable (plainText s) := by
  unfold plainText
  infer_instance

/-- The place where `_DEPVAL01`, called by `OBSTRN04` and `WRECKS02` for an area
without `VALSOU`, fails its assertion: the least-depth touch is set, is not an
`UNSARE`, and carries a `DRVAL1` below the unknown-depth sentinel `-1000`. -/
def DEPVAL01_fatal (E : S57_ext) (st : S57_state) (geo : Ptr) : Prop :=
  (st.obj geo).objtype = .S57_AREAS_T ∧ S57_getAttVal (st.obj geo) "VALSOU" = none ∧
  ∃ t, st.touchDEPVAL geo = some t ∧ (st.obj t).name ≠ "UNSARE" ∧
    ∃ s, S57_getAttVal (st.obj t) "DRVAL1" = some s ∧ E.S52_atof s < UNKNOWN_DEPTH

/-- A closed ring of four points. -/
def areaData : Option (Nat × List ℚ) := some (4, [0, 0, 0, 1, 0, 0, 1, 1, 0, 0, 0, 0])

/-- An obstruction area without attributes. -/
def obstrnArea : S57_geo :=
  { S57ID := 1, name := "OBSTRN", objtype := .S57_AREAS_T, attribs := [], geoData := areaData }

/-- A wreck area without attributes. -/
def wrecksArea : S57_geo :=
  { S57ID := 1, name := "WRECKS", objtype := .S57_AREAS_T, attribs := [], geoData := areaData }

/-- A cell of an obstruction area and a depth area whose `DRVAL1` is `-1001`. -/
def stHigh : S57_state := mkState [obstrnArea, depareArea 2 "-1001"]

/-- A cell of a wreck area and a depth area whose `DRVAL1` is `-1001`. -/
def stHighWreck : S57_state := mkState [wrecksArea, depareArea 2 "-1001"]

/-! ## Scenes for the depth of obstructions and wrecks -/

/-- A wreck of geometry `t` with the attributes `atts`, hazard touch on the feature at
address 1, which is `link`. -/
def stHazardWreck (t : S57_Obj_t) (atts : List (String × String)) (link : S57_geo) :
    S57_state :=
  S57_setTouchUDWHAZ
    (mkState [{ S57ID := 1, name := "WRECKS", objtype := t, attribs := atts,
                geoData := pointData }, link]) 0 1

/-- An obstruction area without `VALSOU` whose least-depth touch is a depth area with
`DRVAL1 = 5`. -/
def stLeast : S57_state := S57_setTouchDEPVAL (mkState [obstrnArea, depareArea 2 "5"]) 0 1

/-- The scenario parameters with a safety depth of 5. -/
def mpSafety5 : S52_MP := Function.update mpScenario .S52_MAR_SAFETY_DEPTH 5

/-! ## Lights: `_LIGHTS05_getSYcol`, `_LIGHTS05_cmpSector`, `_LITDSN01`, `LIGHTS05` -/

/-- The byte `buf[i]` of a list buffer; the bytes after the terminator are the `\0` of
the initialisation `char buf[LISTSIZE] = {'\0'}`. -/
def bufAt (buf : List Nat) (i : Nat) : Nat := buf.getD i 0

/-- `_LIGHTS05_getSYcol(buf)`: the start of the symbol instruction of a light of the
colours `buf` (the caller appends the rotation and the closing bracket). -/
def _LIGHTS05_getSYcol (buf : List Nat) : String :=
  let sym := ";SY(LIGHTDEF"
  -- max 1 color
  if bufAt buf 1 = 0 then
    if (_strpbrk buf [3]).isSome then ";SY(LIGHTS01"
    else if (_strpbrk buf [4]).isSome then ";SY(LIGHTS02"
    else if (_strpbrk buf [1, 6, 11]).isSome then ";SY(LIGHTS03"
    else sym
  else
    -- max 2 color
    if bufAt buf 2 = 0 then
      if (_strpbrk buf [1]).isSome ∧ (_strpbrk buf [3]).isSome then ";SY(LIGHTS01"
      else if (_strpbrk buf [1]).isSome ∧ (_strpbrk buf [4]).isSome then ";SY(LIGHTS02"
      else sym
    else sym

/-- `_LIGHTS05_cmpSector(geoA, geoB)`: `+1` - A has a smaller sector, `0` - no overlap,
`-1` - B has a smaller sector. -/
def _LIGHTS05_cmpSector (E : S57_ext) (geoA geoB : S57_geo) : Int :=
  -- check if sector present
  match S57_getAttVal geoA "SECTR1" with
  | none => 0
  | some Asectr1str =>
  match S57_getAttVal geoA "SECTR2" with
  | none => 0
  | some Asectr2str =>
  match S57_getAttVal geoB "SECTR1" with
  | none => 0
  | some Bsectr1str =>
  match S57_getAttVal geoB "SECTR2" with
  | none => 0
  | some Bsectr2str =>
    -- A/B sectors
    let Asectr1 := E.S52_atof Asectr1str
    let Asectr2 := E.S52_atof Asectr2str
    let Bsectr1 := E.S52_atof Bsectr1str
    let Bsectr2 := E.S52_atof Bsectr2str
    -- handle negative sweep
    let Asectr2tmp := if Asectr1 > Asectr2 then dadd Asectr2 360 else Asectr2
    let Bsectr2tmp := if Bsectr1 > Bsectr2 then dadd Bsectr2 360 else Bsectr2
    -- A/B sweeps
    let Asweep := dsub Asectr2tmp Asectr1
    let Bsweep := dsub Bsectr2tmp Bsectr1
    let Asweep := if Asweep ≥ 360 then dsub Asweep 360 else Asweep
    let Bsweep := if Bsweep ≥ 360 then dsub Bsweep 360 else Bsweep
    -- handle SECTR1/2 that overlap North
    let AsectorHead := dadd Asectr1 Asweep
    let AsectorTail := dsub Asectr2 Asweep
    let BsectorHead := dadd Bsectr1 Bsweep
    let BsectorTail := dsub Bsectr2 Bsweep
    if (AsectorTail < Bsectr1 ∧ Bsectr1 < Asectr2) ∨ (AsectorTail < Bsectr2 ∧ Bsectr2 < Asectr2) ∨
        (Asectr1 < Bsectr1 ∧ Bsectr1 < AsectorHead) ∨ (Asectr1 < Bsectr2 ∧ Bsectr2 < AsectorHead) ∨
        -- same but reverse B/A
        (BsectorTail < Asectr1 ∧ Asectr1 < Bsectr2) ∨ (BsectorTail < Asectr2 ∧ Asectr2 < Bsectr2) ∨
        (Bsectr1 < Asectr1 ∧ Asectr1 < BsectorHead) ∨ (Bsectr1 < Asectr2 ∧ Asectr2 < BsectorHead)
    then
      -- sector do overlap
      if Asweep < Bsweep then 1 else -1
    else 0

/-- The sweep of a sector as `_LIGHTS05_cmpSector` computes it in doubles:
`SECTR2 - SECTR1`, with 360 added to `SECTR2` first when `SECTR1 > SECTR2`, minus 360
when the result reaches 360. -/
def sectorSweep (sectr1 sectr2 : ℚ) : ℚ :=
  let sweep := dsub (if sectr1 > sectr2 then dadd sectr2 360 else sectr2) sectr1
  if sweep ≥ 360 then dsub sweep 360 else sweep

/-- The head of a sector as `_LIGHTS05_cmpSector` computes it: `SECTR1 + sweep`. -/
def sectorHead (sectr1 sectr2 : ℚ) : ℚ := dadd sectr1 (sectorSweep sectr1 sectr2)

/-- The tail of a sector as `_LIGHTS05_cmpSector` computes it: `SECTR2 - sweep`. -/
def sectorTail (sectr1 sectr2 : ℚ) : ℚ := dsub sectr2 (sectorSweep sectr1 sectr2)

/-- The sweep of the arc from `sectr1` to `sectr2` in exact arithmetic. -/
def arcSweep (sectr1 sectr2 : ℚ) : ℚ :=
  let sweep := (if sectr1 > sectr2 then sectr2 + 360 else sectr2) - sectr1
  if sweep ≥ 360 then sweep - 360 else sweep

/-- The doubles that `_LIGHTS05_cmpSector` computes for the sector `sectr1 .. sectr2`
carry no rounding error: sweep, head and tail are the exact values. -/
def sectorExact (sectr1 sectr2 : ℚ) : Prop :=
  sectorSweep sectr1 sectr2 = arcSweep sectr1 sectr2 ∧
  sectorHead sectr1 sectr2 = sectr1 + arcSweep sectr1 sectr2 ∧
  sectorTail sectr1 sectr2 = sectr2 - arcSweep sectr1 sectr2

instance (sectr1 sectr2 : ℚ) : Decidable (sectorExact sectr1 sectr2) := by
  unfold sectorExact
  infer_instance

/-- The test of `_LIGHTS05_cmpSector` of a bearing `x` against the sector
`sectr1 .. sectr2`: `x` lies strictly between the tail and `SECTR2`, or strictly
between `SECTR1` and the head. -/
def sectorHolds (sectr1 sectr2 x : ℚ) : Prop :=
  (sectorTail sectr1 sectr2 < x ∧ x < sectr2) ∨
  (sectr1 < x ∧ x < sectorHead sectr1 sectr2)

/-- The overlap test of `_LIGHTS05_cmpSector`: a limit of B passes the test against
the sector of A, or a limit of A passes the test against the sector of B. -/
def sectorsOverlap (a1 a2 b1 b2 : ℚ) : Prop :=
  sectorHolds a1 a2 b1 ∨ sectorHolds a1 a2 b2 ∨ sectorHolds b1 b2 a1 ∨ sectorHolds b1 b2 a2

instance (s1 s2 x : ℚ) : Decidable (sectorHolds s1 s2 x) := by
  unfold sectorHolds
  infer_instance

instance (a1 a2 b1 b2 : ℚ) : Decidable (sectorsOverlap a1 a2 b1 b2) := by
  unfold sectorsOverlap
  infer_instance

/-- The bearings `SECTR1`, `SECTR2` of a light, when both attributes are present. -/
def sectorOf (E : S57_ext) (geo : S57_geo) : Option (ℚ × ℚ) :=
  match S57_getAttVal geo "SECTR1", S57_getAttVal geo "SECTR2" with
  | some s1, some s2 => some (E.S52_atof s1, E.S52_atof s2)
  | _, _ => none

/-- Whether the bearing `x` is an interior point of the circular arc from `sectr1`
clockwise to `sectr2` (bearings in `[0, 360)`; the arc wraps past 360 when
`sectr1 > sectr2` and is empty when `sectr1 = sectr2`). -/
def inArc (sectr1 sectr2 x : ℚ) : Prop :=
  if sectr1 ≤ sectr2 then sectr1 < x ∧ x < sectr2 else sectr1 < x ∨ x < sectr2

instance (s1 s2 x : ℚ) : Decidable (inArc s1 s2 x) := by
  unfold inArc
  infer_instance

/-- A light with the sector limits `sectr1`, `sectr2`. -/
def sectorLight (id : Nat) (sectr1 sectr2 : String) : S57_geo :=
  { S57ID := id, name := "LIGHTS", objtype := .S57_POINT_T,
    attribs := [("SECTR1", sectr1), ("SECTR2", sectr2)], geoData := pointData }

/-- The number formatting of `g_snprintf` used by `_LITDSN01`: `fmt_1f x` is the text of
`x` with one decimal.  The formats `%.1f` and `%3.1f` give the same text, since a
number written with one decimal has at least three characters. -/
structure GLib_ext where
  fmt_1f : ℚ → String

/-- `g_snprintf(str, n, ...)`: at most `n - 1` characters of the formatted text are
kept. -/
def g_snprintf (n : Nat) (text : String) : String := String.mk (text.data.take (n - 1))

/-- The `while` loop of `_LITDSN01` over the `CATLIT` values: the local `tmp` at the
end of the loop, `none` when the emergency code 17 makes the function return NULL. -/
def _LITDSN01_catlit : List Nat → Option String → Option (Option String)
  | [], tmp => some tmp
  | c :: cs, tmp =>
    -- 17: emergency (bailout because this text overight the good one)
    if c = 17 then none
    -- CATLIT attribute has no value!; 3, 4: leading light; 12: front; 13: rear
    else if c = 0 ∨ c = 3 ∨ c = 4 ∨ c = 12 ∨ c = 13 then _LITDSN01_catlit cs tmp
    -- 1: directional function
    else if c = 1 then _LITDSN01_catlit cs (some "Dir ")
    -- 5: aero light; 6: air obstruction light
    else if c = 5 ∨ c = 6 then _LITDSN01_catlit cs (some "Aero ")
    else _LITDSN01_catlit cs (some "FIXME:CATLIT ")

/-- The `switch (litchr[0])` of `_LITDSN01`: abbreviation of a light characteristic. -/
def LITCHR_abbrev (c : Nat) : String :=
  if c = 1 then "F" else if c = 2 then "Fl" else if c = 3 then "LFl"
  else if c = 4 then "Q" else if c = 5 then "VQ" else if c = 6 then "UQ"
  else if c = 7 then "Iso" else if c = 8 then "Oc" else if c = 9 then "IQ"
  else if c = 10 then "IVQ" else if c = 11 then "IUQ" else if c = 12 then "Mo"
  else if c = 13 then "FFl" else if c = 14 then "Fl+LFl" else if c = 15 then "AlOc Fl"
  else if c = 16 then "FLFl" else if c = 17 then "AlOc" else if c = 18 then "AlLFl"
  else if c = 19 then "AlFl" else if c = 20 then "Al" else if c = 25 then "Q+LFl"
  else if c = 26 then "VQ+LFl" else if c = 27 then "UQ+LFl" else if c = 28 then "Al"
  else if c = 29 then "AlF Fl" else "FIXME:LITCHR "

/-- The `switch (colour[0])` of `_LITDSN01`: abbreviation of a colour. -/
def COLOUR_abbrev (c : Nat) : String :=
  if c = 1 then "W" else if c = 3 then "R" else if c = 4 then "G" else if c = 5 then "Bu"
  else if c = 6 then "Y" else if c = 9 then "Am" else if c = 10 then "Vi"
  else if c = 11 then "Or" else "FIXME:COLOUR "

/-- The `switch (status[0])` of `_LITDSN01`: abbreviation of a status. -/
def STATUS_abbrev (c : Nat) : String :=
  if c = 2 then "occas" else if c = 7 then "temp" else if c = 8 then "priv"
  else if c = 11 then "exting" else "FIXME:STATUS "

/-- The `for` loop of `_LITDSN01` over the colours: `tmp` is appended `n` times. -/
def appendTimes (s tmp : String) : Nat → String
  | 0 => s
  | n + 1 => appendTimes (s ++ tmp) tmp n

/-- The second part of `_LITDSN01`, from `SIGGRP` on: signal group, colours, period,
height, nominal range and status appended to the text `litdsn01`. -/
def _LITDSN01_rest (E : S57_ext) (F : GLib_ext) (mp : S52_MP) (st : S57_state) (geo : S57_geo)
    (litdsn01 : String) : S57_state × String :=
  -- SIGGRP, (c)(c) ..., SIGnal light GRouPing
  let litdsn01 := g_string_append_opt litdsn01 (S57_getAttVal geo "SIGGRP")
  -- COLOUR,
  let litdsn01 :=
    match S57_getAttVal geo "COLOUR" with
    | some colourstr =>
      let p := _parseList E.S52_atoi (some colourstr)
      appendTimes litdsn01 (COLOUR_abbrev (bufAt p.2 0)) p.1 ++ " "
    | none => litdsn01
  -- SIGPER, xx.xx, SIGnal light PERiod
  let litdsn01 :=
    match S57_getAttVal geo "SIGPER" with
    | some gstr => litdsn01 ++ gstr ++ "s "
    | none => litdsn01
  -- HEIGHT, xxx.x
  let litdsn01 :=
    match S57_getAttVal geo "HEIGHT" with
    | some gstr =>
      if 0 ≠ mp .S52_MAR_DATUM_OFFSET then
        -- adjuste datum
        let height := dsub (E.S52_atof gstr) (mp .S52_MAR_DATUM_OFFSET)
        litdsn01 ++ g_snprintf 8 (F.fmt_1f height ++ "m ")
      else litdsn01 ++ gstr ++ "m "
    | none => litdsn01
  -- VALNMR, xx.x
  let litdsn01 :=
    match S57_getAttVal geo "VALNMR" with
    | some gstr =>
      (if gstr.utf8ByteSize > 3 then litdsn01 ++ g_snprintf 3 (F.fmt_1f (E.S52_atof gstr))
        else litdsn01 ++ gstr) ++ "M"
    | none => litdsn01
  -- STATUS,
  match S57_getAttVal geo "STATUS" with
  | some statusstr =>
    let p := _parseList E.S52_atoi (some statusstr)
    let st :=
      if 1 < p.1 then
        PRINTF st "WARNING: more then one 'status' (STATUS), other not displayed\n"
      else st
    (st, litdsn01 ++ STATUS_abbrev (bufAt p.2 0))
  | none => (st, litdsn01)

/-- `_LITDSN01(geo)`: the light description text (`none` is NULL). -/
def _LITDSN01 (E : S57_ext) (F : GLib_ext) (mp : S52_MP) (st : S57_state) (geo : Ptr) :
    CS_result (Option String) :=
  let litdsn01 := ""
  -- CATLIT
  let c : Option String :=
    match S57_getAttVal (st.obj geo) "CATLIT" with
    | some catlitstr =>
      let p := _parseList E.S52_atoi (some catlitstr)
      match _LITDSN01_catlit (p.2.take p.1) none with
      | none => none
      | some tmp => some (g_string_append_opt litdsn01 tmp)
    | none => some litdsn01
  match c with
  | none => .ret st none
  | some litdsn01 =>
    -- LITCHR
    match S57_getAttVal (st.obj geo) "LITCHR" with
    | some litchrstr =>
      let p := _parseList E.S52_atoi (some litchrstr)
      if 1 < p.1 then
        .assertFail (PRINTF st
          "WARNING: more then one 'light characteristic' (LITCHR), other not displayed\n")
      else
        let r := _LITDSN01_rest E F mp st (st.obj geo) (litdsn01 ++ LITCHR_abbrev (bufAt p.2 0))
        .ret r.1 (some r.2)
    | none =>
      let r := _LITDSN01_rest E F mp st (st.obj geo) litdsn01
      .ret r.1 (some r.2)

/-- The value of an attribute list after `S57_setAtt`: the value of `name` is replaced,
the attribute is added when it is absent. -/
def setAttr : List (String × String) → String → String → List (String × String)
  | [], name, val => [(name, val)]
  | (k, w) :: r, name, val => if k = name then (name, val) :: r else (k, w) :: setAttr r name val

/-- Modelled from the spec: `S57_setAtt` of the feature store (`S57data.c` is not part
of `src/`) sets the value of the attribute `name` of the feature `geo`. -/
def S57_setAtt (st : S57_state) (geo : Ptr) (name val : String) : S57_state :=
  { st with obj := (Function.update st.obj geo
      { st.obj geo with attribs := setAttr (st.obj geo).attribs name val }) }

/-- The first block of `LIGHTS05`, on `CATLIT`: `inl` is the instruction returned at
once, `inr` the buffer `lights05` and the local `orientstr` on the way to
continuation A. -/
def LIGHTS05_catlit (E : S57_ext) (geo : S57_geo) : String ⊕ (String × Option String) :=
  let lights05 := ""
  match S57_getAttVal geo "CATLIT" with
  | some catlitstr =>
    let catlit := (_parseList E.S52_atoi (some catlitstr)).2
    -- FIXME: OR vs AND/OR
    if (_strpbrk catlit [8, 11]).isSome then .inl (lights05 ++ ";SY(LIGHTS82)")
    else if (_strpbrk catlit [9]).isSome then .inl (lights05 ++ ";SY(LIGHTS81)")
    -- bail out if this light is an emergecy light
    else if (_strpbrk catlit [17]).isSome then .inl lights05
    else if (_strpbrk catlit [1, 16]).isSome then
      let orientstr := S57_getAttVal geo "ORIENT"
      .inr (if orientstr.isSome then lights05 ++ ";LS(DASH,1,CHBLK)" else lights05, orientstr)
    else .inr (lights05, none)
  | none => .inr (lights05, none)

/-- The text instruction of `LIGHTS05`: `;TX('`, the description and the given end,
when `_LITDSN01` returned a description. -/
def LIGHTS05_text (lights05 : String) (litdsn01 : Option String) (tail : String) : String :=
  match litdsn01 with
  | some l => lights05 ++ ";TX('" ++ l ++ tail
  | none => lights05

/-- The `for` loop of `LIGHTS05` along the light chain of `geo`, from `geoTouch` on;
`none` when the chain is not finished after `fuel` rounds. -/
def LIGHTS05_chain (E : S57_ext) (geo : Ptr) : Nat → Option Ptr → S57_state → Option S57_state
  | _, none, st => some st
  | 0, some _, _ => none
  | fuel + 1, some geoTouch, st =>
    let overlap := _LIGHTS05_cmpSector E (st.obj geo) (st.obj geoTouch)
    let st :=
      if 1 = overlap then
        S57_setAtt (S57_setAtt st geo "_extend_arc_radius" "Y") geoTouch "_extend_arc_radius" "N"
      else st
    let st :=
      if -1 = overlap then
        S57_setAtt (S57_setAtt st geo "_extend_arc_radius" "N") geoTouch "_extend_arc_radius" "Y"
      else st
    LIGHTS05_chain E geo fuel (st.touchLIGHTS geoTouch) st

/-- The block "setup sector" of `LIGHTS05`: the sector leg of a faint light or the
colour of the arc, appended to `lights05`. -/
def LIGHTS05_arc (E : S57_ext) (geo : S57_geo) (colist : List Nat) (lights05 : String) :
    String :=
  let litvis := listBuf E (S57_getAttVal geo "LITVIS")
  -- faint light
  if (_strpbrk litvis [3, 7, 8]).isSome then lights05 ++ ";LS(DASH,1,CHBLK)"
  else
    -- set arc colour
    let sym := ";AC(CHMGD)"
    let sym :=
      -- max 1 color
      if bufAt colist 1 = 0 then
        if (_strpbrk colist [3]).isSome then ";AC(LITRD)"
        else if (_strpbrk colist [4]).isSome then ";AC(LITGN)"
        else if (_strpbrk colist [1, 6, 11]).isSome then ";AC(LITYW)"
        else sym
      else
        -- max 2 color
        if bufAt colist 2 = 0 then
          if (_strpbrk colist [1]).isSome ∧ (_strpbrk colist [3]).isSome then ";AC(LITRD)"
          else if (_strpbrk colist [1]).isSome ∧ (_strpbrk colist [4]).isSome then ";AC(LITGN)"
          else sym
        else sym
    lights05 ++ sym

/-- `LIGHTS05(geo)`: light.  `none` when the walk along the light chain is not finished
after `fuel` rounds. -/
def LIGHTS05 (E : S57_ext) (F : GLib_ext) (mp : S52_MP) (fuel : Nat) (st : S57_state)
    (geo : Ptr) : Option (CS_result String) :=
  match LIGHTS05_catlit E (st.obj geo) with
  | .inl lights05 => some (.ret st lights05)
  | .inr v =>
    let lights05 := v.1
    let orientstr := v.2
    let catlit := listBuf E (S57_getAttVal (st.obj geo) "CATLIT")
    -- Continuation A
    let colist :=
      match S57_getAttVal (st.obj geo) "COLOUR" with
      | some colourstr => (_parseList E.S52_atoi (some colourstr)).2
      | none => [12, 0]
    let sectr1str := S57_getAttVal (st.obj geo) "SECTR1"
    let sectr1 : ℚ := (sectr1str.map E.S52_atof).getD 0
    let sectr2str := S57_getAttVal (st.obj geo) "SECTR2"
    let sectr2 : ℚ := (sectr2str.map E.S52_atof).getD 0
    if sectr1str = none ∨ sectr2str = none then
      -- not a sector light
      let flare_at_45 : Bool :=
        (st.touchLIGHTS geo).isSome && (_strpbrk colist [1, 5, 11]).isSome
      let lights05 :=
        if (_strpbrk catlit [1, 16]).isSome then
          match orientstr with
          | some o =>
            lights05 ++ _LIGHTS05_getSYcol colist ++ ("," ++ o ++ ")")
              ++ ";TE('%03.0lf deg','ORIENT',3,3,3,'15110',3,1,CHBLK,23)"
          | none => lights05 ++ ";SY(QUESMRK1)"
        else
          lights05 ++ _LIGHTS05_getSYcol colist ++ (if flare_at_45 = true then ", 45)" else ",135)")
      match _LITDSN01 E F mp st geo with
      | .assertFail st => some (.assertFail st)
      | .ret st litdsn01 =>
        some (.ret st (LIGHTS05_text lights05 litdsn01
          (if flare_at_45 = true then "',3,3,3,'15110',2,-1,CHBLK,23)"
            else "',3,2,3,'15110',2,0,CHBLK,23)")))
    else
      -- Continuation B - sector light
      let sweep : ℚ :=
        if sectr1 > sectr2 then dadd (dsub sectr2 sectr1) 360 else dsub sectr2 sectr1
      if sweep < 1 ∨ sweep = 360 then
        -- handle all-around light
        let lights05 := lights05 ++ _LIGHTS05_getSYcol colist ++ ",135)"
        match _LITDSN01 E F mp st geo with
        | .assertFail st => some (.assertFail st)
        | .ret st litdsn01 =>
          some (.ret st (LIGHTS05_text lights05 litdsn01 "',3,2,3,'15110',2,0,CHBLK,23)"))
      else
        -- sector light: set sector legs
        let lights05 := lights05 ++ ";LS(DASH,1,CHBLK)"
        -- check if LIGHT sector need processing
        let extendstr := S57_getAttVal (st.obj geo) "_extend_arc_radius"
        let walked : Option S57_state :=
          if extendstr = none ∨ derefIs extendstr 'N' = true then
            -- init sector light overlap flag as a failsafe (NO extend radius)
            let st := S57_setAtt st geo "_extend_arc_radius" "N"
            LIGHTS05_chain E geo fuel (st.touchLIGHTS geo) st
          else some st
        match walked with
        | none => none
        | some st => some (.ret st (LIGHTS05_arc E (st.obj geo) colist lights05))

/-- A light with the given attributes. -/
def lightWith (atts : List (String × String)) : S57_geo :=
  { S57ID := 1, name := "LIGHTS", objtype := .S57_POINT_T, attribs := atts,
    geoData := pointData }

/-- The conversion `%.1f` of a double: the decimal with one digit after the point
nearest to the exact value, the even one on a tie. -/
def decFmt : GLib_ext where
  fmt_1f := fun x =>
    (if x < 0 then "-" else "") ++ String.mk (Nat.toDigits 10 ((roundHalfEven (|x| * 10)).toNat / 10))
      ++ "." ++ String.mk (Nat.toDigits 10 ((roundHalfEven (|x| * 10)).toNat % 10))

/-! ## Comma-separated decimal lists -/

/-- The text of a list of number tokens separated by commas. -/
def commaList : List (List Char) → List Char
  | [] => []
  | [t] => t
  | t :: ts => t ++ ',' :: commaList ts

/-- A decimal number token: a non-empty run of the digits `'0' .. '9'`. -/
def isDecimal (t : List Char) : Prop := t ≠ [] ∧ ∀ c ∈ t, '0' ≤ c ∧ c ≤ '9'

instance (t : List Char) : Decidable (isDecimal t) := by
  unfold isDecimal
  infer_instance

/-- What `_parseList` needs of `S52_atoi`: on a text that starts with a decimal token,
followed by nothing or by a comma, it returns the value of the token. -/
def readsDecimal (atoi : String → Int) : Prop :=
  ∀ (t rest : List Char), isDecimal t → (rest = [] ∨ ∃ r, rest = ',' :: r) →
    atoi (String.mk (t ++ rest)) = (decDigits t : Int)

/-! ## `SOUNDG02` -/

/-- `SOUNDG02(geo)`: the sounding label of a sounding point (`none` is NULL). -/
def SOUNDG02 (E : S57_ext) (mp : S52_MP) (st : S57_state) (geo : Ptr) :
    CS_result (Option String) :=
  if (st.obj geo).objtype ≠ .S57_POINT_T then
    .assertFail (PRINTF st "WARNING: invalid object type (not POINT_T)\n")
  else
    match (st.obj geo).geoData with
    | none => .assertFail (PRINTF st "WARNING: invalid object type (not POINT_T)\n")
    | some d =>
      let npt := d.1
      let ppt := d.2
      if npt > 1 then
        .assertFail (PRINTF st "ERROR: GDAL config error, SOUNDING array instead or point\n")
      else .ret st (some (_SNDFRM02 E mp (st.obj geo) (ppt_at ppt 2)))

/-- A sounding of geometry `t` with the coordinates `d`. -/
def soundg (t : S57_Obj_t) (d : Option (Nat × List ℚ)) : S57_geo :=
  { S57ID := 1, name := "SOUNDG", objtype := t, attribs := [], geoData := d }

/-! ## The light chain -/

/-- The reference reached from `x` after following the light-chain touch `n` times
(`none`: an unset reference was reached). -/
def followLIGHTS (touch : Ptr → Option Ptr) : Nat → Option Ptr → Option Ptr
  | 0, x => x
  | _ + 1, none => none
  | n + 1, some p => followLIGHTS touch n (touch p)

/-- The shape of the light-chain references that `S52_CS_touch` builds: a reference
starts at a light and goes to a light of `lights` with a strictly greater identifier,
or to a lateral buoy. -/
def lightLinks (obj : Ptr → S57_geo) (lights : List Ptr) (touch : Ptr → Option Ptr) : Prop :=
  ∀ p q, touch p = some q →
    (obj p).name = "LIGHTS" ∧
    (((obj q).name = "LIGHTS" ∧ (obj p).S57ID < (obj q).S57ID ∧ q ∈ lights) ∨
      (obj q).name = "BOYLAT")

/-- The greatest identifier of the features of a list. -/
def idBound (obj : Ptr → S57_geo) (l : List Ptr) : Nat :=
  (l.map (fun q => (obj q).S57ID)).foldr max 0

/-- The store after the index build: `S52_CS_add` on the features `adds`, then
`S52_CS_touch` on the features `touches` (the store in which an assertion failed, when
one did). -/
def indexedState (E : S57_ext) (st : S57_state) (adds touches : List Ptr) : S57_state :=
  (S52_CS_touchAll E (S52_CS_addAll st adds S52_CS_init) touches st).state

/-! ## The tokens of the light description -/

/-- The category token of `_LITDSN01`: the text of the last `CATLIT` code that has one,
empty without such a code; `none` when the emergency code 17 makes `_LITDSN01` return
NULL. -/
def LITDSN01_category (E : S57_ext) (geo : S57_geo) : Option String :=
  match S57_getAttVal geo "CATLIT" with
  | some catlitstr =>
    let p := _parseList E.S52_atoi (some catlitstr)
    match _LITDSN01_catlit (p.2.take p.1) none with
    | none => none
    | some tmp => some (tmp.getD "")
  | none => some ""

/-- The character token of `_LITDSN01`: the abbreviation of the first `LITCHR` code. -/
def LITDSN01_character (E : S57_ext) (geo : S57_geo) : String :=
  match S57_getAttVal geo "LITCHR" with
  | some litchrstr => LITCHR_abbrev (bufAt (_parseList E.S52_atoi (some litchrstr)).2 0)
  | none => ""

/-- The group token of `_LITDSN01`: the value of `SIGGRP`. -/
def LITDSN01_group (geo : S57_geo) : String :=
  match S57_getAttVal geo "SIGGRP" with
  | some gstr => gstr
  | none => ""

/-- The colour token of `_LITDSN01`: for every colour of the list the abbreviation of
`colour[0]`, then one space. -/
def LITDSN01_colour (E : S57_ext) (geo : S57_geo) : String :=
  match S57_getAttVal geo "COLOUR" with
  | some colourstr =>
    let p := _parseList E.S52_atoi (some colourstr)
    appendTimes "" (COLOUR_abbrev (bufAt p.2 0)) p.1 ++ " "
  | none => ""

/-- The period token of `_LITDSN01`: the value of `SIGPER` and `s `. -/
def LITDSN01_period (geo : S57_geo) : String :=
  match S57_getAttVal geo "SIGPER" with
  | some gstr => gstr ++ "s "
  | none => ""

/-- The height token of `_LITDSN01`: the value of `HEIGHT` (reduced by the datum
offset and formatted when the offset is not 0) and `m `. -/
def LITDSN01_height (E : S57_ext) (F : GLib_ext) (mp : S52_MP) (geo : S57_geo) : String :=
  match S57_getAttVal geo "HEIGHT" with
  | some gstr =>
    if 0 ≠ mp .S52_MAR_DATUM_OFFSET then
      g_snprintf 8 (F.fmt_1f (dsub (E.S52_atof gstr) (mp .S52_MAR_DATUM_OFFSET)) ++ "m ")
    else gstr ++ "m "
  | none => ""

/-- The range token of `_LITDSN01`: the value of `VALNMR` (reformatted when it is longer
than 3 bytes) and `M`. -/
def LITDSN01_range (E : S57_ext) (F : GLib_ext) (geo : S57_geo) : String :=
  match S57_getAttVal geo "VALNMR" with
  | some gstr =>
    (if gstr.utf8ByteSize > 3 then g_snprintf 3 (F.fmt_1f (E.S52_atof gstr)) else gstr) ++ "M"
  | none => ""

/-- The status token of `_LITDSN01`: the abbreviation of the first `STATUS` code. -/
def LITDSN01_status (E : S57_ext) (geo : S57_geo) : String :=
  match S57_getAttVal geo "STATUS" with
  | some statusstr => STATUS_abbrev (bufAt (_parseList E.S52_atoi (some statusstr)).2 0)
  | none => ""

/-! ## The other procedures of the jump table

`VESSEL01` is translated for a build without `S52_USE_SYM_VESSEL_DNGHL` and
`S52_USE_SYM_AISSEL01`. -/

/-- `CLRLIN01(geo)`: clearing line. -/
def CLRLIN01 (geo : S57_geo) : String :=
  let clrlin01 := ";SY(CLRLIN01);LS(SOLD,1,NINFO)"
  match S57_getAttVal geo "catclr" with
  | some catclrstr =>
    -- NMT
    let clrlin01 :=
      if deref catclrstr = '1' then clrlin01 ++ ";TX('NMT',2,1,2,'15110',-1,-1,CHBLK,51)"
      else clrlin01
    -- NLT
    if deref catclrstr = '2' then clrlin01 ++ ";TX('NLT',2,1,2,'15110',-1,-1,CHBLK,51)"
    else clrlin01
  | none => clrlin01

/-- Key of the `static int silent` of `DATCVR01`. -/
def silent_DATCVR01 : String := "DATCVR01"

/-- `DATCVR01(geo)`: coverage, scale boundaries, overscale. -/
def DATCVR01 (st : S57_state) (geo : Ptr) : CS_result String :=
  let datcvr01 := ""
  -- 2.1 - Limit of ENC coverage
  if (st.obj geo).name = "M_COVR" then .ret st (datcvr01 ++ ";LC(HODATA01)")
  -- 3.1 - Chart scale boundaties
  else if (st.obj geo).name = "M_COVR" then .assertFail (PRINTF st "DEBUG: M_COVR found\n")
  -- 4 - OVERSCALE
  else if (st.obj geo).name = "M_CSCL" then
    .ret (PRINTF st "FIXME: overscale M_CSCL not computed\n") datcvr01
  else
    let st :=
      if st.silent silent_DATCVR01 = false then
        setSilent
          (PRINTF (PRINTF st "NOTE: DATCVR01/OVERSCALE not computed\n")
            "NOTE: (this msg will not repeat)\n")
          silent_DATCVR01
      else st
    .ret st datcvr01

/-- The block `static int silent = FALSE; if (FALSE == silent) { PRINTF(msg);
PRINTF("FIXME: (this msg will not repeat)\n"); silent = TRUE; }` at the start of the
stub procedures; `key` is the name of the procedure that declares the flag. -/
def CS_notice (st : S57_state) (key msg : String) : S57_state :=
  if st.silent key = false then
    setSilent (PRINTF (PRINTF st msg) "FIXME: (this msg will not repeat)\n") key
  else st

/-- `DATCVR02(geo)`: the notice, then `DATCVR01(geo)`. -/
def DATCVR02 (st : S57_state) (geo : Ptr) : CS_result String :=
  DATCVR01 (CS_notice st "DATCVR02" "FIXME: CS(DATCVR02) switch to CS(DATCVR01)\n") geo

/-- `DEPARE02(geo)`: the notice, then `DEPARE01(geo)`. -/
def DEPARE02 (E : S57_ext) (mp : S52_MP) (st : S57_state) (geo : Ptr) : S57_state × String :=
  let st := CS_notice st "DEPARE02" "FIXME: CS(DEPARE02) --> CS(DEPARE01)\n"
  (st, DEPARE01 E mp (st.obj geo))

/-- `DEPARE03(geo)`: the notice, then `DEPARE01(geo)`. -/
def DEPARE03 (E : S57_ext) (mp : S52_MP) (st : S57_state) (geo : Ptr) : S57_state × String :=
  let st := CS_notice st "DEPARE03" "FIXME: CS(DEPARE03) --> CS(DEPARE01)\n"
  (st, DEPARE01 E mp (st.obj geo))

/-- `DEPCNT03(geo)`: the notice, then `DEPCNT02(geo)`. -/
def DEPCNT03 (E : S57_ext) (mp : S52_MP) (st : S57_state) (geo : Ptr) :
    S57_state × Option String :=
  DEPCNT02 E mp (CS_notice st "DEPCNT03" "FIXME: CS(DEPCNT03) --> CS(DEPCNT02)\n") geo

/-- `LEGLIN02(geo)`: leg of a route. -/
def LEGLIN02 (E : S57_ext) (geo : S57_geo) : String :=
  let leglin02 := ""
  let selectstr := S57_getAttVal geo "select"
  let plnspdstr := S57_getAttVal geo "plnspd"
  let leglin02 :=
    if derefIs selectstr '1' = true then leglin02 ++ ";SY(PLNSPD03);LC(PLNRTE03)"
    -- alternate or undefined (check the later)
    else leglin02 ++ ";SY(PLNSPD04);LS(DOTT,2,APLRT)"
  -- TX: cog, course made good (mid point of leg)
  let leglin02 := leglin02 ++ ";TX(leglin,3,1,2,'15111',0,0,CHBLK,51)"
  -- TX: plnspd, planned speed (mid point of leg)
  match plnspdstr with
  | some s =>
    if 0 < E.S52_atof s then leglin02 ++ ";TX(plnspd,1,2,2,'15110',0,0,CHBLK,51)"
    else leglin02
  | none => leglin02

/-- `LEGLIN03(geo)`: the notice, then `LEGLIN02(geo)`. -/
def LEGLIN03 (E : S57_ext) (st : S57_state) (geo : Ptr) : S57_state × String :=
  let st := CS_notice st "LEGLIN03" "FIXME: CS(LEGLIN03) switching to CS(LEGLIN02)\n"
  (st, LEGLIN02 E (st.obj geo))

/-- `LIGHTS06(geo)`: the notice, then `LIGHTS05(geo)`. -/
def LIGHTS06 (E : S57_ext) (F : GLib_ext) (mp : S52_MP) (fuel : Nat) (st : S57_state)
    (geo : Ptr) : Option (CS_result String) :=
  LIGHTS05 E F mp fuel (CS_notice st "LIGHTS06" "FIXME: CS(LIGHTS06) --> CS(LIGHTS05)\n") geo

/-- `OBSTRN05(geo)`: the notice, then `OBSTRN04(geo)`. -/
def OBSTRN05 (E : S57_ext) (mp : S52_MP) (st : S57_state) (geo : Ptr) :
    CS_result (Option String) :=
  OBSTRN04 E mp (CS_notice st "OBSTRN05" "FIXME: CS(OBSTRN05) --> CS(OBSTRN04)\n") geo

/-- `OBSTRN06(geo)`: the notice, then `OBSTRN04(geo)`. -/
def OBSTRN06 (E : S57_ext) (mp : S52_MP) (st : S57_state) (geo : Ptr) :
    CS_result (Option String) :=
  OBSTRN04 E mp (CS_notice st "OBSTRN06" "FIXME: CS(OBSTRN06) --> CS(OBSTRN04)\n") geo

/-- `OWNSHP02(geo)`: own ship. -/
def OWNSHP02 (geo : S57_geo) : String :=
  let ownshp02 := ""
  -- experimental: text label
  let ownshp02 :=
    if (S57_getAttVal geo "_vessel_label").isSome then
      ownshp02 ++ ";TX(_vessel_label,3,3,3,'15110',1,1,SHIPS,75)"
        ++ ";TE('%03.0lf deg','cogcrs',3,3,3,'15109',1,2,SHIPS,77)"
        ++ ";TE('%3.1lf kts','sogspd',3,3,3,'15109',5,2,SHIPS,78)"
    else ownshp02
  -- first LS() 1px
  let ownshp02 := ownshp02 ++ ";LS(SOLD,1,SHIPS)"
  let ownshp02 := ownshp02 ++ ";SY(OWNSHP05)"
  let ownshp02 := ownshp02 ++ ";SY(OWNSHP01)"
  -- course / speed vector on ground / water
  let ownshp02 := ownshp02 ++ ";SY(VECGND01);SY(VECWTR01);LS(SOLD,2,SHIPS)"
  -- time mark (on vector)
  let ownshp02 := ownshp02 ++ ";SY(OSPSIX02);SY(OSPONE02)"
  -- beam bearing
  ownshp02 ++ ";LS(SOLD,1,SHIPS)"

/-- `PASTRK01(geo)`: past track (`none` is NULL). -/
def PASTRK01 (geo : S57_geo) : Option String :=
  let pastrk01 : Option String := none
  match S57_getAttVal geo "catpst" with
  | some catpststr =>
    let pastrk01 :=
      if deref catpststr = '1' then some ";LS(SOLD,2,PSTRK);SY(PASTRK01)" else pastrk01
    if deref catpststr = '2' then some ";LS(SOLD,1,SYTRK);SY(PASTRK02)" else pastrk01
  | none => pastrk01

/-- `_QUALIN01(geo)`: the line style of the positional accuracy of a line (`none` is
NULL). -/
def _QUALIN01 (E : S57_ext) (geo : S57_geo) : Option String :=
  match S57_getAttVal geo "QUAPOS" with
  | some quaposstr =>
    let quapos := E.S52_atoi quaposstr
    if 2 ≤ quapos ∧ quapos < 10 then some ";LC(LOWACC21)" else none
  | none =>
    if geo.name = "COALNE" then
      match S57_getAttVal geo "CONRAD" with
      | some conradstr =>
        if deref conradstr = '1' then some ";LS(SOLD,3,CHMGF);LS(SOLD,1,CSTLN)"
        else some ";LS(SOLD,1,CSTLN)"
      | none => some ";LS(SOLD,1,CSTLN)"
    -- LNDARE
    else some ";LS(SOLD,1,CSTLN)"

/-- `QUAPOS01(geo)`: the signpost to `_QUALIN01` and `_QUAPNT01`. -/
def QUAPOS01 (E : S57_ext) (geo : S57_geo) : Option String :=
  if geo.objtype = .S57_LINES_T then _QUALIN01 E geo else _QUAPNT01 E geo

/-- `RESARE03(geo)`: the notice, then `RESARE02(geo)`. -/
def RESARE03 (E : S57_ext) (mp : S52_MP) (st : S57_state) (geo : Ptr) : S57_state × String :=
  let st := CS_notice st "RESARE03" "FIXME: CS(RESARE03) --> CS(RESARE02)\n"
  (st, RESARE02 E mp (st.obj geo))

/-- `SLCONS03(geo)`: shoreline construction (`none` is NULL). -/
def SLCONS03 (E : S57_ext) (mp : S52_MP) (geo : S57_geo) : Option String :=
  let quaposstr := S57_getAttVal geo "QUAPOS"
  let quapos : Int :=
    match quaposstr with
    | none => 0
    | some s => E.S52_atoi s
  let cmdw : Option String :=
    if geo.objtype = .S57_POINT_T then
      if quaposstr.isSome ∧ (2 ≤ quapos ∧ quapos < 10) then some ";SY(LOWACC01)" else none
    else
      -- LINE_T and AREA_T are the same
      if quaposstr.isSome then
        if 2 ≤ quapos ∧ quapos < 10 then some ";LC(LOWACC01)" else none
      else
        let valstr := S57_getAttVal geo "CONDTN"
        if derefIs valstr '1' = true ∨ derefIs valstr '2' = true then some ";LS(DASH,1,CSTLN)"
        else
          let valstr := S57_getAttVal geo "CATSLC"
          let val : Int :=
            match valstr with
            | none => 0
            | some s => E.S52_atoi s
          if valstr.isSome ∧ (6 = val ∨ 15 = val ∨ 16 = val) then some ";LS(SOLD,4,CSTLN)"
          else
            let valstr := S57_getAttVal geo "WATLEV"
            if derefIs valstr '2' = true then some ";LS(SOLD,2,CSTLN)"
            else if derefIs valstr '3' = true ∨ derefIs valstr '4' = true then
              some ";LS(DASH,2,CSTLN)"
            -- default
            else some ";LS(SOLD,2,CSTLN)"
  -- this is to put AC(DEPIT) --intertidal area
  let slcons03 : Option String :=
    if geo.objtype = .S57_AREAS_T then
      let drval1 : ℚ :=
        match S57_getAttVal geo "DRVAL1" with
        | none => UNKNOWN_DEPTH
        | some s => E.S52_atof s
      let drval2 : ℚ :=
        match S57_getAttVal geo "DRVAL2" with
        | none => UNKNOWN_DEPTH
        | some s => E.S52_atof s
      -- adjuste datum
      let drval1 :=
        if UNKNOWN_DEPTH ≠ drval1 then dadd drval1 (mp .S52_MAR_DATUM_OFFSET) else drval1
      let drval2 :=
        if UNKNOWN_DEPTH ≠ drval2 then dadd drval2 (mp .S52_MAR_DATUM_OFFSET) else drval2
      some (_SEABED01 mp drval1 drval2)
    else none
  match cmdw with
  | some c =>
    match slcons03 with
    | none => some c
    | some s => some (s ++ c)
  | none => slcons03

/-- The `switch (topshp)` of `TOPMAR01` for a topmark on a floating platform. -/
def TOPMAR01_floating (topshp : Int) : String :=
  if topshp = 1 then ";SY(TOPMAR02)" else if topshp = 2 then ";SY(TOPMAR04)"
  else if topshp = 3 then ";SY(TOPMAR10)" else if topshp = 4 then ";SY(TOPMAR12)"
  else if topshp = 5 then ";SY(TOPMAR13)" else if topshp = 6 then ";SY(TOPMAR14)"
  else if topshp = 7 then ";SY(TOPMAR65)" else if topshp = 8 then ";SY(TOPMAR17)"
  else if topshp = 9 then ";SY(TOPMAR16)" else if topshp = 10 then ";SY(TOPMAR08)"
  else if topshp = 11 then ";SY(TOPMAR07)" else if topshp = 12 then ";SY(TOPMAR14)"
  else if topshp = 13 then ";SY(TOPMAR05)" else if topshp = 14 then ";SY(TOPMAR06)"
  else if topshp = 17 then ";SY(TMARDEF2)" else if topshp = 18 then ";SY(TOPMAR10)"
  else if topshp = 19 then ";SY(TOPMAR13)" else if topshp = 20 then ";SY(TOPMAR14)"
  else if topshp = 21 then ";SY(TOPMAR13)" else if topshp = 22 then ";SY(TOPMAR14)"
  else if topshp = 23 then ";SY(TOPMAR14)" else if topshp = 24 then ";SY(TOPMAR02)"
  else if topshp = 25 then ";SY(TOPMAR04)" else if topshp = 26 then ";SY(TOPMAR10)"
  else if topshp = 27 then ";SY(TOPMAR17)" else if topshp = 28 then ";SY(TOPMAR18)"
  else if topshp = 29 then ";SY(TOPMAR02)" else if topshp = 30 then ";SY(TOPMAR17)"
  else if topshp = 31 then ";SY(TOPMAR14)" else if topshp = 32 then ";SY(TOPMAR10)"
  else if topshp = 33 then ";SY(TMARDEF2)" else ";SY(TMARDEF2)"

/-- The `switch (topshp)` of `TOPMAR01` for a topmark that is not on a floating
platform. -/
def TOPMAR01_rigid (topshp : Int) : String :=
  if topshp = 1 then ";SY(TOPMAR22)" else if topshp = 2 then ";SY(TOPMAR24)"
  else if topshp = 3 then ";SY(TOPMAR30)" else if topshp = 4 then ";SY(TOPMAR32)"
  else if topshp = 5 then ";SY(TOPMAR33)" else if topshp = 6 then ";SY(TOPMAR34)"
  else if topshp = 7 then ";SY(TOPMAR85)" else if topshp = 8 then ";SY(TOPMAR86)"
  else if topshp = 9 then ";SY(TOPMAR36)" else if topshp = 10 then ";SY(TOPMAR28)"
  else if topshp = 11 then ";SY(TOPMAR27)" else if topshp = 12 then ";SY(TOPMAR14)"
  else if topshp = 13 then ";SY(TOPMAR25)" else if topshp = 14 then ";SY(TOPMAR26)"
  else if topshp = 15 then ";SY(TOPMAR88)" else if topshp = 16 then ";SY(TOPMAR87)"
  else if topshp = 17 then ";SY(TMARDEF1)" else if topshp = 18 then ";SY(TOPMAR30)"
  else if topshp = 19 then ";SY(TOPMAR33)" else if topshp = 20 then ";SY(TOPMAR34)"
  else if topshp = 21 then ";SY(TOPMAR33)" else if topshp = 22 then ";SY(TOPMAR34)"
  else if topshp = 23 then ";SY(TOPMAR34)" else if topshp = 24 then ";SY(TOPMAR22)"
  else if topshp = 25 then ";SY(TOPMAR24)" else if topshp = 26 then ";SY(TOPMAR30)"
  else if topshp = 27 then ";SY(TOPMAR86)" else if topshp = 28 then ";SY(TOPMAR89)"
  else if topshp = 29 then ";SY(TOPMAR22)" else if topshp = 30 then ";SY(TOPMAR86)"
  else if topshp = 31 then ";SY(TOPMAR14)" else if topshp = 32 then ";SY(TOPMAR30)"
  else if topshp = 33 then ";SY(TMARDEF1)" else ";SY(TMARDEF1)"

/-- `TOPMAR01(geo)`: topmark, upright on a rigid and sloping on a floating platform. -/
def TOPMAR01 (E : S57_ext) (st : S57_state) (geo : Ptr) : String :=
  match S57_getAttVal (st.obj geo) "TOPSHP" with
  | none => ";SY(QUESMRK1)"
  | some topshpstr =>
    let topshp := E.S52_atoi topshpstr
    let other := st.touchTOPMAR geo
    let floating : Bool := other.isSome
    if floating = true then TOPMAR01_floating topshp else TOPMAR01_rigid topshp

/-- `VESSEL01(geo)`: vessel report. -/
def VESSEL01 (st : S57_state) (geo : Ptr) : CS_result String :=
  let vessel01 := ""
  let vesrcestr := S57_getAttVal (st.obj geo) "vesrce"
  let vlabelstr := S57_getAttVal (st.obj geo) "_vessel_label"
  -- experimental: text label
  let vessel01 :=
    if vlabelstr.isSome then
      vessel01 ++ ";TX(_vessel_label,3,3,3,'15110',1,1,ARPAT,76)"
        ++ ";TE('%03.0lf deg','cogcrs',3,3,3,'15109',1,2,ARPAT,77)"
        ++ ";TE('%3.1lf kts','sogspd',3,3,3,'15109',5,2,ARPAT,78)"
    else vessel01
  -- add the symbols ground and water arrow right now
  let vessel01 := vessel01 ++ ";SY(VECGND21);SY(VECWTR21);LS(SOLD,2,ARPAT)"
  -- experimental: AIS draw ship's silhouettte (OWNSHP05) if length > 10 mm
  let vessel01 := vessel01 ++ ";SY(OWNSHP05)"
  -- ARPA
  let vessel01 :=
    if derefIs vesrcestr '1' = true then
      vessel01 ++ ";SY(ARPATG01)" ++ ";SY(ARPSIX01);SY(ARPONE01)"
    else vessel01
  -- AIS
  let vessel01 :=
    if derefIs vesrcestr '2' = true then
      vessel01 ++ ";SY(AISDEF01)" ++ ";SY(AISSLP01)" ++ ";SY(AISVES01)" ++ ";LS(SOLD,1,ARPAT)"
        ++ ";SY(AISSIX01);SY(AISONE01)"
    else vessel01
  -- VTS
  if derefIs vesrcestr '3' = true then
    .assertFail
      (PRINTF st "WARNING: no specfic rendering rule for VTS report (vesrce=3)\n")
  else .ret st vessel01

/-- `VESSEL02(geo)`: the notice, then `VESSEL01(geo)`. -/
def VESSEL02 (st : S57_state) (geo : Ptr) : CS_result String :=
  VESSEL01 (CS_notice st "VESSEL02" "FIXME: CS(VESSEL02) --> CS(VESSEL01)\n") geo

/-- `VRMEBL01(geo)`: range circle, bearing line. -/
def VRMEBL01 (geo : S57_geo) : String :=
  let vrmebl01 := ""
  -- freely movable origine symb (a dot)
  let ownshpcenteredstr := S57_getAttVal geo "_setOrigin"
  let vrmebl01 :=
    if derefIs ownshpcenteredstr 'Y' = true ∨ derefIs ownshpcenteredstr 'I' = true then
      vrmebl01 ++ ";SY(EBLVRM11)"
    else vrmebl01
  -- line style
  let vrmebl01 :=
    if derefIs (S57_getAttVal geo "_normallinestyle") 'Y' = true then
      vrmebl01 ++ ";LC(ERBLNA01)"
    else vrmebl01 ++ ";LC(ERBLNB01)"
  -- symb range marker
  let vrmebl01 :=
    if derefIs (S57_getAttVal geo "_symbrngmrk") 'Y' = true then vrmebl01 ++ ";SY(ERBLTIK1)"
    else vrmebl01 ++ ";AC(CURSR)"
  -- EXPERIMENTAL: add text, bearing & range
  vrmebl01 ++ ";TX(_vrmebl_label,3,3,3,'15110',1,1,CURSR,77)"

/-- `VRMEBL02(geo)`: the notice, then `VRMEBL01(geo)`. -/
def VRMEBL02 (st : S57_state) (geo : Ptr) : S57_state × String :=
  let st := CS_notice st "VRMEBL02" "FIXME: CS(VRMEBL02) --> CS(VRMEBL01)\n"
  (st, VRMEBL01 (st.obj geo))

/-- `WRECKS03(geo)`: the notice, then `WRECKS02(geo)`. -/
def WRECKS03 (E : S57_ext) (mp : S52_MP) (st : S57_state) (geo : Ptr) :
    CS_result (Option String) :=
  WRECKS02 E mp (CS_notice st "WRECKS03" "FIXME: CS(WRECKS03) --> CS(WRECKS02)\n") geo

/-- `WRECKS04(geo)`: the notice, then `WRECKS02(geo)`. -/
def WRECKS04 (E : S57_ext) (mp : S52_MP) (st : S57_state) (geo : Ptr) :
    CS_result (Option String) :=
  WRECKS02 E mp (CS_notice st "WRECKS04" "FIXME: CS(WRECKS04) --> CS(WRECKS02)\n") geo

/-- `WRECKS05(geo)`: the notice, then `WRECKS02(geo)`. -/
def WRECKS05 (E : S57_ext) (mp : S52_MP) (st : S57_state) (geo : Ptr) :
    CS_result (Option String) :=
  WRECKS02 E mp (CS_notice st "WRECKS05" "FIXME: CS(WRECKS05) --> CS(WRECKS02)\n") geo

/-- `QUESMRK1(geo)`: the catch all of an unknown procedure (`none` is NULL). -/
def QUESMRK1 (st : S57_state) (geo : Ptr) : S57_state × Option String :=
  match (st.obj geo).objtype with
  | .S57_POINT_T => (st, some ";SY(QUESMRK1)")
  | .S57_LINES_T => (st, some ";LC(QUESMRK1)")
  | .S57_AREAS_T => (st, some ";AP(QUESMRK1)")
  | .S57__META_T => (PRINTF st "WARNING: unknown S57 object type for CS(QUESMRK1)\n", none)

/-- A procedure of the jump table, with everything it reads as arguments: the external
functions, the mariner parameters, the fuel of the sector loop of `LIGHTS05`, the store
and the feature.  The outer `none` is a sector loop not finished within the fuel, the
inner `none` a NULL instruction. -/
abbrev S52_CS_condSymb :=
  S57_ext → GLib_ext → S52_MP → Nat → S57_state → Ptr → Option (CS_result (Option String))

/-- A procedure that returns a `GString` that is never NULL. -/
def CS_result.some_val (r : CS_result String) : CS_result (Option String) :=
  match r with
  | .ret st v => .ret st (some v)
  | .assertFail st => .assertFail st

/-- `S52_CS_condTable`: the jump table, name and procedure. -/
def S52_CS_condTable : List (String × S52_CS_condSymb) :=
  [("CLRLIN01", fun _ _ _ _ st geo => some (.ret st (some (CLRLIN01 (st.obj geo))))),
   ("DATCVR01", fun _ _ _ _ st geo => some (DATCVR01 st geo).some_val),
   ("DATCVR02", fun _ _ _ _ st geo => some (DATCVR02 st geo).some_val),
   ("DEPARE01", fun E _ mp _ st geo => some (.ret st (some (DEPARE01 E mp (st.obj geo))))),
   ("DEPARE02", fun E _ mp _ st geo =>
      some (.ret (DEPARE02 E mp st geo).1 (some (DEPARE02 E mp st geo).2))),
   ("DEPARE03", fun E _ mp _ st geo =>
      some (.ret (DEPARE03 E mp st geo).1 (some (DEPARE03 E mp st geo).2))),
   ("DEPCNT02", fun E _ mp _ st geo =>
      some (.ret (DEPCNT02 E mp st geo).1 (DEPCNT02 E mp st geo).2)),
   ("DEPCNT03", fun E _ mp _ st geo =>
      some (.ret (DEPCNT03 E mp st geo).1 (DEPCNT03 E mp st geo).2)),
   ("LEGLIN02", fun E _ _ _ st geo => some (.ret st (some (LEGLIN02 E (st.obj geo))))),
   ("LEGLIN03", fun E _ _ _ st geo =>
      some (.ret (LEGLIN03 E st geo).1 (some (LEGLIN03 E st geo).2))),
   ("LIGHTS05", fun E F mp fuel st geo =>
      (LIGHTS05 E F mp fuel st geo).map CS_result.some_val),
   ("LIGHTS06", fun E F mp fuel st geo =>
      (LIGHTS06 E F mp fuel st geo).map CS_result.some_val),
   ("OBSTRN04", fun E _ mp _ st geo => some (OBSTRN04 E mp st geo)),
   ("OBSTRN05", fun E _ mp _ st geo => some (OBSTRN05 E mp st geo)),
   ("OBSTRN06", fun E _ mp _ st geo => some (OBSTRN06 E mp st geo)),
   ("OWNSHP02", fun _ _ _ _ st geo => some (.ret st (some (OWNSHP02 (st.obj geo))))),
   ("PASTRK01", fun _ _ _ _ st geo => some (.ret st (PASTRK01 (st.obj geo)))),
   ("QUAPOS01", fun E _ _ _ st geo => some (.ret st (QUAPOS01 E (st.obj geo)))),
   ("RESARE02", fun E _ mp _ st geo => some (.ret st (some (RESARE02 E mp (st.obj geo))))),
   ("RESARE03", fun E _ mp _ st geo =>
      some (.ret (RESARE03 E mp st geo).1 (some (RESARE03 E mp st geo).2))),
   ("RESTRN01", fun E _ _ _ st geo => some (.ret st (RESTRN01 E (st.obj geo)))),
   ("SLCONS03", fun E _ mp _ st geo => some (.ret st (SLCONS03 E mp (st.obj geo)))),
   ("SOUNDG02", fun E _ mp _ st geo => some (SOUNDG02 E mp st geo)),
   ("TOPMAR01", fun E _ _ _ st geo => some (.ret st (some (TOPMAR01 E st geo)))),
   ("VESSEL01", fun _ _ _ _ st geo => some (VESSEL01 st geo).some_val),
   ("VESSEL02", fun _ _ _ _ st geo => some (VESSEL02 st geo).some_val),
   ("VRMEBL01", fun _ _ _ _ st geo => some (.ret st (some (VRMEBL01 (st.obj geo))))),
   ("VRMEBL02", fun _ _ _ _ st geo =>
      some (.ret (VRMEBL02 st geo).1 (some (VRMEBL02 st geo).2))),
   ("WRECKS02", fun E _ mp _ st geo => some (WRECKS02 E mp st geo)),
   ("WRECKS03", fun E _ mp _ st geo => some (WRECKS03 E mp st geo)),
   ("WRECKS04", fun E _ mp _ st geo => some (WRECKS04 E mp st geo)),
   ("WRECKS05", fun E _ mp _ st geo => some (WRECKS05 E mp st geo)),
   ("QUESMRK1", fun _ _ _ _ st geo => some (.ret (QUESMRK1 st geo).1 (QUESMRK1 st geo).2))]

/-- Two stores that hold the same features, touch references and scale-minimum
overrides: they differ at most in the notice flags and in the log. -/
def sameStore (s s' : S57_state) : Prop :=
  s.obj = s'.obj ∧ s.touchTOPMAR = s'.touchTOPMAR ∧ s.touchLIGHTS = s'.touchLIGHTS ∧
  s.touchDEPCNT = s'.touchDEPCNT ∧ s.touchUDWHAZ = s'.touchUDWHAZ ∧
  s.touchDEPVAL = s'.touchDEPVAL ∧ s.scamin = s'.scamin

/-- Two outcomes that agree: the same instruction, or a failed assertion in both, in
stores that hold the same features, touch references and scale-minimum overrides. -/
def sameResult {α : Type} (r r' : CS_result α) : Prop :=
  r.val? = r'.val? ∧ sameStore r.state r'.state

/-- Two runs of a procedure that agree: both leave the sector loop unfinished, or
both end with outcomes that agree. -/
def sameRun {α : Type} (r r' : Option (CS_result α)) : Prop :=
  match r, r' with
  | some a, some b => sameResult a b
  | none, none => True
  | _, _ => False

/-- The stub procedures of the jump table and the procedure each of them calls. -/
def S52_CS_stubs : List (String × String) :=
  [("DATCVR02", "DATCVR01"), ("DEPARE02", "DEPARE01"), ("DEPARE03", "DEPARE01"),
   ("DEPCNT03", "DEPCNT02"), ("LEGLIN03", "LEGLIN02"), ("LIGHTS06", "LIGHTS05"),
   ("OBSTRN05", "OBSTRN04"), ("OBSTRN06", "OBSTRN04"), ("RESARE03", "RESARE02"),
   ("VESSEL02", "VESSEL01"), ("VRMEBL02", "VRMEBL01"), ("WRECKS03", "WRECKS02"),
   ("WRECKS04", "WRECKS02"), ("WRECKS05", "WRECKS02")]

/-- Modelled from the spec: the look-up of a procedure by its name, done by the caller
of the table (`S52PL.c`, not part of `src/`): the first entry with that name. -/
def S52_CS_lookup (name : String) : Option S52_CS_condSymb :=
  (S52_CS_condTable.find? (fun e => e.1 == name)).map (fun e => e.2)

/-- A step that may write the scale-minimum override of `geo` and nothing else of the
features, references and overrides. -/
def writesScamin (geo : Ptr) (s s' : S57_state) : Prop :=
  s.obj = s'.obj ∧ s.touchTOPMAR = s'.touchTOPMAR ∧ s.touchLIGHTS = s'.touchLIGHTS ∧
  s.touchDEPCNT = s'.touchDEPCNT ∧ s.touchUDWHAZ = s'.touchUDWHAZ ∧
  s.touchDEPVAL = s'.touchDEPVAL ∧ ∀ p, p ≠ geo → s'.scamin p = s.scamin p

/-- Two feature records that differ at most in the value of the attribute `name`. -/
def sameButAtt (name : String) (g g' : S57_geo) : Prop :=
  g.S57ID = g'.S57ID ∧ g.name = g'.name ∧ g.objtype = g'.objtype ∧ g.geoData = g'.geoData ∧
  ∀ n, n ≠ name → g.attribs.lookup n = g'.attribs.lookup n

/-- A step that may write the attribute `name` of features and nothing else of the
features, references and overrides. -/
def writesAtt (name : String) (s s' : S57_state) : Prop :=
  (∀ p, sameButAtt name (s.obj p) (s'.obj p)) ∧ s.touchTOPMAR = s'.touchTOPMAR ∧
  s.touchLIGHTS = s'.touchLIGHTS ∧ s.touchDEPCNT = s'.touchDEPCNT ∧
  s.touchUDWHAZ = s'.touchUDWHAZ ∧ s.touchDEPVAL = s'.touchDEPVAL ∧ s.scamin = s'.scamin

/-- The procedures of the jump table that write a scale-minimum override:
`DEPCNT02`, `OBSTRN04` and `WRECKS02` (through `_UDWHAZ03`), and their stubs. -/
def S52_CS_writesScamin : List String :=
  ["DEPCNT02", "DEPCNT03", "OBSTRN04", "OBSTRN05", "OBSTRN06", "WRECKS02", "WRECKS03",
   "WRECKS04", "WRECKS05"]

/-- The procedures of the jump table that write an attribute: `LIGHTS05` and its
stub. -/
def S52_CS_writesAtt : List String := ["LIGHTS05", "LIGHTS06"]

/-- What the procedure `name`, called on the feature `geo` in the store `st`, may have
written when it ends in the store `st'`: no touch reference; a scale-minimum override
only of `geo` and only when the procedure is one of `S52_CS_writesScamin`; an attribute
only when the procedure is one of `S52_CS_writesAtt`, and then only the attribute
`_extend_arc_radius`, of `geo` and of the features on the light chain of `geo`. -/
def procEffect (name : String) (geo : Ptr) (st st' : S57_state) : Prop :=
  (st'.touchTOPMAR = st.touchTOPMAR ∧ st'.touchLIGHTS = st.touchLIGHTS ∧
    st'.touchDEPCNT = st.touchDEPCNT ∧ st'.touchUDWHAZ = st.touchUDWHAZ ∧
    st'.touchDEPVAL = st.touchDEPVAL) ∧
  (∀ p, p ≠ geo → st'.scamin p = st.scamin p) ∧
  (name ∉ S52_CS_writesScamin → st'.scamin = st.scamin) ∧
  (∀ p, sameButAtt "_extend_arc_radius" (st.obj p) (st'.obj p)) ∧
  (name ∉ S52_CS_writesAtt → st'.obj = st.obj) ∧
  (∀ p, p ≠ geo → (∀ n, followLIGHTS st.touchLIGHTS n (st.touchLIGHTS geo) ≠ some p) →
    st'.obj p = st.obj p)

/-- Two sector lights at one position, the first with a light-chain reference to the
second. -/
def stSectors (a1 a2 b1 b2 : String) : S57_state :=
  S57_setTouchLIGHTS (mkState [sectorLight 1 a1 a2, sectorLight 2 b1 b2]) 0 1

/-! ## Invocations of `LIGHTS05` in sequence -/

/-- A list of writes of the attribute `_extend_arc_radius`, feature and value, done in
the order of the list. -/
def applyWrites (st : S57_state) : List (Ptr × String) → S57_state
  | [] => st
  | w :: ws => applyWrites (S57_setAtt st w.1 "_extend_arc_radius" w.2) ws

/-- Modelled from the spec: `LIGHTS05` invoked on the lights of a list, one after the
other, each in the store the one before left; `none` when an invocation does not
return (sector loop not finished within the fuel, or failed assertion). -/
def LIGHTS05_all (E : S57_ext) (F : GLib_ext) (mp : S52_MP) (fuel : Nat) :
    List Ptr → S57_state → Option S57_state
  | [], st => some st
  | geo :: rest, st =>
    match LIGHTS05 E F mp fuel st geo with
    | some (.ret st _) => LIGHTS05_all E F mp fuel rest st
    | _ => none

/-- The description `_LITDSN01` returns for a feature record: `none` when the assertion
on `LITCHR` fails, `some none` for NULL. -/
def LITDSN01_value (E : S57_ext) (F : GLib_ext) (mp : S52_MP) (geo : S57_geo) :
    Option (Option String) :=
  match LITDSN01_category E geo with
  | none => some none
  | some cat =>
    if (match S57_getAttVal geo "LITCHR" with
        | some s => decide (1 < (_parseList E.S52_atoi (some s)).1)
        | none => false) = true then none
    else
      some (some (cat ++ LITDSN01_character E geo ++ LITDSN01_group geo ++
        LITDSN01_colour E geo ++ LITDSN01_period geo ++ LITDSN01_height E F mp geo ++
        LITDSN01_range E F geo ++ LITDSN01_status E geo))

/-- The value of the flag `_extend_arc_radius` of the feature at `p`. -/
def extendFlag (st : S57_state) (p : Ptr) : Option String :=
  S57_getAttVal (st.obj p) "_extend_arc_radius"

/-- Three sector lights at one position with their light chain built by the index
pass: sweeps of 10, 30 and 90 degrees, each sector inside the next. -/
def stThreeSectors : S57_state :=
  indexedState decExt
    (mkState [sectorLight 1 "20" "30", sectorLight 2 "10" "40", sectorLight 3 "0" "90"])
    [0, 1, 2] [0, 1, 2]

/-- The instruction `LIGHTS05` returns for a feature record whose light-chain reference
is `touch`, when it returns: `none` is the failed assertion of `_LITDSN01`.  The flag
`_extend_arc_radius` and the sector loop have no part in it. -/
def LIGHTS05_value (E : S57_ext) (F : GLib_ext) (mp : S52_MP) (geo : S57_geo)
    (touch : Option Ptr) : Option String :=
  match LIGHTS05_catlit E geo with
  | .inl lights05 => some lights05
  | .inr v =>
    let lights05 := v.1
    let orientstr := v.2
    let catlit := listBuf E (S57_getAttVal geo "CATLIT")
    let colist :=
      match S57_getAttVal geo "COLOUR" with
      | some colourstr => (_parseList E.S52_atoi (some colourstr)).2
      | none => [12, 0]
    let sectr1str := S57_getAttVal geo "SECTR1"
    let sectr1 : ℚ := (sectr1str.map E.S52_atof).getD 0
    let sectr2str := S57_getAttVal geo "SECTR2"
    let sectr2 : ℚ := (sectr2str.map E.S52_atof).getD 0
    if sectr1str = none ∨ sectr2str = none then
      let flare_at_45 : Bool := touch.isSome && (_strpbrk colist [1, 5, 11]).isSome
      let lights05 :=
        if (_strpbrk catlit [1, 16]).isSome then
          match orientstr with
          | some o =>
            lights05 ++ _LIGHTS05_getSYcol colist ++ ("," ++ o ++ ")")
              ++ ";TE('%03.0lf deg','ORIENT',3,3,3,'15110',3,1,CHBLK,23)"
          | none => lights05 ++ ";SY(QUESMRK1)"
        else
          lights05 ++ _LIGHTS05_getSYcol colist ++ (if flare_at_45 = true then ", 45)" else ",135)")
      (LITDSN01_value E F mp geo).map (fun litdsn01 =>
        LIGHTS05_text lights05 litdsn01
          (if flare_at_45 = true then "',3,3,3,'15110',2,-1,CHBLK,23)"
            else "',3,2,3,'15110',2,0,CHBLK,23)"))
    else
      let sweep : ℚ :=
        if sectr1 > sectr2 then dadd (dsub sectr2 sectr1) 360 else dsub sectr2 sectr1
      if sweep < 1 ∨ sweep = 360 then
        (LITDSN01_value E F mp geo).map (fun litdsn01 =>
          LIGHTS05_text (lights05 ++ _LIGHTS05_getSYcol colist ++ ",135)") litdsn01
            "',3,2,3,'15110',2,0,CHBLK,23)")
      else some (LIGHTS05_arc E geo colist (lights05 ++ ";LS(DASH,1,CHBLK)"))

/-! ## C doubles: the rounding function -/

theorem pow2_eq (e : Int) : pow2 e = (2 : ℚ) ^ e := by
  unfold pow2
  split_ifs with h
  · obtain ⟨n, rfl⟩ := Int.eq_ofNat_of_zero_le h
    simp
  · obtain ⟨n, hn⟩ := Int.eq_ofNat_of_zero_le (by omega : 0 ≤ -e)
    have he : e = -(n : ℤ) := by omega
    subst he
    simp [zpow_neg]

theorem pow2_pos (e : Int) : 0 < pow2 e := by
  rw [pow2_eq]
  positivity

theorem pow2_add (a b : Int) : pow2 (a + b) = pow2 a * pow2 b := by
  simp only [pow2_eq]
  exact zpow_add₀ (by norm_num) a b

theorem pow2_le {a b : Int} (h : a ≤ b) : pow2 a ≤ pow2 b := by
  simp only [pow2_eq]
  exact zpow_le_zpow_right₀ (by norm_num) h

theorem pow2_lt_iff {a b : Int} : pow2 a < pow2 b ↔ a < b := by
  simp only [pow2_eq]
  exact zpow_lt_zpow_iff_right₀ (by norm_num)

theorem pow2_natCast (n : Nat) : pow2 (n : Int) = ((2 ^ n : Nat) : ℚ) := by
  rw [pow2_eq]
  simp

theorem log2Fuel_spec : ∀ (fuel n : Nat), n ≤ fuel → n ≠ 0 →
    2 ^ log2Fuel fuel n ≤ n ∧ n < 2 ^ (log2Fuel fuel n + 1)
  | 0, n, h, h0 => by omega
  | fuel + 1, n, h, h0 => by
    unfold log2Fuel
    split_ifs with h2
    · obtain ⟨a, b⟩ := log2Fuel_spec fuel (n / 2) (by omega) (by omega)
      have e1 : 2 ^ (log2Fuel fuel (n / 2) + 1) = 2 ^ log2Fuel fuel (n / 2) * 2 := pow_succ _ _
      have e2 : 2 ^ (log2Fuel fuel (n / 2) + 1 + 1) = 2 ^ log2Fuel fuel (n / 2) * 2 * 2 := by
        rw [pow_succ, pow_succ]
      rw [e1] at b
      rw [e1, e2]
      generalize 2 ^ log2Fuel fuel (n / 2) = x at a b ⊢
      omega
    · simp
      omega

theorem ilog2_spec (n : Nat) (h : n ≠ 0) : 2 ^ ilog2 n ≤ n ∧ n < 2 ^ (ilog2 n + 1) :=
  log2Fuel_spec n n (le_refl n) h

theorem abs_eq_natAbs_div (q : ℚ) : |q| = (q.num.natAbs : ℚ) / (q.den : ℚ) := by
  conv_lhs => rw [← Rat.num_div_den q]
  rw [abs_div, Nat.abs_cast, Nat.cast_natAbs, Int.cast_abs]

/-- The binary exponent brackets the value: `2^e ≤ |q| < 2^(e+1)`. -/
theorem binade_spec (q : ℚ) (hq : q ≠ 0) :
    pow2 (binade q) ≤ |q| ∧ |q| < pow2 (binade q + 1) := by
  have hn : q.num.natAbs ≠ 0 := by
    simpa using hq
  have hd : q.den ≠ 0 := q.den_nz
  obtain ⟨n1, n2⟩ := ilog2_spec _ hn
  obtain ⟨d1, d2⟩ := ilog2_spec _ hd
  have hdpos : (0 : ℚ) < (q.den : ℚ) := by exact_mod_cast Nat.pos_of_ne_zero hd
  have n1' : ((2 ^ ilog2 q.num.natAbs : Nat) : ℚ) ≤ (q.num.natAbs : ℚ) := by exact_mod_cast n1
  have n2' : (q.num.natAbs : ℚ) < ((2 ^ (ilog2 q.num.natAbs + 1) : Nat) : ℚ) := by
    exact_mod_cast n2
  have d1' : ((2 ^ ilog2 q.den : Nat) : ℚ) ≤ (q.den : ℚ) := by exact_mod_cast d1
  have d2' : (q.den : ℚ) < ((2 ^ (ilog2 q.den + 1) : Nat) : ℚ) := by exact_mod_cast d2
  rw [← pow2_natCast] at n1' n2' d1' d2'
  have hab := abs_eq_natAbs_div q
  have key1 : |q| < pow2 ((ilog2 q.num.natAbs : Int) - (ilog2 q.den : Int) + 1) := by
    rw [hab, div_lt_iff₀ hdpos]
    have e : pow2 ((ilog2 q.num.natAbs : Int) - (ilog2 q.den : Int) + 1) * pow2 (ilog2 q.den : Int)
        = pow2 ((ilog2 q.num.natAbs + 1 : Nat) : Int) := by
      rw [← pow2_add]
      congr 1
      push_cast
      ring
    calc (q.num.natAbs : ℚ) < pow2 ((ilog2 q.num.natAbs + 1 : Nat) : Int) := n2'
      _ = pow2 ((ilog2 q.num.natAbs : Int) - (ilog2 q.den : Int) + 1) * pow2 (ilog2 q.den : Int) :=
          e.symm
      _ ≤ _ := by
          apply mul_le_mul_of_nonneg_left d1' (le_of_lt (pow2_pos _))
  have key2 : pow2 ((ilog2 q.num.natAbs : Int) - (ilog2 q.den : Int) - 1) ≤ |q| := by
    rw [hab, le_div_iff₀ hdpos]
    have e : pow2 ((ilog2 q.num.natAbs : Int) - (ilog2 q.den : Int) - 1)
          * pow2 ((ilog2 q.den + 1 : Nat) : Int)
        = pow2 (ilog2 q.num.natAbs : Int) := by
      rw [← pow2_add]
      congr 1
      push_cast
      ring
    calc pow2 ((ilog2 q.num.natAbs : Int) - (ilog2 q.den : Int) - 1) * (q.den : ℚ)
        ≤ pow2 ((ilog2 q.num.natAbs : Int) - (ilog2 q.den : Int) - 1)
          * pow2 ((ilog2 q.den + 1 : Nat) : Int) :=
          mul_le_mul_of_nonneg_left (le_of_lt d2') (le_of_lt (pow2_pos _))
      _ = pow2 (ilog2 q.num.natAbs : Int) := e
      _ ≤ _ := n1'
  unfold binade
  simp only []
  split_ifs with h
  · exact ⟨h, key1⟩
  · refine ⟨key2, ?_⟩
    rw [sub_add_cancel]
    exact lt_of_not_le h

theorem le_binade (q : ℚ) (hq : q ≠ 0) (E : Int) (h : pow2 E ≤ |q|) : E ≤ binade q := by
  have := (binade_spec q hq).2
  have : pow2 E < pow2 (binade q + 1) := lt_of_le_of_lt h this
  have := pow2_lt_iff.mp this
  omega

theorem binade_lt (q : ℚ) (hq : q ≠ 0) (E : Int) (h : |q| < pow2 E) : binade q < E := by
  have := (binade_spec q hq).1
  have : pow2 (binade q) < pow2 E := lt_of_le_of_lt this h
  exact pow2_lt_iff.mp this

theorem binade_neg (q : ℚ) : binade (-q) = binade q := by
  unfold binade
  simp

theorem ulp_neg (q : ℚ) : ulp (-q) = ulp q := by
  unfold ulp
  rw [binade_neg]

theorem ulp_pos (q : ℚ) : 0 < ulp q := pow2_pos _

theorem roundHalfEven_intCast (n : Int) : roundHalfEven (n : ℚ) = n := by
  unfold roundHalfEven
  simp

theorem roundHalfEven_mono {r s : ℚ} (h : r ≤ s) : roundHalfEven r ≤ roundHalfEven s := by
  have hfg : ⌊r⌋ ≤ ⌊s⌋ := Int.floor_mono h
  rcases lt_or_eq_of_le hfg with hlt | heq
  · unfold roundHalfEven
    split_ifs <;> omega
  · unfold roundHalfEven
    rw [← heq]
    split_ifs <;> first | omega | (exfalso; linarith)

theorem roundHalfEven_error (r : ℚ) : |(roundHalfEven r : ℚ) - r| ≤ 1 / 2 := by
  have h1 : (⌊r⌋ : ℚ) ≤ r := Int.floor_le r
  have h2 : r < (⌊r⌋ : ℚ) + 1 := Int.lt_floor_add_one r
  unfold roundHalfEven
  rw [abs_le]
  split_ifs <;> push_cast <;> constructor <;> linarith

theorem roundDouble_zero : roundDouble 0 = 0 := by
  unfold roundDouble
  simp [roundHalfEven]

theorem roundDouble_neg (q : ℚ) : roundDouble (-q) = -roundDouble q := by
  unfold roundDouble
  rw [ulp_neg]
  rcases lt_trichotomy q 0 with h | h | h
  · have h' : ¬ (-q < 0) := by linarith
    rw [if_neg h', if_pos h, neg_neg]
  · subst h
    simp [roundHalfEven]
  · have h' : -q < 0 := by linarith
    have h'' : ¬ q < 0 := by linarith
    rw [if_pos h', if_neg h'', neg_neg]

theorem roundDouble_of_nonneg {q : ℚ} (h : 0 ≤ q) :
    roundDouble q = (roundHalfEven (q / ulp q) : ℚ) * ulp q := by
  unfold roundDouble
  rw [if_neg (not_lt.mpr h)]

theorem roundDouble_nonneg {q : ℚ} (h : 0 ≤ q) : 0 ≤ roundDouble q := by
  rw [roundDouble_of_nonneg h]
  apply mul_nonneg _ (le_of_lt (ulp_pos q))
  have : roundHalfEven (0 : ℚ) ≤ roundHalfEven (q / ulp q) :=
    roundHalfEven_mono (div_nonneg h (le_of_lt (ulp_pos q)))
  have h0 : roundHalfEven (0 : ℚ) = 0 := by
    have := roundHalfEven_intCast 0
    simpa using this
  rw [h0] at this
  exact_mod_cast this

theorem ulp_eq (q : ℚ) : ulp q = pow2 (max (binade q) (-1022) - 52) := rfl

theorem pow2_53_mul (c : Int) : ((2 ^ 53 : ℤ) : ℚ) * pow2 (c - 52) = pow2 (c + 1) := by
  have h : ((2 ^ 53 : ℤ) : ℚ) = pow2 53 := by
    rw [pow2_eq]
    norm_num
  rw [h, ← pow2_add]
  congr 1
  ring

theorem pow2_52_mul (c : Int) : ((2 ^ 52 : ℤ) : ℚ) * pow2 (c - 52) = pow2 c := by
  have h : ((2 ^ 52 : ℤ) : ℚ) = pow2 52 := by
    rw [pow2_eq]
    norm_num
  rw [h, ← pow2_add]
  congr 1
  ring

/-- The significand of a rounded positive number has at most 53 bits. -/
theorem significand_le {q : ℚ} (hq : 0 < q) : roundHalfEven (q / ulp q) ≤ 2 ^ 53 := by
  have hb := (binade_spec q hq.ne').2
  rw [abs_of_pos hq] at hb
  have h1 : q / ulp q ≤ ((2 ^ 53 : ℤ) : ℚ) := by
    rw [div_le_iff₀ (ulp_pos q), ulp_eq, pow2_53_mul]
    exact le_of_lt (lt_of_lt_of_le hb (pow2_le (by
      have := le_max_left (binade q) (-1022)
      omega)))
  have h2 := roundHalfEven_mono h1
  rw [roundHalfEven_intCast] at h2
  exact h2

theorem significand_nonneg {q : ℚ} (hq : 0 ≤ q) : 0 ≤ roundHalfEven (q / ulp q) := by
  have h := roundHalfEven_mono (div_nonneg hq (le_of_lt (ulp_pos q)))
  have h0 : roundHalfEven (0 : ℚ) = 0 := by
    have := roundHalfEven_intCast 0
    simpa using this
  rw [h0] at h
  exact h

theorem roundDouble_le_top {q : ℚ} (hq : 0 < q) :
    roundDouble q ≤ pow2 (max (binade q) (-1022) + 1) := by
  rw [roundDouble_of_nonneg hq.le, ← pow2_53_mul, ← ulp_eq]
  apply mul_le_mul_of_nonneg_right _ (ulp_pos q).le
  exact_mod_cast significand_le hq

theorem roundDouble_ge_bot {q : ℚ} (hq : 0 < q) (hn : -1022 ≤ binade q) :
    pow2 (binade q) ≤ roundDouble q := by
  have hb := (binade_spec q hq.ne').1
  rw [abs_of_pos hq] at hb
  have hu : ulp q = pow2 (binade q - 52) := by
    rw [ulp_eq, max_eq_left hn]
  have h1 : ((2 ^ 52 : ℤ) : ℚ) ≤ q / ulp q := by
    rw [le_div_iff₀ (ulp_pos q), hu, pow2_52_mul]
    exact hb
  have h2 := roundHalfEven_mono h1
  rw [roundHalfEven_intCast] at h2
  rw [roundDouble_of_nonneg hq.le]
  calc pow2 (binade q) = ((2 ^ 52 : ℤ) : ℚ) * ulp q := by rw [hu, pow2_52_mul]
    _ ≤ _ := by
      apply mul_le_mul_of_nonneg_right _ (ulp_pos q).le
      exact_mod_cast h2

theorem roundDouble_mono_pos {a b : ℚ} (ha : 0 < a) (hab : a ≤ b) :
    roundDouble a ≤ roundDouble b := by
  have hb : 0 < b := lt_of_lt_of_le ha hab
  have hbin : binade a ≤ binade b := by
    apply le_binade b hb.ne'
    rw [abs_of_pos hb]
    have := (binade_spec a ha.ne').1
    rw [abs_of_pos ha] at this
    linarith
  by_cases hc : max (binade a) (-1022) = max (binade b) (-1022)
  · have hu : ulp a = ulp b := by rw [ulp_eq, ulp_eq, hc]
    rw [roundDouble_of_nonneg ha.le, roundDouble_of_nonneg hb.le, hu]
    apply mul_le_mul_of_nonneg_right _ (ulp_pos b).le
    have := roundHalfEven_mono (div_le_div_of_nonneg_right hab (ulp_pos b).le)
    exact_mod_cast this
  · have hlt : max (binade a) (-1022) < max (binade b) (-1022) :=
      lt_of_le_of_ne (max_le_max hbin (le_refl _)) hc
    have hbb : max (binade a) (-1022) < binade b := by
      rcases le_total (binade b) (-1022) with h | h
      · rw [max_eq_right h] at hlt
        have := le_max_right (binade a) (-1022)
        omega
      · rw [max_eq_left h] at hlt
        exact hlt
    have hn : -1022 ≤ binade b := by
      have := le_max_right (binade a) (-1022)
      omega
    calc roundDouble a ≤ pow2 (max (binade a) (-1022) + 1) := roundDouble_le_top ha
      _ ≤ pow2 (binade b) := pow2_le (by omega)
      _ ≤ roundDouble b := roundDouble_ge_bot hb hn

/-- Rounding to the nearest double is monotone. -/
theorem roundDouble_mono {a b : ℚ} (h : a ≤ b) : roundDouble a ≤ roundDouble b := by
  rcases lt_or_le 0 a with ha | ha
  · exact roundDouble_mono_pos ha h
  · rcases le_or_lt 0 b with hb | hb
    · have h1 : roundDouble a ≤ 0 := by
        have := roundDouble_nonneg (neg_nonneg.mpr ha)
        rw [roundDouble_neg] at this
        linarith
      exact le_trans h1 (roundDouble_nonneg hb)
    · have := roundDouble_mono_pos (neg_pos.mpr hb) (neg_le_neg h)
      rw [roundDouble_neg, roundDouble_neg] at this
      linarith

theorem roundDouble_exact_pos (m : ℤ) (t : ℤ) (h0 : 0 < m) (hm : m < 2 ^ 53)
    (ht : -1074 ≤ t) : roundDouble (m * pow2 t) = m * pow2 t := by
  have hx : (0 : ℚ) < m * pow2 t := mul_pos (by exact_mod_cast h0) (pow2_pos t)
  have hlt : |(m : ℚ) * pow2 t| < pow2 (t + 53) := by
    rw [abs_of_pos hx, add_comm, pow2_add]
    apply mul_lt_mul_of_pos_right _ (pow2_pos t)
    have : pow2 53 = ((2 ^ 53 : ℤ) : ℚ) := by
      rw [pow2_eq]
      norm_num
    rw [this]
    exact_mod_cast hm
  have hb := binade_lt _ hx.ne' _ hlt
  have hc : max (binade ((m : ℚ) * pow2 t)) (-1022) - 52 ≤ t := by
    rcases le_total (binade ((m : ℚ) * pow2 t)) (-1022) with h | h
    · rw [max_eq_right h]
      omega
    · rw [max_eq_left h]
      omega
  obtain ⟨k, hk⟩ := Int.eq_ofNat_of_zero_le (sub_nonneg.mpr hc)
  have hu : pow2 t = ((2 ^ k : ℕ) : ℚ) * ulp ((m : ℚ) * pow2 t) := by
    rw [ulp_eq, ← pow2_natCast, ← hk, ← pow2_add]
    congr 1
    ring
  have hdiv : (m : ℚ) * pow2 t / ulp ((m : ℚ) * pow2 t) = ((m * (2 ^ k : ℕ) : ℤ) : ℚ) := by
    rw [div_eq_iff (ulp_pos _).ne']
    conv_lhs => rw [hu]
    push_cast
    ring
  rw [roundDouble_of_nonneg hx.le, hdiv, roundHalfEven_intCast]
  conv_rhs => rw [hu]
  push_cast
  ring

/-- A significand of at most 53 bits with an exponent in range is not rounded. -/
theorem roundDouble_exact (m : ℤ) (t : ℤ) (hm : |m| < 2 ^ 53) (ht : -1074 ≤ t) :
    roundDouble (m * pow2 t) = m * pow2 t := by
  rcases lt_trichotomy m 0 with h | h | h
  · have := roundDouble_exact_pos (-m) t (by omega) (by
      have := abs_of_neg h
      omega) ht
    push_cast at this
    rw [neg_mul, roundDouble_neg] at this
    linarith
  · subst h
    simp [roundDouble_zero]
  · exact roundDouble_exact_pos m t h (by
      have := abs_of_pos h
      omega) ht

theorem roundDouble_intCast (n : ℤ) (hn : |n| < 2 ^ 53) : roundDouble (n : ℚ) = n := by
  have := roundDouble_exact n 0 hn (by norm_num)
  have h1 : pow2 0 = 1 := by
    rw [pow2_eq]
    simp
  rw [h1, mul_one] at this
  exact this

theorem roundDouble_idem_pos {q : ℚ} (hq : 0 < q) : roundDouble (roundDouble q) = roundDouble q := by
  have h1 := significand_le hq
  have h0 := significand_nonneg hq.le
  have hc : -1074 ≤ max (binade q) (-1022) - 52 := by
    have := le_max_right (binade q) (-1022)
    omega
  rw [roundDouble_of_nonneg hq.le]
  generalize roundHalfEven (q / ulp q) = K at h0 h1 ⊢
  rw [ulp_eq]
  rcases lt_or_eq_of_le h1 with hlt | heq
  · exact roundDouble_exact _ _ (by
      rw [abs_of_nonneg h0]
      exact hlt) hc
  · rw [heq, pow2_53_mul]
    have := roundDouble_exact 1 (max (binade q) (-1022) + 1) (by norm_num) (by omega)
    simpa using this

/-- A rounded value is a double. -/
theorem roundDouble_idem (q : ℚ) : roundDouble (roundDouble q) = roundDouble q := by
  rcases lt_trichotomy q 0 with h | h | h
  · have := roundDouble_idem_pos (neg_pos.mpr h)
    rw [roundDouble_neg, roundDouble_neg] at this
    linarith
  · subst h
    rw [roundDouble_zero, roundDouble_zero]
  · exact roundDouble_idem_pos h

theorem isDouble_roundDouble (q : ℚ) : isDouble (roundDouble q) := roundDouble_idem q

theorem isDouble_intCast (n : ℤ) (hn : |n| < 2 ^ 53) : isDouble (n : ℚ) :=
  roundDouble_intCast n hn

theorem isDouble_neg {q : ℚ} (h : isDouble q) : isDouble (-q) := by
  unfold isDouble at *
  rw [roundDouble_neg, h]

/-- A double of magnitude at least `2^E` is a multiple of `2^(E-52)`. -/
theorem isDouble_grid {x : ℚ} (hx : isDouble x) (E : ℤ) (hE : pow2 E ≤ |x|) :
    ∃ k : ℤ, x = k * pow2 (E - 52) := by
  have hpos : ∀ y : ℚ, isDouble y → 0 < y → pow2 E ≤ y → ∃ k : ℤ, y = k * pow2 (E - 52) := by
    intro y hy h0 hEy
    have hb : E ≤ binade y := le_binade y h0.ne' E (by rw [abs_of_pos h0]; exact hEy)
    have hc : E ≤ max (binade y) (-1022) := le_trans hb (le_max_left _ _)
    obtain ⟨n, hn⟩ := Int.eq_ofNat_of_zero_le (sub_nonneg.mpr hc)
    have hu : ulp y = ((2 ^ n : ℕ) : ℚ) * pow2 (E - 52) := by
      rw [ulp_eq, ← pow2_natCast, ← hn, ← pow2_add]
      congr 1
      ring
    have := roundDouble_of_nonneg h0.le
    unfold isDouble at hy
    rw [hy] at this
    generalize roundHalfEven (y / ulp y) = K at this
    rw [hu] at this
    refine ⟨K * (2 ^ n : ℕ), ?_⟩
    rw [this]
    push_cast
    ring
  have hx0 : x ≠ 0 := by
    intro h
    rw [h, abs_zero] at hE
    have := pow2_pos E
    linarith
  rcases lt_or_gt_of_ne hx0 with h | h
  · obtain ⟨k, hk⟩ := hpos (-x) (isDouble_neg hx) (neg_pos.mpr h) (by
      rw [abs_of_neg h] at hE
      exact hE)
    refine ⟨-k, ?_⟩
    push_cast
    linarith
  · exact hpos x hx h (by rw [abs_of_pos h] at hE; exact hE)

/-- The sum of doubles is monotone in both arguments. -/
theorem dadd_mono {a a' b b' : ℚ} (ha : a ≤ a') (hb : b ≤ b') : dadd a b ≤ dadd a' b' :=
  roundDouble_mono (add_le_add ha hb)

/-- The difference of doubles is monotone in the first and antitone in the second
argument. -/
theorem dsub_mono {a a' b b' : ℚ} (ha : a ≤ a') (hb : b' ≤ b) : dsub a b ≤ dsub a' b' :=
  roundDouble_mono (sub_le_sub ha hb)

/-- A sum that is a double is not rounded. -/
theorem dadd_exact {a b c : ℚ} (hc : isDouble c) (h : a + b = c) : dadd a b = c := by
  unfold dadd
  rw [h]
  exact hc

/-- The rounding error is at most half the distance of two neighbouring doubles. -/
theorem roundDouble_error (q : ℚ) : |roundDouble q - q| ≤ ulp q / 2 := by
  have hpos : ∀ y : ℚ, 0 ≤ y → |roundDouble y - y| ≤ ulp y / 2 := by
    intro y hy
    have h := roundHalfEven_error (y / ulp y)
    rw [roundDouble_of_nonneg hy]
    have e : (roundHalfEven (y / ulp y) : ℚ) * ulp y - y
        = ((roundHalfEven (y / ulp y) : ℚ) - y / ulp y) * ulp y := by
      field_simp [(ulp_pos y).ne']
    rw [e, abs_mul, abs_of_pos (ulp_pos y)]
    calc _ ≤ 1 / 2 * ulp y := mul_le_mul_of_nonneg_right h (ulp_pos y).le
      _ = ulp y / 2 := by ring
  rcases le_or_lt 0 q with h | h
  · exact hpos q h
  · have := hpos (-q) (by linarith)
    rw [roundDouble_neg, ulp_neg] at this
    rw [← abs_neg]
    have e : -(roundDouble q - q) = -roundDouble q - -q := by ring
    rw [e]
    exact this

/-! ## Lemmas on `_SEABED01` -/

theorem fillColour_append (a b : String) (h : a.length = 10) : fillColour (a ++ b) = a := by
  unfold fillColour
  have h1 : (a ++ b).data = a.data ++ b.data := String.data_append a b
  have h2 : a.data.length = 10 := h
  rw [h1, List.take_left' h2]

theorem arecol_cases (mp : S52_MP) (d1 d2 : ℚ) :
    (_SEABED01_locals mp d1 d2).1 = ";AC(DEPIT)" ∨ (_SEABED01_locals mp d1 d2).1 = ";AC(DEPVS)" ∨
    (_SEABED01_locals mp d1 d2).1 = ";AC(DEPMS)" ∨ (_SEABED01_locals mp d1 d2).1 = ";AC(DEPMD)" ∨
    (_SEABED01_locals mp d1 d2).1 = ";AC(DEPDW)" := by
  unfold _SEABED01_locals
  simp only []
  split_ifs <;> simp

theorem arecol_length (mp : S52_MP) (d1 d2 : ℚ) : (_SEABED01_locals mp d1 d2).1.length = 10 := by
  rcases arecol_cases mp d1 d2 with h | h | h | h | h <;> rw [h] <;> rfl

theorem SEABED01_eq (mp : S52_MP) (d1 d2 : ℚ) :
    _SEABED01 mp d1 d2 = (_SEABED01_locals mp d1 d2).1 ++
      (if isTRUE (mp .S52_MAR_SHALLOW_PATTERN) = true ∧ (_SEABED01_locals mp d1 d2).2 = true
        then ";AP(DIAMOND1)" else "") := by
  unfold _SEABED01
  split_ifs <;> simp_all

theorem fillColour_SEABED01 (mp : S52_MP) (d1 d2 : ℚ) :
    fillColour (_SEABED01 mp d1 d2) = (_SEABED01_locals mp d1 d2).1 := by
  rw [SEABED01_eq]; exact fillColour_append _ _ (arecol_length mp d1 d2)

/-- `DEPARE01` returns the instruction of `_SEABED01` for the two adjusted depths,
followed for a dredged area by its pattern, boundary and restriction symbol. -/
theorem DEPARE01_eq (E : S57_ext) (mp : S52_MP) (geo : S57_geo) :
    ∃ rest : String,
      DEPARE01 E mp geo =
        _SEABED01 mp (DEPARE01_drval1 E mp geo) (DEPARE01_drval2 E mp geo) ++ rest ∧
      (geo.name ≠ "DRGARE" → rest = "") := by
  unfold DEPARE01 DEPARE01_drval1 DEPARE01_drval2
  simp only []
  by_cases hn : geo.name = "DRGARE"
  · rw [if_pos hn]
    cases h3 : S57_getAttVal geo "RESTRN" with
    | none =>
      simp only [String.append_assoc]
      exact ⟨_, rfl, fun h => absurd hn h⟩
    | some r =>
      simp only []
      cases _RESCSP01 E r <;> simp only [String.append_assoc] <;>
        exact ⟨_, rfl, fun h => absurd hn h⟩
  · rw [if_neg hn]
    exact ⟨"", by simp, fun _ => rfl⟩

theorem fillColour_DEPARE01 (E : S57_ext) (mp : S52_MP) (geo : S57_geo) :
    fillColour (DEPARE01 E mp geo) =
      (_SEABED01_locals mp (DEPARE01_drval1 E mp geo) (DEPARE01_drval2 E mp geo)).1 := by
  obtain ⟨rest, h, _⟩ := DEPARE01_eq E mp geo
  rw [h, SEABED01_eq, String.append_assoc]
  exact fillColour_append _ _ (arecol_length mp _ _)

/-- Rank of the colour chosen by `_SEABED01`, read off its tests. -/
theorem bandRank_locals (mp : S52_MP) (d1 d2 : ℚ) :
    bandRank (_SEABED01_locals mp d1 d2).1 = some
      (if isTRUE (mp .S52_MAR_TWO_SHADES) = true then
        (if d1 ≥ mp .S52_MAR_SAFETY_CONTOUR ∧ d2 > mp .S52_MAR_SAFETY_CONTOUR then 4
         else if d1 ≥ 0 ∧ d2 > 0 then 1 else 0)
       else
        (if d1 ≥ mp .S52_MAR_DEEP_CONTOUR ∧ d2 > mp .S52_MAR_DEEP_CONTOUR then 4
         else if d1 ≥ mp .S52_MAR_SAFETY_CONTOUR ∧ d2 > mp .S52_MAR_SAFETY_CONTOUR then 3
         else if d1 ≥ mp .S52_MAR_SHALLOW_CONTOUR ∧ d2 > mp .S52_MAR_SHALLOW_CONTOUR then 2
         else if d1 ≥ 0 ∧ d2 > 0 then 1 else 0)) := by
  unfold _SEABED01_locals
  simp only []
  split_ifs <;> rfl

theorem depth_test_mono (t d1 d2 d1' d2' : ℚ) (h1 : d1 ≤ d1') (h2 : d2 ≤ d2')
    (h : d1 ≥ t ∧ d2 > t) : d1' ≥ t ∧ d2' > t :=
  ⟨le_trans h.1 h1, lt_of_lt_of_le h.2 h2⟩

/-- The band chosen by `_SEABED01` is monotone in both depths. -/
theorem SEABED01_band_mono (mp : S52_MP) (d1 d2 d1' d2' : ℚ) (h1 : d1 ≤ d1') (h2 : d2 ≤ d2') :
    ∃ r r', bandRank (_SEABED01_locals mp d1 d2).1 = some r ∧
      bandRank (_SEABED01_locals mp d1' d2').1 = some r' ∧ r ≤ r' := by
  refine ⟨_, _, bandRank_locals mp d1 d2, bandRank_locals mp d1' d2', ?_⟩
  have m := fun t => depth_test_mono t d1 d2 d1' d2' h1 h2
  split_ifs <;> first | (simp; done) | (exfalso; exact absurd (m _ ‹_›) ‹_›)

/-! ## Depth-area shading -/

/-- C1: depth-area band monotonicity.  For fixed mariner parameters, two depth areas
with the same `DRVAL2` attribute (equal, or absent in both) and `DRVAL1 ≤ DRVAL1'`:
the fill colour of `DEPARE01` for the deeper one is never a shallower band, in the
order `DEPIT < DEPVS < DEPMS < DEPMD < DEPDW`. -/
theorem DEPARE01_band_monotone (E : S57_ext) (mp : S52_MP) (geo geo' : S57_geo) (v v' : String)
    (h1 : S57_getAttVal geo "DRVAL1" = some v) (h1' : S57_getAttVal geo' "DRVAL1" = some v')
    (h2 : S57_getAttVal geo "DRVAL2" = S57_getAttVal geo' "DRVAL2")
    (hle : E.S52_atof v ≤ E.S52_atof v') :
    ∃ r r', bandRank (fillColour (DEPARE01 E mp geo)) = some r ∧
      bandRank (fillColour (DEPARE01 E mp geo')) = some r' ∧ r ≤ r' := by
  rw [fillColour_DEPARE01, fillColour_DEPARE01]
  apply SEABED01_band_mono
  · simp only [DEPARE01_drval1, h1, h1']
    exact dadd_mono hle (le_refl _)
  · simp only [DEPARE01_drval2, h1, h1', ← h2]
    cases S57_getAttVal geo "DRVAL2" with
    | none => exact dadd_mono (dadd_mono hle (le_refl _)) (le_refl _)
    | some s => exact le_refl _

theorem DEPARE01_band_monotone_witness :
    decExt.S52_atof "5" ≤ decExt.S52_atof "12" ∧
    ∃ r r', bandRank (fillColour (DEPARE01 decExt mpScenario depare_5_20)) = some r ∧
      bandRank (fillColour (DEPARE01 decExt mpScenario depare_12_20)) = some r' ∧ r ≤ r' :=
  ⟨by decide!, DEPARE01_band_monotone decExt mpScenario depare_5_20 depare_12_20 "5" "12"
    (by decide!) (by decide!) (by decide!) (by decide!)⟩

theorem fillColour_four_shades (mp : S52_MP) (hoff : isTRUE (mp .S52_MAR_TWO_SHADES) = false)
    (d1 d2 : ℚ) : fillColour (_SEABED01 mp d1 d2) =
      if d1 ≥ mp .S52_MAR_DEEP_CONTOUR ∧ d2 > mp .S52_MAR_DEEP_CONTOUR then ";AC(DEPDW)"
      else if d1 ≥ mp .S52_MAR_SAFETY_CONTOUR ∧ d2 > mp .S52_MAR_SAFETY_CONTOUR then ";AC(DEPMD)"
      else if d1 ≥ mp .S52_MAR_SHALLOW_CONTOUR ∧ d2 > mp .S52_MAR_SHALLOW_CONTOUR then ";AC(DEPMS)"
      else if d1 ≥ 0 ∧ d2 > 0 then ";AC(DEPVS)"
      else ";AC(DEPIT)" := by
  rw [fillColour_SEABED01]
  unfold _SEABED01_locals
  simp only [hoff]
  split_ifs <;> first | rfl | (exfalso; simp at *)


/-- C2: four-shade band selection.  With two-shade mode off, `_SEABED01` returns the
colour `DEPDW` if `d1 ≥ deep` and `d2 > deep`; else `DEPMD` if `d1 ≥ safety` and
`d2 > safety`; else `DEPMS` if `d1 ≥ shallow` and `d2 > shallow`; else `DEPVS` if
`d1 ≥ 0` and `d2 > 0`; else `DEPIT` (for every threshold setting, ordered or not);
and `DEPARE01` calls it with `d1 = DRVAL1 + offset` (`DRVAL1` defaulting to `-1.0`)
and `d2 = DRVAL2 + offset` (`DRVAL2` defaulting to `DRVAL1 + 0.01`), the sums of
doubles `DEPARE01_drval1` and `DEPARE01_drval2`. -/
theorem SEABED01_four_shades (E : S57_ext) (mp : S52_MP)
    (hoff : isTRUE (mp .S52_MAR_TWO_SHADES) = false) :
    (∀ d1 d2 : ℚ, fillColour (_SEABED01 mp d1 d2) =
      if d1 ≥ mp .S52_MAR_DEEP_CONTOUR ∧ d2 > mp .S52_MAR_DEEP_CONTOUR then ";AC(DEPDW)"
      else if d1 ≥ mp .S52_MAR_SAFETY_CONTOUR ∧ d2 > mp .S52_MAR_SAFETY_CONTOUR then ";AC(DEPMD)"
      else if d1 ≥ mp .S52_MAR_SHALLOW_CONTOUR ∧ d2 > mp .S52_MAR_SHALLOW_CONTOUR then ";AC(DEPMS)"
      else if d1 ≥ 0 ∧ d2 > 0 then ";AC(DEPVS)"
      else ";AC(DEPIT)") ∧
    (∀ geo : S57_geo, ∃ rest : String,
      DEPARE01 E mp geo =
        _SEABED01 mp (DEPARE01_drval1 E mp geo) (DEPARE01_drval2 E mp geo) ++ rest ∧
      (geo.name ≠ "DRGARE" → rest = "")) := by
  constructor
  · exact fillColour_four_shades mp hoff
  · intro geo
    exact DEPARE01_eq E mp geo

theorem SEABED01_four_shades_witness :
    (isTRUE (mpScenario .S52_MAR_TWO_SHADES) = false ∧ depare_12_20.name ≠ "DRGARE") ∧
    fillColour (_SEABED01 mpScenario 12 20) = ";AC(DEPMD)" ∧
    DEPARE01 decExt mpScenario depare_12_20 = _SEABED01 mpScenario 12 20 :=
  ⟨by decide!, by
    rw [(SEABED01_four_shades decExt mpScenario (by decide!)).1 12 20]
    decide!, by
    obtain ⟨rest, h1, h2⟩ := (SEABED01_four_shades decExt mpScenario (by decide!)).2 depare_12_20
    rw [h1, h2 (by decide!)]
    decide!⟩

/-- C3 (as stated) fails: with shallow contour 5, safety contour 10, deep contour 30,
four shades and the shallow-pattern flag set, the depths `5` and `8` give the band
`DEPMS` and the pattern `;AP(DIAMOND1)` is appended, although the colour is neither
`DEPIT` nor `DEPVS`. -/
theorem SEABED01_pattern_counterexample :
    _SEABED01 mpPattern 5 8 = ";AC(DEPMS);AP(DIAMOND1)" ∧
    ¬ (patternAppended (_SEABED01 mpPattern 5 8) ↔
        (isTRUE (mpPattern .S52_MAR_SHALLOW_PATTERN) = true ∧
          (fillColour (_SEABED01 mpPattern 5 8) = ";AC(DEPIT)" ∨
           fillColour (_SEABED01 mpPattern 5 8) = ";AC(DEPVS)"))) := by
  decide!

theorem patternAppended_iff (mp : S52_MP) (d1 d2 : ℚ) :
    patternAppended (_SEABED01 mp d1 d2) ↔
      (isTRUE (mp .S52_MAR_SHALLOW_PATTERN) = true ∧ (_SEABED01_locals mp d1 d2).2 = true) := by
  unfold patternAppended
  rw [fillColour_SEABED01, SEABED01_eq]
  split_ifs with h
  · simp [h]
  · constructor
    · intro he
      exfalso
      have := congrArg String.length he
      simp at this
      have h13 : ";AP(DIAMOND1)".length = 13 := by decide
      omega
    · intro h'; exact absurd h' h

theorem shallow_iff (mp : S52_MP) (d1 d2 : ℚ) :
    (_SEABED01_locals mp d1 d2).2 = true ↔
      ((_SEABED01_locals mp d1 d2).1 = ";AC(DEPIT)" ∨ (_SEABED01_locals mp d1 d2).1 = ";AC(DEPVS)" ∨
       (_SEABED01_locals mp d1 d2).1 = ";AC(DEPMS)") := by
  unfold _SEABED01_locals
  simp only []
  split_ifs <;> simp

/-- C3 (amended): `_SEABED01` appends `;AP(DIAMOND1)` if and only if the
shallow-pattern flag is set and the chosen band is shallower than the safety contour
(colour `DEPIT`, `DEPVS` or `DEPMS`), and returns the bare colour otherwise; with
safety contour 10, shallow contour 5, a deep contour above 5 and two shades off, the
depths `5` and `8` get the band `DEPMS`, with the pattern exactly when the flag is set. -/
theorem SEABED01_pattern (mp : S52_MP) :
    (∀ d1 d2 : ℚ,
      (patternAppended (_SEABED01 mp d1 d2) ↔
        (isTRUE (mp .S52_MAR_SHALLOW_PATTERN) = true ∧
          (fillColour (_SEABED01 mp d1 d2) = ";AC(DEPIT)" ∨
           fillColour (_SEABED01 mp d1 d2) = ";AC(DEPVS)" ∨
           fillColour (_SEABED01 mp d1 d2) = ";AC(DEPMS)"))) ∧
      (¬ patternAppended (_SEABED01 mp d1 d2) →
        _SEABED01 mp d1 d2 = fillColour (_SEABED01 mp d1 d2))) ∧
    (isTRUE (mp .S52_MAR_TWO_SHADES) = false → mp .S52_MAR_SAFETY_CONTOUR = 10 →
      mp .S52_MAR_SHALLOW_CONTOUR = 5 → 5 < mp .S52_MAR_DEEP_CONTOUR →
      fillColour (_SEABED01 mp 5 8) = ";AC(DEPMS)" ∧
      (patternAppended (_SEABED01 mp 5 8) ↔ isTRUE (mp .S52_MAR_SHALLOW_PATTERN) = true)) := by
  have key : ∀ d1 d2 : ℚ, (patternAppended (_SEABED01 mp d1 d2) ↔
        (isTRUE (mp .S52_MAR_SHALLOW_PATTERN) = true ∧
          (fillColour (_SEABED01 mp d1 d2) = ";AC(DEPIT)" ∨
           fillColour (_SEABED01 mp d1 d2) = ";AC(DEPVS)" ∨
           fillColour (_SEABED01 mp d1 d2) = ";AC(DEPMS)"))) := by
    intro d1 d2
    rw [patternAppended_iff, fillColour_SEABED01, shallow_iff]
  refine ⟨fun d1 d2 => ⟨key d1 d2, ?_⟩, ?_⟩
  · intro hn
    rw [patternAppended_iff] at hn
    rw [fillColour_SEABED01, SEABED01_eq, if_neg hn]
    simp
  · intro h2 hs hsh hd
    have hc : fillColour (_SEABED01 mp 5 8) = ";AC(DEPMS)" := by
      rw [fillColour_four_shades mp h2 5 8, hs, hsh]
      have hd' : ¬ ((5 : ℚ) ≥ mp .S52_MAR_DEEP_CONTOUR ∧ (8 : ℚ) > mp .S52_MAR_DEEP_CONTOUR) :=
        fun h => absurd h.1 (not_le.mpr hd)
      rw [if_neg hd']
      norm_num
    refine ⟨hc, ?_⟩
    rw [key, hc]
    simp

theorem SEABED01_pattern_witness :
    (isTRUE (mpPattern .S52_MAR_TWO_SHADES) = false ∧ mpPattern .S52_MAR_SAFETY_CONTOUR = 10 ∧
      mpPattern .S52_MAR_SHALLOW_CONTOUR = 5 ∧ 5 < mpPattern .S52_MAR_DEEP_CONTOUR ∧
      ¬ patternAppended (_SEABED01 mpScenario 5 8)) ∧
    (fillColour (_SEABED01 mpPattern 5 8) = ";AC(DEPMS)" ∧
      (patternAppended (_SEABED01 mpPattern 5 8) ↔
        isTRUE (mpPattern .S52_MAR_SHALLOW_PATTERN) = true)) ∧
    _SEABED01 mpScenario 5 8 = fillColour (_SEABED01 mpScenario 5 8) :=
  ⟨by decide!,
   (SEABED01_pattern mpPattern).2 (by decide!) (by decide!) (by decide!) (by decide!),
   ((SEABED01_pattern mpScenario).1 5 8).2 (by decide!)⟩

/-- C4: two-shade mode collapses to two bands.  When the two-shade flag is set, for
every depth pair with `d1 ≥ 0` and `d2 > 0` the colour of `_SEABED01` is `DEPDW` if
`d1 ≥ safety contour` and `d2 > safety contour` and `DEPVS` otherwise; for every depth
pair it is never `DEPMS` or `DEPMD`; and the returned instruction is the same for any
other values of the shallow-contour and deep-contour parameters. -/
theorem SEABED01_two_shades (mp : S52_MP) (hon : isTRUE (mp .S52_MAR_TWO_SHADES) = true)
    (d1 d2 : ℚ) :
    (d1 ≥ 0 → d2 > 0 →
      fillColour (_SEABED01 mp d1 d2) =
        if d1 ≥ mp .S52_MAR_SAFETY_CONTOUR ∧ d2 > mp .S52_MAR_SAFETY_CONTOUR then ";AC(DEPDW)"
        else ";AC(DEPVS)") ∧
    fillColour (_SEABED01 mp d1 d2) ≠ ";AC(DEPMS)" ∧
    fillColour (_SEABED01 mp d1 d2) ≠ ";AC(DEPMD)" ∧
    (∀ mp' : S52_MP,
      (∀ p, p ≠ .S52_MAR_SHALLOW_CONTOUR → p ≠ .S52_MAR_DEEP_CONTOUR → mp' p = mp p) →
      _SEABED01 mp' d1 d2 = _SEABED01 mp d1 d2) := by
  have hloc : ∀ m : S52_MP, isTRUE (m .S52_MAR_TWO_SHADES) = true →
      _SEABED01_locals m d1 d2 =
        if d1 ≥ m .S52_MAR_SAFETY_CONTOUR ∧ d2 > m .S52_MAR_SAFETY_CONTOUR then (";AC(DEPDW)", false)
        else (if d1 ≥ 0 ∧ d2 > 0 then ";AC(DEPVS)" else ";AC(DEPIT)", true) := by
    intro m hm
    unfold _SEABED01_locals
    simp only [hm, if_true]
  refine ⟨?_, ?_, ?_, ?_⟩
  · intro h1 h2
    rw [fillColour_SEABED01, hloc mp hon]
    split_ifs <;> first | rfl | (exfalso; simp_all)
  · rw [fillColour_SEABED01, hloc mp hon]
    split_ifs <;> decide
  · rw [fillColour_SEABED01, hloc mp hon]
    split_ifs <;> decide
  · intro mp' hagree
    have e1 : mp' .S52_MAR_TWO_SHADES = mp .S52_MAR_TWO_SHADES := hagree _ (by decide) (by decide)
    have e2 : mp' .S52_MAR_SAFETY_CONTOUR = mp .S52_MAR_SAFETY_CONTOUR :=
      hagree _ (by decide) (by decide)
    have e3 : mp' .S52_MAR_SHALLOW_PATTERN = mp .S52_MAR_SHALLOW_PATTERN :=
      hagree _ (by decide) (by decide)
    rw [SEABED01_eq, SEABED01_eq, hloc mp hon, hloc mp' (by rw [e1]; exact hon), e2, e3]

theorem SEABED01_two_shades_witness :
    isTRUE (mpTwoShades .S52_MAR_TWO_SHADES) = true ∧
    fillColour (_SEABED01 mpTwoShades 5 8) = ";AC(DEPVS)" ∧
    _SEABED01 mpTwoShadesAlt 5 8 = _SEABED01 mpTwoShades 5 8 :=
  ⟨by decide!, by
    rw [(SEABED01_two_shades mpTwoShades (by decide!) 5 8).1 (by norm_num) (by norm_num)]
    decide!,
   (SEABED01_two_shades mpTwoShades (by decide!) 5 8).2.2.2 mpTwoShadesAlt (by
    intro p h1 h2
    simp [mpTwoShadesAlt, Function.update, h1, h2])⟩

/-! ## The scans of `S52_CS_touch` -/

theorem scanGreater_unchanged (key : Ptr → Option ℚ) :
    ∀ (l : List Ptr) (m : ℚ) (r : Option Ptr),
      (∀ c ∈ l, ∀ d, key c = some d → ¬ d > m) → scanGreater key l m r = r := by
  intro l
  induction l with
  | nil => intro m r _; rfl
  | cons c rest ih =>
    intro m r h
    unfold scanGreater
    cases hk : key c with
    | none => exact ih m r (fun c' hc' => h c' (List.mem_cons_of_mem _ hc'))
    | some d =>
      have hd : ¬ d > m := h c (List.mem_cons_self _ _) d hk
      simp only [hd, if_false]
      exact ih m r (fun c' hc' => h c' (List.mem_cons_of_mem _ hc'))

/-- When some entry has a key above `m`, the scan ends on the first entry that carries
the largest key. -/
theorem scanGreater_found (key : Ptr → Option ℚ) :
    ∀ (l : List Ptr) (m : ℚ) (r : Option Ptr),
      (∃ c ∈ l, ∃ d, key c = some d ∧ d > m) →
      ∃ l1 c l2 d, l = l1 ++ c :: l2 ∧ key c = some d ∧ d > m ∧
        (∀ c' ∈ l1, ∀ d', key c' = some d' → d' < d) ∧
        (∀ c' ∈ l2, ∀ d', key c' = some d' → d' ≤ d) ∧
        scanGreater key l m r = some c := by
  intro l
  induction l with
  | nil => intro m r h; obtain ⟨c, hc, _⟩ := h; cases hc
  | cons c rest ih =>
    intro m r h
    by_cases hc : ∃ d, key c = some d ∧ d > m
    · obtain ⟨d, hk, hd⟩ := hc
      have hstep : scanGreater key (c :: rest) m r = scanGreater key rest d (some c) := by
        conv_lhs => unfold scanGreater
        simp only [hk, hd, if_true]
      by_cases hrest : ∃ c' ∈ rest, ∃ d', key c' = some d' ∧ d' > d
      · obtain ⟨l1, c2, l2, d2, hl, hk2, hd2, h1, h2, hres⟩ := ih d (some c) hrest
        refine ⟨c :: l1, c2, l2, d2, by rw [hl]; rfl, hk2, lt_trans hd hd2, ?_, h2, ?_⟩
        · intro c' hc' d' hk'
          rcases List.mem_cons.mp hc' with rfl | hc'
          · rw [hk] at hk'; cases hk'; exact hd2
          · exact h1 c' hc' d' hk'
        · rw [hstep]; exact hres
      · refine ⟨[], c, rest, d, rfl, hk, hd, ?_, ?_, ?_⟩
        · intro c' hc'; cases hc'
        · intro c' hc' d' hk'
          by_contra hlt
          exact hrest ⟨c', hc', d', hk', not_le.mp hlt⟩
        · rw [hstep]
          apply scanGreater_unchanged
          intro c' hc' d' hk' hgt
          exact hrest ⟨c', hc', d', hk', hgt⟩
    · have hstep : scanGreater key (c :: rest) m r = scanGreater key rest m r := by
        conv_lhs => unfold scanGreater
        cases hk : key c with
        | none => rfl
        | some d =>
          have : ¬ d > m := fun hd => hc ⟨d, hk, hd⟩
          simp only [this, if_false]
      have hrest : ∃ c' ∈ rest, ∃ d', key c' = some d' ∧ d' > m := by
        obtain ⟨c', hc', d', hk', hd'⟩ := h
        rcases List.mem_cons.mp hc' with rfl | hc'
        · exact absurd ⟨d', hk', hd'⟩ hc
        · exact ⟨c', hc', d', hk', hd'⟩
      obtain ⟨l1, c2, l2, d2, hl, hk2, hd2, h1, h2, hres⟩ := ih m r hrest
      refine ⟨c :: l1, c2, l2, d2, by rw [hl]; rfl, hk2, hd2, ?_, h2, ?_⟩
      · intro c' hc' d' hk'
        rcases List.mem_cons.mp hc' with rfl | hc'
        · have : ¬ d' > m := fun hd => hc ⟨d', hk', hd⟩
          exact lt_of_le_of_lt (not_lt.mp this) hd2
        · exact h1 c' hc' d' hk'
      · rw [hstep]; exact hres

/-- The scan does not depend on the order of the entries when no two entries above
`m` carry the same key. -/
theorem scanGreater_perm (key : Ptr → Option ℚ) (l l' : List Ptr) (m : ℚ) (r : Option Ptr)
    (hp : l.Perm l')
    (hinj : ∀ c ∈ l, ∀ c' ∈ l, ∀ d, key c = some d → key c' = some d → d > m → c = c') :
    scanGreater key l m r = scanGreater key l' m r := by
  by_cases h : ∃ c ∈ l, ∃ d, key c = some d ∧ d > m
  · have h' : ∃ c ∈ l', ∃ d, key c = some d ∧ d > m := by
      obtain ⟨c, hc, rest⟩ := h
      exact ⟨c, hp.mem_iff.mp hc, rest⟩
    obtain ⟨l1, c1, l2, d1, hl, hk1, hd1, ha1, hb1, hres1⟩ := scanGreater_found key l m r h
    obtain ⟨l1', c2, l2', d2, hl', hk2, hd2, ha2, hb2, hres2⟩ := scanGreater_found key l' m r h'
    have hmem1 : c1 ∈ l := by rw [hl]; simp
    have hmem2 : c2 ∈ l' := by rw [hl']; simp
    have hle : ∀ (la : List Ptr) (ca : Ptr) (lb : List Ptr) (da : ℚ) (cb : Ptr) (db : ℚ),
        key ca = some da → (∀ c' ∈ la, ∀ d', key c' = some d' → d' < da) →
        (∀ c' ∈ lb, ∀ d', key c' = some d' → d' ≤ da) → cb ∈ la ++ ca :: lb →
        key cb = some db → db ≤ da := by
      intro la ca lb da cb db hka h1 h2 hmem hkb
      rcases List.mem_append.mp hmem with hm | hm
      · exact le_of_lt (h1 cb hm db hkb)
      · rcases List.mem_cons.mp hm with rfl | hm
        · rw [hka] at hkb; cases hkb; exact le_refl _
        · exact h2 cb hm db hkb
    have e1 : d2 ≤ d1 := hle l1 c1 l2 d1 c2 d2 hk1 ha1 hb1 (by rw [← hl]; exact hp.mem_iff.mpr hmem2) hk2
    have e2 : d1 ≤ d2 := hle l1' c2 l2' d2 c1 d1 hk2 ha2 hb2 (by rw [← hl']; exact hp.mem_iff.mp hmem1) hk1
    have hd : d1 = d2 := le_antisymm e2 e1
    have hc : c1 = c2 := hinj c1 hmem1 c2 (hp.mem_iff.mpr hmem2) d1 hk1 (by rw [hd]; exact hk2) hd1
    rw [hres1, hres2, hc]
  · have hn : ∀ c ∈ l, ∀ d, key c = some d → ¬ d > m := fun c hc d hk hd => h ⟨c, hc, d, hk, hd⟩
    have hn' : ∀ c ∈ l', ∀ d, key c = some d → ¬ d > m :=
      fun c hc d hk hd => h ⟨c, hp.mem_iff.mpr hc, d, hk, hd⟩
    rw [scanGreater_unchanged key l m r hn, scanGreater_unchanged key l' m r hn']

theorem UDWHAZ_loop_eq (E : S57_ext) (geo : Ptr) (ppt : List ℚ) :
    ∀ (l : List Ptr) (st : S57_state) (m : ℚ),
      S52_CS_touch_UDWHAZ E geo ppt l st m =
        { st with touchUDWHAZ := (Function.update st.touchUDWHAZ geo
            (scanGreater (UDWHAZ_key E st.obj geo ppt) l m (st.touchUDWHAZ geo))) } := by
  intro l
  induction l with
  | nil =>
    intro st m
    simp [S52_CS_touch_UDWHAZ, scanGreater]
  | cons c rest ih =>
    intro st m
    unfold S52_CS_touch_UDWHAZ scanGreater
    by_cases ht : UDWHAZ_touching E (st.obj geo) (st.obj c) ppt = true
    · cases hd : UDWHAZ_depthstr (st.obj c) with
      | none => simp [UDWHAZ_key, ht, hd, ih]
      | some s =>
        by_cases hgt : E.S52_atof s > m
        · simp [UDWHAZ_key, ht, hd, hgt, ih, S57_setTouchUDWHAZ]
        · simp [UDWHAZ_key, ht, hd, hgt, ih]
    · simp [UDWHAZ_key, ht, ih]

theorem DEPCNT_loop_eq (E : S57_ext) (geo : Ptr) (ppt : List ℚ) :
    ∀ (l : List Ptr) (st : S57_state) (m : ℚ), UNKNOWN_DEPTH < m →
      S52_CS_touch_DEPCNT E geo ppt l st m =
        { st with touchDEPCNT := (Function.update st.touchDEPCNT geo
            (scanGreater (DEPCNT_key E st.obj geo ppt) l m (st.touchDEPCNT geo))) } := by
  intro l
  induction l with
  | nil =>
    intro st m _
    simp [S52_CS_touch_DEPCNT, scanGreater]
  | cons c rest ih =>
    intro st m hm
    have hne : ¬ UNKNOWN_DEPTH = m := ne_of_lt hm
    unfold S52_CS_touch_DEPCNT scanGreater
    by_cases h1 : (st.obj geo).S57ID = (st.obj c).S57ID
    · simp [DEPCNT_key, DEPCNT_candidate, h1, ih st m hm]
    · by_cases h2 : E.S57_cmpGeoExt (st.obj geo) (st.obj c) = true
      · by_cases h3 : E.S57_isPtInSet (st.obj c) (ppt_at ppt 0) (ppt_at ppt 1) = true
        · cases hd : S57_getAttVal (st.obj c) "DRVAL1" with
          | none => simp [DEPCNT_key, DEPCNT_candidate, h1, h2, h3, hd, ih st m hm]
          | some s =>
            by_cases hgt : E.S52_atof s > m
            · simp [DEPCNT_key, DEPCNT_candidate, h1, h2, h3, hd, hgt, hne,
                ih _ _ (lt_trans hm hgt), S57_setTouchDEPCNT]
            · simp [DEPCNT_key, DEPCNT_candidate, h1, h2, h3, hd, hgt, hne, ih st m hm]
        · simp [DEPCNT_key, DEPCNT_candidate, h1, h2, h3, ih st m hm]
      · simp [DEPCNT_key, DEPCNT_candidate, h1, h2, ih st m hm]

/-! ## What `S52_CS_touch` leaves unchanged -/

theorem TOPMAR_loop_view (E : S57_ext) (geo : Ptr) :
    ∀ (l : List Ptr) (st : S57_state),
      contourHazardView (S52_CS_touch_TOPMAR E geo l st).state = contourHazardView st := by
  intro l
  induction l with
  | nil => intro st; rfl
  | cons c rest ih =>
    intro st
    unfold S52_CS_touch_TOPMAR
    split_ifs
    · exact ih st
    · rw [ih]; rfl
    · rfl
    · exact ih st

theorem BOYLAT_loop_view (E : S57_ext) (geo : Ptr) :
    ∀ (l : List Ptr) (st : S57_state),
      contourHazardView (S52_CS_touch_BOYLAT E geo l st) = contourHazardView st := by
  intro l
  induction l with
  | nil => intro st; rfl
  | cons c rest ih =>
    intro st
    unfold S52_CS_touch_BOYLAT
    split_ifs
    · exact ih st
    · rfl
    · rfl

theorem LIGHTS_loop_view (E : S57_ext) (geo : Ptr) :
    ∀ (l : List Ptr) (st : S57_state),
      contourHazardView (S52_CS_touch_LIGHTS E geo l st).state = contourHazardView st := by
  intro l
  induction l with
  | nil => intro st; rfl
  | cons c rest ih =>
    intro st
    unfold S52_CS_touch_LIGHTS
    split_ifs
    · exact ih st
    · exact ih st
    · rfl
    · rfl

theorem DEPVAL_round_view (E : S57_ext) (geo : Ptr) (ppt : List ℚ) (c : Ptr) (st : S57_state)
    (least : Option ℚ) :
    contourHazardView (roundState (S52_CS_touch_DEPVAL_round E geo ppt c st least)) =
      contourHazardView st := by
  unfold S52_CS_touch_DEPVAL_round
  cases least <;> repeat' split
  all_goals first | rfl | (simp only []; split_ifs <;> rfl)

theorem DEPVAL_loop_view (E : S57_ext) (geo : Ptr) (ppt : List ℚ) :
    ∀ (l : List Ptr) (st : S57_state) (least : Option ℚ),
      contourHazardView (S52_CS_touch_DEPVAL E geo ppt l st least).state =
        contourHazardView st := by
  intro l
  induction l with
  | nil => intro st least; rfl
  | cons c rest ih =>
    intro st least
    unfold S52_CS_touch_DEPVAL
    have h := DEPVAL_round_view E geo ppt c st least
    cases hr : S52_CS_touch_DEPVAL_round E geo ppt c st least with
    | error s => rw [hr] at h; exact h
    | ok p =>
      obtain ⟨s, l'⟩ := p
      rw [hr] at h
      simp only []
      rw [ih]; exact h

theorem DEPVAL_block_view (E : S57_ext) (loc : localObj) (st : S57_state) (geo : Ptr) :
    contourHazardView (S52_CS_touch_DEPVAL_block E loc st geo).state = contourHazardView st := by
  unfold S52_CS_touch_DEPVAL_block
  cases hg : (st.obj geo).geoData with
  | none => rfl
  | some np =>
    obtain ⟨npt, ppt⟩ := np
    simp only []
    have h := DEPVAL_loop_view E geo (if 2 < npt then List.drop 3 ppt else ppt) loc.depval_list st none
    cases hr : S52_CS_touch_DEPVAL E geo (if 2 < npt then List.drop 3 ppt else ppt)
        loc.depval_list st none with
    | assertFail s => rw [hr] at h; exact h
    | ret s u =>
      rw [hr] at h
      simp only []
      split_ifs
      · exact h
      · exact h

theorem hazardClass_names (n : String) (h : isHazardClass n = true) :
    n ≠ "TOPMAR" ∧ n ≠ "BOYLAT" ∧ n ≠ "LIGHTS" ∧ n ≠ "DEPCNT" ∧ n ≠ "DEPARE" := by
  unfold isHazardClass at h
  simp only [decide_eq_true_eq] at h
  rcases h with h | h | h <;> subst h <;> decide

theorem contourLine_names (g : S57_geo) (h : isContourLine g = true) :
    g.name ≠ "TOPMAR" ∧ g.name ≠ "BOYLAT" ∧ g.name ≠ "LIGHTS" ∧ isHazardClass g.name = false := by
  unfold isContourLine at h
  simp only [decide_eq_true_eq] at h
  rcases h with h | ⟨h, _⟩ <;> rw [h] <;> decide

theorem DEPCNT_loop_frame (E : S57_ext) (geo : Ptr) (ppt : List ℚ) :
    ∀ (l : List Ptr) (st : S57_state) (m : ℚ),
      (S52_CS_touch_DEPCNT E geo ppt l st m).obj = st.obj ∧
      (S52_CS_touch_DEPCNT E geo ppt l st m).touchUDWHAZ = st.touchUDWHAZ ∧
      ∀ p, p ≠ geo → (S52_CS_touch_DEPCNT E geo ppt l st m).touchDEPCNT p = st.touchDEPCNT p := by
  intro l
  induction l with
  | nil => intro st m; exact ⟨rfl, rfl, fun _ _ => rfl⟩
  | cons c rest ih =>
    intro st m
    unfold S52_CS_touch_DEPCNT
    dsimp only
    repeat' split
    all_goals first
      | exact ih _ _
      | (obtain ⟨h1, h2, h3⟩ := ih (S57_setTouchDEPCNT st geo c) (E.S52_atof ‹String›)
         refine ⟨h1, h2, fun p hp => ?_⟩
         rw [h3 p hp]
         simp [S57_setTouchDEPCNT, Function.update, hp])

/-- A feature outside the `DEPCNT02` and `_UDWHAZ03` blocks: no contour or hazard touch
is written. -/
theorem touch_view_other (E : S57_ext) (loc : localObj) (st : S57_state) (geo : Ptr)
    (hc : isContourLine (st.obj geo) = false) (hh : isHazardClass (st.obj geo).name = false) :
    contourHazardView (S52_CS_touch E loc st geo).state = contourHazardView st := by
  have hc' : ¬ ((st.obj geo).name = "DEPCNT" ∨
      ((st.obj geo).name = "DEPARE" ∧ (st.obj geo).objtype = .S57_LINES_T)) := by
    intro h
    have : isContourLine (st.obj geo) = true := by unfold isContourLine; simpa using h
    rw [hc] at this; cases this
  unfold S52_CS_touch
  simp only [hc', hh, if_false, Bool.false_eq_true]
  split_ifs
  · have h := TOPMAR_loop_view E geo loc.topmar_list st
    cases hr : S52_CS_touch_TOPMAR E geo loc.topmar_list st <;> rw [hr] at h <;> exact h
  · exact BOYLAT_loop_view E geo loc.lights_list st
  · have h := LIGHTS_loop_view E geo loc.lights_list st
    cases hr : S52_CS_touch_LIGHTS E geo loc.lights_list st <;> rw [hr] at h <;> exact h
  · rfl

/-- A feature of class `OBSTRN`, `UWTROC` or `WRECKS`: the hazard touch of the feature
is the result of the scan of `udwhaz_list`, nothing else of the view changes. -/
theorem touch_view_hazard (E : S57_ext) (loc : localObj) (st : S57_state) (geo : Ptr)
    (hh : isHazardClass (st.obj geo).name = true) :
    (S52_CS_touch E loc st geo).state.obj = st.obj ∧
    (S52_CS_touch E loc st geo).state.touchDEPCNT = st.touchDEPCNT ∧
    (S52_CS_touch E loc st geo).state.touchUDWHAZ =
      Function.update st.touchUDWHAZ geo
        (UDWHAZ_result E loc st.obj geo (st.touchUDWHAZ geo)) := by
  obtain ⟨n1, n2, n3, n4, n5⟩ := hazardClass_names _ hh
  unfold S52_CS_touch UDWHAZ_result
  simp only [n1, n2, n3, n4, n5, hh, if_false, if_true, false_and, or_self]
  unfold S52_CS_touch_UDWHAZ_block
  cases hg : (st.obj geo).geoData with
  | none => simp [CS_result.state]
  | some np =>
    obtain ⟨npt, ppt⟩ := np
    simp only []
    rw [UDWHAZ_loop_eq]
    split_ifs with h0
    · have h := DEPVAL_block_view E loc (PRINTF { st with touchUDWHAZ := (Function.update st.touchUDWHAZ geo
          (scanGreater (UDWHAZ_key E st.obj geo ppt) loc.udwhaz_list UNKNOWN_DEPTH
            (st.touchUDWHAZ geo))) } "DEBUG: no group 1 candidate under this: %s:%c:%i\n") geo
      simp only [contourHazardView, Prod.mk.injEq] at h
      exact ⟨h.1, h.2.1, h.2.2⟩
    · have h := DEPVAL_block_view E loc { st with touchUDWHAZ := (Function.update st.touchUDWHAZ geo
          (scanGreater (UDWHAZ_key E st.obj geo ppt) loc.udwhaz_list UNKNOWN_DEPTH
            (st.touchUDWHAZ geo))) } geo
      simp only [contourHazardView, Prod.mk.injEq] at h
      exact ⟨h.1, h.2.1, h.2.2⟩

theorem DEPCNT_block_frame (E : S57_ext) (loc : localObj) (st : S57_state) (geo : Ptr) :
    (S52_CS_touch_DEPCNT_block E loc st geo).state.obj = st.obj ∧
    (S52_CS_touch_DEPCNT_block E loc st geo).state.touchUDWHAZ = st.touchUDWHAZ ∧
    ∀ p, p ≠ geo →
      (S52_CS_touch_DEPCNT_block E loc st geo).state.touchDEPCNT p = st.touchDEPCNT p := by
  unfold S52_CS_touch_DEPCNT_block
  dsimp only
  repeat' split
  all_goals first
    | exact ⟨rfl, rfl, fun _ _ => rfl⟩
    | exact DEPCNT_loop_frame E geo _ _ _ _

/-- The `DEPCNT02` block on a line whose own depth `s` is known and above the
sentinel, with readable geometry: the block returns `TRUE` and the contour touch is
the result of the scan of `depcnt_list` started at that depth. -/
theorem DEPCNT_block_known (E : S57_ext) (loc : localObj) (st : S57_state) (geo : Ptr)
    (s : String) (npt : Nat) (ppt : List ℚ)
    (hs : DEPCNT_drvalstr (st.obj geo) = some s) (hne : s ≠ EMPTY_NUMBER_MARKER)
    (hd : UNKNOWN_DEPTH < E.S52_atof s) (hg : (st.obj geo).geoData = some (npt, ppt)) :
    ∃ s', S52_CS_touch_DEPCNT_block E loc st geo = .ret s' true ∧
      s'.touchDEPCNT geo =
        scanGreater (DEPCNT_key E st.obj geo ppt) loc.depcnt_list (E.S52_atof s)
          (st.touchDEPCNT geo) := by
  unfold DEPCNT_drvalstr at hs
  unfold S52_CS_touch_DEPCNT_block
  simp only [hs, hne, ne_eq, not_false_eq_true, if_true]
  by_cases hid : (st.obj geo).S57ID = 3653
  · simp only [hid, if_true]
    have hg' : ((PRINTF st "DEBUG: line DEPARE:%u found\n").obj geo).geoData = some (npt, ppt) := hg
    rw [hg']
    refine ⟨_, rfl, ?_⟩
    rw [DEPCNT_loop_eq E geo ppt _ _ _ hd]
    simp [PRINTF]
  · simp only [hid, if_false]
    rw [hg]
    refine ⟨_, rfl, ?_⟩
    rw [DEPCNT_loop_eq E geo ppt _ _ _ hd]
    simp

/-- A line feature of the `DEPCNT02` block: only the contour touch of the feature can
change; when its own depth is known and above the sentinel (or absent) the new touch
is `DEPCNT_result`. -/
theorem touch_view_contour (E : S57_ext) (loc : localObj) (st : S57_state) (geo : Ptr)
    (hc : isContourLine (st.obj geo) = true) :
    (S52_CS_touch E loc st geo).state.obj = st.obj ∧
    (S52_CS_touch E loc st geo).state.touchUDWHAZ = st.touchUDWHAZ ∧
    (∀ p, p ≠ geo → (S52_CS_touch E loc st geo).state.touchDEPCNT p = st.touchDEPCNT p) ∧
    ((∀ s, DEPCNT_drvalstr (st.obj geo) = some s →
        s ≠ EMPTY_NUMBER_MARKER ∧ UNKNOWN_DEPTH < E.S52_atof s) →
      (S52_CS_touch E loc st geo).state.touchDEPCNT geo =
        DEPCNT_result E loc st.obj geo (st.touchDEPCNT geo)) := by
  obtain ⟨n1, n2, n3, _⟩ := contourLine_names _ hc
  have hc' : (st.obj geo).name = "DEPCNT" ∨
      ((st.obj geo).name = "DEPARE" ∧ (st.obj geo).objtype = .S57_LINES_T) := by
    unfold isContourLine at hc; simpa using hc
  have he : S52_CS_touch E loc st geo = S52_CS_touch_DEPCNT_block E loc st geo := by
    unfold S52_CS_touch
    simp only [n1, n2, n3, hc', if_false, if_true]
  rw [he]
  obtain ⟨f1, f2, f3⟩ := DEPCNT_block_frame E loc st geo
  refine ⟨f1, f2, f3, ?_⟩
  intro hyp
  unfold DEPCNT_result
  simp only [hc, if_true]
  cases hs : DEPCNT_drvalstr (st.obj geo) with
  | none =>
    have : S52_CS_touch_DEPCNT_block E loc st geo = .ret (PRINTF st
        "DEBUG: line DEPCNT/DEPARE:%u has no mandatory depth or (VALDCO/DRVAL1)\n") true := by
      unfold DEPCNT_drvalstr at hs
      unfold S52_CS_touch_DEPCNT_block
      simp only [hs]
    rw [this]; rfl
  | some s =>
    obtain ⟨hne, hd⟩ := hyp s hs
    cases hg : (st.obj geo).geoData with
    | none =>
      have : (S52_CS_touch_DEPCNT_block E loc st geo).state.touchDEPCNT geo = st.touchDEPCNT geo := by
        unfold DEPCNT_drvalstr at hs
        unfold S52_CS_touch_DEPCNT_block
        simp only [hs]
        split_ifs <;> simp [PRINTF, hg, CS_result.state]
      rw [this]
    | some np =>
      obtain ⟨npt, ppt⟩ := np
      obtain ⟨s', hr, ht⟩ := DEPCNT_block_known E loc st geo s npt ppt hs hne hd hg
      rw [hr]
      exact ht

/-! ## Depth-contour highlighting -/

/-- C6 (code): `DEPCNT02` on a 10 m contour with safety contour 10 returns
`;OP(8OD13010);LS(SOLD,2,DEPSC)` without `QUAPOS` and the dashed style with an
unreliable `QUAPOS=4`, but with the reliable `QUAPOS=1` it returns no instruction at
all (`NULL`): the solid line style of the claim is missing. -/
theorem DEPCNT02_reliable_QUAPOS_no_instruction :
    (DEPCNT02 decExt mpScenario (mkState [depcnt_10]) 0).2 = some ";OP(8OD13010);LS(SOLD,2,DEPSC)" ∧
    (DEPCNT02 decExt mpScenario (mkState [depcnt_10_quapos4]) 0).2 =
      some ";OP(8OD13010);LS(DASH,2,DEPSC)" ∧
    (DEPCNT02 decExt mpScenario (mkState [depcnt_10_quapos1]) 0).2 = none := by
  decide!

/-- C7 (code): a 20 m contour, safety contour 10, no datum offset, linked to a depth
area `5 .. 20` that straddles the safety contour (`5 < 10 ≤ 20`): `DEPCNT02` does not
select the line, because `_DEPCNT02_isSafetyCnt` reads `DRVAL2` of the line itself
(absent, so `0.0`) and not of the linked area.  The same happens in a state produced
by `S52_CS_touch`: a contour with an empty `VALDCO` linked to the area `-3 .. 5`, with
safety contour 1 and datum offset 2 (`-3 + 2 < 1 ≤ 5 + 2`). -/
theorem DEPCNT02_next_deeper_not_selected :
    (dadd (decExt.S52_atof "20") (mpScenario .S52_MAR_DATUM_OFFSET) > mpScenario .S52_MAR_SAFETY_CONTOUR ∧
      stLinked.touchDEPCNT 0 = some 1 ∧
      S57_getAttVal (stLinked.obj 1) "DRVAL1" = some "5" ∧
      S57_getAttVal (stLinked.obj 1) "DRVAL2" = some "20" ∧
      dadd (decExt.S52_atof "5") (mpScenario .S52_MAR_DATUM_OFFSET) < mpScenario .S52_MAR_SAFETY_CONTOUR ∧
      mpScenario .S52_MAR_SAFETY_CONTOUR ≤ dadd (decExt.S52_atof "20") (mpScenario .S52_MAR_DATUM_OFFSET) ∧
      DEPCNT02_safety_contour decExt mpScenario stLinked 0 = false ∧
      (DEPCNT02 decExt mpScenario stLinked 0).2 = some ";OP(---33020);LS(SOLD,1,DEPCN)" ∧
      (DEPCNT02 decExt mpScenario stLinked 0).1.scamin 0 = Scamin.S57_RESET_SCAMIN) ∧
    ((loadCell decExt stEmptyValdco [0, 1, 2]).val? = some () ∧
      (loadCell decExt stEmptyValdco [0, 1, 2]).state.touchDEPCNT 0 = some 2 ∧
      dadd (decExt.S52_atof "-3") (mpOffset .S52_MAR_DATUM_OFFSET) < mpOffset .S52_MAR_SAFETY_CONTOUR ∧
      mpOffset .S52_MAR_SAFETY_CONTOUR ≤ dadd (decExt.S52_atof "5") (mpOffset .S52_MAR_DATUM_OFFSET) ∧
      DEPCNT02_safety_contour decExt mpOffset
        (loadCell decExt stEmptyValdco [0, 1, 2]).state 0 = false) := by
  constructor <;> decide!

/-! ## The two passes of the index build -/

theorem add_lists (st : S57_state) (loc : localObj) (geo : Ptr) :
    (S52_CS_add st loc geo).1.udwhaz_list =
      loc.udwhaz_list ++ (if addsToUdwhaz (st.obj geo) = true then [geo] else []) ∧
    (S52_CS_add st loc geo).1.depcnt_list =
      loc.depcnt_list ++ (if addsToDepcnt (st.obj geo) = true then [geo] else []) := by
  unfold S52_CS_add addsToDepcnt addsToUdwhaz
  dsimp only
  split_ifs <;> simp_all

theorem addAll_lists (st : S57_state) :
    ∀ (l : List Ptr) (loc : localObj),
      (S52_CS_addAll st l loc).udwhaz_list =
        loc.udwhaz_list ++ l.filter (fun g => addsToUdwhaz (st.obj g)) ∧
      (S52_CS_addAll st l loc).depcnt_list =
        loc.depcnt_list ++ l.filter (fun g => addsToDepcnt (st.obj g)) := by
  intro l
  induction l with
  | nil => intro loc; simp [S52_CS_addAll]
  | cons g rest ih =>
    intro loc
    unfold S52_CS_addAll
    obtain ⟨h1, h2⟩ := ih (S52_CS_add st loc g).1
    obtain ⟨a1, a2⟩ := add_lists st loc g
    rw [h1, h2, a1, a2]
    constructor
    · by_cases h : addsToUdwhaz (st.obj g) = true <;> simp [List.filter, h]
    · by_cases h : addsToDepcnt (st.obj g) = true <;> simp [List.filter, h]

/-- One call of `S52_CS_touch`, seen from the contour and hazard touches. -/
theorem touch_step (E : S57_ext) (loc : localObj) (st : S57_state) (geo : Ptr) :
    (S52_CS_touch E loc st geo).state.obj = st.obj ∧
    (S52_CS_touch E loc st geo).state.touchUDWHAZ =
      Function.update st.touchUDWHAZ geo (UDWHAZ_result E loc st.obj geo (st.touchUDWHAZ geo)) ∧
    (∀ p, p ≠ geo → (S52_CS_touch E loc st geo).state.touchDEPCNT p = st.touchDEPCNT p) ∧
    ((∀ s, DEPCNT_drvalstr (st.obj geo) = some s →
        s ≠ EMPTY_NUMBER_MARKER ∧ UNKNOWN_DEPTH < E.S52_atof s) →
      (S52_CS_touch E loc st geo).state.touchDEPCNT geo =
        DEPCNT_result E loc st.obj geo (st.touchDEPCNT geo)) := by
  by_cases hc : isContourLine (st.obj geo) = true
  · obtain ⟨h1, h2, h3, h4⟩ := touch_view_contour E loc st geo hc
    have hh : isHazardClass (st.obj geo).name = false := (contourLine_names _ hc).2.2.2
    refine ⟨h1, ?_, h3, h4⟩
    rw [h2]
    simp [UDWHAZ_result, hh]
  · have hc' : isContourLine (st.obj geo) = false := by simpa using hc
    by_cases hh : isHazardClass (st.obj geo).name = true
    · obtain ⟨h1, h2, h3⟩ := touch_view_hazard E loc st geo hh
      refine ⟨h1, h3, fun p _ => by rw [h2], fun _ => ?_⟩
      rw [h2]
      simp [DEPCNT_result, hc']
    · have hh' : isHazardClass (st.obj geo).name = false := by simpa using hh
      have h := touch_view_other E loc st geo hc' hh'
      simp only [contourHazardView, Prod.mk.injEq] at h
      obtain ⟨h1, h2, h3⟩ := h
      refine ⟨h1, ?_, fun p _ => by rw [h2], fun _ => ?_⟩
      · rw [h3]; simp [UDWHAZ_result, hh']
      · rw [h2]; simp [DEPCNT_result, hc']

theorem ret_of_val {α : Type} (r : CS_result α) (v : α) (h : r.val? = some v) :
    r = .ret r.state v := by
  cases r with
  | ret s w => simp [CS_result.val?] at h; subst h; rfl
  | assertFail s => simp [CS_result.val?] at h

/-- The link pass over a duplicate-free list of features that runs to its end: the
hazard touch of a feature of the list is `UDWHAZ_result` of its touch before the
pass, and so is the contour touch of a line whose depth is known and above the
sentinel (or absent); the touches of the other features are the ones before. -/
theorem touchAll_view (E : S57_ext) (loc : localObj) :
    ∀ (l : List Ptr) (st s : S57_state), l.Nodup →
      S52_CS_touchAll E loc l st = .ret s () →
      s.obj = st.obj ∧
      (∀ p, s.touchUDWHAZ p =
        if p ∈ l then UDWHAZ_result E loc st.obj p (st.touchUDWHAZ p) else st.touchUDWHAZ p) ∧
      (∀ p, (∀ x, DEPCNT_drvalstr (st.obj p) = some x →
          x ≠ EMPTY_NUMBER_MARKER ∧ UNKNOWN_DEPTH < E.S52_atof x) →
        s.touchDEPCNT p =
          if p ∈ l then DEPCNT_result E loc st.obj p (st.touchDEPCNT p) else st.touchDEPCNT p) := by
  intro l
  induction l with
  | nil =>
    intro st s _ h
    simp only [S52_CS_touchAll, CS_result.ret.injEq, and_true] at h
    subst h
    simp
  | cons g rest ih =>
    intro st s hnd h
    have hg : g ∉ rest := (List.nodup_cons.mp hnd).1
    unfold S52_CS_touchAll at h
    obtain ⟨t1, t2, t3, t4⟩ := touch_step E loc st g
    cases hr : S52_CS_touch E loc st g with
    | assertFail s1 => rw [hr] at h; cases h
    | ret s1 b =>
      rw [hr] at h t1 t2 t3 t4
      simp only [CS_result.state] at t1 t2 t3 t4
      obtain ⟨i1, i2, i3⟩ := ih s1 s (List.nodup_cons.mp hnd).2 h
      refine ⟨by rw [i1, t1], ?_, ?_⟩
      · intro p
        rw [i2 p, t1, t2]
        by_cases hp : p = g
        · subst hp
          simp [hg]
        · by_cases hpr : p ∈ rest
          · simp [hp, hpr, Function.update]
          · simp [hp, hpr, Function.update]
      · intro p hyp
        rw [i3 p (by rw [t1]; exact hyp), t1]
        by_cases hp : p = g
        · subst hp
          simp [hg, t4 hyp]
        · by_cases hpr : p ∈ rest
          · simp [hp, hpr, t3 p hp]
          · simp [hp, hpr, t3 p hp]

/-! ## Cross-reference index: the dominance links -/

/-- C8 (code): a 5 m contour and two candidate areas with `DRVAL1` 10 and 20, both of
the same extent, both holding the first point of the line and both deeper than the
line: `S52_CS_touch` returns with the contour touch on the area from 20 m, in either
order of the list, and not on the area from 10 m, the shallowest area deeper than the
line ("select the next deeper contour", "is this area just above (shallower) then this
geo" in the comments of the loop, whose test `can_drval1 > drvalmin` keeps a running
maximum). -/
theorem touch_contour_not_next_deeper :
    ((S52_CS_addAll stContour [0, 1, 2] S52_CS_init).depcnt_list = [1, 2] ∧
      DEPCNT_drvalstr (stContour.obj 0) = some "5" ∧
      stContour.touchDEPCNT 0 = none ∧
      contourDepth decExt stContour.obj 0 1 = some 10 ∧
      contourDepth decExt stContour.obj 0 2 = some 20 ∧
      decExt.S52_atof "5" < 10 ∧
      (S52_CS_touch decExt (S52_CS_addAll stContour [0, 1, 2] S52_CS_init) stContour 0).val?
        = some true ∧
      (S52_CS_touch decExt (S52_CS_addAll stContour [0, 1, 2] S52_CS_init) stContour
        0).state.touchDEPCNT 0 = some 2) ∧
    ((S52_CS_addAll stContour [0, 2, 1] S52_CS_init).depcnt_list = [2, 1] ∧
      (S52_CS_touch decExt (S52_CS_addAll stContour [0, 2, 1] S52_CS_init) stContour 0).val?
        = some true ∧
      (S52_CS_touch decExt (S52_CS_addAll stContour [0, 2, 1] S52_CS_init) stContour
        0).state.touchDEPCNT 0 = some 2) := by
  constructor <;> decide!

/-- The contour scan of `S52_CS_touch` as the code runs it: on a `DEPCNT` or a line
`DEPARE` with readable geometry, whose own depth `d` (`VALDCO` resp. `DRVAL1`) is known
and above the unknown-depth sentinel and whose contour touch is unset, the call returns
`TRUE` and the touch is, among the entries of `depcnt_list` with another identifier,
the same extent, containing the first point of the line and carrying `DRVAL1 > d`, the
first one in list order with the largest `DRVAL1` (a running maximum); the touch stays
unset when there is no such entry. -/
theorem touch_contour_scan (E : S57_ext) (loc : localObj) (st : S57_state) (geo : Ptr)
    (s : String) (npt : Nat) (ppt : List ℚ)
    (hc : isContourLine (st.obj geo) = true)
    (hs : DEPCNT_drvalstr (st.obj geo) = some s) (hne : s ≠ EMPTY_NUMBER_MARKER)
    (hd : UNKNOWN_DEPTH < E.S52_atof s)
    (hg : (st.obj geo).geoData = some (npt, ppt))
    (h0 : st.touchDEPCNT geo = none) :
    ∃ s', S52_CS_touch E loc st geo = .ret s' true ∧
      ((∀ c ∈ loc.depcnt_list, ∀ d, DEPCNT_key E st.obj geo ppt c = some d → ¬ d > E.S52_atof s) →
        s'.touchDEPCNT geo = none) ∧
      ((∃ c ∈ loc.depcnt_list, ∃ d, DEPCNT_key E st.obj geo ppt c = some d ∧ d > E.S52_atof s) →
        ∃ l1 c l2 d, loc.depcnt_list = l1 ++ c :: l2 ∧ s'.touchDEPCNT geo = some c ∧
          DEPCNT_key E st.obj geo ppt c = some d ∧ d > E.S52_atof s ∧
          (∀ c' ∈ l1, ∀ d', DEPCNT_key E st.obj geo ppt c' = some d' → d' < d) ∧
          (∀ c' ∈ l2, ∀ d', DEPCNT_key E st.obj geo ppt c' = some d' → d' ≤ d)) := by
  obtain ⟨n1, n2, n3, _⟩ := contourLine_names _ hc
  have hc' : (st.obj geo).name = "DEPCNT" ∨
      ((st.obj geo).name = "DEPARE" ∧ (st.obj geo).objtype = .S57_LINES_T) := by
    unfold isContourLine at hc; simpa using hc
  have he : S52_CS_touch E loc st geo = S52_CS_touch_DEPCNT_block E loc st geo := by
    unfold S52_CS_touch
    simp only [n1, n2, n3, hc', if_false, if_true]
  obtain ⟨s', hr, ht⟩ := DEPCNT_block_known E loc st geo s npt ppt hs hne hd hg
  refine ⟨s', by rw [he, hr], ?_, ?_⟩
  · intro hnone
    rw [ht, scanGreater_unchanged _ _ _ _ hnone, h0]
  · intro hsome
    obtain ⟨l1, c, l2, d, hl, hk, hgt, ha, hb, hres⟩ :=
      scanGreater_found (DEPCNT_key E st.obj geo ppt) loc.depcnt_list (E.S52_atof s)
        (st.touchDEPCNT geo) hsome
    exact ⟨l1, c, l2, d, hl, by rw [ht, hres], hk, hgt, ha, hb⟩

/-- C10 (as stated) fails: the only candidate touching the obstruction carries
`DRVAL1 = -1000`, the value of the unknown-depth sentinel, and the hazard touch
stays unset. -/
theorem touch_hazard_counterexample :
    (S52_CS_addAll stSentinel [0, 1] S52_CS_init).udwhaz_list = [1] ∧
    stSentinel.touchUDWHAZ 0 = none ∧
    UDWHAZ_touching decExt (stSentinel.obj 0) (stSentinel.obj 1) [0, 0, 0] = true ∧
    UDWHAZ_depthstr (stSentinel.obj 1) = some "-1000" ∧
    (S52_CS_touch decExt (S52_CS_addAll stSentinel [0, 1] S52_CS_init) stSentinel 0).val? = some true ∧
    (S52_CS_touch decExt (S52_CS_addAll stSentinel [0, 1] S52_CS_init) stSentinel 0).state.touchUDWHAZ 0
      = none := by
  decide!

/-- C10 (amended): after `S52_CS_touch` on an `OBSTRN`, `UWTROC` or `WRECKS` feature
with readable geometry whose hazard touch is unset, in the state in which the call
ends: if at least one touching entry of `udwhaz_list` carries a depth (`DRVAL2` of a
line, `DRVAL1` of an area) above the unknown-depth sentinel `-1000`, the hazard touch
is a touching entry whose depth is the maximum over all touching entries that carry
one; if none does, the hazard touch remains unset. -/
theorem touch_hazard_deepest (E : S57_ext) (loc : localObj) (st : S57_state) (geo : Ptr)
    (npt : Nat) (ppt : List ℚ)
    (hh : isHazardClass (st.obj geo).name = true)
    (hg : (st.obj geo).geoData = some (npt, ppt))
    (h0 : st.touchUDWHAZ geo = none) :
    ((∃ c ∈ loc.udwhaz_list, ∃ d, UDWHAZ_key E st.obj geo ppt c = some d ∧ d > UNKNOWN_DEPTH) →
      ∃ c d, c ∈ loc.udwhaz_list ∧
        (S52_CS_touch E loc st geo).state.touchUDWHAZ geo = some c ∧
        UDWHAZ_key E st.obj geo ppt c = some d ∧
        ∀ c' ∈ loc.udwhaz_list, ∀ d', UDWHAZ_key E st.obj geo ppt c' = some d' → d' ≤ d) ∧
    ((∀ c ∈ loc.udwhaz_list, ∀ d, UDWHAZ_key E st.obj geo ppt c = some d → ¬ d > UNKNOWN_DEPTH) →
      (S52_CS_touch E loc st geo).state.touchUDWHAZ geo = none) := by
  have ht : (S52_CS_touch E loc st geo).state.touchUDWHAZ geo =
      scanGreater (UDWHAZ_key E st.obj geo ppt) loc.udwhaz_list UNKNOWN_DEPTH
        (st.touchUDWHAZ geo) := by
    rw [(touch_view_hazard E loc st geo hh).2.2]
    simp [UDWHAZ_result, hh, hg]
  constructor
  · intro hsome
    obtain ⟨l1, c, l2, d, hl, hk, _, ha, hb, hres⟩ :=
      scanGreater_found (UDWHAZ_key E st.obj geo ppt) loc.udwhaz_list UNKNOWN_DEPTH
        (st.touchUDWHAZ geo) hsome
    refine ⟨c, d, by rw [hl]; simp, by rw [ht, hres], hk, ?_⟩
    intro c' hc' d' hk'
    rw [hl] at hc'
    rcases List.mem_append.mp hc' with hm | hm
    · exact le_of_lt (ha c' hm d' hk')
    · rcases List.mem_cons.mp hm with rfl | hm
      · rw [hk] at hk'; cases hk'; exact le_refl _
      · exact hb c' hm d' hk'
  · intro hnone
    rw [ht, scanGreater_unchanged _ _ _ _ hnone, h0]

theorem touch_hazard_deepest_witness :
    (isHazardClass (stDistinct.obj 0).name = true ∧
      (stDistinct.obj 0).geoData = some (1, [0, 0, 0]) ∧ stDistinct.touchUDWHAZ 0 = none ∧
      (∃ c ∈ (S52_CS_addAll stDistinct [0, 1, 2] S52_CS_init).udwhaz_list, ∃ d,
        UDWHAZ_key decExt stDistinct.obj 0 [0, 0, 0] c = some d ∧ d > UNKNOWN_DEPTH)) ∧
    (∃ c d, c ∈ (S52_CS_addAll stDistinct [0, 1, 2] S52_CS_init).udwhaz_list ∧
      (S52_CS_touch decExt (S52_CS_addAll stDistinct [0, 1, 2] S52_CS_init) stDistinct
        0).state.touchUDWHAZ 0 = some c ∧
      UDWHAZ_key decExt stDistinct.obj 0 [0, 0, 0] c = some d ∧
      ∀ c' ∈ (S52_CS_addAll stDistinct [0, 1, 2] S52_CS_init).udwhaz_list, ∀ d',
        UDWHAZ_key decExt stDistinct.obj 0 [0, 0, 0] c' = some d' → d' ≤ d) ∧
    (S52_CS_touch decExt S52_CS_init stDistinct 0).state.touchUDWHAZ 0 = none :=
  have hex : ∃ c ∈ (S52_CS_addAll stDistinct [0, 1, 2] S52_CS_init).udwhaz_list, ∃ d,
      UDWHAZ_key decExt stDistinct.obj 0 [0, 0, 0] c = some d ∧ d > UNKNOWN_DEPTH :=
    ⟨2, by decide!, 20, by decide!, by decide!⟩
  ⟨⟨by decide!, by decide!, by decide!, hex⟩,
   (touch_hazard_deepest decExt (S52_CS_addAll stDistinct [0, 1, 2] S52_CS_init) stDistinct 0
      1 [0, 0, 0] (by decide!) (by decide!) (by decide!)).1 hex,
   (touch_hazard_deepest decExt S52_CS_init stDistinct 0
      1 [0, 0, 0] (by decide!) (by decide!) (by decide!)).2
      (fun c hc => absurd hc (List.not_mem_nil c))⟩

theorem UDWHAZ_result_perm (E : S57_ext) (loc loc' : localObj) (obj : Ptr → S57_geo) (p : Ptr)
    (r : Option Ptr) (hp : loc.udwhaz_list.Perm loc'.udwhaz_list)
    (hinj : ∀ c ∈ loc.udwhaz_list, ∀ c' ∈ loc.udwhaz_list, hazardDepth E obj p c ≠ none →
      hazardDepth E obj p c = hazardDepth E obj p c' → c = c') :
    UDWHAZ_result E loc obj p r = UDWHAZ_result E loc' obj p r := by
  unfold UDWHAZ_result
  split_ifs
  · cases hg : (obj p).geoData with
    | none => rfl
    | some np =>
      obtain ⟨npt, ppt⟩ := np
      simp only []
      apply scanGreater_perm _ _ _ _ _ hp
      intro c hc c' hc' d h1 h2 _
      have e1 : hazardDepth E obj p c = some d := by simp [hazardDepth, hg, h1]
      have e2 : hazardDepth E obj p c' = some d := by simp [hazardDepth, hg, h2]
      exact hinj c hc c' hc' (by rw [e1]; simp) (by rw [e1, e2])
  · rfl

theorem DEPCNT_result_perm (E : S57_ext) (loc loc' : localObj) (obj : Ptr → S57_geo) (p : Ptr)
    (r : Option Ptr) (hp : loc.depcnt_list.Perm loc'.depcnt_list)
    (hinj : ∀ c ∈ loc.depcnt_list, ∀ c' ∈ loc.depcnt_list, contourDepth E obj p c ≠ none →
      contourDepth E obj p c = contourDepth E obj p c' → c = c') :
    DEPCNT_result E loc obj p r = DEPCNT_result E loc' obj p r := by
  unfold DEPCNT_result
  split_ifs
  · cases hs : DEPCNT_drvalstr (obj p) with
    | none => rfl
    | some s =>
      cases hg : (obj p).geoData with
      | none => rfl
      | some np =>
        obtain ⟨npt, ppt⟩ := np
        simp only []
        apply scanGreater_perm _ _ _ _ _ hp
        intro c hc c' hc' d h1 h2 _
        have e1 : contourDepth E obj p c = some d := by simp [contourDepth, hg, h1]
        have e2 : contourDepth E obj p c' = some d := by simp [contourDepth, hg, h2]
        exact hinj c hc c' hc' (by rw [e1]; simp) (by rw [e1, e2])
  · rfl

/-- C9 (as stated) fails.  In a cell of an obstruction and two touching depth areas of
the same depth, the two orders `[0, 1, 2]` and `[0, 2, 1]` of the features give two
different hazard touches (and least-depth touches); with two different depths 10 and
20 the least-depth touch still depends on the order. -/
theorem loadCell_order_counterexample :
    List.Perm [0, 1, 2] [0, 2, 1] ∧
    ((loadCell decExt stTie [0, 1, 2]).val? = some () ∧
      (loadCell decExt stTie [0, 2, 1]).val? = some () ∧
      (loadCell decExt stTie [0, 1, 2]).state.touchUDWHAZ 0 = some 1 ∧
      (loadCell decExt stTie [0, 2, 1]).state.touchUDWHAZ 0 = some 2 ∧
      (loadCell decExt stTie [0, 1, 2]).state.touchDEPVAL 0 = some 2 ∧
      (loadCell decExt stTie [0, 2, 1]).state.touchDEPVAL 0 = some 1) ∧
    ((loadCell decExt stDistinct [0, 1, 2]).val? = some () ∧
      (loadCell decExt stDistinct [0, 2, 1]).val? = some () ∧
      (loadCell decExt stDistinct [0, 1, 2]).state.touchDEPVAL 0 = some 2 ∧
      (loadCell decExt stDistinct [0, 2, 1]).state.touchDEPVAL 0 = some 1) := by
  refine ⟨List.Perm.cons 0 (List.Perm.swap 2 1 []), ?_, ?_⟩ <;> decide!

/-- C9 (amended): for a duplicate-free list of features and any reordering of it, when
both index builds (`S52_CS_add` on all features, then `S52_CS_touch` on all features)
run to their end, the hazard touch of a feature is the same in both, provided no two
of its hazard candidates carry the same depth, and the contour touch of a feature is
the same in both, provided its own depth is absent or known and above the
unknown-depth sentinel and no two of its contour candidates carry the same `DRVAL1`. -/
theorem loadCell_order_independent (E : S57_ext) (st0 : S57_state) (l1 l2 : List Ptr)
    (s1 s2 : S57_state) (hperm : l1.Perm l2) (hnd : l1.Nodup)
    (h1 : loadCell E st0 l1 = .ret s1 ()) (h2 : loadCell E st0 l2 = .ret s2 ()) (p : Ptr) :
    ((∀ c ∈ l1, ∀ c' ∈ l1, hazardDepth E st0.obj p c ≠ none →
        hazardDepth E st0.obj p c = hazardDepth E st0.obj p c' → c = c') →
      s1.touchUDWHAZ p = s2.touchUDWHAZ p) ∧
    ((∀ x, DEPCNT_drvalstr (st0.obj p) = some x →
        x ≠ EMPTY_NUMBER_MARKER ∧ UNKNOWN_DEPTH < E.S52_atof x) →
      (∀ c ∈ l1, ∀ c' ∈ l1, contourDepth E st0.obj p c ≠ none →
        contourDepth E st0.obj p c = contourDepth E st0.obj p c' → c = c') →
      s1.touchDEPCNT p = s2.touchDEPCNT p) := by
  unfold loadCell at h1 h2
  obtain ⟨_, a2, a3⟩ := touchAll_view E _ l1 st0 s1 hnd h1
  obtain ⟨_, b2, b3⟩ := touchAll_view E _ l2 st0 s2 (hperm.nodup_iff.mp hnd) h2
  obtain ⟨u1, c1⟩ := addAll_lists st0 l1 S52_CS_init
  obtain ⟨u2, c2⟩ := addAll_lists st0 l2 S52_CS_init
  have hmem : p ∈ l1 ↔ p ∈ l2 := hperm.mem_iff
  constructor
  · intro hinj
    rw [a2 p, b2 p]
    by_cases hp : p ∈ l1
    · rw [if_pos hp, if_pos (hmem.mp hp)]
      apply UDWHAZ_result_perm
      · rw [u1, u2]
        exact List.Perm.append_left _ (hperm.filter _)
      · intro c hc c' hc'
        rw [u1] at hc hc'
        simp only [S52_CS_init, List.nil_append] at hc hc'
        exact hinj c (List.mem_of_mem_filter hc) c' (List.mem_of_mem_filter hc')
    · rw [if_neg hp, if_neg (fun h => hp (hmem.mpr h))]
  · intro hyp hinj
    rw [a3 p hyp, b3 p hyp]
    by_cases hp : p ∈ l1
    · rw [if_pos hp, if_pos (hmem.mp hp)]
      apply DEPCNT_result_perm
      · rw [c1, c2]
        exact List.Perm.append_left _ (hperm.filter _)
      · intro c hc c' hc'
        rw [c1] at hc hc'
        simp only [S52_CS_init, List.nil_append] at hc hc'
        exact hinj c (List.mem_of_mem_filter hc) c' (List.mem_of_mem_filter hc')
    · rw [if_neg hp, if_neg (fun h => hp (hmem.mpr h))]

theorem loadCell_order_independent_witness :
    (List.Perm [0, 1, 2] [0, 2, 1] ∧ [0, 1, 2].Nodup ∧
      (loadCell decExt stDistinct [0, 1, 2]).val? = some () ∧
      (loadCell decExt stDistinct [0, 2, 1]).val? = some () ∧
      (∀ c ∈ [0, 1, 2], ∀ c' ∈ [0, 1, 2], hazardDepth decExt stDistinct.obj 0 c ≠ none →
        hazardDepth decExt stDistinct.obj 0 c = hazardDepth decExt stDistinct.obj 0 c' →
        c = c') ∧
      (loadCell decExt stContour [0, 1, 2]).val? = some () ∧
      (loadCell decExt stContour [0, 2, 1]).val? = some () ∧
      DEPCNT_drvalstr (stContour.obj 0) = some "5" ∧ "5" ≠ EMPTY_NUMBER_MARKER ∧
      UNKNOWN_DEPTH < decExt.S52_atof "5" ∧
      (∀ c ∈ [0, 1, 2], ∀ c' ∈ [0, 1, 2], contourDepth decExt stContour.obj 0 c ≠ none →
        contourDepth decExt stContour.obj 0 c = contourDepth decExt stContour.obj 0 c' →
        c = c')) ∧
    ((loadCell decExt stDistinct [0, 1, 2]).state.touchUDWHAZ 0 =
        (loadCell decExt stDistinct [0, 2, 1]).state.touchUDWHAZ 0 ∧
      (loadCell decExt stDistinct [0, 1, 2]).state.touchUDWHAZ 0 = some 2) ∧
    ((loadCell decExt stContour [0, 1, 2]).state.touchDEPCNT 0 =
        (loadCell decExt stContour [0, 2, 1]).state.touchDEPCNT 0 ∧
      (loadCell decExt stContour [0, 1, 2]).state.touchDEPCNT 0 = some 2) :=
  ⟨⟨List.Perm.cons 0 (List.Perm.swap 2 1 []), by decide, by decide!, by decide!, by decide!,
      by decide!, by decide!, by decide!, by decide!, by decide!, by decide!⟩,
   ⟨(loadCell_order_independent decExt stDistinct [0, 1, 2] [0, 2, 1] _ _
      (List.Perm.cons 0 (List.Perm.swap 2 1 [])) (by decide)
      (ret_of_val _ _ (by decide!)) (ret_of_val _ _ (by decide!)) 0).1 (by decide!),
    by decide!⟩,
   ⟨(loadCell_order_independent decExt stContour [0, 1, 2] [0, 2, 1] _ _
      (List.Perm.cons 0 (List.Perm.swap 2 1 [])) (by decide)
      (ret_of_val _ _ (by decide!)) (ret_of_val _ _ (by decide!)) 0).2
      (fun x hx => by
        have hx' : x = "5" := by
          have h5 : DEPCNT_drvalstr (stContour.obj 0) = some "5" := by decide!
          rw [h5] at hx; exact (Option.some.inj hx).symm
        subst hx'
        exact ⟨by decide!, by decide!⟩)
      (by decide!),
    by decide!⟩⟩

/-! ## Classification -/

theorem add_cases (st : S57_state) (loc : localObj) (geo : Ptr) (n : String) (t : S57_Obj_t)
    (hn : (st.obj geo).name = n) (ht : (st.obj geo).objtype = t) :
    (S52_CS_add st loc geo).2 = true ∧
    (S52_CS_add st loc geo).1.topmar_list =
      loc.topmar_list ++ (if isPlatformClass n = true then [geo] else []) ∧
    (S52_CS_add st loc geo).1.lights_list =
      loc.lights_list ++ (if ¬ isPlatformClass n = true ∧ n = "LIGHTS" then [geo] else []) ∧
    (S52_CS_add st loc geo).1.udwhaz_list =
      loc.udwhaz_list ++
        (if ¬ isPlatformClass n = true ∧ ¬ n = "LIGHTS" ∧ (n = "DEPARE" ∨ n = "DRGARE") then [geo]
         else []) ∧
    (S52_CS_add st loc geo).1.depcnt_list =
      loc.depcnt_list ++
        (if ¬ isPlatformClass n = true ∧ ¬ n = "LIGHTS" ∧ (n = "DEPARE" ∨ n = "DRGARE") ∧
            t = .S57_AREAS_T then [geo]
         else []) ∧
    (S52_CS_add st loc geo).1.depval_list =
      loc.depval_list ++
        (if ¬ isPlatformClass n = true ∧ ¬ n = "LIGHTS" ∧ (n = "DEPARE" ∨ n = "UNSARE") then [geo]
         else []) := by
  unfold S52_CS_add isPlatformClass
  simp only [hn, ht]
  split_ifs <;> simp_all

theorem platformClass_names (n : String) (h : isPlatformClass n = true) :
    n ≠ "LIGHTS" ∧ n ≠ "DEPARE" ∧ n ≠ "DRGARE" ∧ n ≠ "UNSARE" := by
  refine ⟨?_, ?_, ?_, ?_⟩ <;> (intro hn; subst hn; revert h; decide)

/-- C15: classification.  `S52_CS_add` returns `TRUE` and appends the feature to the
end of exactly these lists, every other list and every earlier entry unchanged:
`LITFLT`, `LITVES` and any class starting with `BOY` to the platform list only;
`LIGHTS` to the lights list only; `DEPARE` to the hazard and least-depth lists, and
to the contour list iff its geometry is an area; `DRGARE` to the hazard list, and to
the contour list iff area; `UNSARE` to the least-depth list only; any other class to
no list. -/
theorem S52_CS_add_classification (st : S57_state) (loc : localObj) (geo : Ptr) :
    (S52_CS_add st loc geo).2 = true ∧
    (S52_CS_add st loc geo).1.topmar_list =
      loc.topmar_list ++ (if isPlatformClass (st.obj geo).name = true then [geo] else []) ∧
    (S52_CS_add st loc geo).1.lights_list =
      loc.lights_list ++ (if (st.obj geo).name = "LIGHTS" then [geo] else []) ∧
    (S52_CS_add st loc geo).1.udwhaz_list =
      loc.udwhaz_list ++
        (if (st.obj geo).name = "DEPARE" ∨ (st.obj geo).name = "DRGARE" then [geo] else []) ∧
    (S52_CS_add st loc geo).1.depcnt_list =
      loc.depcnt_list ++
        (if ((st.obj geo).name = "DEPARE" ∨ (st.obj geo).name = "DRGARE") ∧
            (st.obj geo).objtype = .S57_AREAS_T then [geo]
         else []) ∧
    (S52_CS_add st loc geo).1.depval_list =
      loc.depval_list ++
        (if (st.obj geo).name = "DEPARE" ∨ (st.obj geo).name = "UNSARE" then [geo] else []) := by
  obtain ⟨h0, h1, h2, h3, h4, h5⟩ := add_cases st loc geo _ _ rfl rfl
  refine ⟨h0, h1, ?_, ?_, ?_, ?_⟩
  · rw [h2]
    by_cases hp : isPlatformClass (st.obj geo).name = true
    · have := (platformClass_names _ hp).1
      simp [hp, this]
    · simp [hp]
  · rw [h3]
    by_cases hp : isPlatformClass (st.obj geo).name = true
    · obtain ⟨_, a, b, _⟩ := platformClass_names _ hp
      simp [hp, a, b]
    · by_cases hl : (st.obj geo).name = "LIGHTS"
      · simp [hp, hl]
      · simp [hp, hl]
  · rw [h4]
    by_cases hp : isPlatformClass (st.obj geo).name = true
    · obtain ⟨_, a, b, _⟩ := platformClass_names _ hp
      simp [hp, a, b]
    · by_cases hl : (st.obj geo).name = "LIGHTS"
      · simp [hp, hl]
      · simp [hp, hl]
  · rw [h5]
    by_cases hp : isPlatformClass (st.obj geo).name = true
    · obtain ⟨_, a, _, c⟩ := platformClass_names _ hp
      simp [hp, a, c]
    · by_cases hl : (st.obj geo).name = "LIGHTS"
      · simp [hp, hl]
      · simp [hp, hl]

/-! ## The assertions of `S52_CS_touch` -/

theorem TOPMAR_loop_fatal (E : S57_ext) (geo : Ptr) :
    ∀ (l : List Ptr) (st : S57_state),
      (S52_CS_touch_TOPMAR E geo l st).val? = none ↔
        (st.silent silent_TOPMAR = false ∧
          (if st.touchTOPMAR geo = none then 2 else 1) ≤
            (l.filter (fun o => E.S57_cmpGeoExt (st.obj geo) (st.obj o))).length) := by
  intro l
  induction l with
  | nil =>
    intro st
    simp only [S52_CS_touch_TOPMAR, CS_result.val?, List.filter_nil, List.length_nil]
    constructor
    · intro h; cases h
    · intro h; have := h.2; split_ifs at this <;> omega
  | cons c rest ih =>
    intro st
    unfold S52_CS_touch_TOPMAR
    by_cases hm : E.S57_cmpGeoExt (st.obj geo) (st.obj c) = true
    · have hm' : ¬ E.S57_cmpGeoExt (st.obj geo) (st.obj c) = false := by simp [hm]
      simp only [hm', if_false, List.filter_cons, hm, if_true, List.length_cons,
        Bool.true_eq_false]
      by_cases ht : st.touchTOPMAR geo = none
      · simp only [ht, if_true]
        rw [ih]
        simp [S57_setTouchTOPMAR]
      · simp only [ht, if_false]
        by_cases hs : st.silent silent_TOPMAR = false
        · simp [hs, CS_result.val?]
        · simp only [hs, if_false, Bool.true_eq_false]
          rw [ih]
          simp [hs]
    · have hm' : E.S57_cmpGeoExt (st.obj geo) (st.obj c) = false := by simpa using hm
      simp only [hm', if_true, List.filter_cons]
      rw [ih]
      simp

theorem LIGHTS_loop_fatal (E : S57_ext) (geo : Ptr) :
    ∀ (l : List Ptr) (st : S57_state),
      (S52_CS_touch_LIGHTS E geo l st).val? = none ↔
        (st.touchLIGHTS geo ≠ none ∧
          ∃ c ∈ l, LIGHTS_candidate E (st.obj geo) (st.obj c) = true) := by
  intro l
  induction l with
  | nil => intro st; simp [S52_CS_touch_LIGHTS, CS_result.val?]
  | cons c rest ih =>
    intro st
    unfold S52_CS_touch_LIGHTS
    by_cases hid : (st.obj c).S57ID ≤ (st.obj geo).S57ID
    · simp only [hid, if_true]
      rw [ih]
      have : LIGHTS_candidate E (st.obj geo) (st.obj c) = false := by
        simp [LIGHTS_candidate, hid]
      simp [this]
    · simp only [hid, if_false]
      by_cases hm : E.S57_cmpGeoExt (st.obj geo) (st.obj c) = true
      · have hc : LIGHTS_candidate E (st.obj geo) (st.obj c) = true := by
          simp [LIGHTS_candidate, hm]; omega
        by_cases ht : st.touchLIGHTS geo = none
        · simp [hm, ht, CS_result.val?]
        · simp [hm, ht, CS_result.val?, hc]
      · have hm' : E.S57_cmpGeoExt (st.obj geo) (st.obj c) = false := by simpa using hm
        have hc : LIGHTS_candidate E (st.obj geo) (st.obj c) = false := by
          simp [LIGHTS_candidate, hm']
        simp only [hm', if_true]
        rw [ih]
        simp [hc]

/-- The `LIGHTS` loop started with an unset light-chain touch returns, and the touch
is the first candidate of the list. -/
theorem LIGHTS_loop_first (E : S57_ext) (geo : Ptr) :
    ∀ (l : List Ptr) (st : S57_state), st.touchLIGHTS geo = none →
      ∃ s', S52_CS_touch_LIGHTS E geo l st = .ret s' () ∧
        s'.touchLIGHTS geo =
          l.find? (fun c => LIGHTS_candidate E (st.obj geo) (st.obj c)) ∧
        (∀ p, p ≠ geo → s'.touchLIGHTS p = st.touchLIGHTS p) := by
  intro l
  induction l with
  | nil => intro st h0; exact ⟨st, rfl, by simp [h0], fun _ _ => rfl⟩
  | cons c rest ih =>
    intro st h0
    unfold S52_CS_touch_LIGHTS
    by_cases hid : (st.obj c).S57ID ≤ (st.obj geo).S57ID
    · have hc : LIGHTS_candidate E (st.obj geo) (st.obj c) = false := by
        simp [LIGHTS_candidate, hid]
      simp only [hid, if_true, List.find?_cons, hc]
      exact ih st h0
    · simp only [hid, if_false]
      by_cases hm : E.S57_cmpGeoExt (st.obj geo) (st.obj c) = true
      · have hc : LIGHTS_candidate E (st.obj geo) (st.obj c) = true := by
          simp [LIGHTS_candidate, hm]; omega
        refine ⟨S57_setTouchLIGHTS st geo c, by simp [hm, h0], ?_, ?_⟩
        · simp [S57_setTouchLIGHTS, List.find?_cons, hc]
        · intro p hp; simp [S57_setTouchLIGHTS, Function.update, hp]
      · have hm' : E.S57_cmpGeoExt (st.obj geo) (st.obj c) = false := by simpa using hm
        have hc : LIGHTS_candidate E (st.obj geo) (st.obj c) = false := by
          simp [LIGHTS_candidate, hm']
        simp only [hm', if_true, List.find?_cons, hc]
        exact ih st h0

theorem DEPVAL_round_unsare (E : S57_ext) (geo : Ptr) (ppt : List ℚ) (c : Ptr) (st : S57_state)
    (least : Option ℚ) (h : DEPVAL_unsare E (st.obj geo) (st.obj c) ppt = true) :
    S52_CS_touch_DEPVAL_round E geo ppt c st least =
      .error (PRINTF (S57_setTouchDEPVAL st geo c)
        "DEBUG: UNSARE found value under this: %s:%c:%i\n") := by
  simp only [DEPVAL_unsare, Bool.and_eq_true, decide_eq_true_eq] at h
  unfold S52_CS_touch_DEPVAL_round
  simp [h.1, h.2]

theorem DEPVAL_round_ok (E : S57_ext) (geo : Ptr) (ppt : List ℚ) (c : Ptr) (st : S57_state)
    (least : Option ℚ) (h : DEPVAL_unsare E (st.obj geo) (st.obj c) ppt = false) :
    ∃ s l, S52_CS_touch_DEPVAL_round E geo ppt c st least = .ok (s, l) ∧ s.obj = st.obj := by
  have hv := DEPVAL_round_view E geo ppt c st least
  cases hr : S52_CS_touch_DEPVAL_round E geo ppt c st least with
  | ok p =>
    rw [hr] at hv
    exact ⟨p.1, p.2, rfl, congrArg Prod.fst hv⟩
  | error s =>
    exfalso
    unfold S52_CS_touch_DEPVAL_round at hr
    simp only [DEPVAL_unsare, Bool.and_eq_false_iff, decide_eq_false_iff_not] at h
    cases least <;> (repeat' split at hr) <;> first | (simp_all; done) | (dsimp only at hr; split_ifs at hr)

/-- The `_DEPVAL01` loop fails its assertion exactly when an entry of the list is a
touching `UNSARE`; the least-depth touch is then the first such entry. -/
theorem DEPVAL_loop_fatal (E : S57_ext) (geo : Ptr) (ppt : List ℚ) :
    ∀ (l : List Ptr) (st : S57_state) (least : Option ℚ),
      ((S52_CS_touch_DEPVAL E geo ppt l st least).val? = none ↔
        ∃ c ∈ l, DEPVAL_unsare E (st.obj geo) (st.obj c) ppt = true) ∧
      ((∃ c ∈ l, DEPVAL_unsare E (st.obj geo) (st.obj c) ppt = true) →
        (S52_CS_touch_DEPVAL E geo ppt l st least).state.touchDEPVAL geo =
          l.find? (fun c => DEPVAL_unsare E (st.obj geo) (st.obj c) ppt)) := by
  intro l
  induction l with
  | nil => intro st least; simp [S52_CS_touch_DEPVAL, CS_result.val?]
  | cons c rest ih =>
    intro st least
    unfold S52_CS_touch_DEPVAL
    by_cases hu : DEPVAL_unsare E (st.obj geo) (st.obj c) ppt = true
    · rw [DEPVAL_round_unsare E geo ppt c st least hu]
      simp [CS_result.val?, CS_result.state, hu, PRINTF, S57_setTouchDEPVAL]
    · have hu' : DEPVAL_unsare E (st.obj geo) (st.obj c) ppt = false := by simpa using hu
      obtain ⟨s, l', hr, ho⟩ := DEPVAL_round_ok E geo ppt c st least hu'
      rw [hr]
      simp only []
      obtain ⟨i1, i2⟩ := ih s l'
      rw [ho] at i1 i2
      constructor
      · rw [i1]; simp [hu']
      · intro hex
        have hex' : ∃ c ∈ rest, DEPVAL_unsare E (st.obj geo) (st.obj c) ppt = true := by
          obtain ⟨x, hx, hxu⟩ := hex
          rcases List.mem_cons.mp hx with rfl | hx
          · rw [hu'] at hxu; cases hxu
          · exact ⟨x, hx, hxu⟩
        rw [i2 hex']
        simp [List.find?_cons, hu']

theorem TOPMAR_loop_touch (E : S57_ext) (geo : Ptr) :
    ∀ (l : List Ptr) (st : S57_state),
      (S52_CS_touch_TOPMAR E geo l st).state.touchTOPMAR geo =
        (if st.touchTOPMAR geo = none then (sameExtent E st geo l).head?
         else st.touchTOPMAR geo) ∧
      ((S52_CS_touch_TOPMAR E geo l st).val? = none →
        (S52_CS_touch_TOPMAR E geo l st).state.log =
          st.log ++ ["FIXME: more than 1 TOPMAR\n", "FIXME: (this msg will not repeat)\n"]) := by
  intro l
  induction l with
  | nil =>
    intro st
    refine ⟨?_, ?_⟩
    · simp only [S52_CS_touch_TOPMAR, CS_result.state, sameExtent, List.filter_nil,
        List.head?_nil]
      split_ifs with h
      · exact h
      · rfl
    · intro h; simp [S52_CS_touch_TOPMAR, CS_result.val?] at h
  | cons c rest ih =>
    intro st
    unfold S52_CS_touch_TOPMAR
    by_cases hm : E.S57_cmpGeoExt (st.obj geo) (st.obj c) = true
    · have hm' : ¬ E.S57_cmpGeoExt (st.obj geo) (st.obj c) = false := by simp [hm]
      rw [if_neg hm']
      by_cases ht : st.touchTOPMAR geo = none
      · rw [if_pos ht]
        obtain ⟨i1, i2⟩ := ih (S57_setTouchTOPMAR st geo c)
        refine ⟨?_, ?_⟩
        · rw [i1]
          simp [S57_setTouchTOPMAR, sameExtent, List.filter_cons, hm, ht]
        · intro h
          rw [i2 h]
          simp [S57_setTouchTOPMAR]
      · rw [if_neg ht]
        by_cases hs : st.silent silent_TOPMAR = false
        · rw [if_pos hs]
          simp [CS_result.state, CS_result.val?, setSilent, PRINTF, ht]
        · rw [if_neg hs]
          obtain ⟨i1, i2⟩ := ih st
          exact ⟨by rw [i1]; simp [ht], i2⟩
    · have hm' : E.S57_cmpGeoExt (st.obj geo) (st.obj c) = false := by simpa using hm
      rw [if_pos hm']
      obtain ⟨i1, i2⟩ := ih st
      refine ⟨?_, i2⟩
      rw [i1]
      simp [sameExtent, List.filter_cons, hm']

theorem UDWHAZ_block_some (E : S57_ext) (loc : localObj) (st : S57_state) (geo : Ptr)
    (npt : Nat) (ppt : List ℚ) (hg : (st.obj geo).geoData = some (npt, ppt)) :
    ∃ st1, S52_CS_touch_UDWHAZ_block E loc st geo = some st1 ∧ st1.obj = st.obj ∧
      st1.touchDEPVAL = st.touchDEPVAL := by
  unfold S52_CS_touch_UDWHAZ_block
  simp only [hg]
  rw [UDWHAZ_loop_eq]
  split_ifs
  · exact ⟨_, rfl, rfl, rfl⟩
  · exact ⟨_, rfl, rfl, rfl⟩

theorem DEPVAL_block_fatal (E : S57_ext) (loc : localObj) (st : S57_state) (geo : Ptr)
    (npt : Nat) (ppt : List ℚ) (hg : (st.obj geo).geoData = some (npt, ppt)) :
    ((S52_CS_touch_DEPVAL_block E loc st geo).val? = none ↔
      ∃ c ∈ loc.depval_list,
        DEPVAL_unsare E (st.obj geo) (st.obj c) (DEPVAL_ppt npt ppt) = true) ∧
    ((∃ c ∈ loc.depval_list,
        DEPVAL_unsare E (st.obj geo) (st.obj c) (DEPVAL_ppt npt ppt) = true) →
      (S52_CS_touch_DEPVAL_block E loc st geo).state.touchDEPVAL geo =
        loc.depval_list.find?
          (fun c => DEPVAL_unsare E (st.obj geo) (st.obj c) (DEPVAL_ppt npt ppt))) := by
  obtain ⟨l1, l2⟩ := DEPVAL_loop_fatal E geo (DEPVAL_ppt npt ppt) loc.depval_list st none
  unfold S52_CS_touch_DEPVAL_block
  simp only [hg]
  unfold DEPVAL_ppt at l1 l2 ⊢
  cases hr : S52_CS_touch_DEPVAL E geo (if 2 < npt then List.drop 3 ppt else ppt)
      loc.depval_list st none with
  | assertFail s =>
    rw [hr] at l1 l2
    exact ⟨by simpa [CS_result.val?] using l1, by simpa [CS_result.state] using l2⟩
  | ret s u =>
    rw [hr] at l1 l2
    simp only [CS_result.val?] at l1
    have hno : ¬ ∃ c ∈ loc.depval_list, DEPVAL_unsare E (st.obj geo) (st.obj c)
        (if 2 < npt then List.drop 3 ppt else ppt) = true := by
      intro h; have := l1.mpr h; cases this
    constructor
    · constructor
      · intro h
        exfalso
        dsimp only at h
        split_ifs at h <;> cases h
      · intro h; exact absurd h hno
    · intro h; exact absurd h hno

/-- The call of `S52_CS_touch` fails an assertion exactly in the cases of
`touchFatal`. -/
theorem touch_fatal_iff (E : S57_ext) (loc : localObj) (st : S57_state) (geo : Ptr) :
    (S52_CS_touch E loc st geo).val? = none ↔ touchFatal E loc st geo := by
  unfold touchFatal
  by_cases hT : (st.obj geo).name = "TOPMAR"
  · have h := TOPMAR_loop_fatal E geo loc.topmar_list st
    unfold S52_CS_touch
    simp only [hT, if_true]
    cases hr : S52_CS_touch_TOPMAR E geo loc.topmar_list st <;> rw [hr] at h <;>
      simpa [CS_result.val?] using h
  · by_cases hB : (st.obj geo).name = "BOYLAT"
    · have n1 : ¬ (st.obj geo).name = "LIGHTS" := by rw [hB]; decide
      have n2 : isHazardClass (st.obj geo).name = false := by rw [hB]; decide
      unfold S52_CS_touch
      simp only [hT, n1, n2, if_false, Bool.false_eq_true, iff_false]
      simp [hB, CS_result.val?]
    · by_cases hL : (st.obj geo).name = "LIGHTS"
      · have h := LIGHTS_loop_fatal E geo loc.lights_list st
        unfold S52_CS_touch
        simp only [hT, hB, hL, if_true, if_false]
        cases hr : S52_CS_touch_LIGHTS E geo loc.lights_list st <;> rw [hr] at h <;>
          simpa [CS_result.val?] using h
      · by_cases hc : isContourLine (st.obj geo) = true
        · have hh : isHazardClass (st.obj geo).name = false := (contourLine_names _ hc).2.2.2
          have hc' : (st.obj geo).name = "DEPCNT" ∨
              ((st.obj geo).name = "DEPARE" ∧ (st.obj geo).objtype = .S57_LINES_T) := by
            unfold isContourLine at hc; simpa using hc
          have he : S52_CS_touch E loc st geo = S52_CS_touch_DEPCNT_block E loc st geo := by
            unfold S52_CS_touch
            simp only [hT, hB, hL, hc', if_false, if_true]
          rw [he]
          simp only [hT, hL, hh, if_false, Bool.false_eq_true, iff_false]
          unfold S52_CS_touch_DEPCNT_block
          dsimp only
          repeat' split
          all_goals simp [CS_result.val?]
        · have hc' : ¬ ((st.obj geo).name = "DEPCNT" ∨
              ((st.obj geo).name = "DEPARE" ∧ (st.obj geo).objtype = .S57_LINES_T)) := by
            intro h; apply hc; unfold isContourLine; simpa using h
          by_cases hh : isHazardClass (st.obj geo).name = true
          · unfold S52_CS_touch
            simp only [hT, hB, hL, hc', hh, if_false, if_true]
            cases hg : (st.obj geo).geoData with
            | none =>
              have : S52_CS_touch_UDWHAZ_block E loc st geo = none := by
                unfold S52_CS_touch_UDWHAZ_block; simp [hg]
              rw [this]
              simp [CS_result.val?]
            | some np =>
              obtain ⟨npt, ppt⟩ := np
              obtain ⟨st1, hb, ho, _⟩ := UDWHAZ_block_some E loc st geo npt ppt hg
              rw [hb]
              simp only []
              have := (DEPVAL_block_fatal E loc st1 geo npt ppt (by rw [ho]; exact hg)).1
              rw [this, ho]
              constructor
              · intro h; exact ⟨npt, ppt, rfl, h⟩
              · rintro ⟨n', p', he, h⟩
                cases he
                exact h
          · unfold S52_CS_touch
            simp [hT, hB, hL, hc', hh, CS_result.val?]

/-! ## Cross-reference index: least depth, platforms, lights -/

/-- C11 (code): an obstruction with two touching depth areas from 10 m and from 20 m
and no `UNSARE`: `S52_CS_touch` returns with the least-depth touch on the 20 m area
when the list holds the 10 m area first, and on the 10 m area when the list holds
the 20 m area first; the touch is not the entry with the smallest `DRVAL1` and it
depends on the order of the list. -/
theorem touch_least_depth_not_shallowest :
    ((S52_CS_addAll stDistinct [0, 1, 2] S52_CS_init).depval_list = [1, 2] ∧
      stDistinct.touchDEPVAL 0 = none ∧
      DEPVAL_touching decExt (stDistinct.obj 0) (stDistinct.obj 1) [0, 0, 0] = true ∧
      DEPVAL_touching decExt (stDistinct.obj 0) (stDistinct.obj 2) [0, 0, 0] = true ∧
      (S57_getAttVal (stDistinct.obj 1) "DRVAL1").map decExt.S52_atof = some 10 ∧
      (S57_getAttVal (stDistinct.obj 2) "DRVAL1").map decExt.S52_atof = some 20 ∧
      (S52_CS_touch decExt (S52_CS_addAll stDistinct [0, 1, 2] S52_CS_init) stDistinct 0).val?
        = some true ∧
      (S52_CS_touch decExt (S52_CS_addAll stDistinct [0, 1, 2] S52_CS_init) stDistinct
        0).state.touchDEPVAL 0 = some 2) ∧
    ((S52_CS_addAll stDistinct [0, 2, 1] S52_CS_init).depval_list = [2, 1] ∧
      (S52_CS_touch decExt (S52_CS_addAll stDistinct [0, 2, 1] S52_CS_init) stDistinct 0).val?
        = some true ∧
      (S52_CS_touch decExt (S52_CS_addAll stDistinct [0, 2, 1] S52_CS_init) stDistinct
        0).state.touchDEPVAL 0 = some 1) := by
  constructor <;> decide!

/-- C12 (as stated) fails: an obstruction with a touching depth area and a touching
`UNSARE` in the least-depth list: the `UNSARE` is linked and then the `g_assert(0)`
that follows the link fails, so `S52_CS_touch` does not return and there is no state
after the call. -/
theorem touch_unsare_counterexample :
    (S52_CS_addAll stUnsare [0, 1, 2] S52_CS_init).depval_list = [1, 2] ∧
    isHazardClass (stUnsare.obj 0).name = true ∧
    (stUnsare.obj 2).name = "UNSARE" ∧
    DEPVAL_touching decExt (stUnsare.obj 0) (stUnsare.obj 2) (DEPVAL_ppt 1 [0, 0, 0]) = true ∧
    (S52_CS_touch decExt (S52_CS_addAll stUnsare [0, 1, 2] S52_CS_init) stUnsare 0).val? = none := by
  decide!

/-- C12 (amended): unsurveyed-area override.  For every `OBSTRN`, `UWTROC` or `WRECKS`
feature with readable geometry, if at least one touching entry of the least-depth list
is an `UNSARE`, then `S52_CS_touch` sets the least-depth touch to an `UNSARE` that
touches the feature (the first one of the list), whatever other entries touch the
feature, wherever the `UNSARE` sits in the list and whatever the touch was before, and
it ends right after this link at the `g_assert(0)` that follows it: the call does not
return. -/
theorem touch_unsare_override (E : S57_ext) (loc : localObj) (st : S57_state) (geo : Ptr)
    (npt : Nat) (ppt : List ℚ)
    (hh : isHazardClass (st.obj geo).name = true)
    (hg : (st.obj geo).geoData = some (npt, ppt))
    (hu : ∃ c ∈ loc.depval_list,
      DEPVAL_touching E (st.obj geo) (st.obj c) (DEPVAL_ppt npt ppt) = true ∧
        (st.obj c).name = "UNSARE") :
    (S52_CS_touch E loc st geo).val? = none ∧
    (S52_CS_touch E loc st geo).state.touchDEPVAL geo =
      loc.depval_list.find?
        (fun c => DEPVAL_unsare E (st.obj geo) (st.obj c) (DEPVAL_ppt npt ppt)) ∧
    ∃ u ∈ loc.depval_list, (S52_CS_touch E loc st geo).state.touchDEPVAL geo = some u ∧
      (st.obj u).name = "UNSARE" ∧
      DEPVAL_touching E (st.obj geo) (st.obj u) (DEPVAL_ppt npt ppt) = true := by
  have hu' : ∃ c ∈ loc.depval_list,
      DEPVAL_unsare E (st.obj geo) (st.obj c) (DEPVAL_ppt npt ppt) = true := by
    obtain ⟨c, hc, h1, h2⟩ := hu
    exact ⟨c, hc, by simp [DEPVAL_unsare, h1, h2]⟩
  obtain ⟨n1, n2, n3, n4, n5⟩ := hazardClass_names _ hh
  obtain ⟨st1, hb, ho, _⟩ := UDWHAZ_block_some E loc st geo npt ppt hg
  have he : S52_CS_touch E loc st geo = S52_CS_touch_DEPVAL_block E loc st1 geo := by
    unfold S52_CS_touch
    simp only [n1, n2, n3, n4, n5, hh, if_false, if_true, false_and, or_self, hb]
  obtain ⟨b1, b2⟩ := DEPVAL_block_fatal E loc st1 geo npt ppt (by rw [ho]; exact hg)
  rw [ho] at b1 b2
  have hfind := b2 hu'
  refine ⟨by rw [he]; exact b1.mpr hu', by rw [he]; exact hfind, ?_⟩
  obtain ⟨c, hc, hcu⟩ := hu'
  cases hf : loc.depval_list.find?
      (fun c => DEPVAL_unsare E (st.obj geo) (st.obj c) (DEPVAL_ppt npt ppt)) with
  | none =>
    have := List.find?_eq_none.mp hf c hc
    exact absurd hcu this
  | some u =>
    have hp := List.find?_some hf
    have hm := List.mem_of_find?_eq_some hf
    simp only [DEPVAL_unsare, Bool.and_eq_true, decide_eq_true_eq] at hp
    exact ⟨u, hm, by rw [he, hfind, hf], hp.2, hp.1⟩

theorem touch_unsare_override_witness :
    (isHazardClass (stUnsare.obj 0).name = true ∧
      (stUnsare.obj 0).geoData = some (1, [0, 0, 0]) ∧
      2 ∈ (S52_CS_addAll stUnsare [0, 1, 2] S52_CS_init).depval_list ∧
      DEPVAL_touching decExt (stUnsare.obj 0) (stUnsare.obj 2) (DEPVAL_ppt 1 [0, 0, 0]) = true ∧
      (stUnsare.obj 2).name = "UNSARE") ∧
    (S52_CS_touch decExt (S52_CS_addAll stUnsare [0, 1, 2] S52_CS_init) stUnsare 0).val? = none ∧
    (S52_CS_touch decExt (S52_CS_addAll stUnsare [0, 1, 2] S52_CS_init) stUnsare
      0).state.touchDEPVAL 0 = some 2 :=
  ⟨by decide!,
   (touch_unsare_override decExt (S52_CS_addAll stUnsare [0, 1, 2] S52_CS_init) stUnsare 0
      1 [0, 0, 0] (by decide!) (by decide!) ⟨2, by decide!, by decide!, by decide!⟩).1,
   by
    rw [(touch_unsare_override decExt (S52_CS_addAll stUnsare [0, 1, 2] S52_CS_init) stUnsare 0
      1 [0, 0, 0] (by decide!) (by decide!) ⟨2, by decide!, by decide!, by decide!⟩).2.1]
    decide!⟩

/-- C13 (as stated) fails: a `TOPMAR` with two same-extent entries in the platform
list; the first entry is linked, the second one is logged and then `g_assert(0)`
fails: `S52_CS_touch` does not return. -/
theorem touch_topmar_counterexample :
    (S52_CS_addAll stTopmar [0, 1, 2] S52_CS_init).topmar_list = [1, 2] ∧
    stTopmar.touchTOPMAR 0 = none ∧
    (S52_CS_touch decExt (S52_CS_addAll stTopmar [0, 1, 2] S52_CS_init) stTopmar 0).val? = none ∧
    (S52_CS_touch decExt (S52_CS_addAll stTopmar [0, 1, 2] S52_CS_init) stTopmar
      0).state.touchTOPMAR 0 = some 1 ∧
    (S52_CS_touch decExt (S52_CS_addAll stTopmar [0, 1, 2] S52_CS_init) stTopmar 0).state.log =
      ["FIXME: more than 1 TOPMAR\n", "FIXME: (this msg will not repeat)\n"] := by
  decide!

/-- C13 (amended): `S52_CS_touch` returns for every index and every feature except at
its three assertions (`touchFatal`): a `TOPMAR` that meets a same-extent platform
entry while its platform touch is already set and the one-time notice is not yet
printed, a `LIGHTS` with a set light-chain touch that meets a same-extent light of
greater identifier, and an `OBSTRN`, `UWTROC` or `WRECKS` that touches an `UNSARE`.
In particular for a `TOPMAR` with an unset platform touch and two or more same-extent
entries in the platform list (notice not yet printed) the first match is kept as the
platform touch, the second match is logged and fails the assertion; with no
same-extent entry the call returns `TRUE` and the touch stays unset. -/
theorem touch_fatal_only_at_assertions (E : S57_ext) (loc : localObj) (st : S57_state)
    (geo : Ptr) :
    ((S52_CS_touch E loc st geo).val? = none ↔ touchFatal E loc st geo) ∧
    ((st.obj geo).name = "TOPMAR" → st.touchTOPMAR geo = none →
      st.silent silent_TOPMAR = false → 2 ≤ (sameExtent E st geo loc.topmar_list).length →
      (S52_CS_touch E loc st geo).val? = none ∧
      (S52_CS_touch E loc st geo).state.touchTOPMAR geo =
        (sameExtent E st geo loc.topmar_list).head? ∧
      (S52_CS_touch E loc st geo).state.log =
        st.log ++ ["FIXME: more than 1 TOPMAR\n", "FIXME: (this msg will not repeat)\n"]) ∧
    ((st.obj geo).name = "TOPMAR" → st.touchTOPMAR geo = none →
      sameExtent E st geo loc.topmar_list = [] →
      (S52_CS_touch E loc st geo).val? = some true ∧
      (S52_CS_touch E loc st geo).state.touchTOPMAR geo = none) := by
  have hstate : (st.obj geo).name = "TOPMAR" →
      (S52_CS_touch E loc st geo).state = (S52_CS_touch_TOPMAR E geo loc.topmar_list st).state ∧
      ((S52_CS_touch E loc st geo).val? = none ↔
        (S52_CS_touch_TOPMAR E geo loc.topmar_list st).val? = none) ∧
      ((S52_CS_touch_TOPMAR E geo loc.topmar_list st).val? ≠ none →
        (S52_CS_touch E loc st geo).val? = some true) := by
    intro hT
    unfold S52_CS_touch
    simp only [hT, if_true]
    cases S52_CS_touch_TOPMAR E geo loc.topmar_list st <;> simp [CS_result.state, CS_result.val?]
  refine ⟨touch_fatal_iff E loc st geo, ?_, ?_⟩
  · intro hT h0 hs h2
    obtain ⟨e1, e2, _⟩ := hstate hT
    obtain ⟨t1, t2⟩ := TOPMAR_loop_touch E geo loc.topmar_list st
    have hf : (S52_CS_touch_TOPMAR E geo loc.topmar_list st).val? = none := by
      rw [TOPMAR_loop_fatal]
      refine ⟨hs, ?_⟩
      rw [if_pos h0]
      exact h2
    refine ⟨e2.mpr hf, ?_, ?_⟩
    · rw [e1, t1, if_pos h0]
    · rw [e1, t2 hf]
  · intro hT h0 hnil
    obtain ⟨e1, _, e3⟩ := hstate hT
    obtain ⟨t1, _⟩ := TOPMAR_loop_touch E geo loc.topmar_list st
    have hnf : (S52_CS_touch_TOPMAR E geo loc.topmar_list st).val? ≠ none := by
      rw [Ne, TOPMAR_loop_fatal]
      rintro ⟨_, hle⟩
      unfold sameExtent at hnil
      rw [hnil, if_pos h0] at hle
      simp at hle
    refine ⟨e3 hnf, ?_⟩
    rw [e1, t1, if_pos h0, hnil]
    rfl

theorem touch_fatal_only_at_assertions_witness :
    ((stTopmar.obj 0).name = "TOPMAR" ∧ stTopmar.touchTOPMAR 0 = none ∧
      stTopmar.silent silent_TOPMAR = false ∧
      2 ≤ (sameExtent decExt stTopmar 0
        (S52_CS_addAll stTopmar [0, 1, 2] S52_CS_init).topmar_list).length ∧
      sameExtent decExt stTopmar 0 S52_CS_init.topmar_list = []) ∧
    ((S52_CS_touch decExt (S52_CS_addAll stTopmar [0, 1, 2] S52_CS_init) stTopmar 0).val? = none ∧
      (S52_CS_touch decExt (S52_CS_addAll stTopmar [0, 1, 2] S52_CS_init) stTopmar
        0).state.touchTOPMAR 0 =
        (sameExtent decExt stTopmar 0
          (S52_CS_addAll stTopmar [0, 1, 2] S52_CS_init).topmar_list).head? ∧
      (S52_CS_touch decExt (S52_CS_addAll stTopmar [0, 1, 2] S52_CS_init) stTopmar 0).state.log =
        stTopmar.log ++ ["FIXME: more than 1 TOPMAR\n", "FIXME: (this msg will not repeat)\n"]) ∧
    ((S52_CS_touch decExt S52_CS_init stTopmar 0).val? = some true ∧
      (S52_CS_touch decExt S52_CS_init stTopmar 0).state.touchTOPMAR 0 = none) :=
  ⟨by decide!,
   (touch_fatal_only_at_assertions decExt (S52_CS_addAll stTopmar [0, 1, 2] S52_CS_init)
      stTopmar 0).2.1 (by decide!) (by decide!) (by decide!) (by decide!),
   (touch_fatal_only_at_assertions decExt S52_CS_init stTopmar 0).2.2
      (by decide!) (by decide!) (by decide!)⟩

/-- C14: light chaining.  After `S52_CS_touch` on a `LIGHTS` feature whose light-chain
touch is unset, the call returns `TRUE` and the touch is the first entry of the lights
list with an identifier strictly greater than the feature's and the same extent; it
stays unset when there is none; the link therefore points to an entry of the lights
list of strictly greater identifier, and no other light-chain touch is written. -/
theorem touch_LIGHTS_first (E : S57_ext) (loc : localObj) (st : S57_state) (geo : Ptr)
    (hn : (st.obj geo).name = "LIGHTS") (h0 : st.touchLIGHTS geo = none) :
    ∃ s', S52_CS_touch E loc st geo = .ret s' true ∧
      s'.touchLIGHTS geo =
        loc.lights_list.find? (fun c => LIGHTS_candidate E (st.obj geo) (st.obj c)) ∧
      (∀ c, s'.touchLIGHTS geo = some c →
        c ∈ loc.lights_list ∧ (st.obj geo).S57ID < (st.obj c).S57ID ∧
          E.S57_cmpGeoExt (st.obj geo) (st.obj c) = true) ∧
      (∀ p, p ≠ geo → s'.touchLIGHTS p = st.touchLIGHTS p) := by
  obtain ⟨s', hr, ht, hf⟩ := LIGHTS_loop_first E geo loc.lights_list st h0
  have n1 : ¬ (st.obj geo).name = "TOPMAR" := by rw [hn]; decide
  have n2 : ¬ (st.obj geo).name = "BOYLAT" := by rw [hn]; decide
  refine ⟨s', ?_, ht, ?_, hf⟩
  · unfold S52_CS_touch
    rw [if_neg n1, if_neg n2, if_pos hn, hr]
  · intro c hc
    rw [ht] at hc
    have hp := List.find?_some hc
    have hm := List.mem_of_find?_eq_some hc
    simp only [LIGHTS_candidate, Bool.and_eq_true, decide_eq_true_eq] at hp
    exact ⟨hm, hp.1, hp.2⟩

theorem touch_LIGHTS_first_witness :
    ((stLights.obj 1).name = "LIGHTS" ∧ stLights.touchLIGHTS 1 = none) ∧
    ∃ s', S52_CS_touch decExt (S52_CS_addAll stLights [0, 1, 2] S52_CS_init) stLights 1
        = .ret s' true ∧
      s'.touchLIGHTS 1 = some 0 :=
  ⟨by decide!, by
    obtain ⟨s', h1, h2, _⟩ := touch_LIGHTS_first decExt
      (S52_CS_addAll stLights [0, 1, 2] S52_CS_init) stLights 1 (by decide!) (by decide!)
    refine ⟨s', h1, ?_⟩
    rw [h2]
    decide!⟩

/-! ## Restriction symbols -/

/-- On a parsed list of non-zero codes `_strpbrk` is the membership test. -/
theorem strpbrk_codes (cs l : List Nat) (hc : ∀ c ∈ cs, c ≠ 0) :
    (_strpbrk (cs ++ [0]) l).isSome = containsAny cs l := by
  induction cs with
  | nil => simp [_strpbrk, containsAny]
  | cons c cs ih =>
    have h0 : c ≠ 0 := hc c (List.mem_cons_self _ _)
    have ih' := ih (fun x hx => hc x (List.mem_cons_of_mem _ hx))
    simp only [List.cons_append, _strpbrk, h0, if_false]
    by_cases hm : c ∈ l
    · simp [hm, containsAny]
    · simp only [hm, if_false]
      show (_strpbrk (cs ++ [0]) l).isSome = containsAny (c :: cs) l
      rw [ih']
      simp [containsAny, hm]

/-- Lists with the same codes give the same membership tests. -/
theorem containsAny_congr (cs cs' l : List Nat) (h : ∀ c, c ∈ cs' ↔ c ∈ cs) :
    containsAny cs' l = containsAny cs l := by
  rw [Bool.eq_iff_iff]
  simp only [containsAny, List.any_eq_true, decide_eq_true_eq]
  constructor
  · rintro ⟨c, hc, hl⟩
    exact ⟨c, (h c).mp hc, hl⟩
  · rintro ⟨c, hc, hl⟩
    exact ⟨c, (h c).mpr hc, hl⟩

/-- The symbol of `_RESCSP01` as a function of the codes of the list. -/
theorem RESCSP01_codes (E : S57_ext) (s : String) (cs : List Nat)
    (hp : (_parseList E.S52_atoi (some s)).2 = cs ++ [0]) (hc : ∀ c ∈ cs, c ≠ 0) :
    _RESCSP01 E s = some
      (if containsAny cs [7, 8, 14] then
        (if containsAny cs [1, 2, 3, 4, 5, 6] then ";SY(ENTRES61)"
          else if containsAny cs [9, 10, 11, 12, 13] then ";SY(ENTRES71)" else ";SY(ENTRES51)")
      else if containsAny cs [1, 2] then
        (if containsAny cs [3, 4, 5, 6] then ";SY(ACHRES61)"
          else if containsAny cs [9, 10, 11, 12, 13] then ";SY(ACHRES71)" else ";SY(ACHRES51)")
      else if containsAny cs [3, 4, 5, 6] then
        (if containsAny cs [9, 10, 11, 12, 13] then ";SY(FSHRES71)" else ";SY(FSHRES51)")
      else if containsAny cs [9, 10, 11, 12, 13] then ";SY(INFARE51)"
      else ";SY(RSRDEF51)") := by
  unfold _RESCSP01
  simp only [hp, strpbrk_codes _ _ hc]

/-- C16: restriction precedence.  For a `RESTRN` value whose parsed list is the
non-zero codes `cs` (the parser keeps at most 15 codes, each below 256), `_RESCSP01`
returns exactly one symbol: an `ENTRES` symbol if the list contains 7, 8 or 14;
otherwise an `ACHRES` symbol if it contains 1 or 2; otherwise an `FSHRES` symbol if
it contains one of 3..6; otherwise `INFARE51` if it contains one of 9..13; otherwise
`RSRDEF51`.  A second value with the same codes in another order gets the same
symbol, and `RESTRN01` returns that symbol for a feature with this `RESTRN`. -/
theorem RESCSP01_precedence (E : S57_ext) (s s' : String) (cs cs' : List Nat)
    (hp : (_parseList E.S52_atoi (some s)).2 = cs ++ [0]) (hc : ∀ c ∈ cs, c ≠ 0)
    (hp' : (_parseList E.S52_atoi (some s')).2 = cs' ++ [0]) (hperm : cs'.Perm cs) :
    (∃ sym, _RESCSP01 E s = some sym ∧
      (if containsAny cs [7, 8, 14] then
        sym ∈ [";SY(ENTRES61)", ";SY(ENTRES71)", ";SY(ENTRES51)"]
      else if containsAny cs [1, 2] then
        sym ∈ [";SY(ACHRES61)", ";SY(ACHRES71)", ";SY(ACHRES51)"]
      else if containsAny cs [3, 4, 5, 6] then sym ∈ [";SY(FSHRES71)", ";SY(FSHRES51)"]
      else if containsAny cs [9, 10, 11, 12, 13] then sym = ";SY(INFARE51)"
      else sym = ";SY(RSRDEF51)")) ∧
    _RESCSP01 E s' = _RESCSP01 E s ∧
    (∀ geo, S57_getAttVal geo "RESTRN" = some s → RESTRN01 E geo = _RESCSP01 E s) := by
  have hmem : ∀ c, c ∈ cs' ↔ c ∈ cs := fun c => hperm.mem_iff
  have hc' : ∀ c ∈ cs', c ≠ 0 := fun c h => hc c ((hmem c).mp h)
  refine ⟨⟨_, RESCSP01_codes E s cs hp hc, ?_⟩, ?_, ?_⟩
  · split_ifs <;> simp
  · rw [RESCSP01_codes E s cs hp hc, RESCSP01_codes E s' cs' hp' hc']
    simp only [containsAny_congr cs cs' _ hmem]
  · intro geo hg
    simp only [RESTRN01, hg]

theorem RESCSP01_precedence_witness :
    ((_parseList decExt.S52_atoi (some "4,1,7,13")).2 = [4, 1, 7, 13] ++ [0] ∧
      (_parseList decExt.S52_atoi (some "13,7,4,1")).2 = [13, 7, 4, 1] ++ [0] ∧
      (_parseList decExt.S52_atoi (some "4,9,1")).2 = [4, 9, 1] ++ [0]) ∧
    _RESCSP01 decExt "4,1,7,13" = some ";SY(ENTRES61)" ∧
    _RESCSP01 decExt "13,7,4,1" = _RESCSP01 decExt "4,1,7,13" ∧
    _RESCSP01 decExt "4,9,1" = some ";SY(ACHRES61)" ∧
    _RESCSP01 decExt "4,9" = some ";SY(FSHRES71)" ∧
    _RESCSP01 decExt "9" = some ";SY(INFARE51)" ∧
    _RESCSP01 decExt "15" = some ";SY(RSRDEF51)" :=
  ⟨by decide!, by decide!,
   (RESCSP01_precedence decExt "4,1,7,13" "13,7,4,1" [4, 1, 7, 13] [13, 7, 4, 1]
     (by decide!) (by decide) (by decide!) (by decide)).2.1,
   by decide!, by decide!, by decide!, by decide!⟩

/-- C17 (code): in the fishing tier of `RESARE02` (RESTRN with one of 3..6, none of
7, 8, 14, 1, 2 and none of 9..13) a `CATREA` list with a tier-raising code (one of
1, 8, 9, 12, 14, 19, 21, 25) selects `;SY(FSHRES51)`, the very symbol selected when
`CATREA` is absent, and the whole instruction is the same as without `CATREA`. -/
theorem RESARE02_fishing_raising_same (E : S57_ext) (mp : S52_MP) (g g' : S57_geo)
    (rs cstr : String) (rl cl : List Nat)
    (hr : S57_getAttVal g "RESTRN" = some rs) (hr' : S57_getAttVal g' "RESTRN" = some rs)
    (hcat : S57_getAttVal g "CATREA" = some cstr) (hcat' : S57_getAttVal g' "CATREA" = none)
    (hpr : (_parseList E.S52_atoi (some rs)).2 = rl ++ [0]) (hrl : ∀ c ∈ rl, c ≠ 0)
    (hpc : (_parseList E.S52_atoi (some cstr)).2 = cl ++ [0]) (hcl : ∀ c ∈ cl, c ≠ 0)
    (hfish : containsAny rl [3, 4, 5, 6] = true)
    (hentry : containsAny rl [7, 8, 14] = false) (hanch : containsAny rl [1, 2] = false)
    (hother : containsAny rl [9, 10, 11, 12, 13] = false)
    (hraise : containsAny cl [1, 8, 9, 12, 14, 19, 21, 25] = true) :
    (RESARE02_locals E mp g).2.2 = ";SY(FSHRES51)" ∧
    (RESARE02_locals E mp g').2.2 = ";SY(FSHRES51)" ∧
    RESARE02 E mp g = RESARE02 E mp g' := by
  have e1 : RESARE02_locals E mp g =
      (some ";OP(6---)", RESARE02_line mp ";LC(FSHRES51)", ";SY(FSHRES51)") := by
    unfold RESARE02_locals
    simp only [hr, hcat, hpr, hpc, strpbrk_codes _ _ hrl, strpbrk_codes _ _ hcl, hfish, hentry,
      hanch, hraise]
    simp
  have e2 : RESARE02_locals E mp g' =
      (some ";OP(6---)", RESARE02_line mp ";LC(FSHRES51)", ";SY(FSHRES51)") := by
    unfold RESARE02_locals
    simp only [hr', hcat', hpr, strpbrk_codes _ _ hrl, hfish, hentry, hanch, hother]
    simp
  refine ⟨by rw [e1], by rw [e2], ?_⟩
  unfold RESARE02
  rw [e1, e2]

theorem RESARE02_fishing_raising_same_witness :
    ((RESARE02_locals decExt mpScenario (resare "3" (some "1"))).2.2 = ";SY(FSHRES51)" ∧
      (RESARE02_locals decExt mpScenario (resare "3" none)).2.2 = ";SY(FSHRES51)" ∧
      RESARE02 decExt mpScenario (resare "3" (some "1")) =
        RESARE02 decExt mpScenario (resare "3" none)) ∧
    RESARE02 decExt mpScenario (resare "3" (some "1")) =
      ";OP(6---);LS(DASH,2,CHMGD);SY(FSHRES51)" ∧
    (RESARE02_locals decExt mpScenario (resare "7" (some "1"))).2.2 = ";SY(ENTRES61)" ∧
    (RESARE02_locals decExt mpScenario (resare "7" none)).2.2 = ";SY(ENTRES51)" ∧
    (RESARE02_locals decExt mpScenario (resare "1" (some "1"))).2.2 = ";SY(ACHRES61)" ∧
    (RESARE02_locals decExt mpScenario (resare "1" none)).2.2 = ";SY(ACHRES51)" :=
  ⟨RESARE02_fishing_raising_same decExt mpScenario (resare "3" (some "1")) (resare "3" none)
      "3" "1" [3] [1] (by decide!) (by decide!) (by decide!) (by decide!) (by decide!)
      (by decide) (by decide!) (by decide) (by decide) (by decide) (by decide) (by decide)
      (by decide),
   by decide!, by decide!, by decide!, by decide!, by decide!⟩

/-! ## `_UDWHAZ03` -/

/-- Without a hazard touch `_UDWHAZ03` returns no instruction; the scale minimum of
the feature is reset and nothing else of the store changes but the log. -/
theorem UDWHAZ03_unlinked (E : S57_ext) (mp : S52_MP) (st : S57_state) (geo : Ptr) (d : ℚ)
    (ht : st.touchUDWHAZ geo = none) :
    (_UDWHAZ03 E mp st geo d).2 = none ∧
    (_UDWHAZ03 E mp st geo d).1.scamin geo = .S57_RESET_SCAMIN ∧
    (_UDWHAZ03 E mp st geo d).1.obj = st.obj ∧
    (_UDWHAZ03 E mp st geo d).1.touchDEPVAL = st.touchDEPVAL ∧
    (_UDWHAZ03 E mp st geo d).1.touchUDWHAZ = st.touchUDWHAZ := by
  unfold _UDWHAZ03
  by_cases hd : d ≤ mp .S52_MAR_SAFETY_CONTOUR
  · simp [hd, S57_setScamin, ht, PRINTF]
  · simp [hd, S57_setScamin]

/-- C18 (as stated) fails: an obstruction of depth 5 under a safety contour of 10,
hazard touch on a depth-area line with `DRVAL2 = 10`: the linked depth is not
shallower than the safety contour, yet `_UDWHAZ03` returns no instruction; a linked
area with `DRVAL1 = 10` is flagged. -/
theorem UDWHAZ03_flag_counterexample :
    (5 : ℚ) ≤ mpScenario .S52_MAR_SAFETY_CONTOUR ∧
    (stHazard .S57_POINT_T [] (depareLine 2 "10")).touchUDWHAZ 0 = some 1 ∧
    UDWHAZ03_linkedDepth decExt mpScenario
      ((stHazard .S57_POINT_T [] (depareLine 2 "10")).obj 1) = some 10 ∧
    (10 : ℚ) ≥ mpScenario .S52_MAR_SAFETY_CONTOUR ∧
    (_UDWHAZ03 decExt mpScenario (stHazard .S57_POINT_T [] (depareLine 2 "10")) 0 5).2 = none ∧
    (_UDWHAZ03 decExt mpScenario (stHazard .S57_POINT_T [] (depareArea 2 "10")) 0 5).2 =
      some ";OP(8OD14010);SY(ISODGR01)" := by
  decide!

/-- C18 (amended): `_UDWHAZ03` returns a hazard instruction if and only if the depth
value is not greater than the safety contour, the hazard touch is set, the linked
feature carries its depth attribute (`DRVAL2` for a linked line, `DRVAL1` otherwise)
and that depth plus the datum offset (the sum of the two doubles, as the code adds
them) is strictly greater than the safety contour for a linked line, greater than or
equal to it for a linked area; in every other case it returns no instruction. -/
theorem UDWHAZ03_flag_iff (E : S57_ext) (mp : S52_MP) (st : S57_state) (geo : Ptr) (d : ℚ) :
    (_UDWHAZ03 E mp st geo d).2.isSome = true ↔
      d ≤ mp .S52_MAR_SAFETY_CONTOUR ∧
      ∃ t, st.touchUDWHAZ geo = some t ∧
        ∃ v, UDWHAZ03_linkedDepth E mp (st.obj t) = some v ∧
          (if (st.obj t).objtype = .S57_LINES_T then v > mp .S52_MAR_SAFETY_CONTOUR
            else v ≥ mp .S52_MAR_SAFETY_CONTOUR) := by
  unfold _UDWHAZ03
  by_cases hd : d ≤ mp .S52_MAR_SAFETY_CONTOUR
  · simp only [hd, if_true, true_and, S57_setScamin]
    cases ht : st.touchUDWHAZ geo with
    | none => simp
    | some t =>
      simp only [UDWHAZ03_linkedDepth, Option.some.injEq, exists_eq_left']
      by_cases hl : (st.obj t).objtype = .S57_LINES_T
      · simp only [hl, if_true]
        cases ha : S57_getAttVal (st.obj t) "DRVAL2" with
        | none => simp
        | some s =>
          by_cases hv : dadd (E.S52_atof s) (mp .S52_MAR_DATUM_OFFSET) > mp .S52_MAR_SAFETY_CONTOUR
          · simp only [hv, decide_True, if_true]
            split_ifs <;> simp [hv]
          · simp [hv]
      · simp only [hl, if_false]
        cases ha : S57_getAttVal (st.obj t) "DRVAL1" with
        | none => simp
        | some s =>
          by_cases hv : dadd (E.S52_atof s) (mp .S52_MAR_DATUM_OFFSET) ≥ mp .S52_MAR_SAFETY_CONTOUR
          · simp only [hv, decide_True, if_true]
            split_ifs <;> simp [hv]
          · simp [hv]
  · simp [hd]

/-- C19: hazard variants.  Whenever `_UDWHAZ03` returns an instruction, a feature
whose `WATLEV` reads 1 or 2 (first character `1` or `2`) gets exactly
`;OP(--D14050)` and its scale minimum stays reset; otherwise a point or area
feature gets `;OP(8OD14010);SY(ISODGR01)` and a line feature `;OP(8O-14010)`, and
in both cases the scale minimum is `INFINITY`; whenever no instruction is returned
the scale minimum is left reset. -/
theorem UDWHAZ03_variants (E : S57_ext) (mp : S52_MP) (st : S57_state) (geo : Ptr) (d : ℚ) :
    (∀ x, (_UDWHAZ03 E mp st geo d).2 = some x →
      if WATLEV_1_or_2 (st.obj geo) = true then
        x = ";OP(--D14050)" ∧ (_UDWHAZ03 E mp st geo d).1.scamin geo = .S57_RESET_SCAMIN
      else
        x = (if (st.obj geo).objtype = .S57_LINES_T then ";OP(8O-14010)"
              else ";OP(8OD14010);SY(ISODGR01)") ∧
          (_UDWHAZ03 E mp st geo d).1.scamin geo = .INFINITY) ∧
    ((_UDWHAZ03 E mp st geo d).2 = none →
      (_UDWHAZ03 E mp st geo d).1.scamin geo = .S57_RESET_SCAMIN) := by
  unfold _UDWHAZ03
  by_cases hd : d ≤ mp .S52_MAR_SAFETY_CONTOUR
  · simp only [hd, if_true, S57_setScamin]
    cases ht : st.touchUDWHAZ geo with
    | none => simp [PRINTF]
    | some t =>
      by_cases hw : WATLEV_1_or_2 (st.obj geo) = true <;>
      by_cases hg : (st.obj geo).objtype = .S57_LINES_T <;>
      by_cases hl : (st.obj t).objtype = .S57_LINES_T <;>
      simp only [hl, hw, hg, if_true, if_false] <;>
      split <;> (try split_ifs) <;> simp_all
  · simp [hd, S57_setScamin]

theorem UDWHAZ03_variants_witness :
    ((_UDWHAZ03 decExt mpScenario (stHazard .S57_POINT_T [("WATLEV", "2")] (depareArea 2 "20"))
        0 5).2 = some ";OP(--D14050)" ∧
      (_UDWHAZ03 decExt mpScenario (stHazard .S57_POINT_T [("WATLEV", "2")] (depareArea 2 "20"))
        0 5).1.scamin 0 = .S57_RESET_SCAMIN) ∧
    ((_UDWHAZ03 decExt mpScenario (stHazard .S57_AREAS_T [("WATLEV", "3")] (depareArea 2 "20"))
        0 5).2 = some ";OP(8OD14010);SY(ISODGR01)" ∧
      (_UDWHAZ03 decExt mpScenario (stHazard .S57_AREAS_T [("WATLEV", "3")] (depareArea 2 "20"))
        0 5).1.scamin 0 = .INFINITY) ∧
    ((_UDWHAZ03 decExt mpScenario (stHazard .S57_LINES_T [] (depareArea 2 "20")) 0 5).2 =
        some ";OP(8O-14010)" ∧
      (_UDWHAZ03 decExt mpScenario (stHazard .S57_LINES_T [] (depareArea 2 "20")) 0 5).1.scamin 0
        = .INFINITY) ∧
    ((_UDWHAZ03 decExt mpScenario (stHazard .S57_POINT_T [] (depareArea 2 "20")) 0 15).2 = none ∧
      (_UDWHAZ03 decExt mpScenario (stHazard .S57_POINT_T [] (depareArea 2 "20")) 0 15).1.scamin 0
        = .S57_RESET_SCAMIN) :=
  ⟨by
    have h := (UDWHAZ03_variants decExt mpScenario
      (stHazard .S57_POINT_T [("WATLEV", "2")] (depareArea 2 "20")) 0 5).1 ";OP(--D14050)"
      (by decide!)
    rw [if_pos (by decide!)] at h
    exact ⟨by decide!, h.2⟩,
   by decide!, by decide!,
   by decide!,
   (UDWHAZ03_variants decExt mpScenario (stHazard .S57_POINT_T [] (depareArea 2 "20")) 0 15).2
     (by decide!)⟩

/-! ## Instructions without a hazard directive -/

/-- A pair of characters of a prefix is a pair of the whole text. -/
theorem hasPair_append_left (x y : Char) (b : List Char) :
    ∀ a, hasPair x y a = true → hasPair x y (a ++ b) = true
  | [], h => by simp [hasPair] at h
  | [_], h => by simp [hasPair] at h
  | c :: d :: r, h => by
    simp only [hasPair, Bool.or_eq_true] at h
    show hasPair x y (c :: d :: (r ++ b)) = true
    simp only [hasPair, Bool.or_eq_true]
    rcases h with h | h
    · exact Or.inl h
    · exact Or.inr (hasPair_append_left x y b (d :: r) h)

/-- A pair of characters of a text is a pair of the text after one more character. -/
theorem hasPair_cons (x y c : Char) (s : List Char) (h : hasPair x y s = true) :
    hasPair x y (c :: s) = true := by
  cases s with
  | nil => simp [hasPair] at h
  | cons d r => simp [hasPair, h]

/-- A pair of characters of a text that occurs in `s` is a pair of `s`. -/
theorem hasPair_of_occursIn (x y : Char) (sub : List Char) (hs : hasPair x y sub = true) :
    ∀ s, occursIn sub s = true → hasPair x y s = true
  | [], h => by
    simp only [occursIn] at h
    cases sub with
    | nil => simp [hasPair] at hs
    | cons a r => simp [List.isPrefixOf] at h
  | c :: cs, h => by
    simp only [occursIn, Bool.or_eq_true] at h
    rcases h with h | h
    · obtain ⟨t, ht⟩ := List.isPrefixOf_iff_prefix.mp h
      rw [← ht]
      exact hasPair_append_left x y t sub hs
    · exact hasPair_cons x y c cs (hasPair_of_occursIn x y sub hs cs h)

/-- Appending a text that has no pair and does not start with the second character of
the pair creates no pair. -/
theorem hasPair_append_false (x y : Char) (b : List Char) (hb : hasPair x y b = false)
    (hh : b.head? ≠ some y) : ∀ a, hasPair x y a = false → hasPair x y (a ++ b) = false
  | [], _ => hb
  | [c], _ => by
    cases b with
    | nil => rfl
    | cons d r =>
      have hd : d ≠ y := fun e => hh (by simp [e])
      show hasPair x y (c :: d :: r) = false
      simp only [hasPair, Bool.or_eq_false_iff]
      exact ⟨by simp [hd], hb⟩
  | c :: d :: r, h => by
    simp only [hasPair, Bool.or_eq_false_iff] at h
    show hasPair x y (c :: d :: (r ++ b)) = false
    simp only [hasPair, Bool.or_eq_false_iff]
    exact ⟨h.1, hasPair_append_false x y b hb hh (d :: r) h.2⟩

/-- Plain texts are closed under concatenation. -/
theorem plainText_append (a b : String) (ha : plainText a) (hb : plainText b) :
    plainText (a ++ b) := by
  obtain ⟨a1, a2, a3, a4⟩ := ha
  obtain ⟨b1, b2, b3, b4⟩ := hb
  have hd : (a ++ b).data = a.data ++ b.data := String.data_append a b
  unfold plainText
  rw [hd]
  refine ⟨hasPair_append_false _ _ _ b1 b3 _ a1, hasPair_append_false _ _ _ b2 b4 _ a2, ?_, ?_⟩
  · cases h : a.data with
    | nil => simpa using b3
    | cons c r => rw [h] at a3; simpa using a3
  · cases h : a.data with
    | nil => simpa using b4
    | cons c r => rw [h] at a4; simpa using a4

/-- Appending an optional plain text to a plain text. -/
theorem plainText_append_opt (a : String) (o : Option String) (ha : plainText a)
    (ho : ∀ x, o = some x → plainText x) : plainText (g_string_append_opt a o) := by
  cases o with
  | none => exact ha
  | some x => exact plainText_append a x ha (ho x rfl)

/-- A plain text contains no hazard directive. -/
theorem plainText_no_directive (s : String) (h : plainText s) :
    ∀ d ∈ hazardDirectives, strstr s d = false := by
  obtain ⟨h1, h2, _, _⟩ := h
  have key : ∀ d : String, (hasPair 'O' 'P' d.data = true ∨ hasPair 'I' 'S' d.data = true) →
      strstr s d = false := by
    intro d hd
    cases hs : strstr s d with
    | false => rfl
    | true =>
      exfalso
      rcases hd with hd | hd
      · have := hasPair_of_occursIn _ _ _ hd _ hs
        rw [h1] at this
        exact Bool.false_ne_true this
      · have := hasPair_of_occursIn _ _ _ hd _ hs
        rw [h2] at this
        exact Bool.false_ne_true this
  intro d hd
  simp only [hazardDirectives, List.mem_cons, List.mem_singleton, List.not_mem_nil,
    or_false] at hd
  rcases hd with rfl | rfl | rfl | rfl
  · exact key _ (Or.inr (by decide))
  · exact key _ (Or.inl (by decide))
  · exact key _ (Or.inl (by decide))
  · exact key _ (Or.inl (by decide))

/-- The digits written by `Nat.toDigits` are decimal digits. -/
theorem toDigitsCore_isDigit : ∀ (fuel n : Nat) (ds : List Char),
    (∀ c ∈ ds, c.isDigit = true) → ∀ c ∈ Nat.toDigitsCore 10 fuel n ds, c.isDigit = true
  | 0, _, ds, h => by simpa [Nat.toDigitsCore] using h
  | fuel + 1, n, ds, h => by
    have hd : (Nat.digitChar (n % 10)).isDigit = true := by
      have hlt : n % 10 < 10 := Nat.mod_lt n (by decide)
      generalize n % 10 = m at hlt
      interval_cases m <;> decide
    have h' : ∀ c ∈ Nat.digitChar (n % 10) :: ds, c.isDigit = true := by
      intro c hc
      rcases List.mem_cons.mp hc with rfl | hc
      · exact hd
      · exact h c hc
    unfold Nat.toDigitsCore
    dsimp only
    split_ifs
    · exact h'
    · exact toDigitsCore_isDigit fuel (n / 10) _ h'

/-- A text of digits and minus signs is plain. -/
theorem plainText_of_chars (s : String)
    (h : ∀ c ∈ s.data, c.isDigit = true ∨ c = '-') : plainText s := by
  have hne : ∀ x : Char, x.isDigit = false → x ≠ '-' → ∀ c ∈ s.data, c ≠ x := by
    intro x hx hm c hc e
    subst e
    rcases h c hc with h | h
    · rw [hx] at h
      exact Bool.false_ne_true h
    · exact hm h
  have hp : ∀ (x y : Char) (l : List Char), (∀ c ∈ l, c ≠ x) → hasPair x y l = false := by
    intro x y l
    induction l with
    | nil => intro _; rfl
    | cons a r ih =>
      intro hl
      cases r with
      | nil => rfl
      | cons b r2 =>
        have hax : a ≠ x := hl a (List.mem_cons_self _ _)
        simp only [hasPair, Bool.or_eq_false_iff]
        exact ⟨by simp [hax], ih (fun c hc => hl c (List.mem_cons_of_mem _ hc))⟩
  have hh : ∀ x : Char, x.isDigit = false → x ≠ '-' → s.data.head? ≠ some x := by
    intro x hx hm e
    cases hs : s.data with
    | nil => rw [hs] at e; simp at e
    | cons a r =>
      rw [hs] at e
      simp only [List.head?_cons, Option.some.injEq] at e
      exact hne x hx hm a (by rw [hs]; exact List.mem_cons_self _ _) e
  exact ⟨hp _ _ _ (hne 'O' (by decide) (by decide)), hp _ _ _ (hne 'I' (by decide) (by decide)),
    hh 'P' (by decide) (by decide), hh 'S' (by decide) (by decide)⟩

/-- The rendering of an `int` is plain. -/
theorem plainText_fmt_i (i : Int) : plainText (fmt_i i) := by
  apply plainText_of_chars
  intro c hc
  cases i with
  | ofNat n =>
    exact Or.inl (toDigitsCore_isDigit _ _ [] (by simp) c hc)
  | negSucc n =>
    have hd : (fmt_i (Int.negSucc n)).data = '-' :: Nat.toDigits 10 (n + 1) := by
      simp [fmt_i, String.data_append]
    rw [hd] at hc
    rcases List.mem_cons.mp hc with rfl | hc
    · exact Or.inr rfl
    · exact Or.inl (toDigitsCore_isDigit _ _ [] (by simp) c hc)

/-- A sounding glyph is plain. -/
theorem plainText_glyph (p k : String) (i : Int) (hp : p = "SOUNDS" ∨ p = "SOUNDG")
    (hk : k ∈ ["0", "1", "2", "3", "4", "5"]) : plainText (SNDFRM02_glyph p k i) := by
  unfold SNDFRM02_glyph
  apply plainText_append
  · apply plainText_append
    · simp only [List.mem_cons, List.mem_singleton, List.not_mem_nil, or_false] at hk
      rcases hp with rfl | rfl <;> rcases hk with rfl | rfl | rfl | rfl | rfl | rfl <;> decide
    · exact plainText_fmt_i i
  · decide

/-- The quality glyphs of `_SNDFRM02` are plain. -/
theorem plainText_quality (E : S57_ext) (geo : S57_geo) (p : String)
    (hp : p = "SOUNDS" ∨ p = "SOUNDG") : plainText (SNDFRM02_quality E geo p) := by
  have hB : plainText (";SY(" ++ p ++ "B1)") := by rcases hp with rfl | rfl <;> decide
  have hC : plainText (";SY(" ++ p ++ "C2)") := by rcases hp with rfl | rfl <;> decide
  have h0 : plainText "" := by decide
  unfold SNDFRM02_quality
  simp only []
  have h1 : plainText
      (match S57_getAttVal geo "TECSOU" with
      | some s =>
        if (_strpbrk (_parseList E.S52_atoi (some s)).2 [6]).isSome then
          "" ++ (";SY(" ++ p ++ "B1)")
        else ""
      | none => "") := by
    split
    · split_ifs
      · exact plainText_append _ _ h0 hB
      · exact h0
    · exact h0
  split_ifs
  · exact plainText_append _ _ h1 hC
  · split
    · split_ifs
      · exact plainText_append _ _ h1 hC
      · exact h1
    · exact h1

/-- The glyphs of continuations B and C of `_SNDFRM02` keep a plain buffer plain. -/
theorem plainText_integer (s p : String) (l : ℚ) (hs : plainText s)
    (hp : p = "SOUNDS" ∨ p = "SOUNDG") : plainText (SNDFRM02_integer s p l) := by
  unfold SNDFRM02_integer
  simp only []
  split_ifs <;>
    repeat' first
      | exact hs
      | exact plainText_glyph _ _ _ hp (by decide)
      | apply plainText_append

/-- The digit glyphs of `_SNDFRM02` keep a plain buffer plain. -/
theorem plainText_digits (s p : String) (d l : ℚ) (hs : plainText s)
    (hp : p = "SOUNDS" ∨ p = "SOUNDG") : plainText (SNDFRM02_digits s p d l) := by
  have hA : plainText (";SY(" ++ p ++ "A1)") := by rcases hp with rfl | rfl <;> decide
  unfold SNDFRM02_digits
  simp only []
  split_ifs <;>
    repeat' first
      | exact hs
      | exact hA
      | exact plainText_integer _ _ _ hs hp
      | exact plainText_glyph _ _ _ hp (by decide)
      | apply plainText_append

/-- The sounding label of `_SNDFRM02` is plain. -/
theorem plainText_SNDFRM02 (E : S57_ext) (mp : S52_MP) (geo : S57_geo) (d : ℚ) :
    plainText (_SNDFRM02 E mp geo d) := by
  unfold _SNDFRM02
  simp only []
  have hp : ∀ c : Prop, [Decidable c] →
      ((if c then "SOUNDS" else "SOUNDG") = "SOUNDS" ∨
        (if c then "SOUNDS" else "SOUNDG") = "SOUNDG") := by
    intro c _
    split_ifs <;> simp
  exact plainText_digits _ _ _ _ (plainText_quality E geo _ (hp _)) (hp _)

/-- The symbol of `_QUAPNT01` is plain. -/
theorem plainText_QUAPNT01 (E : S57_ext) (geo : S57_geo) :
    ∀ x, _QUAPNT01 E geo = some x → plainText x := by
  intro x hx
  unfold _QUAPNT01 at hx
  simp only [] at hx
  split_ifs at hx <;> cases hx <;> decide

/-- Continuation A of `OBSTRN04` without a hazard instruction gives a plain text. -/
theorem plainText_OBSTRN04_point (E : S57_ext) (g : S57_geo) (v : ℚ) (s : Option String)
    (hs : ∀ x, s = some x → plainText x) : plainText (OBSTRN04_point E g v s none) := by
  unfold OBSTRN04_point
  simp only []
  apply plainText_append_opt _ _ _ (plainText_QUAPNT01 E g)
  cases hw : S57_getAttVal g "WATLEV" <;> simp only [] <;> split_ifs <;>
    repeat' first
      | exact hs
      | decide
      | apply plainText_append_opt

/-- Continuation B of `OBSTRN04` without a hazard instruction gives a plain text. -/
theorem plainText_OBSTRN04_line (E : S57_ext) (g : S57_geo) (v : ℚ) (s : Option String)
    (hs : ∀ x, s = some x → plainText x) : plainText (OBSTRN04_line E g v s none) := by
  unfold OBSTRN04_line
  simp only []
  cases hq : S57_getAttVal g "QUAPOS" <;> simp only [Option.isSome_none] <;> split_ifs <;>
    repeat' first
      | exact hs
      | decide
      | apply plainText_append_opt

/-- Continuation C of `OBSTRN04` without a hazard instruction gives a plain text and
writes nothing but the log. -/
theorem plainText_OBSTRN04_area (E : S57_ext) (st : S57_state) (geo : Ptr) (v : ℚ)
    (s : Option String) (hs : ∀ x, s = some x → plainText x) :
    plainText (OBSTRN04_area E st geo v s none).2 ∧
    (OBSTRN04_area E st geo v s none).1.scamin = st.scamin := by
  unfold OBSTRN04_area
  simp only []
  constructor
  · apply plainText_append_opt _ _ _ (plainText_QUAPNT01 E _)
    cases hw : S57_getAttVal (st.obj geo) "WATLEV" <;> simp only [] <;> split_ifs <;>
      (try dsimp only) <;>
      repeat' first
        | exact hs
        | decide
        | apply plainText_append_opt
  · cases hw : S57_getAttVal (st.obj geo) "WATLEV" <;> simp only [] <;> split_ifs <;> rfl

/-- The point branch of `WRECKS02` without a hazard instruction gives a plain text. -/
theorem plainText_WRECKS02_point (g : S57_geo) (v : ℚ) (s q : Option String)
    (hs : ∀ x, s = some x → plainText x) (hq : ∀ x, q = some x → plainText x) :
    plainText (WRECKS02_point g v s none q) := by
  unfold WRECKS02_point
  simp only [g_string_append_opt]
  split_ifs <;>
    repeat' first
      | exact hs
      | exact hq
      | decide
      | apply plainText_append_opt

/-- Continuation B of `WRECKS02` without a hazard instruction gives a plain text. -/
theorem plainText_WRECKS02_area (E : S57_ext) (g : S57_geo) (v : ℚ) (s q : Option String)
    (hs : ∀ x, s = some x → plainText x) (hq : ∀ x, q = some x → plainText x) :
    plainText (WRECKS02_area E g v s none q) := by
  unfold WRECKS02_area
  simp only [Option.isSome_none]
  cases hw : S57_getAttVal g "WATLEV" <;> simp only [] <;> split_ifs <;>
    repeat' first
      | exact hs
      | exact hq
      | decide
      | apply plainText_append_opt

/-- `_DEPVAL01` called with the unknown depth: it fails its assertion exactly when the
least-depth touch is set, is not an `UNSARE` and carries a `DRVAL1` below `-1000`;
otherwise it returns the unknown depth; it writes nothing but the log. -/
theorem DEPVAL01_unknown (E : S57_ext) (mp : S52_MP) (st : S57_state) (geo : Ptr) :
    ((∃ t, st.touchDEPVAL geo = some t ∧ (st.obj t).name ≠ "UNSARE" ∧
        ∃ s, S57_getAttVal (st.obj t) "DRVAL1" = some s ∧ E.S52_atof s < UNKNOWN_DEPTH) ∧
      ∃ s', _DEPVAL01 E mp st geo UNKNOWN_DEPTH = .assertFail s') ∨
    ((¬ ∃ t, st.touchDEPVAL geo = some t ∧ (st.obj t).name ≠ "UNSARE" ∧
        ∃ s, S57_getAttVal (st.obj t) "DRVAL1" = some s ∧ E.S52_atof s < UNKNOWN_DEPTH) ∧
      ∃ s', _DEPVAL01 E mp st geo UNKNOWN_DEPTH = .ret s' UNKNOWN_DEPTH ∧
        s'.obj = st.obj ∧ s'.touchUDWHAZ = st.touchUDWHAZ ∧ s'.scamin = st.scamin) := by
  unfold _DEPVAL01
  simp only []
  cases ht : st.touchDEPVAL geo with
  | none =>
    right
    refine ⟨by simp, PRINTF st "DEBUG: NULL geo _DEPVAL01/getTouchDEPVAL\n", ?_, rfl, rfl, rfl⟩
    simp
  | some t =>
    simp only []
    by_cases hu : (st.obj t).name = "UNSARE"
    · right
      refine ⟨by simp [hu], PRINTF st "DEBUG: %s:%c\n", ?_, rfl, rfl, rfl⟩
      simp [hu]
    · cases ha : S57_getAttVal (st.obj t) "DRVAL1" with
      | none =>
        right
        refine ⟨by simp [ha], st, ?_, rfl, rfl, rfl⟩
        simp [hu]
      | some s =>
        by_cases hlt : E.S52_atof s < UNKNOWN_DEPTH
        · left
          refine ⟨⟨t, rfl, hu, s, ha, hlt⟩, PRINTF st
            "DEBUG: chenzunfeng found this bug: 'least_depth<drval1' (should be '>='), %s:%i\n",
            ?_⟩
          have hne : UNKNOWN_DEPTH ≠ E.S52_atof s := ne_of_gt hlt
          simp only [hu, if_false]
          rw [if_pos ⟨hne, hlt⟩]
        · right
          refine ⟨?_, st, ?_, rfl, rfl, rfl⟩
          · rintro ⟨t', e, _, s', hs', hlt'⟩
            cases e
            rw [ha] at hs'
            cases hs'
            exact hlt hlt'
          · simp only [hu, if_false]
            rw [if_neg (fun h => hlt h.2)]
            simp

/-- The first part of `OBSTRN04` fails exactly at the assertion of `_DEPVAL01`;
otherwise it writes nothing but the log and its sounding label is plain. -/
theorem OBSTRN04_depth_cases (E : S57_ext) (mp : S52_MP) (st : S57_state) (geo : Ptr) :
    (DEPVAL01_fatal E st geo ∧ ∃ s', OBSTRN04_depth E mp st geo = .assertFail s') ∨
    (¬ DEPVAL01_fatal E st geo ∧ ∃ s' v, OBSTRN04_depth E mp st geo = .ret s' v ∧
      s'.obj = st.obj ∧ s'.touchUDWHAZ = st.touchUDWHAZ ∧
      (∀ x, v.2.2 = some x → plainText x)) := by
  unfold OBSTRN04_depth DEPVAL01_fatal
  cases hv : S57_getAttVal (st.obj geo) "VALSOU" with
  | some w =>
    right
    refine ⟨by simp, st, _, rfl, rfl, rfl, ?_⟩
    intro x hx
    cases hx
    exact plainText_SNDFRM02 E mp _ _
  | none =>
    by_cases ha : (st.obj geo).objtype = .S57_AREAS_T
    · simp only [ha, if_true, true_and]
      rcases DEPVAL01_unknown E mp st geo with ⟨hf, s', hs'⟩ | ⟨hf, s', hs', ho, hu, _⟩
      · left
        exact ⟨hf, s', by rw [hs']⟩
      · right
        refine ⟨hf, ?_⟩
        rw [hs']
        simp only [if_true]
        exact ⟨s', _, rfl, ho, hu, by simp⟩
    · right
      simp only [ha, if_false, false_and, not_false_eq_true, true_and, if_true]
      exact ⟨st, _, rfl, rfl, rfl, by simp⟩

/-- The first part of `WRECKS02` fails exactly at the assertion of `_DEPVAL01`;
otherwise it writes nothing but the log and its sounding label is plain. -/
theorem WRECKS02_depth_cases (E : S57_ext) (mp : S52_MP) (st : S57_state) (geo : Ptr) :
    (DEPVAL01_fatal E st geo ∧ ∃ s', WRECKS02_depth E mp st geo = .assertFail s') ∨
    (¬ DEPVAL01_fatal E st geo ∧ ∃ s' v, WRECKS02_depth E mp st geo = .ret s' v ∧
      s'.obj = st.obj ∧ s'.touchUDWHAZ = st.touchUDWHAZ ∧
      (∀ x, v.2.2 = some x → plainText x)) := by
  unfold WRECKS02_depth DEPVAL01_fatal
  cases hv : S57_getAttVal (st.obj geo) "VALSOU" with
  | some w =>
    right
    refine ⟨by simp, st, _, rfl, rfl, rfl, ?_⟩
    intro x hx
    cases hx
    exact plainText_SNDFRM02 E mp _ _
  | none =>
    by_cases ha : (st.obj geo).objtype = .S57_AREAS_T
    · simp only [ha, if_true, true_and]
      rcases DEPVAL01_unknown E mp st geo with ⟨hf, s', hs'⟩ | ⟨hf, s', hs', ho, hu, _⟩
      · left
        exact ⟨hf, s', by rw [hs']⟩
      · right
        refine ⟨hf, ?_⟩
        rw [hs']
        simp only [if_true]
        exact ⟨s', _, rfl, ho, hu, by simp⟩
    · right
      simp only [ha, if_false, false_and, not_false_eq_true, true_and, if_true]
      exact ⟨st, _, rfl, rfl, rfl, by simp⟩

/-- `OBSTRN04` on a feature without hazard touch: it stops at the assertion of
`_DEPVAL01`, or it returns a plain instruction with the scale minimum reset. -/
theorem OBSTRN04_unlinked (E : S57_ext) (mp : S52_MP) (st : S57_state) (geo : Ptr)
    (ht : st.touchUDWHAZ geo = none) :
    (DEPVAL01_fatal E st geo ∧ (OBSTRN04 E mp st geo).val? = none) ∨
    (¬ DEPVAL01_fatal E st geo ∧ ∃ s' out, OBSTRN04 E mp st geo = .ret s' (some out) ∧
      plainText out ∧ s'.scamin geo = .S57_RESET_SCAMIN) := by
  rcases OBSTRN04_depth_cases E mp st geo with ⟨hf, s', hs'⟩ | ⟨hf, s', v, hs', ho, hu, hp⟩
  · left
    refine ⟨hf, ?_⟩
    unfold OBSTRN04
    rw [hs']
    rfl
  · right
    refine ⟨hf, ?_⟩
    have ht' : s'.touchUDWHAZ geo = none := by rw [hu]; exact ht
    obtain ⟨u1, u2, _, _, _⟩ := UDWHAZ03_unlinked E mp s' geo v.2.1 ht'
    unfold OBSTRN04
    rw [hs']
    simp only [u1]
    split_ifs
    · exact ⟨_, _, rfl, plainText_OBSTRN04_point E _ _ _ hp, u2⟩
    · exact ⟨_, _, rfl, plainText_OBSTRN04_line E _ _ _ hp, u2⟩
    · obtain ⟨a1, a2⟩ := plainText_OBSTRN04_area E (_UDWHAZ03 E mp s' geo v.2.1).1 geo v.1 v.2.2 hp
      exact ⟨_, _, rfl, a1, by rw [a2]; exact u2⟩

/-- `WRECKS02` on a feature without hazard touch: it stops at the assertion of
`_DEPVAL01`, or it returns a plain instruction with the scale minimum reset. -/
theorem WRECKS02_unlinked (E : S57_ext) (mp : S52_MP) (st : S57_state) (geo : Ptr)
    (ht : st.touchUDWHAZ geo = none) :
    (DEPVAL01_fatal E st geo ∧ (WRECKS02 E mp st geo).val? = none) ∨
    (¬ DEPVAL01_fatal E st geo ∧ ∃ s' out, WRECKS02 E mp st geo = .ret s' (some out) ∧
      plainText out ∧ s'.scamin geo = .S57_RESET_SCAMIN) := by
  rcases WRECKS02_depth_cases E mp st geo with ⟨hf, s', hs'⟩ | ⟨hf, s', v, hs', ho, hu, hp⟩
  · left
    refine ⟨hf, ?_⟩
    unfold WRECKS02
    rw [hs']
    rfl
  · right
    refine ⟨hf, ?_⟩
    have ht' : s'.touchUDWHAZ geo = none := by rw [hu]; exact ht
    obtain ⟨u1, u2, _, _, _⟩ := UDWHAZ03_unlinked E mp s' geo v.2.1 ht'
    unfold WRECKS02
    rw [hs']
    simp only [u1]
    split_ifs
    · exact ⟨_, _, rfl, plainText_WRECKS02_point _ _ _ _ hp (plainText_QUAPNT01 E _), u2⟩
    · exact ⟨_, _, rfl, plainText_WRECKS02_area E _ _ _ _ hp (plainText_QUAPNT01 E _), u2⟩

/-- C20 (as stated) fails: a cell of an obstruction area without `VALSOU` and a depth
area with `DRVAL1 = -1001`.  Loading the cell leaves the hazard touch of the
obstruction unset and sets its least-depth touch to the depth area; `OBSTRN04` then
returns no instruction: it stops at the `g_assert(0)` of `_DEPVAL01`.  The same holds
for `WRECKS02` on a wreck area. -/
theorem hazard_fail_soft_counterexample :
    ((loadCell decExt stHigh [0, 1]).val? = some () ∧
      (loadCell decExt stHigh [0, 1]).state.touchUDWHAZ 0 = none ∧
      (loadCell decExt stHigh [0, 1]).state.touchDEPVAL 0 = some 1 ∧
      (OBSTRN04 decExt mpScenario (loadCell decExt stHigh [0, 1]).state 0).val? = none) ∧
    ((loadCell decExt stHighWreck [0, 1]).val? = some () ∧
      (loadCell decExt stHighWreck [0, 1]).state.touchUDWHAZ 0 = none ∧
      (loadCell decExt stHighWreck [0, 1]).state.touchDEPVAL 0 = some 1 ∧
      (WRECKS02 decExt mpScenario (loadCell decExt stHighWreck [0, 1]).state 0).val? = none) := by
  constructor <;> decide!

/-- C20 (amended): for every feature whose hazard touch is unset, all attribute
values and mariner parameters, `OBSTRN04` and `WRECKS02` return unless `_DEPVAL01`
fails its assertion (an area without `VALSOU` whose least-depth touch is not an
`UNSARE` and has a `DRVAL1` below `-1000`); when they return, the instruction
contains no hazard directive (no `SY(ISODGR01)`, `;OP(8OD14010)`, `;OP(8O-14010)`,
`;OP(--D14050)`) and the scale minimum is left reset.  An `OBSTRN` point with no
`VALSOU`, `WATLEV` and `CATOBS` takes the depth value `-15.0` and gets
`;SY(OBSTRN01)` followed by the symbol of `_QUAPNT01`. -/
theorem hazard_fail_soft (E : S57_ext) (mp : S52_MP) (st : S57_state) (geo : Ptr)
    (ht : st.touchUDWHAZ geo = none) :
    (((OBSTRN04 E mp st geo).val? = none ↔ DEPVAL01_fatal E st geo) ∧
      ((WRECKS02 E mp st geo).val? = none ↔ DEPVAL01_fatal E st geo)) ∧
    (¬ DEPVAL01_fatal E st geo →
      (∃ s' out, OBSTRN04 E mp st geo = .ret s' (some out) ∧
        (∀ d ∈ hazardDirectives, strstr out d = false) ∧ s'.scamin geo = .S57_RESET_SCAMIN) ∧
      (∃ s' out, WRECKS02 E mp st geo = .ret s' (some out) ∧
        (∀ d ∈ hazardDirectives, strstr out d = false) ∧ s'.scamin geo = .S57_RESET_SCAMIN)) ∧
    ((st.obj geo).name = "OBSTRN" → (st.obj geo).objtype = .S57_POINT_T →
      S57_getAttVal (st.obj geo) "VALSOU" = none → S57_getAttVal (st.obj geo) "WATLEV" = none →
      S57_getAttVal (st.obj geo) "CATOBS" = none →
      (OBSTRN04_depth E mp st geo).val? = some (UNKNOWN_DEPTH, -15, none) ∧
      (OBSTRN04 E mp st geo).val? =
        some (some (g_string_append_opt ";SY(OBSTRN01)" (_QUAPNT01 E (st.obj geo))))) := by
  have hO := OBSTRN04_unlinked E mp st geo ht
  have hW := WRECKS02_unlinked E mp st geo ht
  refine ⟨⟨?_, ?_⟩, ?_, ?_⟩
  · rcases hO with ⟨hf, hv⟩ | ⟨hf, s', out, he, _, _⟩
    · exact ⟨fun _ => hf, fun _ => hv⟩
    · rw [he]
      exact ⟨fun h => (by simp [CS_result.val?] at h), fun h => absurd h hf⟩
  · rcases hW with ⟨hf, hv⟩ | ⟨hf, s', out, he, _, _⟩
    · exact ⟨fun _ => hf, fun _ => hv⟩
    · rw [he]
      exact ⟨fun h => (by simp [CS_result.val?] at h), fun h => absurd h hf⟩
  · intro hnf
    constructor
    · rcases hO with ⟨hf, _⟩ | ⟨_, s', out, he, hp, hs⟩
      · exact absurd hf hnf
      · exact ⟨s', out, he, plainText_no_directive out hp, hs⟩
    · rcases hW with ⟨hf, _⟩ | ⟨_, s', out, he, hp, hs⟩
      · exact absurd hf hnf
      · exact ⟨s', out, he, plainText_no_directive out hp, hs⟩
  · intro hn hp hv hw hc
    have hna : ¬ (st.obj geo).objtype = .S57_AREAS_T := by rw [hp]; decide
    have hd : OBSTRN04_depth E mp st geo = .ret st (UNKNOWN_DEPTH, -15, none) := by
      unfold OBSTRN04_depth
      simp [hv, hna, hw, hc, derefIs]
    obtain ⟨u1, _, u3, _, _⟩ := UDWHAZ03_unlinked E mp st geo (-15) ht
    have hnu : ¬ (st.obj geo).name = "UWTROC" := by rw [hn]; decide
    refine ⟨by rw [hd]; rfl, ?_⟩
    unfold OBSTRN04
    rw [hd]
    simp only [u1, u3, hp, if_true, CS_result.val?]
    unfold OBSTRN04_point
    simp [hw, hnu, UNKNOWN_DEPTH, g_string_append_opt]

theorem hazard_fail_soft_witness :
    (mkState [obstrnPoint]).touchUDWHAZ 0 = none ∧
    (OBSTRN04_depth decExt mpScenario (mkState [obstrnPoint]) 0).val? =
      some (UNKNOWN_DEPTH, -15, none) ∧
    (OBSTRN04 decExt mpScenario (mkState [obstrnPoint]) 0).val? =
      some (some ";SY(OBSTRN01);SY(LOWACC01)") ∧
    (OBSTRN04 decExt mpScenario (mkState [obstrnPoint]) 0).state.scamin 0 = .S57_RESET_SCAMIN ∧
    (WRECKS02 decExt mpScenario (mkState [obstrnPoint]) 0).val? =
      some (some ";SY(WRECKS05);SY(LOWACC01)") :=
  ⟨by decide!,
   ((hazard_fail_soft decExt mpScenario (mkState [obstrnPoint]) 0 (by decide!)).2.2
      (by decide!) (by decide!) (by decide!) (by decide!) (by decide!)).1,
   by decide!, by decide!, by decide!⟩

/-! ## Depth value of obstructions and wrecks -/

/-- A depth value above the safety contour: `_UDWHAZ03` resets the scale minimum and
returns no instruction, whatever the hazard touch. -/
theorem UDWHAZ03_deep (E : S57_ext) (mp : S52_MP) (st : S57_state) (geo : Ptr) (d : ℚ)
    (hd : mp .S52_MAR_SAFETY_CONTOUR < d) :
    _UDWHAZ03 E mp st geo d = (S57_setScamin st geo .S57_RESET_SCAMIN, none) := by
  unfold _UDWHAZ03
  simp [not_le.mpr hd]

/-- `OBSTRN04` on a feature with a `VALSOU` above the safety contour returns a plain
instruction with the scale minimum reset. -/
theorem OBSTRN04_deep (E : S57_ext) (mp : S52_MP) (st : S57_state) (geo : Ptr) (w : String)
    (hv : S57_getAttVal (st.obj geo) "VALSOU" = some w)
    (hd : mp .S52_MAR_SAFETY_CONTOUR < E.S52_atof w) :
    ∃ s' out, OBSTRN04 E mp st geo = .ret s' (some out) ∧ plainText out ∧
      s'.scamin geo = .S57_RESET_SCAMIN := by
  have hp : ∀ x, some (_SNDFRM02 E mp (st.obj geo) (E.S52_atof w)) = some x → plainText x := by
    intro x hx
    cases hx
    exact plainText_SNDFRM02 E mp _ _
  have hs : (S57_setScamin st geo .S57_RESET_SCAMIN).scamin geo = .S57_RESET_SCAMIN := by
    simp [S57_setScamin]
  unfold OBSTRN04 OBSTRN04_depth
  simp only [hv, UDWHAZ03_deep E mp st geo _ hd]
  split_ifs
  · exact ⟨_, _, rfl, plainText_OBSTRN04_point E _ _ _ hp, hs⟩
  · exact ⟨_, _, rfl, plainText_OBSTRN04_line E _ _ _ hp, hs⟩
  · obtain ⟨a1, a2⟩ := plainText_OBSTRN04_area E (S57_setScamin st geo .S57_RESET_SCAMIN) geo
      (E.S52_atof w) _ hp
    exact ⟨_, _, rfl, a1, by rw [a2]; exact hs⟩

/-- `WRECKS02` on a feature with a `VALSOU` above the safety contour returns a plain
instruction with the scale minimum reset. -/
theorem WRECKS02_deep (E : S57_ext) (mp : S52_MP) (st : S57_state) (geo : Ptr) (w : String)
    (hv : S57_getAttVal (st.obj geo) "VALSOU" = some w)
    (hd : mp .S52_MAR_SAFETY_CONTOUR < E.S52_atof w) :
    ∃ s' out, WRECKS02 E mp st geo = .ret s' (some out) ∧ plainText out ∧
      s'.scamin geo = .S57_RESET_SCAMIN := by
  have hp : ∀ x, some (_SNDFRM02 E mp (st.obj geo) (E.S52_atof w)) = some x → plainText x := by
    intro x hx
    cases hx
    exact plainText_SNDFRM02 E mp _ _
  have hs : (S57_setScamin st geo .S57_RESET_SCAMIN).scamin geo = .S57_RESET_SCAMIN := by
    simp [S57_setScamin]
  unfold WRECKS02 WRECKS02_depth
  simp only [hv, UDWHAZ03_deep E mp st geo _ hd]
  split_ifs
  · exact ⟨_, _, rfl, plainText_WRECKS02_point _ _ _ _ hp (plainText_QUAPNT01 E _), hs⟩
  · exact ⟨_, _, rfl, plainText_WRECKS02_area E _ _ _ _ hp (plainText_QUAPNT01 E _), hs⟩

/-- The `VALSOU` value decides on its own: for every feature with a `VALSOU` above the
safety contour, every datum offset and every hazard touch, `OBSTRN04` and `WRECKS02`
return an instruction without hazard directive and leave the scale minimum reset. -/
theorem hazard_valsou_above_contour (E : S57_ext) (mp : S52_MP) (st : S57_state) (geo : Ptr)
    (w : String) (hv : S57_getAttVal (st.obj geo) "VALSOU" = some w)
    (hd : mp .S52_MAR_SAFETY_CONTOUR < E.S52_atof w) :
    (∃ s' out, OBSTRN04 E mp st geo = .ret s' (some out) ∧
      (∀ d ∈ hazardDirectives, strstr out d = false) ∧ s'.scamin geo = .S57_RESET_SCAMIN) ∧
    (∃ s' out, WRECKS02 E mp st geo = .ret s' (some out) ∧
      (∀ d ∈ hazardDirectives, strstr out d = false) ∧ s'.scamin geo = .S57_RESET_SCAMIN) := by
  obtain ⟨s1, o1, e1, p1, c1⟩ := OBSTRN04_deep E mp st geo w hv hd
  obtain ⟨s2, o2, e2, p2, c2⟩ := WRECKS02_deep E mp st geo w hv hd
  exact ⟨⟨s1, o1, e1, plainText_no_directive o1 p1, c1⟩,
    ⟨s2, o2, e2, plainText_no_directive o2 p2, c2⟩⟩

/-- C21 (code): the datum offset is not added to `VALSOU`.  An obstruction and a wreck
with `VALSOU = 0.5`, datum offset 2 and safety contour 1, hazard touch on a depth area
with `DRVAL1 = 20`: the depth plus the offset is above the safety contour, yet
`_UDWHAZ03` is called with the depth value 0.5 and `OBSTRN04` and `WRECKS02` emit the
hazard directive `;OP(8OD14010);SY(ISODGR01)` and force the scale minimum to
always-visible; with `VALSOU = 1.5` (above the safety contour without the offset)
no hazard directive is emitted. -/
theorem hazard_datum_offset_not_applied :
    (dadd (decExt.S52_atof "0.5") (mpOffset .S52_MAR_DATUM_OFFSET) > mpOffset .S52_MAR_SAFETY_CONTOUR ∧
      (OBSTRN04_depth decExt mpOffset
        (stHazard .S57_POINT_T [("VALSOU", "0.5")] (depareArea 2 "20")) 0).val? =
        some (0.5, 0.5, some ";SY(SOUNDG10);SY(SOUNDG55)") ∧
      (OBSTRN04 decExt mpOffset
        (stHazard .S57_POINT_T [("VALSOU", "0.5")] (depareArea 2 "20")) 0).val? =
        some (some ";OP(8OD14010);SY(ISODGR01);SY(LOWACC01)") ∧
      (OBSTRN04 decExt mpOffset
        (stHazard .S57_POINT_T [("VALSOU", "0.5")] (depareArea 2 "20")) 0).state.scamin 0 =
        .INFINITY) ∧
    ((WRECKS02 decExt mpOffset
        (stHazardWreck .S57_POINT_T [("VALSOU", "0.5")] (depareArea 2 "20")) 0).val? =
        some (some ";OP(8OD14010);SY(ISODGR01);SY(LOWACC01)") ∧
      (WRECKS02 decExt mpOffset
        (stHazardWreck .S57_POINT_T [("VALSOU", "0.5")] (depareArea 2 "20")) 0).state.scamin 0 =
        .INFINITY) ∧
    ((OBSTRN04 decExt mpOffset
        (stHazard .S57_POINT_T [("VALSOU", "1.5")] (depareArea 2 "20")) 0).val? =
        some (some ";SY(DANGER01);SY(SOUNDG11);SY(SOUNDG55);SY(LOWACC01)") ∧
      (OBSTRN04 decExt mpOffset
        (stHazard .S57_POINT_T [("VALSOU", "1.5")] (depareArea 2 "20")) 0).state.scamin 0 =
        .S57_RESET_SCAMIN) := by
  refine ⟨?_, ?_, ?_⟩ <;> decide!

/-- C22 (code): `_DEPVAL01` called with the unknown depth never returns a depth: it
returns the unknown sentinel `-1000` or fails its assertion.  For an obstruction area
whose least-depth touch is a depth area with `DRVAL1 = 5` and a datum offset of 2 it
returns `-1000`, not `7`, and `OBSTRN04` goes on with the default depth `-15`. -/
theorem DEPVAL01_never_resolves (E : S57_ext) (mp : S52_MP) (st : S57_state) (geo : Ptr) :
    ((_DEPVAL01 E mp st geo UNKNOWN_DEPTH).val? = some UNKNOWN_DEPTH ∨
      (_DEPVAL01 E mp st geo UNKNOWN_DEPTH).val? = none) ∧
    (stLeast.touchDEPVAL 0 = some 1 ∧ (stLeast.obj 1).name = "DEPARE" ∧
      (S57_getAttVal (stLeast.obj 1) "DRVAL1").map decExt.S52_atof = some 5 ∧
      mpOffset .S52_MAR_DATUM_OFFSET = 2 ∧
      (_DEPVAL01 decExt mpOffset stLeast 0 UNKNOWN_DEPTH).val? = some (-1000) ∧
      (OBSTRN04_depth decExt mpOffset stLeast 0).val? = some (UNKNOWN_DEPTH, -15, none)) := by
  constructor
  · rcases DEPVAL01_unknown E mp st geo with ⟨_, s', hs'⟩ | ⟨_, s', hs', _⟩
    · right
      rw [hs']
      rfl
    · left
      rw [hs']
      rfl
  · decide!

/-! ## Sounding labels -/

/-- The cast `(int) x` of a non-negative value is its floor. -/
theorem castInt_nonneg (x : ℚ) (h : 0 ≤ x) : castInt x = ⌊x⌋ := by
  unfold castInt
  rw [Rat.floor_def]
  exact Int.tdiv_eq_ediv (Rat.num_nonneg.mpr h) (Int.ofNat_nonneg _)

/-- A feature without `TECSOU`, `QUASOU`, `STATUS` and `QUAPOS` gets no quality glyph. -/
theorem quality_none (E : S57_ext) (geo : S57_geo) (p : String)
    (hT : S57_getAttVal geo "TECSOU" = none) (hQ : S57_getAttVal geo "QUASOU" = none)
    (hS : S57_getAttVal geo "STATUS" = none) (hP : S57_getAttVal geo "QUAPOS" = none) :
    SNDFRM02_quality E geo p = "" := by
  unfold SNDFRM02_quality
  simp [hT, hQ, hS, hP, listBuf, _strpbrk]

/-- The constant `0.01` as a double lies between 0 and 1. -/
theorem dbl_0_01_bounds : 0 < dbl_0_01 ∧ dbl_0_01 < 1 := by decide!

theorem pow2_values : pow2 (-49) = 1 / 562949953421312 ∧ pow2 (-52) = 1 / 4503599627370496 ∧
    pow2 (-53) = 1 / 9007199254740992 ∧ pow2 3 = 8 ∧ pow2 0 = 1 ∧ pow2 (-1) = 1 / 2 := by
  decide!

/-- The biased depth of a double below 9.99 is below 10. -/
theorem biased_lt_ten (d : ℚ) (hd : isDouble d) (h0 : 0 < d) (h1 : d < 9.99) :
    dadd d dbl_0_01 < 10 := by
  rcases lt_or_le d 8 with h8 | h8
  · have h : dadd d dbl_0_01 ≤ dadd 8 1 := dadd_mono h8.le dbl_0_01_bounds.2.le
    have e : dadd 8 1 = 9 := by decide!
    rw [e] at h
    linarith
  · obtain ⟨k, hk⟩ := isDouble_grid hd 3 (by
      rw [abs_of_pos h0, pow2_values.2.2.2.1]
      exact h8)
    have e49 : pow2 (3 - 52) = 1 / 562949953421312 := pow2_values.1
    rw [e49] at hk
    have hk1 : (k : ℚ) < 5623870034678907 := by
      rw [hk] at h1
      linarith
    have hk2 : k ≤ 5623870034678906 := by
      have : k < 5623870034678907 := by exact_mod_cast hk1
      omega
    have hk3 : (k : ℚ) ≤ 5623870034678906 := by exact_mod_cast hk2
    have hle : d ≤ 5623870034678906 / 562949953421312 := by
      rw [hk]
      linarith
    have h : dadd d dbl_0_01 ≤ dadd (5623870034678906 / 562949953421312) dbl_0_01 :=
      dadd_mono hle (le_refl _)
    have e : dadd (5623870034678906 / 562949953421312) dbl_0_01 < 10 := by decide!
    linarith

/-- The fractional part of a non-negative double is computed without rounding. -/
theorem dsub_floor_exact (b : ℚ) (hb : isDouble b) (h0 : 0 ≤ b) :
    dsub b ⌊b⌋ = b - ⌊b⌋ := by
  unfold dsub
  rcases lt_or_le b 1 with hlt | hge
  · have hf : ⌊b⌋ = 0 := Int.floor_eq_zero_iff.mpr ⟨h0, hlt⟩
    rw [hf]
    simp only [Int.cast_zero, sub_zero]
    exact hb
  · obtain ⟨k, hk⟩ := isDouble_grid hb 0 (by
      rw [abs_of_nonneg h0, pow2_values.2.2.2.2.1]
      exact hge)
    have e52 : pow2 (0 - 52) = 1 / 4503599627370496 := pow2_values.2.1
    rw [e52] at hk
    have hfl : (⌊b⌋ : ℚ) ≤ b := Int.floor_le b
    have hfl2 : b < (⌊b⌋ : ℚ) + 1 := Int.lt_floor_add_one b
    generalize ⌊b⌋ = F at hfl hfl2 ⊢
    have hm : b - F = ((k - F * 4503599627370496 : ℤ) : ℚ) * pow2 (-52) := by
      rw [pow2_values.2.1, hk]
      push_cast
      ring
    rw [hm]
    apply roundDouble_exact _ _ _ (by norm_num)
    have hm0 : (0 : ℚ) ≤ ((k - F * 4503599627370496 : ℤ) : ℚ) := by
      have : (0 : ℚ) ≤ b - F := by linarith
      rw [hm, pow2_values.2.1] at this
      linarith
    have hm1 : ((k - F * 4503599627370496 : ℤ) : ℚ) < 4503599627370496 := by
      have : b - F < 1 := by linarith
      rw [hm, pow2_values.2.1] at this
      linarith
    have hm0' : (0 : ℤ) ≤ k - F * 4503599627370496 := by exact_mod_cast hm0
    have hm1' : k - F * 4503599627370496 < 4503599627370496 := by exact_mod_cast hm1
    rw [abs_of_nonneg hm0']
    omega

/-- Ten times a double below 1 is below 10 after rounding. -/
theorem dmul_ten_lt (x : ℚ) (hx : isDouble x) (h0 : 0 ≤ x) (h1 : x < 1) : dmul x 10 < 10 := by
  have hX : x ≤ 9007199254740991 / 9007199254740992 := by
    rcases lt_or_le x (1 / 2) with h | h
    · linarith
    · obtain ⟨k, hk⟩ := isDouble_grid hx (-1) (by
        rw [abs_of_nonneg h0, pow2_values.2.2.2.2.2]
        exact h)
      have e53 : pow2 (-1 - 52) = 1 / 9007199254740992 := pow2_values.2.2.1
      rw [e53] at hk
      have hk1 : (k : ℚ) < 9007199254740992 := by
        rw [hk] at h1
        linarith
      have hk2 : k ≤ 9007199254740991 := by
        have : k < 9007199254740992 := by exact_mod_cast hk1
        omega
      have hk3 : (k : ℚ) ≤ 9007199254740991 := by exact_mod_cast hk2
      rw [hk]
      linarith
  have h : dmul x 10 ≤ dmul (9007199254740991 / 9007199254740992) 10 :=
    roundDouble_mono (by linarith)
  have e : dmul (9007199254740991 / 9007199254740992) 10 < 10 := by decide!
  linarith

/-- The digits of the depths of whole tenths below 10: the double nearest to `k/10`
gets the units digit `k / 10` and the tenths digit `k % 10`. -/
theorem tenths_digits : ∀ k ∈ List.range 100, 1 ≤ k →
    ⌊dadd (roundDouble ((k : ℚ) / 10)) dbl_0_01⌋ = ((k / 10 : ℕ) : ℤ) ∧
    ⌊dmul (dsub (dadd (roundDouble ((k : ℚ) / 10)) dbl_0_01)
      ⌊dadd (roundDouble ((k : ℚ) / 10)) dbl_0_01⌋) 10⌋ = ((k % 10 : ℕ) : ℤ) := by
  decide!

/-- C24 (as stated) fails: the depth 1.19 (the double nearest to it).  In decimals
`1.19 + 0.01 = 1.20` has the first decimal digit 2, but the doubles give
`(1.19 + 0.01 - 1) * 10 = 1.9999999999999996`, truncated to 1: `_SNDFRM02` returns the
tenths glyph `SOUNDG51`.  For the depth 1.49 the sum of the doubles 1.49 and 0.01 is
rounded up to 1.5 and the tenths glyph is `SOUNDG55`, while the first decimal digit of
the exact sum of that double and 0.01 is 4. -/
theorem SNDFRM02_below_ten_counterexample :
    (⌊((1.19 : ℚ) + 0.01 - ⌊(1.19 : ℚ) + 0.01⌋) * 10⌋ = 2 ∧
      _SNDFRM02 decExt mpScenario obstrnPoint (roundDouble 1.19) = ";SY(SOUNDG11);SY(SOUNDG51)") ∧
    (⌊(roundDouble 1.49 + 0.01 - ⌊roundDouble 1.49 + 0.01⌋) * 10⌋ = 4 ∧
      _SNDFRM02 decExt mpScenario obstrnPoint (roundDouble 1.49) = ";SY(SOUNDG11);SY(SOUNDG55)") := by
  decide!

/-- C24 (amended): sounding below 10.  For every double `d` with `0 < d < 9.99` and a
feature without `TECSOU`, `QUASOU`, `STATUS` and `QUAPOS`, `_SNDFRM02` returns exactly
the two glyphs `;SY(<P>1<a>);SY(<P>5<b>)` with no low-accuracy glyph and no sign glyph,
where `a` is the integer part of the biased depth `d + 0.01` and `b` the integer part of
ten times its fractional part, the sum and the product being those of doubles (the
fractional part itself is exact); both are single digits `0..9`.  The prefix `<P>` is
`SOUNDS` when the biased depth is not above the safety depth and `SOUNDG` otherwise, so
it is `SOUNDG` whenever the safety depth is below `d`.  For a depth of whole tenths
(`d` the double nearest to `k/10`, `k = 1..99`) `a` and `b` are the two decimal digits
of `k`: the integer part and the first decimal digit of `k/10`. -/
theorem SNDFRM02_below_ten (E : S57_ext) (mp : S52_MP) (geo : S57_geo) (d : ℚ)
    (hd : isDouble d) (h0 : 0 < d) (h1 : d < 9.99)
    (hT : S57_getAttVal geo "TECSOU" = none) (hQ : S57_getAttVal geo "QUASOU" = none)
    (hS : S57_getAttVal geo "STATUS" = none) (hP : S57_getAttVal geo "QUAPOS" = none) :
    _SNDFRM02 E mp geo d =
      ";SY(" ++ (if dadd d dbl_0_01 ≤ mp .S52_MAR_SAFETY_DEPTH then "SOUNDS" else "SOUNDG") ++ "1"
          ++ fmt_i ⌊dadd d dbl_0_01⌋ ++ ")"
        ++ (";SY(" ++ (if dadd d dbl_0_01 ≤ mp .S52_MAR_SAFETY_DEPTH then "SOUNDS" else "SOUNDG")
          ++ "5" ++ fmt_i ⌊dmul (dsub (dadd d dbl_0_01) ⌊dadd d dbl_0_01⌋) 10⌋ ++ ")") ∧
    (0 ≤ ⌊dadd d dbl_0_01⌋ ∧ ⌊dadd d dbl_0_01⌋ ≤ 9) ∧
    dsub (dadd d dbl_0_01) ⌊dadd d dbl_0_01⌋ = dadd d dbl_0_01 - ⌊dadd d dbl_0_01⌋ ∧
    (0 ≤ ⌊dmul (dsub (dadd d dbl_0_01) ⌊dadd d dbl_0_01⌋) 10⌋ ∧
      ⌊dmul (dsub (dadd d dbl_0_01) ⌊dadd d dbl_0_01⌋) 10⌋ ≤ 9) ∧
    (mp .S52_MAR_SAFETY_DEPTH < d →
      (if dadd d dbl_0_01 ≤ mp .S52_MAR_SAFETY_DEPTH then "SOUNDS" else "SOUNDG") = "SOUNDG") ∧
    (∀ k : ℕ, 1 ≤ k → k ≤ 99 → d = roundDouble ((k : ℚ) / 10) →
      ⌊dadd d dbl_0_01⌋ = ((k / 10 : ℕ) : ℤ) ∧
      ⌊dmul (dsub (dadd d dbl_0_01) ⌊dadd d dbl_0_01⌋) 10⌋ = ((k % 10 : ℕ) : ℤ)) := by
  have hb : isDouble (dadd d dbl_0_01) := isDouble_roundDouble _
  have hpos : (0 : ℚ) ≤ dadd d dbl_0_01 :=
    roundDouble_nonneg (by linarith [dbl_0_01_bounds.1])
  have h10 : dadd d dbl_0_01 < 10 := biased_lt_ten d hd h0 h1
  have hex := dsub_floor_exact _ hb hpos
  have hfl : (0 : ℤ) ≤ ⌊dadd d dbl_0_01⌋ := Int.floor_nonneg.mpr hpos
  have hfle : (⌊dadd d dbl_0_01⌋ : ℚ) ≤ dadd d dbl_0_01 := Int.floor_le _
  have hflt : dadd d dbl_0_01 < (⌊dadd d dbl_0_01⌋ : ℚ) + 1 := Int.lt_floor_add_one _
  have hx : isDouble (dsub (dadd d dbl_0_01) ⌊dadd d dbl_0_01⌋) := isDouble_roundDouble _
  have hx0 : (0 : ℚ) ≤ dsub (dadd d dbl_0_01) ⌊dadd d dbl_0_01⌋ := by
    rw [hex]
    linarith
  have hx1 : dsub (dadd d dbl_0_01) ⌊dadd d dbl_0_01⌋ < 1 := by
    rw [hex]
    linarith
  have hy0 : (0 : ℚ) ≤ dmul (dsub (dadd d dbl_0_01) ⌊dadd d dbl_0_01⌋) 10 :=
    roundDouble_nonneg (by linarith)
  have hy1 := dmul_ten_lt _ hx hx0 hx1
  refine ⟨?_, ⟨hfl, ?_⟩, hex, ⟨Int.floor_nonneg.mpr hy0, ?_⟩, ?_, ?_⟩
  · unfold _SNDFRM02
    simp only [gt_iff_lt, h0, if_true]
    rw [quality_none E geo _ hT hQ hS hP, castInt_nonneg _ hpos]
    unfold SNDFRM02_digits
    simp only [h10, if_true, not_lt.mpr hpos, if_false]
    have e1 : |((⌊dadd d dbl_0_01⌋ : ℤ) : ℚ)| = ⌊dadd d dbl_0_01⌋ :=
      abs_of_nonneg (by exact_mod_cast hfl)
    rw [e1, abs_of_nonneg hy0, castInt_nonneg _ hy0, castInt_nonneg _ (by exact_mod_cast hfl)]
    simp [SNDFRM02_glyph]
  · have : (⌊dadd d dbl_0_01⌋ : ℚ) < 10 := by linarith
    have : ⌊dadd d dbl_0_01⌋ < 10 := by exact_mod_cast this
    omega
  · have : ⌊dmul (dsub (dadd d dbl_0_01) ⌊dadd d dbl_0_01⌋) 10⌋ < 10 :=
      Int.floor_lt.mpr (by exact_mod_cast hy1)
    omega
  · intro hs
    rw [if_neg]
    have : d ≤ dadd d dbl_0_01 := by
      have := dadd_mono (le_refl d) dbl_0_01_bounds.1.le
      have e : dadd d 0 = d := by
        unfold dadd
        rw [add_zero]
        exact hd
      rw [e] at this
      exact this
    linarith
  · intro k hk1 hk2 hk
    subst hk
    exact tenths_digits k (List.mem_range.mpr (by omega)) hk1

theorem SNDFRM02_below_ten_witness :
    (isDouble (7.5 : ℚ) ∧ (0 : ℚ) < 7.5 ∧ (7.5 : ℚ) < 9.99 ∧
      mpSafety5 .S52_MAR_SAFETY_DEPTH = 5 ∧ (7.5 : ℚ) = roundDouble ((75 : ℕ) / 10)) ∧
    _SNDFRM02 decExt mpSafety5 obstrnPoint 7.5 = ";SY(SOUNDG17);SY(SOUNDG55)" ∧
    (⌊dadd 7.5 dbl_0_01⌋ = ((75 / 10 : ℕ) : ℤ) ∧
      ⌊dmul (dsub (dadd 7.5 dbl_0_01) ⌊dadd 7.5 dbl_0_01⌋) 10⌋ = ((75 % 10 : ℕ) : ℤ)) :=
  ⟨by decide!, by decide!,
   (SNDFRM02_below_ten decExt mpSafety5 obstrnPoint 7.5 (by decide!) (by decide!) (by decide!)
      (by decide!) (by decide!) (by decide!) (by decide!)).2.2.2.2.2 75 (by decide) (by decide)
      (by decide!)⟩

/-- C25 (code): the prefix is chosen after the bias of 0.01 is added to the depth.  A
sounding of 5 with a safety depth of 5 (`d <= s`) gets the prefix `SOUNDG` on both
glyphs; a sounding of 4.99 gets `SOUNDS`. -/
theorem SNDFRM02_prefix_after_bias :
    mpSafety5 .S52_MAR_SAFETY_DEPTH = 5 ∧
    _SNDFRM02 decExt mpSafety5 obstrnPoint 5 = ";SY(SOUNDG15);SY(SOUNDG50)" ∧
    _SNDFRM02 decExt mpSafety5 obstrnPoint (roundDouble 4.99) = ";SY(SOUNDS15);SY(SOUNDS50)" ∧
    _SNDFRM02 decExt mpSafety5 obstrnPoint (roundDouble 5.01) = ";SY(SOUNDG15);SY(SOUNDG50)" := by
  decide!

/-- C26 (code): a sounding of depth 0 gets the bias `-0.01` and with it the sign glyph
`A1` of a depth above datum; depth 1 gets no sign glyph and depth -1 gets it. -/
theorem SNDFRM02_sign_at_zero :
    _SNDFRM02 decExt mpScenario obstrnPoint 0 = ";SY(SOUNDS10);SY(SOUNDS50);SY(SOUNDSA1)" ∧
    _SNDFRM02 decExt mpScenario obstrnPoint 1 = ";SY(SOUNDG11);SY(SOUNDG50)" ∧
    _SNDFRM02 decExt mpScenario obstrnPoint (-1) = ";SY(SOUNDS11);SY(SOUNDS50);SY(SOUNDSA1)" := by
  decide!

/-- C23 (code): a drying height of 12 m (depth -12, inside `[-50, 15000)`) takes the
branch of the depths below 10: the glyph of the units carries the two digits `12` and
no glyph of the tens is emitted; a depth of +12 gets the tens glyph `21` and the
units glyph `12`. -/
theorem SNDFRM02_drying_two_digits :
    _SNDFRM02 decExt mpScenario obstrnPoint (-12) = ";SY(SOUNDS112);SY(SOUNDS50);SY(SOUNDSA1)" ∧
    _SNDFRM02 decExt mpScenario obstrnPoint 12 = ";SY(SOUNDG21);SY(SOUNDG12);SY(SOUNDG50)" ∧
    _SNDFRM02 decExt mpScenario obstrnPoint (-50) = ";SY(SOUNDS150);SY(SOUNDS50);SY(SOUNDSA1)" := by
  decide!

/-! ## The sector comparator -/

/-- `_LIGHTS05_cmpSector` on two lights with sector limits: the overlap test, then the
comparison of the sweeps. -/
theorem cmpSector_eq (E : S57_ext) (A B : S57_geo) (a1 a2 b1 b2 : ℚ)
    (ha : sectorOf E A = some (a1, a2)) (hb : sectorOf E B = some (b1, b2)) :
    _LIGHTS05_cmpSector E A B =
      if sectorsOverlap a1 a2 b1 b2 then
        (if sectorSweep a1 a2 < sectorSweep b1 b2 then 1 else -1)
      else 0 := by
  unfold sectorOf at ha hb
  cases hA1 : S57_getAttVal A "SECTR1" with
  | none => simp [hA1] at ha
  | some s1 =>
    cases hA2 : S57_getAttVal A "SECTR2" with
    | none => simp [hA1, hA2] at ha
    | some s2 =>
      cases hB1 : S57_getAttVal B "SECTR1" with
      | none => simp [hB1] at hb
      | some t1 =>
        cases hB2 : S57_getAttVal B "SECTR2" with
        | none => simp [hB1, hB2] at hb
        | some t2 =>
          simp only [hA1, hA2, hB1, hB2, Option.some.injEq, Prod.mk.injEq] at ha hb
          obtain ⟨rfl, rfl⟩ := ha
          obtain ⟨rfl, rfl⟩ := hb
          unfold _LIGHTS05_cmpSector
          simp only [hA1, hA2, hB1, hB2]
          refine if_congr ?_ rfl rfl
          unfold sectorsOverlap sectorHolds sectorHead sectorTail sectorSweep
          constructor
          · rintro (h | h | h | h | h | h | h | h)
            · exact Or.inl (Or.inl h)
            · exact Or.inr (Or.inl (Or.inl h))
            · exact Or.inl (Or.inr h)
            · exact Or.inr (Or.inl (Or.inr h))
            · exact Or.inr (Or.inr (Or.inl (Or.inl h)))
            · exact Or.inr (Or.inr (Or.inr (Or.inl h)))
            · exact Or.inr (Or.inr (Or.inl (Or.inr h)))
            · exact Or.inr (Or.inr (Or.inr (Or.inr h)))
          · rintro ((h | h) | (h | h) | (h | h) | (h | h))
            · exact Or.inl h
            · exact Or.inr (Or.inr (Or.inl h))
            · exact Or.inr (Or.inl h)
            · exact Or.inr (Or.inr (Or.inr (Or.inl h)))
            · exact Or.inr (Or.inr (Or.inr (Or.inr (Or.inl h))))
            · exact Or.inr (Or.inr (Or.inr (Or.inr (Or.inr (Or.inr (Or.inl h))))))
            · exact Or.inr (Or.inr (Or.inr (Or.inr (Or.inr (Or.inl h)))))
            · exact Or.inr (Or.inr (Or.inr (Or.inr (Or.inr (Or.inr (Or.inr h))))))

/-- `_LIGHTS05_cmpSector` returns 0 when one of the lights lacks a sector limit. -/
theorem cmpSector_missing (E : S57_ext) (A B : S57_geo)
    (h : sectorOf E A = none ∨ sectorOf E B = none) : _LIGHTS05_cmpSector E A B = 0 := by
  unfold _LIGHTS05_cmpSector
  unfold sectorOf at h
  cases hA1 : S57_getAttVal A "SECTR1" <;> cases hA2 : S57_getAttVal A "SECTR2" <;>
    cases hB1 : S57_getAttVal B "SECTR1" <;> cases hB2 : S57_getAttVal B "SECTR2" <;>
    simp_all

/-- The overlap test does not depend on the order of the two sectors. -/
theorem sectorsOverlap_comm (a1 a2 b1 b2 : ℚ) :
    sectorsOverlap a1 a2 b1 b2 ↔ sectorsOverlap b1 b2 a1 a2 := by
  unfold sectorsOverlap
  tauto

/-- The two results of `_LIGHTS05_cmpSector` on a pair of lights, by cases. -/
theorem cmpSector_pair (E : S57_ext) (A B : S57_geo) :
    (_LIGHTS05_cmpSector E A B = 0 ∧ _LIGHTS05_cmpSector E B A = 0 ∧
      ¬ ∃ a1 a2 b1 b2, sectorOf E A = some (a1, a2) ∧ sectorOf E B = some (b1, b2) ∧
        sectorsOverlap a1 a2 b1 b2) ∨
    ∃ a1 a2 b1 b2, sectorOf E A = some (a1, a2) ∧ sectorOf E B = some (b1, b2) ∧
      sectorsOverlap a1 a2 b1 b2 ∧
      _LIGHTS05_cmpSector E A B = (if sectorSweep a1 a2 < sectorSweep b1 b2 then 1 else -1) ∧
      _LIGHTS05_cmpSector E B A = (if sectorSweep b1 b2 < sectorSweep a1 a2 then 1 else -1) := by
  cases ha : sectorOf E A with
  | none =>
    left
    exact ⟨cmpSector_missing E A B (Or.inl ha), cmpSector_missing E B A (Or.inr ha), by simp⟩
  | some a =>
    cases hb : sectorOf E B with
    | none =>
      left
      exact ⟨cmpSector_missing E A B (Or.inr hb), cmpSector_missing E B A (Or.inl hb), by simp⟩
    | some b =>
      obtain ⟨a1, a2⟩ := a
      obtain ⟨b1, b2⟩ := b
      by_cases ho : sectorsOverlap a1 a2 b1 b2
      · right
        refine ⟨a1, a2, b1, b2, rfl, rfl, ho, ?_, ?_⟩
        · rw [cmpSector_eq E A B a1 a2 b1 b2 ha hb, if_pos ho]
        · rw [cmpSector_eq E B A b1 b2 a1 a2 hb ha, if_pos ((sectorsOverlap_comm _ _ _ _).mp ho)]
      · left
        refine ⟨?_, ?_, ?_⟩
        · rw [cmpSector_eq E A B a1 a2 b1 b2 ha hb, if_neg ho]
        · rw [cmpSector_eq E B A b1 b2 a1 a2 hb ha,
            if_neg (fun h => ho ((sectorsOverlap_comm _ _ _ _).mpr h))]
        · rintro ⟨a1', a2', b1', b2', e1, e2, h⟩
          simp only [Option.some.injEq, Prod.mk.injEq] at e1 e2
          obtain ⟨rfl, rfl⟩ := e1
          obtain ⟨rfl, rfl⟩ := e2
          exact ho h

/-- C27 (as stated) fails: two overlapping sectors of the same sweep, A = [0, 30] and
B = [10, 40]: both invocation orders return `-1`. -/
theorem cmpSector_antisymm_counterexample :
    _LIGHTS05_cmpSector decExt (sectorLight 1 "0" "30") (sectorLight 2 "10" "40") = -1 ∧
    _LIGHTS05_cmpSector decExt (sectorLight 2 "10" "40") (sectorLight 1 "0" "30") = -1 := by
  decide!

/-- C27 (amended): for every pair of lights, `_LIGHTS05_cmpSector(A,B)` is the negation
of `_LIGHTS05_cmpSector(B,A)` unless the two sectors pass the overlap test and their
sweeps, as the code computes them in doubles (`sectorSweep`), are equal, in which case
both invocation orders return `-1` (the second argument is dominant on a tie); the two
orders never both return `+1`. -/
theorem cmpSector_antisymm (E : S57_ext) (A B : S57_geo) :
    (_LIGHTS05_cmpSector E A B = - _LIGHTS05_cmpSector E B A ∨
      (_LIGHTS05_cmpSector E A B = -1 ∧ _LIGHTS05_cmpSector E B A = -1)) ∧
    ((_LIGHTS05_cmpSector E A B = -1 ∧ _LIGHTS05_cmpSector E B A = -1) ↔
      ∃ a1 a2 b1 b2, sectorOf E A = some (a1, a2) ∧ sectorOf E B = some (b1, b2) ∧
        sectorsOverlap a1 a2 b1 b2 ∧ sectorSweep a1 a2 = sectorSweep b1 b2) ∧
    ¬ (_LIGHTS05_cmpSector E A B = 1 ∧ _LIGHTS05_cmpSector E B A = 1) := by
  rcases cmpSector_pair E A B with ⟨h1, h2, hno⟩ | ⟨a1, a2, b1, b2, ha, hb, ho, h1, h2⟩
  · rw [h1, h2]
    refine ⟨Or.inl (by decide), ⟨fun h => absurd h.1 (by decide), ?_⟩, by decide⟩
    rintro ⟨a1, a2, b1, b2, ha, hb, ho, _⟩
    exact absurd ⟨a1, a2, b1, b2, ha, hb, ho⟩ hno
  · rw [h1, h2]
    rcases lt_trichotomy (sectorSweep a1 a2) (sectorSweep b1 b2) with hlt | heq | hgt
    · rw [if_pos hlt, if_neg (not_lt.mpr hlt.le)]
      refine ⟨Or.inl (by decide), ⟨fun h => absurd h.1 (by decide), ?_⟩, by decide⟩
      rintro ⟨a1', a2', b1', b2', ha', hb', _, he⟩
      rw [ha] at ha'
      rw [hb] at hb'
      simp only [Option.some.injEq, Prod.mk.injEq] at ha' hb'
      obtain ⟨rfl, rfl⟩ := ha'
      obtain ⟨rfl, rfl⟩ := hb'
      exact absurd he hlt.ne
    · rw [heq, if_neg (lt_irrefl _)]
      exact ⟨Or.inr ⟨rfl, rfl⟩, ⟨fun _ => ⟨a1, a2, b1, b2, ha, hb, ho, heq⟩,
        fun _ => ⟨rfl, rfl⟩⟩, by decide⟩
    · rw [if_pos hgt, if_neg (not_lt.mpr hgt.le)]
      refine ⟨Or.inl (by decide), ⟨fun h => absurd h.2 (by decide), ?_⟩, by decide⟩
      rintro ⟨a1', a2', b1', b2', ha', hb', _, he⟩
      rw [ha] at ha'
      rw [hb] at hb'
      simp only [Option.some.injEq, Prod.mk.injEq] at ha' hb'
      obtain ⟨rfl, rfl⟩ := ha'
      obtain ⟨rfl, rfl⟩ := hb'
      exact absurd he hgt.ne'

/-- C29 (as stated) fails: the sectors A = [20.1, 50.4] and B = [10.2, 40.5] overlap
and have the same sweep 30.3 in decimals, a tie that the claim gives to B; the doubles
give `50.4 - 20.1 = 30.299999999999997 < 30.3 = 40.5 - 10.2`, and
`_LIGHTS05_cmpSector(A,B)` is `+1`: A is reported dominant, in both invocation
orders. -/
theorem cmpSector_dominance_counterexample :
    (50.4 : ℚ) - 20.1 = 40.5 - 10.2 ∧
    sectorOf decExt (sectorLight 1 "20.1" "50.4") = some (roundDouble 20.1, roundDouble 50.4) ∧
    sectorOf decExt (sectorLight 2 "10.2" "40.5") = some (roundDouble 10.2, roundDouble 40.5) ∧
    sectorsOverlap (roundDouble 20.1) (roundDouble 50.4) (roundDouble 10.2) (roundDouble 40.5) ∧
    sectorSweep (roundDouble 20.1) (roundDouble 50.4) <
      sectorSweep (roundDouble 10.2) (roundDouble 40.5) ∧
    _LIGHTS05_cmpSector decExt (sectorLight 1 "20.1" "50.4") (sectorLight 2 "10.2" "40.5") = 1 ∧
    _LIGHTS05_cmpSector decExt (sectorLight 2 "10.2" "40.5") (sectorLight 1 "20.1" "50.4") = -1 := by
  refine ⟨by norm_num, ?_⟩
  decide!

/-- C29 (amended): sector dominance.  Whenever the sectors of A and B pass the overlap
test, `_LIGHTS05_cmpSector(A,B)` is `+1` exactly when the sweep of A, as the code
computes it in doubles (`sectorSweep`), is strictly smaller than the sweep of B and
`-1` otherwise (equal computed sweeps give `-1`, B dominant); so with a strictly
smaller sweep A is reported dominant in both invocation orders: `+1` as first and `-1`
as second argument. -/
theorem cmpSector_dominance (E : S57_ext) (A B : S57_geo) (a1 a2 b1 b2 : ℚ)
    (ha : sectorOf E A = some (a1, a2)) (hb : sectorOf E B = some (b1, b2))
    (ho : sectorsOverlap a1 a2 b1 b2) :
    (_LIGHTS05_cmpSector E A B = 1 ↔ sectorSweep a1 a2 < sectorSweep b1 b2) ∧
    (_LIGHTS05_cmpSector E A B = -1 ↔ ¬ sectorSweep a1 a2 < sectorSweep b1 b2) ∧
    (sectorSweep a1 a2 = sectorSweep b1 b2 → _LIGHTS05_cmpSector E A B = -1) ∧
    (sectorSweep a1 a2 < sectorSweep b1 b2 →
      _LIGHTS05_cmpSector E A B = 1 ∧ _LIGHTS05_cmpSector E B A = -1) := by
  have e1 := cmpSector_eq E A B a1 a2 b1 b2 ha hb
  have e2 := cmpSector_eq E B A b1 b2 a1 a2 hb ha
  rw [if_pos ho] at e1
  rw [if_pos ((sectorsOverlap_comm _ _ _ _).mp ho)] at e2
  rw [e1, e2]
  refine ⟨?_, ?_, ?_, ?_⟩
  · split_ifs with h <;> simp [h]
  · split_ifs with h <;> simp [h]
  · intro h
    rw [h, if_neg (lt_irrefl _)]
  · intro h
    rw [if_pos h, if_neg (not_lt.mpr h.le)]
    exact ⟨rfl, rfl⟩

theorem cmpSector_dominance_witness :
    (sectorOf decExt (sectorLight 1 "0" "30") = some (0, 30) ∧
      sectorOf decExt (sectorLight 2 "10" "100") = some (10, 100) ∧
      sectorsOverlap 0 30 10 100 ∧ sectorSweep 0 30 = 30 ∧ sectorSweep 10 100 = 90) ∧
    _LIGHTS05_cmpSector decExt (sectorLight 1 "0" "30") (sectorLight 2 "10" "100") = 1 ∧
    _LIGHTS05_cmpSector decExt (sectorLight 2 "10" "100") (sectorLight 1 "0" "30") = -1 :=
  ⟨by decide!,
   (cmpSector_dominance decExt (sectorLight 1 "0" "30") (sectorLight 2 "10" "100") 0 30 10 100
      (by decide!) (by decide!) (by decide!)).2.2.2 (by decide!)⟩

/-- For bearings in whole degrees the sweep, the head and the tail of a sector are
computed without rounding error. -/
theorem sectorExact_of_degrees (n1 n2 : ℤ) (h1 : 0 ≤ n1 ∧ n1 < 360) (h2 : 0 ≤ n2 ∧ n2 < 360) :
    sectorExact (n1 : ℚ) (n2 : ℚ) := by
  have R : ∀ m : ℤ, |m| < 1024 → roundDouble (m : ℚ) = m := by
    intro m hm
    exact roundDouble_intCast m (lt_trans hm (by norm_num))
  have A : ∀ a b : ℤ, |a + b| < 1024 → dadd (a : ℚ) (b : ℚ) = ((a + b : ℤ) : ℚ) := by
    intro a b h
    unfold dadd
    rw [← Int.cast_add]
    exact R _ h
  have S : ∀ a b : ℤ, |a - b| < 1024 → dsub (a : ℚ) (b : ℚ) = ((a - b : ℤ) : ℚ) := by
    intro a b h
    unfold dsub
    rw [← Int.cast_sub]
    exact R _ h
  have e360 : (360 : ℚ) = ((360 : ℤ) : ℚ) := by norm_num
  by_cases h : n1 > n2
  · have hq : (n1 : ℚ) > (n2 : ℚ) := by exact_mod_cast h
    have hs : sectorSweep (n1 : ℚ) (n2 : ℚ) = ((n2 + 360 - n1 : ℤ) : ℚ) := by
      unfold sectorSweep
      simp only [hq, if_true]
      rw [e360, A n2 360 (by rw [abs_lt]; omega), S (n2 + 360) n1 (by rw [abs_lt]; omega)]
      rw [if_neg]
      rw [not_le]
      exact_mod_cast (by omega : n2 + 360 - n1 < 360)
    have ha : arcSweep (n1 : ℚ) (n2 : ℚ) = ((n2 + 360 - n1 : ℤ) : ℚ) := by
      unfold arcSweep
      simp only [hq, if_true]
      rw [if_neg]
      · push_cast
        ring
      · rw [not_le]
        have : (n2 : ℚ) < n1 := hq
        linarith
    refine ⟨by rw [hs, ha], ?_, ?_⟩
    · unfold sectorHead
      rw [hs, ha, A n1 _ (by rw [abs_lt]; omega)]
      push_cast
      ring
    · unfold sectorTail
      rw [hs, ha, S n2 _ (by rw [abs_lt]; omega)]
      push_cast
      ring
  · have hq : ¬ (n1 : ℚ) > (n2 : ℚ) := by exact_mod_cast h
    have hs : sectorSweep (n1 : ℚ) (n2 : ℚ) = ((n2 - n1 : ℤ) : ℚ) := by
      unfold sectorSweep
      simp only [hq, if_false]
      rw [S n2 n1 (by rw [abs_lt]; omega)]
      rw [if_neg]
      rw [not_le]
      exact_mod_cast (by omega : n2 - n1 < 360)
    have ha : arcSweep (n1 : ℚ) (n2 : ℚ) = ((n2 - n1 : ℤ) : ℚ) := by
      unfold arcSweep
      simp only [hq, if_false]
      rw [if_neg]
      · push_cast
        ring
      · rw [not_le]
        have : (n2 : ℚ) < 360 := by exact_mod_cast h2.2
        have : (0 : ℚ) ≤ n1 := by exact_mod_cast h1.1
        linarith
    refine ⟨by rw [hs, ha], ?_, ?_⟩
    · unfold sectorHead
      rw [hs, ha, A n1 _ (by rw [abs_lt]; omega)]
      push_cast
      ring
    · unfold sectorTail
      rw [hs, ha, S n2 _ (by rw [abs_lt]; omega)]
      push_cast
      ring

/-- For bearings in `[0, 360)` and a sector whose sweep, head and tail are computed
without rounding error, the test of `_LIGHTS05_cmpSector` of a bearing against the
sector says that the bearing is an interior point of the arc of the sector. -/
theorem sectorHolds_iff_inArc (s1 s2 x : ℚ) (h1 : 0 ≤ s1 ∧ s1 < 360) (h2 : 0 ≤ s2 ∧ s2 < 360)
    (hx : 0 ≤ x ∧ x < 360) (he : sectorExact s1 s2) : sectorHolds s1 s2 x ↔ inArc s1 s2 x := by
  unfold sectorHolds
  rw [he.2.1, he.2.2]
  unfold arcSweep inArc
  by_cases h : s1 ≤ s2
  · have hs : ¬ s1 > s2 := not_lt.mpr h
    have hw : ¬ s2 - s1 ≥ 360 := by
      intro hc
      linarith [h1.1, h2.2]
    simp only [hs, if_false, hw, h, if_true]
    constructor
    · rintro (⟨a, b⟩ | ⟨a, b⟩)
      · exact ⟨by linarith, b⟩
      · exact ⟨a, by linarith⟩
    · rintro ⟨a, b⟩
      exact Or.inr ⟨a, by linarith⟩
  · have hs : s1 > s2 := not_le.mp h
    have hw : ¬ s2 + 360 - s1 ≥ 360 := by
      intro hc
      linarith
    simp only [hs, if_true, hw, if_false, h]
    constructor
    · rintro (⟨_, b⟩ | ⟨a, _⟩)
      · exact Or.inr b
      · exact Or.inl a
    · rintro (a | b)
      · exact Or.inr ⟨a, by linarith [hx.2, h2.1]⟩
      · exact Or.inl ⟨by linarith [hx.1, h1.2], b⟩

/-- A non-empty arc that starts at an interior point of another arc shares an interior
point with it. -/
theorem arc_start_common (a1 a2 b1 b2 : ℚ) (hb1 : 0 ≤ b1 ∧ b1 < 360) (hB : b1 ≠ b2)
    (h : inArc a1 a2 b1) : ∃ x, (0 ≤ x ∧ x < 360) ∧ inArc a1 a2 x ∧ inArc b1 b2 x := by
  obtain ⟨m, hm0, hm1, hmA, hmB⟩ : ∃ m, b1 < m ∧ m ≤ 360 ∧
      (a1 ≤ a2 ∨ b1 < a2 → m ≤ a2) ∧ (b1 ≤ b2 → m ≤ b2) := by
    refine ⟨min (min 360 (if a1 ≤ a2 ∨ b1 < a2 then a2 else 360)) (if b1 ≤ b2 then b2 else 360),
      ?_, ?_, ?_, ?_⟩
    · refine lt_min (lt_min hb1.2 ?_) ?_
      · split_ifs with hc
        · unfold inArc at h
          rcases hc with hc | hc
          · rw [if_pos hc] at h
            exact h.2
          · exact hc
        · exact hb1.2
      · split_ifs with hc
        · exact lt_of_le_of_ne hc hB
        · exact hb1.2
    · exact le_trans (min_le_left _ _) (min_le_left _ _)
    · intro hc
      refine le_trans (min_le_left _ _) (le_trans (min_le_right _ _) ?_)
      rw [if_pos hc]
    · intro hc
      refine le_trans (min_le_right _ _) ?_
      rw [if_pos hc]
  refine ⟨(b1 + m) / 2, ⟨by linarith [hb1.1], by linarith⟩, ?_, ?_⟩
  · unfold inArc at h ⊢
    by_cases hc : a1 ≤ a2
    · rw [if_pos hc] at h ⊢
      have := hmA (Or.inl hc)
      exact ⟨by linarith [h.1], by linarith⟩
    · rw [if_neg hc] at h ⊢
      by_cases hd : b1 < a2
      · have := hmA (Or.inr hd)
        exact Or.inr (by linarith)
      · rcases h with h | h
        · exact Or.inl (by linarith)
        · exact absurd h hd
  · unfold inArc
    by_cases hc : b1 ≤ b2
    · rw [if_pos hc]
      have := hmB hc
      exact ⟨by linarith, by linarith⟩
    · rw [if_neg hc]
      exact Or.inl (by linarith)

/-- A non-empty arc that ends at an interior point of another arc shares an interior
point with it. -/
theorem arc_end_common (a1 a2 b1 b2 : ℚ) (ha1 : 0 ≤ a1 ∧ a1 < 360)
    (hb1 : 0 ≤ b1 ∧ b1 < 360) (hb2 : 0 ≤ b2 ∧ b2 < 360) (hB : b1 ≠ b2)
    (h : inArc a1 a2 b2) : ∃ x, (0 ≤ x ∧ x < 360) ∧ inArc a1 a2 x ∧ inArc b1 b2 x := by
  by_cases hz : 0 < b2
  · obtain ⟨l, hl0, hl1, hlA, hlB⟩ : ∃ l, l < b2 ∧ 0 ≤ l ∧
        (a1 ≤ a2 ∨ a1 < b2 → a1 ≤ l) ∧ (b1 ≤ b2 → b1 ≤ l) := by
      refine ⟨max (max 0 (if a1 ≤ a2 ∨ a1 < b2 then a1 else 0)) (if b1 ≤ b2 then b1 else 0),
        ?_, ?_, ?_, ?_⟩
      · refine max_lt (max_lt hz ?_) ?_
        · split_ifs with hc
          · unfold inArc at h
            rcases hc with hc | hc
            · rw [if_pos hc] at h
              exact h.1
            · exact hc
          · exact hz
        · split_ifs with hc
          · exact lt_of_le_of_ne hc hB
          · exact hz
      · exact le_trans (le_max_left _ _) (le_max_left _ _)
      · intro hc
        refine le_trans ?_ (le_trans (le_max_right _ _) (le_max_left _ _))
        rw [if_pos hc]
      · intro hc
        refine le_trans ?_ (le_max_right _ _)
        rw [if_pos hc]
    refine ⟨(l + b2) / 2, ⟨by linarith, by linarith [hb2.2]⟩, ?_, ?_⟩
    · unfold inArc at h ⊢
      by_cases hc : a1 ≤ a2
      · rw [if_pos hc] at h ⊢
        have := hlA (Or.inl hc)
        exact ⟨by linarith, by linarith [h.2]⟩
      · rw [if_neg hc] at h ⊢
        by_cases hd : a1 < b2
        · have := hlA (Or.inr hd)
          exact Or.inl (by linarith)
        · rcases h with h | h
          · exact absurd h hd
          · exact Or.inr (by linarith)
    · unfold inArc
      by_cases hc : b1 ≤ b2
      · rw [if_pos hc]
        have := hlB hc
        exact ⟨by linarith, by linarith⟩
      · rw [if_neg hc]
        exact Or.inr (by linarith)
  · have hb0 : b2 = 0 := le_antisymm (not_lt.mp hz) hb2.1
    subst hb0
    have hb1pos : 0 < b1 := lt_of_le_of_ne hb1.1 (Ne.symm hB)
    have hwrap : ¬ a1 ≤ a2 := by
      intro hc
      unfold inArc at h
      rw [if_pos hc] at h
      linarith [h.1, ha1.1]
    refine ⟨(max a1 b1 + 360) / 2, ⟨?_, ?_⟩, ?_, ?_⟩
    · have := le_max_left a1 b1
      linarith [ha1.1]
    · have : max a1 b1 < 360 := max_lt ha1.2 hb1.2
      linarith
    · unfold inArc
      rw [if_neg hwrap]
      have h1 := le_max_left a1 b1
      have h2 : max a1 b1 < 360 := max_lt ha1.2 hb1.2
      exact Or.inl (by linarith)
    · unfold inArc
      rw [if_neg (not_le.mpr hb1pos)]
      have h1 := le_max_right a1 b1
      have h2 : max a1 b1 < 360 := max_lt ha1.2 hb1.2
      exact Or.inl (by linarith)

/-- Two non-empty arcs with limits in `[0, 360)`, whose sweeps, heads and tails are
computed without rounding error, that pass the overlap test of `_LIGHTS05_cmpSector`
share an interior point. -/
theorem overlap_common (a1 a2 b1 b2 : ℚ) (ha1 : 0 ≤ a1 ∧ a1 < 360) (ha2 : 0 ≤ a2 ∧ a2 < 360)
    (hb1 : 0 ≤ b1 ∧ b1 < 360) (hb2 : 0 ≤ b2 ∧ b2 < 360) (hA : a1 ≠ a2) (hB : b1 ≠ b2)
    (hEA : sectorExact a1 a2) (hEB : sectorExact b1 b2)
    (h : sectorsOverlap a1 a2 b1 b2) :
    ∃ x, (0 ≤ x ∧ x < 360) ∧ inArc a1 a2 x ∧ inArc b1 b2 x := by
  unfold sectorsOverlap at h
  rcases h with h | h | h | h
  · exact arc_start_common a1 a2 b1 b2 hb1 hB
      ((sectorHolds_iff_inArc a1 a2 b1 ha1 ha2 hb1 hEA).mp h)
  · exact arc_end_common a1 a2 b1 b2 ha1 hb1 hb2 hB
      ((sectorHolds_iff_inArc a1 a2 b2 ha1 ha2 hb2 hEA).mp h)
  · obtain ⟨x, hx, p, q⟩ := arc_start_common b1 b2 a1 a2 ha1 hA
      ((sectorHolds_iff_inArc b1 b2 a1 hb1 hb2 ha1 hEB).mp h)
    exact ⟨x, hx, q, p⟩
  · obtain ⟨x, hx, p, q⟩ := arc_end_common b1 b2 a1 a2 hb1 ha1 ha2 hA
      ((sectorHolds_iff_inArc b1 b2 a2 hb1 hb2 ha2 hEB).mp h)
    exact ⟨x, hx, q, p⟩

/-- C30 (as stated) fails: a light whose `CATLIT` list holds the emergency code 17 and
the flood-light code 8 gets `;SY(LIGHTS82)`, one with 17 and the strip-light code 9
gets `;SY(LIGHTS81)`: the instruction is not empty. -/
theorem LIGHTS05_emergency_counterexample :
    (_parseList decExt.S52_atoi (some "17,8")).2 = [17, 8] ++ [0] ∧
    (LIGHTS05 decExt decFmt mpScenario 0 (mkState [lightWith [("CATLIT", "17,8")]]) 0).map
      CS_result.val? = some (some ";SY(LIGHTS82)") ∧
    (LIGHTS05 decExt decFmt mpScenario 0 (mkState [lightWith [("CATLIT", "17,9")]]) 0).map
      CS_result.val? = some (some ";SY(LIGHTS81)") := by
  decide!

/-- C30 (amended): for every light whose `CATLIT` list contains the emergency code 17
and none of the codes 8, 11 (flood light, spot light) and 9 (strip light), whatever
other category codes, colours, sectors and touch references it has, `LIGHTS05`
returns an empty instruction and leaves the store as it is; a list with 8 or 11 gets
`;SY(LIGHTS82)` and otherwise a list with 9 gets `;SY(LIGHTS81)`, with or without
the code 17. -/
theorem LIGHTS05_emergency (E : S57_ext) (F : GLib_ext) (mp : S52_MP) (fuel : Nat)
    (st : S57_state) (geo : Ptr) (s : String) (cs : List Nat)
    (hc : S57_getAttVal (st.obj geo) "CATLIT" = some s)
    (hp : (_parseList E.S52_atoi (some s)).2 = cs ++ [0]) (hnz : ∀ c ∈ cs, c ≠ 0) :
    (containsAny cs [8, 11] = false → containsAny cs [9] = false → 17 ∈ cs →
      LIGHTS05 E F mp fuel st geo = some (.ret st "")) ∧
    (containsAny cs [8, 11] = true →
      LIGHTS05 E F mp fuel st geo = some (.ret st ";SY(LIGHTS82)")) ∧
    (containsAny cs [8, 11] = false → containsAny cs [9] = true →
      LIGHTS05 E F mp fuel st geo = some (.ret st ";SY(LIGHTS81)")) := by
  have e : LIGHTS05_catlit E (st.obj geo) =
      if containsAny cs [8, 11] = true then .inl ";SY(LIGHTS82)"
      else if containsAny cs [9] = true then .inl ";SY(LIGHTS81)"
      else if containsAny cs [17] = true then .inl ""
      else if containsAny cs [1, 16] = true then
        .inr (if (S57_getAttVal (st.obj geo) "ORIENT").isSome then ";LS(DASH,1,CHBLK)" else "",
          S57_getAttVal (st.obj geo) "ORIENT")
      else .inr ("", none) := by
    unfold LIGHTS05_catlit
    simp only [hc, hp, strpbrk_codes _ _ hnz]
    split_ifs <;> simp
  refine ⟨?_, ?_, ?_⟩
  · intro h8 h9 h17
    have h17' : containsAny cs [17] = true := by
      simp only [containsAny, List.any_eq_true, decide_eq_true_eq]
      exact ⟨17, h17, by simp⟩
    unfold LIGHTS05
    rw [e]
    simp [h8, h9, h17']
  · intro h8
    unfold LIGHTS05
    rw [e]
    simp [h8]
  · intro h8 h9
    unfold LIGHTS05
    rw [e]
    simp [h8, h9]

theorem LIGHTS05_emergency_witness :
    (S57_getAttVal
        ((mkState [lightWith [("CATLIT", "1,17"), ("COLOUR", "3"), ("SECTR1", "0"),
          ("SECTR2", "90")]]).obj 0) "CATLIT" = some "1,17" ∧
      (_parseList decExt.S52_atoi (some "1,17")).2 = [1, 17] ++ [0]) ∧
    LIGHTS05 decExt decFmt mpScenario 0
      (mkState [lightWith [("CATLIT", "1,17"), ("COLOUR", "3"), ("SECTR1", "0"),
        ("SECTR2", "90")]]) 0 =
      some (.ret (mkState [lightWith [("CATLIT", "1,17"), ("COLOUR", "3"), ("SECTR1", "0"),
        ("SECTR2", "90")]]) "") :=
  ⟨by decide!,
   (LIGHTS05_emergency decExt decFmt mpScenario 0
      (mkState [lightWith [("CATLIT", "1,17"), ("COLOUR", "3"), ("SECTR1", "0"),
        ("SECTR2", "90")]]) 0 "1,17" [1, 17] (by decide!) (by decide!) (by decide)).1
      (by decide) (by decide) (by decide)⟩

/-! ## Positional accuracy of points: `_QUAPNT01` -/

/-- C37 (code): `_QUAPNT01` returns `;SY(LOWACC01)` exactly when the position is NOT of
low accuracy: the symbol is returned for a feature without `QUAPOS` and for `QUAPOS`
outside `2 .. 9`, and no instruction for `QUAPOS` in `2 .. 9`.  A point obstruction
and a point wreck with `QUAPOS = 4` get no `LOWACC01`, the same features without
`QUAPOS` get it. -/
theorem QUAPNT01_inverted :
    (∀ (E : S57_ext) (geo : S57_geo),
      _QUAPNT01 E geo =
        if ∃ s, S57_getAttVal geo "QUAPOS" = some s ∧ 2 ≤ E.S52_atoi s ∧ E.S52_atoi s < 10
        then none else some ";SY(LOWACC01)") ∧
    _QUAPNT01 decExt obstrnPoint = some ";SY(LOWACC01)" ∧
    _QUAPNT01 decExt { obstrnPoint with attribs := [("QUAPOS", "4")] } = none ∧
    _QUAPNT01 decExt { obstrnPoint with attribs := [("QUAPOS", "1")] } = some ";SY(LOWACC01)" ∧
    _QUAPNT01 decExt { obstrnPoint with attribs := [("QUAPOS", "10")] } = some ";SY(LOWACC01)" ∧
    (OBSTRN04 decExt mpScenario (mkState [{ obstrnPoint with attribs := [("QUAPOS", "4")] }])
      0).val? = some (some ";SY(OBSTRN01)") ∧
    (OBSTRN04 decExt mpScenario (mkState [obstrnPoint]) 0).val? =
      some (some ";SY(OBSTRN01);SY(LOWACC01)") ∧
    (WRECKS02 decExt mpScenario (mkState [{ obstrnPoint with attribs := [("QUAPOS", "4")] }])
      0).val? = some (some ";SY(WRECKS05)") ∧
    (WRECKS02 decExt mpScenario (mkState [obstrnPoint]) 0).val? =
      some (some ";SY(WRECKS05);SY(LOWACC01)") := by
  refine ⟨?_, by decide!, by decide!, by decide!, by decide!, by decide!, by decide!,
    by decide!, by decide!⟩
  intro E geo
  unfold _QUAPNT01
  cases h : S57_getAttVal geo "QUAPOS" with
  | none => simp
  | some s =>
    by_cases hq : 2 ≤ E.S52_atoi s ∧ E.S52_atoi s < 10
    · simp [hq]
    · simp [hq]

/-! ## `RESARE02` against `_RESCSP01` -/

/-- C40: for a feature with a `RESTRN` value (parsed list: the non-zero codes `cs`)
and without `CATREA`, the symbol `RESARE02` selects is the symbol `_RESCSP01` returns
for that value, and the instruction of `RESARE02` is that symbol preceded by the
boundary line - a complex line `;LC(...)` when `S52_MAR_SYMBOLIZED_BND` is set (of the
anchoring tier `ACHRES51`, of the fishing tier `FSHRES51`, else `CTYARE51`), the
dashed line `;LS(DASH,2,CHMGD)` otherwise - and, in the entry (7, 8, 14), anchoring
(1, 2) and fishing (3..6) tiers only, by `;OP(6---)` in front. -/
theorem RESARE02_agrees_RESCSP01 (E : S57_ext) (mp : S52_MP) (geo : S57_geo) (rs : String)
    (cs : List Nat) (hr : S57_getAttVal geo "RESTRN" = some rs)
    (hcat : S57_getAttVal geo "CATREA" = none)
    (hp : (_parseList E.S52_atoi (some rs)).2 = cs ++ [0]) (hc : ∀ c ∈ cs, c ≠ 0) :
    ∃ sym, _RESCSP01 E rs = some sym ∧ (RESARE02_locals E mp geo).2.2 = sym ∧
      RESARE02 E mp geo =
        (if containsAny cs [7, 8, 14] = true ∨ containsAny cs [1, 2] = true ∨
            containsAny cs [3, 4, 5, 6] = true then ";OP(6---)" else "") ++
        (if isTRUE (mp .S52_MAR_SYMBOLIZED_BND) = true then
            (if containsAny cs [7, 8, 14] = true then ";LC(CTYARE51)"
              else if containsAny cs [1, 2] = true then ";LC(ACHRES51)"
              else if containsAny cs [3, 4, 5, 6] = true then ";LC(FSHRES51)"
              else ";LC(CTYARE51)")
          else ";LS(DASH,2,CHMGD)") ++ sym := by
  refine ⟨_, RESCSP01_codes E rs cs hp hc, ?_, ?_⟩
  · unfold RESARE02_locals
    simp only [hr, hcat, hp, strpbrk_codes _ _ hc]
    cases containsAny cs [7, 8, 14] <;> cases containsAny cs [1, 2] <;>
      cases containsAny cs [3, 4, 5, 6] <;> cases containsAny cs [9, 10, 11, 12, 13] <;>
      cases containsAny cs [1, 2, 3, 4, 5, 6] <;> simp
  · unfold RESARE02 RESARE02_locals RESARE02_line
    simp only [hr, hcat, hp, strpbrk_codes _ _ hc]
    cases containsAny cs [7, 8, 14] <;> cases containsAny cs [1, 2] <;>
      cases containsAny cs [3, 4, 5, 6] <;> cases containsAny cs [9, 10, 11, 12, 13] <;>
      cases containsAny cs [1, 2, 3, 4, 5, 6] <;> cases isTRUE (mp .S52_MAR_SYMBOLIZED_BND) <;>
      rfl

theorem RESARE02_agrees_RESCSP01_witness :
    ∃ sym, _RESCSP01 decExt "4,9" = some sym ∧
      (RESARE02_locals decExt mpScenario (resare "4,9" none)).2.2 = sym ∧
      RESARE02 decExt mpScenario (resare "4,9" none) =
        (if containsAny [4, 9] [7, 8, 14] = true ∨ containsAny [4, 9] [1, 2] = true ∨
            containsAny [4, 9] [3, 4, 5, 6] = true then ";OP(6---)" else "") ++
        (if isTRUE (mpScenario .S52_MAR_SYMBOLIZED_BND) = true then
            (if containsAny [4, 9] [7, 8, 14] = true then ";LC(CTYARE51)"
              else if containsAny [4, 9] [1, 2] = true then ";LC(ACHRES51)"
              else if containsAny [4, 9] [3, 4, 5, 6] = true then ";LC(FSHRES51)"
              else ";LC(CTYARE51)")
          else ";LS(DASH,2,CHMGD)") ++ sym :=
  RESARE02_agrees_RESCSP01 decExt mpScenario (resare "4,9" none) "4,9" [4, 9] (by decide!)
    (by decide!) (by decide!) (by decide)

/-! ## `_parseList` -/

/-- The digit loop of `_parseList` skips a decimal token up to the comma. -/
theorem skipDigits_token (t r : List Char) (ht : ∀ c ∈ t, '0' ≤ c ∧ c ≤ '9') :
    skipDigits (t ++ ',' :: r) = ',' :: r := by
  induction t with
  | nil =>
    show skipDigits (',' :: r) = ',' :: r
    unfold skipDigits
    rw [if_neg (by decide)]
  | cons c cs ih =>
    show skipDigits (c :: (cs ++ ',' :: r)) = ',' :: r
    unfold skipDigits
    rw [if_pos (ht c (List.mem_cons_self _ _))]
    exact ih (fun x hx => ht x (List.mem_cons_of_mem _ hx))

/-- The digit loop of `_parseList` skips a decimal token at the end of the text. -/
theorem skipDigits_last (t : List Char) (ht : ∀ c ∈ t, '0' ≤ c ∧ c ≤ '9') :
    skipDigits t = [] := by
  induction t with
  | nil => rfl
  | cons c cs ih =>
    unfold skipDigits
    rw [if_pos (ht c (List.mem_cons_self _ _))]
    exact ih (fun x hx => ht x (List.mem_cons_of_mem _ hx))

/-- The byte stored for a token of value below 256 is that value. -/
theorem parseList_byte (n : Nat) (h : n < 256) : (Int.emod (n : Int) 256).toNat = n := by
  show ((n : Int) % 256).toNat = n
  omega

/-- The loop of `_parseList` on a comma-separated list of decimal tokens: the values
are appended to the buffer in order until it holds 15 bytes. -/
theorem parseList_loop_tokens (atoi : String → Int) (hatoi : readsDecimal atoi) :
    ∀ (ts : List (List Char)) (fuel : Nat) (buf : List Nat), ts ≠ [] →
      (∀ t ∈ ts, isDecimal t) → (∀ t ∈ ts, decDigits t < 256) →
      (commaList ts).length + 1 ≤ fuel →
      _parseList_loop atoi fuel (commaList ts) buf =
        buf ++ (ts.map decDigits).take (15 - buf.length) := by
  intro ts
  induction ts with
  | nil => intro _ _ h; exact absurd rfl h
  | cons t ts ih =>
    intro fuel buf _ hdec hval hfuel
    obtain ⟨f, rfl⟩ : ∃ f, fuel = f + 1 := ⟨fuel - 1, by omega⟩
    have ht := hdec t (List.mem_cons_self _ _)
    have hv := hval t (List.mem_cons_self _ _)
    unfold _parseList_loop
    by_cases hfull : buf.length ≥ LISTSIZE - 1
    · rw [if_pos hfull]
      have : 15 - buf.length = 0 := by unfold LISTSIZE at hfull; omega
      rw [this]; simp
    · rw [if_neg hfull]
      have hlen : 15 - buf.length = (15 - (buf ++ [decDigits t]).length) + 1 := by
        unfold LISTSIZE at hfull
        simp only [List.length_append, List.length_singleton]; omega
      cases ts with
      | nil =>
        have e : commaList [t] = t := rfl
        rw [e]
        have ha : atoi (String.mk t) = (decDigits t : Int) := by
          have := hatoi t [] ht (Or.inl rfl)
          simpa using this
        simp only [ha, parseList_byte _ hv, skipDigits_last t ht.2]
        rw [hlen]; simp
      | cons t2 ts2 =>
        have e : commaList (t :: t2 :: ts2) = t ++ ',' :: commaList (t2 :: ts2) := rfl
        rw [e] at hfuel ⊢
        have ha : atoi (String.mk (t ++ ',' :: commaList (t2 :: ts2))) = (decDigits t : Int) :=
          hatoi t _ ht (Or.inr ⟨_, rfl⟩)
        simp only [ha, parseList_byte _ hv, skipDigits_token t _ ht.2]
        rw [ih f (buf ++ [decDigits t]) (by simp)
          (fun x hx => hdec x (List.mem_cons_of_mem _ hx))
          (fun x hx => hval x (List.mem_cons_of_mem _ hx))
          (by simp only [List.length_append, List.length_cons] at hfuel; omega)]
        rw [hlen]; simp

/-- The loop of `_parseList` never makes the buffer longer than 15 bytes, and every
byte it stores is below 256. -/
theorem parseList_loop_bound (atoi : String → Int) :
    ∀ (fuel : Nat) (str : List Char) (buf : List Nat), buf.length ≤ 15 →
      (∀ x ∈ buf, x < 256) →
      (_parseList_loop atoi fuel str buf).length ≤ 15 ∧
      ∀ x ∈ _parseList_loop atoi fuel str buf, x < 256 := by
  intro fuel
  induction fuel with
  | zero => intro str buf h hb; unfold _parseList_loop; exact ⟨h, hb⟩
  | succ f ih =>
    intro str buf h hb
    unfold _parseList_loop
    by_cases hfull : buf.length ≥ LISTSIZE - 1
    · rw [if_pos hfull]; exact ⟨h, hb⟩
    · rw [if_neg hfull]
      have hl : (buf ++ [(Int.emod (atoi (String.mk str)) 256).toNat]).length ≤ 15 := by
        unfold LISTSIZE at hfull
        simp only [List.length_append, List.length_singleton]; omega
      have hx : ∀ x ∈ buf ++ [(Int.emod (atoi (String.mk str)) 256).toNat], x < 256 := by
        intro x hx
        rcases List.mem_append.mp hx with hx | hx
        · exact hb x hx
        · rw [List.mem_singleton.mp hx]
          have h1 : Int.emod (atoi (String.mk str)) 256 < 256 :=
            Int.emod_lt_of_pos _ (by decide)
          have h0 : 0 ≤ Int.emod (atoi (String.mk str)) 256 :=
            Int.emod_nonneg _ (by decide)
          omega
      simp only []
      split
      · exact ⟨hl, hx⟩
      · exact ih _ _ hl hx

/-- The decimal reader `decAtoi` reads a leading decimal token. -/
theorem decAtoi_readsDecimal : readsDecimal decAtoi := by
  intro t rest ht hrest
  obtain ⟨hne, hd⟩ := ht
  have hdig : ∀ c ∈ t, c.isDigit = true := by
    intro c hc
    have := hd c hc
    simp only [Char.isDigit, Bool.and_eq_true, decide_eq_true_eq]
    exact this
  have htw : (t ++ rest).takeWhile Char.isDigit = t := by
    rw [List.takeWhile_append_of_pos hdig]
    rcases hrest with rfl | ⟨r, rfl⟩
    · simp
    · rw [List.takeWhile_cons_of_neg (by decide)]; simp
  cases t with
  | nil => exact absurd rfl hne
  | cons c cs =>
    have hc : c ≠ '-' := by
      intro h
      have := hd c (List.mem_cons_self _ _)
      rw [h] at this
      exact absurd this (by decide)
    unfold decAtoi
    have hh : (String.mk (c :: cs ++ rest)).data.head? ≠ some '-' := by
      simp [hc]
    simp only [hh, if_false]
    rw [htw]

/-- A comma-separated list of at least one decimal token is not the empty text. -/
theorem commaList_ne_nil (ts : List (List Char)) (hne : ts ≠ [])
    (hdec : ∀ t ∈ ts, isDecimal t) : commaList ts ≠ [] := by
  cases ts with
  | nil => exact absurd rfl hne
  | cons t ts =>
    have ht := (hdec t (List.mem_cons_self _ _)).1
    cases ts with
    | nil => exact ht
    | cons t2 ts2 =>
      show t ++ ',' :: commaList (t2 :: ts2) ≠ []
      simp

/-- C38: `_parseList`.  For the text of `k` comma-separated decimal numbers, each
below 256, read by an `S52_atoi` that returns the value of a leading decimal number,
`_parseList` returns `min k 15` and stores the first 15 values in order followed by
the terminator 0 - all `k` values when `k <= 15`, the values after the fifteenth are
dropped.  For every input and every `S52_atoi` it returns at most 15, the stored
values with the terminator fill at most the 16 bytes of the buffer (one more than the
count returned, every byte below 256, the last one 0).  For NULL and for the empty
string it returns 0 and stores only the terminator. -/
theorem parseList_spec (atoi : String → Int) (hatoi : readsDecimal atoi)
    (ts : List (List Char)) (hdec : ∀ t ∈ ts, isDecimal t)
    (hval : ∀ t ∈ ts, decDigits t < 256) :
    _parseList atoi (some (String.mk (commaList ts))) =
      (min ts.length 15, (ts.map decDigits).take 15 ++ [0]) ∧
    (ts.length ≤ 15 →
      _parseList atoi (some (String.mk (commaList ts))) =
        (ts.length, ts.map decDigits ++ [0])) ∧
    (∀ (f : String → Int) (str : Option String),
      (_parseList f str).1 ≤ 15 ∧ (_parseList f str).2.length = (_parseList f str).1 + 1 ∧
      (_parseList f str).2.length ≤ LISTSIZE ∧ (∀ x ∈ (_parseList f str).2, x < 256) ∧
      (_parseList f str).2.getLast? = some 0) ∧
    (∀ f : String → Int, _parseList f none = (0, [0]) ∧ _parseList f (some "") = (0, [0])) := by
  have main : _parseList atoi (some (String.mk (commaList ts))) =
      (min ts.length 15, (ts.map decDigits).take 15 ++ [0]) := by
    by_cases hne : ts = []
    · subst hne; rfl
    · unfold _parseList
      have h1 : (String.mk (commaList ts)).data = commaList ts := rfl
      simp only [h1, if_neg (commaList_ne_nil ts hne hdec)]
      rw [parseList_loop_tokens atoi hatoi ts _ [] hne hdec hval (le_refl _)]
      simp [List.length_take, min_comm]
  refine ⟨main, ?_, ?_, ?_⟩
  · intro hk
    rw [main, min_eq_left hk, List.take_of_length_le (by simpa using hk)]
  · intro f str
    have hb : ∀ (vals : List Nat), vals.length ≤ 15 → (∀ x ∈ vals, x < 256) →
        (vals.length, vals ++ [0]).1 ≤ 15 ∧
        (vals.length, vals ++ [0]).2.length = (vals.length, vals ++ [0]).1 + 1 ∧
        (vals.length, vals ++ [0]).2.length ≤ LISTSIZE ∧
        (∀ x ∈ (vals.length, vals ++ [0]).2, x < 256) ∧
        (vals.length, vals ++ [0]).2.getLast? = some 0 := by
      intro vals hl hx
      refine ⟨hl, by simp, by unfold LISTSIZE; simp; omega, ?_, by simp⟩
      intro x hx2
      rcases List.mem_append.mp hx2 with h | h
      · exact hx x h
      · rw [List.mem_singleton.mp h]; decide
    unfold _parseList
    cases str with
    | none => exact hb [] (by simp) (by simp)
    | some s =>
      by_cases hs : s.data = []
      · simp only [hs, if_true]
        exact hb [] (by simp) (by simp)
      · simp only [if_neg hs]
        have := parseList_loop_bound f (s.data.length + 1) s.data [] (by simp) (by simp)
        exact hb _ this.1 this.2
  · intro f
    exact ⟨rfl, rfl⟩

theorem parseList_spec_witness :
    _parseList decAtoi (some (String.mk (commaList ["4".data, "17".data, "255".data]))) =
      (min ["4".data, "17".data, "255".data].length 15,
        (["4".data, "17".data, "255".data].map decDigits).take 15 ++ [0]) ∧
    _parseList decAtoi (some "4,17,255") = (3, [4, 17, 255, 0]) ∧
    _parseList decAtoi (some "1,2,3,4,5,6,7,8,9,10,11,12,13,14,15,16,17") =
      (15, [1, 2, 3, 4, 5, 6, 7, 8, 9, 10, 11, 12, 13, 14, 15, 0]) :=
  ⟨(parseList_spec decAtoi decAtoi_readsDecimal ["4".data, "17".data, "255".data]
      (by decide) (by decide)).1,
   by decide!, by decide!⟩

/-! ## `SOUNDG02` -/

/-- C34 (counterexample): on a sounding given as a line, on a point whose coordinates
cannot be read, and on a point with two coordinate triples, `SOUNDG02` does not return
"no instruction": it fails its assertion. -/
theorem SOUNDG02_counterexample :
    (SOUNDG02 decExt mpScenario (mkState [soundg .S57_LINES_T lineData]) 0).val? ≠ some none ∧
    (SOUNDG02 decExt mpScenario (mkState [soundg .S57_LINES_T lineData]) 0).val? = none ∧
    (SOUNDG02 decExt mpScenario (mkState [soundg .S57_POINT_T none]) 0).val? = none ∧
    (SOUNDG02 decExt mpScenario
      (mkState [soundg .S57_POINT_T (some (2, [0, 0, 5, 1, 1, 7]))]) 0).val? = none := by
  decide!

/-- C34 (amended): `SOUNDG02` fails its assertion exactly when the geometry is not a
point, the coordinates cannot be read, or there is more than one point; for a point
feature with exactly one coordinate triple `(x, y, z)` it returns exactly
`_SNDFRM02(feature, z)` and leaves the store unchanged. -/
theorem SOUNDG02_point (E : S57_ext) (mp : S52_MP) (st : S57_state) (geo : Ptr) :
    ((SOUNDG02 E mp st geo).val? = none ↔
      ((st.obj geo).objtype ≠ .S57_POINT_T ∨ (st.obj geo).geoData = none ∨
        ∃ npt ppt, (st.obj geo).geoData = some (npt, ppt) ∧ 1 < npt)) ∧
    (∀ x y z : ℚ, (st.obj geo).objtype = .S57_POINT_T →
      (st.obj geo).geoData = some (1, [x, y, z]) →
      SOUNDG02 E mp st geo = .ret st (some (_SNDFRM02 E mp (st.obj geo) z))) := by
  constructor
  · unfold SOUNDG02
    by_cases ht : (st.obj geo).objtype = .S57_POINT_T
    · rw [if_neg (not_not.mpr ht)]
      cases hd : (st.obj geo).geoData with
      | none => simp [CS_result.val?]
      | some d =>
        obtain ⟨npt, ppt⟩ := d
        by_cases hn : npt > 1
        · simp only [if_pos hn, CS_result.val?, true_iff]
          exact Or.inr (Or.inr ⟨npt, ppt, rfl, hn⟩)
        · simp only [if_neg hn, CS_result.val?]
          constructor
          · intro h; cases h
          · rintro (h | h | ⟨n, p, h, h1⟩)
            · exact absurd ht h
            · cases h
            · cases h; exact absurd h1 hn
    · rw [if_pos ht]
      simp [CS_result.val?, ht]
  · intro x y z ht hd
    unfold SOUNDG02
    rw [if_neg (not_not.mpr ht), hd]
    simp [ppt_at]

theorem SOUNDG02_point_witness :
    SOUNDG02 decExt mpScenario (mkState [soundg .S57_POINT_T (some (1, [0, 0, 12]))]) 0 =
      .ret (mkState [soundg .S57_POINT_T (some (1, [0, 0, 12]))])
        (some (_SNDFRM02 decExt mpScenario
          ((mkState [soundg .S57_POINT_T (some (1, [0, 0, 12]))]).obj 0) 12)) ∧
    _SNDFRM02 decExt mpScenario
      ((mkState [soundg .S57_POINT_T (some (1, [0, 0, 12]))]).obj 0) 12 =
      ";SY(SOUNDG21);SY(SOUNDG12);SY(SOUNDG50)" :=
  ⟨(SOUNDG02_point decExt mpScenario (mkState [soundg .S57_POINT_T (some (1, [0, 0, 12]))])
      0).2 0 0 12 (by decide!) (by decide!),
   by decide!⟩

/-! ## The light chain ends -/

theorem TOPMAR_loop_lights (E : S57_ext) (geo : Ptr) :
    ∀ (l : List Ptr) (st : S57_state),
      (S52_CS_touch_TOPMAR E geo l st).state.touchLIGHTS = st.touchLIGHTS := by
  intro l
  induction l with
  | nil => intro st; rfl
  | cons c rest ih =>
    intro st
    unfold S52_CS_touch_TOPMAR
    split_ifs
    · exact ih st
    · rw [ih]; rfl
    · rfl
    · exact ih st

theorem DEPCNT_loop_lights (E : S57_ext) (geo : Ptr) (ppt : List ℚ) :
    ∀ (l : List Ptr) (st : S57_state) (m : ℚ),
      (S52_CS_touch_DEPCNT E geo ppt l st m).touchLIGHTS = st.touchLIGHTS := by
  intro l
  induction l with
  | nil => intro st m; rfl
  | cons c rest ih =>
    intro st m
    unfold S52_CS_touch_DEPCNT
    dsimp only
    repeat' split
    all_goals exact ih _ _

theorem DEPCNT_block_lights (E : S57_ext) (loc : localObj) (st : S57_state) (geo : Ptr) :
    (S52_CS_touch_DEPCNT_block E loc st geo).state.touchLIGHTS = st.touchLIGHTS := by
  unfold S52_CS_touch_DEPCNT_block
  dsimp only
  repeat' split
  all_goals first
    | rfl
    | exact DEPCNT_loop_lights E geo _ _ _ _

theorem DEPVAL_round_lights (E : S57_ext) (geo : Ptr) (ppt : List ℚ) (c : Ptr) (st : S57_state)
    (least : Option ℚ) :
    (roundState (S52_CS_touch_DEPVAL_round E geo ppt c st least)).touchLIGHTS =
      st.touchLIGHTS := by
  unfold S52_CS_touch_DEPVAL_round
  cases least <;> repeat' split
  all_goals first | rfl | (simp only []; split_ifs <;> rfl)

theorem DEPVAL_loop_lights (E : S57_ext) (geo : Ptr) (ppt : List ℚ) :
    ∀ (l : List Ptr) (st : S57_state) (least : Option ℚ),
      (S52_CS_touch_DEPVAL E geo ppt l st least).state.touchLIGHTS = st.touchLIGHTS := by
  intro l
  induction l with
  | nil => intro st least; rfl
  | cons c rest ih =>
    intro st least
    unfold S52_CS_touch_DEPVAL
    have h := DEPVAL_round_lights E geo ppt c st least
    cases hr : S52_CS_touch_DEPVAL_round E geo ppt c st least with
    | error s => rw [hr] at h; exact h
    | ok p =>
      obtain ⟨s, l'⟩ := p
      rw [hr] at h
      simp only []
      rw [ih]; exact h

theorem DEPVAL_block_lights (E : S57_ext) (loc : localObj) (st : S57_state) (geo : Ptr) :
    (S52_CS_touch_DEPVAL_block E loc st geo).state.touchLIGHTS = st.touchLIGHTS := by
  unfold S52_CS_touch_DEPVAL_block
  cases hg : (st.obj geo).geoData with
  | none => rfl
  | some np =>
    obtain ⟨npt, ppt⟩ := np
    simp only []
    have h := DEPVAL_loop_lights E geo (if 2 < npt then List.drop 3 ppt else ppt)
      loc.depval_list st none
    cases hr : S52_CS_touch_DEPVAL E geo (if 2 < npt then List.drop 3 ppt else ppt)
        loc.depval_list st none with
    | assertFail s => rw [hr] at h; exact h
    | ret s u =>
      rw [hr] at h
      simp only []
      split_ifs
      · exact h
      · exact h

theorem UDWHAZ_block_lights (E : S57_ext) (loc : localObj) (st : S57_state) (geo : Ptr)
    (st1 : S57_state) (h : S52_CS_touch_UDWHAZ_block E loc st geo = some st1) :
    st1.touchLIGHTS = st.touchLIGHTS := by
  unfold S52_CS_touch_UDWHAZ_block at h
  cases hg : (st.obj geo).geoData with
  | none => rw [hg] at h; cases h
  | some np =>
    obtain ⟨npt, ppt⟩ := np
    rw [hg] at h
    simp only [] at h
    rw [UDWHAZ_loop_eq] at h
    split_ifs at h <;> cases h <;> rfl

/-- The `BOYLAT` block writes at most one light-chain reference: from a light of
`lights_list` to the buoy. -/
theorem BOYLAT_loop_links (E : S57_ext) (geo : Ptr) :
    ∀ (l : List Ptr) (st : S57_state),
      (S52_CS_touch_BOYLAT E geo l st).touchLIGHTS = st.touchLIGHTS ∨
      ∃ light ∈ l, (S52_CS_touch_BOYLAT E geo l st).touchLIGHTS =
        Function.update st.touchLIGHTS light (some geo) := by
  intro l
  induction l with
  | nil => intro st; exact Or.inl rfl
  | cons c rest ih =>
    intro st
    unfold S52_CS_touch_BOYLAT
    split_ifs
    · rcases ih st with h | ⟨x, hx, h⟩
      · exact Or.inl h
      · exact Or.inr ⟨x, List.mem_cons_of_mem _ hx, h⟩
    · exact Or.inr ⟨c, List.mem_cons_self _ _, rfl⟩
    · exact Or.inr ⟨c, List.mem_cons_self _ _, rfl⟩

/-- The `LIGHTS` block writes at most one light-chain reference: from the light to a
light of `lights_list` with a strictly greater identifier. -/
theorem LIGHTS_loop_links (E : S57_ext) (geo : Ptr) :
    ∀ (l : List Ptr) (st : S57_state),
      (S52_CS_touch_LIGHTS E geo l st).state.touchLIGHTS = st.touchLIGHTS ∨
      ∃ c ∈ l, (st.obj geo).S57ID < (st.obj c).S57ID ∧
        (S52_CS_touch_LIGHTS E geo l st).state.touchLIGHTS =
          Function.update st.touchLIGHTS geo (some c) := by
  intro l
  induction l with
  | nil => intro st; exact Or.inl rfl
  | cons c rest ih =>
    intro st
    unfold S52_CS_touch_LIGHTS
    split_ifs with h1 h2 h3
    · rcases ih st with h | ⟨x, hx, h⟩
      · exact Or.inl h
      · exact Or.inr ⟨x, List.mem_cons_of_mem _ hx, h⟩
    · rcases ih st with h | ⟨x, hx, h⟩
      · exact Or.inl h
      · exact Or.inr ⟨x, List.mem_cons_of_mem _ hx, h⟩
    · exact Or.inr ⟨c, List.mem_cons_self _ _, not_le.mp h1, rfl⟩
    · exact Or.inl rfl

/-- The light-chain references that one call of `S52_CS_touch` can write. -/
theorem touch_links (E : S57_ext) (loc : localObj) (st : S57_state) (geo : Ptr) :
    (S52_CS_touch E loc st geo).state.touchLIGHTS = st.touchLIGHTS ∨
    (∃ light ∈ loc.lights_list, (st.obj geo).name = "BOYLAT" ∧
      (S52_CS_touch E loc st geo).state.touchLIGHTS =
        Function.update st.touchLIGHTS light (some geo)) ∨
    (∃ c ∈ loc.lights_list, (st.obj geo).name = "LIGHTS" ∧
      (st.obj geo).S57ID < (st.obj c).S57ID ∧
      (S52_CS_touch E loc st geo).state.touchLIGHTS =
        Function.update st.touchLIGHTS geo (some c)) := by
  unfold S52_CS_touch
  dsimp only
  split_ifs with h1 h2 h3 h4 h5
  · left
    have h := TOPMAR_loop_lights E geo loc.topmar_list st
    cases hr : S52_CS_touch_TOPMAR E geo loc.topmar_list st <;> rw [hr] at h <;> exact h
  · rcases BOYLAT_loop_links E geo loc.lights_list st with h | ⟨x, hx, h⟩
    · exact Or.inl h
    · exact Or.inr (Or.inl ⟨x, hx, h2, h⟩)
  · have h := LIGHTS_loop_links E geo loc.lights_list st
    cases hr : S52_CS_touch_LIGHTS E geo loc.lights_list st <;> rw [hr] at h
    all_goals
      rcases h with h | ⟨x, hx, hid, h⟩
      · exact Or.inl h
      · exact Or.inr (Or.inr ⟨x, hx, h3, hid, h⟩)
  · exact Or.inl (DEPCNT_block_lights E loc st geo)
  · left
    cases hu : S52_CS_touch_UDWHAZ_block E loc st geo with
    | none => rfl
    | some st1 =>
      simp only []
      rw [DEPVAL_block_lights, UDWHAZ_block_lights E loc st geo st1 hu]
  · exact Or.inl rfl

/-- The lights list built by `S52_CS_add` holds features of class `LIGHTS` only. -/
theorem addAll_lights (st : S57_state) :
    ∀ (l : List Ptr) (loc : localObj),
      (∀ q ∈ loc.lights_list, (st.obj q).name = "LIGHTS") →
      ∀ q ∈ (S52_CS_addAll st l loc).lights_list, (st.obj q).name = "LIGHTS" := by
  intro l
  induction l with
  | nil => intro loc h; exact h
  | cons g rest ih =>
    intro loc h
    unfold S52_CS_addAll
    apply ih
    intro q hq
    rw [(add_cases st loc g _ _ rfl rfl).2.2.1] at hq
    rcases List.mem_append.mp hq with hq | hq
    · exact h q hq
    · split_ifs at hq with hc
      · rw [List.mem_singleton.mp hq]; exact hc.2
      · cases hq

/-- One call of `S52_CS_touch` keeps the shape of the light-chain references. -/
theorem touch_lightLinks (E : S57_ext) (loc : localObj) (st : S57_state) (geo : Ptr)
    (hl : ∀ q ∈ loc.lights_list, (st.obj q).name = "LIGHTS")
    (h : lightLinks st.obj loc.lights_list st.touchLIGHTS) :
    lightLinks (S52_CS_touch E loc st geo).state.obj loc.lights_list
      (S52_CS_touch E loc st geo).state.touchLIGHTS := by
  rw [(touch_step E loc st geo).1]
  rcases touch_links E loc st geo with e | ⟨x, hx, hn, e⟩ | ⟨c, hc, hn, hid, e⟩
  · rw [e]; exact h
  · rw [e]
    intro p q hpq
    by_cases hp : p = x
    · subst hp
      rw [Function.update_same] at hpq
      cases hpq
      exact ⟨hl p hx, Or.inr hn⟩
    · rw [Function.update_noteq hp] at hpq
      exact h p q hpq
  · rw [e]
    intro p q hpq
    by_cases hp : p = geo
    · subst hp
      rw [Function.update_same] at hpq
      cases hpq
      exact ⟨hn, Or.inl ⟨hl c hc, hid, hc⟩⟩
    · rw [Function.update_noteq hp] at hpq
      exact h p q hpq

/-- The link pass keeps the feature records and the shape of the light-chain
references. -/
theorem touchAll_lightLinks (E : S57_ext) (loc : localObj) :
    ∀ (l : List Ptr) (st : S57_state),
      (∀ q ∈ loc.lights_list, (st.obj q).name = "LIGHTS") →
      lightLinks st.obj loc.lights_list st.touchLIGHTS →
      (S52_CS_touchAll E loc l st).state.obj = st.obj ∧
      lightLinks st.obj loc.lights_list (S52_CS_touchAll E loc l st).state.touchLIGHTS := by
  intro l
  induction l with
  | nil => intro st _ h; exact ⟨rfl, h⟩
  | cons g rest ih =>
    intro st hl h
    have ho := (touch_step E loc st g).1
    have hk := touch_lightLinks E loc st g hl h
    unfold S52_CS_touchAll
    cases hr : S52_CS_touch E loc st g with
    | assertFail s =>
      rw [hr] at ho hk
      simp only [CS_result.state] at ho hk ⊢
      rw [ho] at hk
      exact ⟨ho, hk⟩
    | ret s v =>
      rw [hr] at ho hk
      simp only [CS_result.state] at ho hk ⊢
      obtain ⟨h1, h2⟩ := ih s (by rw [ho]; exact hl) hk
      rw [ho] at h1 h2
      exact ⟨h1, h2⟩

/-- An unset reference stays unset. -/
theorem followLIGHTS_none (touch : Ptr → Option Ptr) (n : Nat) :
    followLIGHTS touch n none = none := by
  cases n <;> rfl

/-- Following the chain longer than to its end changes nothing. -/
theorem followLIGHTS_succ (touch : Ptr → Option Ptr) :
    ∀ (n : Nat) (x : Option Ptr), followLIGHTS touch n x = none →
      followLIGHTS touch (n + 1) x = none := by
  intro n
  induction n with
  | zero => intro x h; simp only [followLIGHTS] at h; subst h; rfl
  | succ m ih =>
    intro x h
    cases x with
    | none => rfl
    | some p => exact ih _ h

/-- The identifier of a feature of a list is at most the bound of the list. -/
theorem le_idBound (obj : Ptr → S57_geo) (l : List Ptr) (q : Ptr) (h : q ∈ l) :
    (obj q).S57ID ≤ idBound obj l := by
  unfold idBound
  induction l with
  | nil => cases h
  | cons c rest ih =>
    simp only [List.map_cons, List.foldr_cons]
    rcases List.mem_cons.mp h with h | h
    · subst h; exact le_max_left _ _
    · exact le_trans (ih h) (le_max_right _ _)

/-- With references of the shape `lightLinks` the chain ends: light-to-light links
raise the identifier, which is bounded, and a buoy has no reference. -/
theorem lightLinks_end (obj : Ptr → S57_geo) (lights : List Ptr) (touch : Ptr → Option Ptr)
    (h : lightLinks obj lights touch) :
    ∀ (n : Nat) (p : Ptr), idBound obj lights + 1 - (obj p).S57ID ≤ n →
      followLIGHTS touch (n + 2) (some p) = none := by
  have hbuoy : ∀ q, (obj q).name = "BOYLAT" → touch q = none := by
    intro q hq
    cases ht : touch q with
    | none => rfl
    | some r =>
      have := (h q r ht).1
      rw [hq] at this
      exact absurd this (by decide)
  intro n
  induction n with
  | zero =>
    intro p hp
    show followLIGHTS touch 1 (touch p) = none
    cases ht : touch p with
    | none => rfl
    | some q =>
      rcases (h p q ht).2 with ⟨_, hid, hq⟩ | hb
      · have := le_idBound obj lights q hq
        omega
      · show followLIGHTS touch 0 (touch q) = none
        rw [hbuoy q hb]; rfl
  | succ m ih =>
    intro p hp
    show followLIGHTS touch (m + 2) (touch p) = none
    cases ht : touch p with
    | none => rfl
    | some q =>
      rcases (h p q ht).2 with ⟨_, hid, hq⟩ | hb
      · exact ih q (by omega)
      · show followLIGHTS touch (m + 1) (touch q) = none
        rw [hbuoy q hb]; rfl

/-- The loop of `LIGHTS05` along the chain returns when the chain ends within the
fuel; the loop writes attributes only, never a reference. -/
theorem LIGHTS05_chain_some (E : S57_ext) (geo : Ptr) :
    ∀ (fuel : Nat) (start : Option Ptr) (st : S57_state),
      followLIGHTS st.touchLIGHTS fuel start = none →
      ∃ s', LIGHTS05_chain E geo fuel start st = some s' ∧
        s'.touchLIGHTS = st.touchLIGHTS := by
  intro fuel
  induction fuel with
  | zero =>
    intro start st h
    simp only [followLIGHTS] at h
    subst h
    exact ⟨st, rfl, rfl⟩
  | succ f ih =>
    intro start st h
    cases start with
    | none => exact ⟨st, rfl, rfl⟩
    | some g =>
      unfold LIGHTS05_chain
      simp only []
      split_ifs <;> exact ih _ _ h

/-- `LIGHTS05` returns (with or without a failed assertion) when the chain of the light
ends within the fuel. -/
theorem LIGHTS05_returns (E : S57_ext) (F : GLib_ext) (mp : S52_MP) (fuel : Nat)
    (st : S57_state) (geo : Ptr)
    (h : followLIGHTS st.touchLIGHTS fuel (st.touchLIGHTS geo) = none) :
    ∃ r, LIGHTS05 E F mp fuel st geo = some r := by
  unfold LIGHTS05
  cases LIGHTS05_catlit E (st.obj geo) with
  | inl l => exact ⟨_, rfl⟩
  | inr v =>
    simp only []
    have hc := LIGHTS05_chain_some E geo fuel (st.touchLIGHTS geo)
      (S57_setAtt st geo "_extend_arc_radius" "N") h
    have ht : (S57_setAtt st geo "_extend_arc_radius" "N").touchLIGHTS geo =
        st.touchLIGHTS geo := rfl
    split_ifs
    all_goals first
      | exact ⟨_, rfl⟩
      | (cases _LITDSN01 E F mp st geo <;> exact ⟨_, rfl⟩)
      | (obtain ⟨s', hs, _⟩ := hc
         rw [ht, hs]
         exact ⟨_, rfl⟩)

/-- C39: the light-chain walk terminates.  In the store reached from a cell without
light-chain references by `S52_CS_add` on any features and then `S52_CS_touch` on any
features in any order, every light-chain reference starts at a light and goes either
to a light with a strictly greater identifier or to a lateral buoy, which has no
reference; following the references from any feature reaches an unset reference after
at most `b + 3` steps, `b` the greatest identifier of the lights list; and `LIGHTS05`
on any feature returns with that much fuel for its sector loop. -/
theorem light_chain_terminates (E : S57_ext) (F : GLib_ext) (mp : S52_MP) (st : S57_state)
    (adds touches : List Ptr) (geo : Ptr) (h0 : ∀ p, st.touchLIGHTS p = none) :
    (∀ p q, (indexedState E st adds touches).touchLIGHTS p = some q →
      ((indexedState E st adds touches).obj p).name = "LIGHTS" ∧
      ((((indexedState E st adds touches).obj q).name = "LIGHTS" ∧
          ((indexedState E st adds touches).obj p).S57ID <
            ((indexedState E st adds touches).obj q).S57ID) ∨
        (((indexedState E st adds touches).obj q).name = "BOYLAT" ∧
          (indexedState E st adds touches).touchLIGHTS q = none))) ∧
    followLIGHTS (indexedState E st adds touches).touchLIGHTS
      (idBound st.obj (S52_CS_addAll st adds S52_CS_init).lights_list + 3) (some geo) = none ∧
    ∃ r, LIGHTS05 E F mp (idBound st.obj (S52_CS_addAll st adds S52_CS_init).lights_list + 3)
      (indexedState E st adds touches) geo = some r := by
  have hl : ∀ q ∈ (S52_CS_addAll st adds S52_CS_init).lights_list,
      (st.obj q).name = "LIGHTS" :=
    addAll_lights st adds S52_CS_init (by intro q hq; cases hq)
  have hinit : lightLinks st.obj (S52_CS_addAll st adds S52_CS_init).lights_list
      st.touchLIGHTS := by
    intro p q hpq
    rw [h0 p] at hpq
    cases hpq
  obtain ⟨ho, hk⟩ := touchAll_lightLinks E (S52_CS_addAll st adds S52_CS_init) touches st hl hinit
  have hend := lightLinks_end st.obj _ _ hk
  have hfollow : followLIGHTS (indexedState E st adds touches).touchLIGHTS
      (idBound st.obj (S52_CS_addAll st adds S52_CS_init).lights_list + 3) (some geo) = none :=
    hend _ geo (by omega)
  refine ⟨?_, hfollow, ?_⟩
  · intro p q hpq
    show ((S52_CS_touchAll E _ touches st).state.obj p).name = "LIGHTS" ∧ _
    rw [show (indexedState E st adds touches).obj = st.obj from ho]
    obtain ⟨hp, hq⟩ := hk p q hpq
    refine ⟨by rw [ho]; exact hp, ?_⟩
    rcases hq with ⟨h1, h2, _⟩ | hb
    · exact Or.inl ⟨h1, h2⟩
    · refine Or.inr ⟨hb, ?_⟩
      cases ht : (indexedState E st adds touches).touchLIGHTS q with
      | none => rfl
      | some r =>
        have := (hk q r ht).1
        rw [hb] at this
        exact absurd this (by decide)
  · apply LIGHTS05_returns
    exact followLIGHTS_succ _ _ _ hfollow

theorem light_chain_terminates_witness :
    (indexedState decExt stLights [0, 1, 2] [0, 1, 2]).touchLIGHTS 1 = some 0 ∧
    (indexedState decExt stLights [0, 1, 2] [0, 1, 2]).touchLIGHTS 0 = some 2 ∧
    followLIGHTS (indexedState decExt stLights [0, 1, 2] [0, 1, 2]).touchLIGHTS
      (idBound stLights.obj (S52_CS_addAll stLights [0, 1, 2] S52_CS_init).lights_list + 3)
      (some 1) = none ∧
    ∃ r, LIGHTS05 decExt decFmt mpScenario
      (idBound stLights.obj (S52_CS_addAll stLights [0, 1, 2] S52_CS_init).lights_list + 3)
      (indexedState decExt stLights [0, 1, 2] [0, 1, 2]) 1 = some r :=
  ⟨by decide!, by decide!,
   (light_chain_terminates decExt decFmt mpScenario stLights [0, 1, 2] [0, 1, 2] 1
     (fun _ => rfl)).2⟩

/-! ## The light description `_LITDSN01` -/

theorem appendTimes_eq (tmp : String) :
    ∀ (n : Nat) (s : String), appendTimes s tmp n = s ++ appendTimes "" tmp n := by
  intro n
  induction n with
  | zero => intro s; simp [appendTimes]
  | succ m ih =>
    intro s
    unfold appendTimes
    rw [ih (s ++ tmp), ih ("" ++ tmp)]
    simp [String.append_assoc]

/-- The second part of `_LITDSN01` appends the tokens group, colour, period, height,
range, status, in this order. -/
theorem LITDSN01_rest_tokens (E : S57_ext) (F : GLib_ext) (mp : S52_MP) (st : S57_state)
    (geo : S57_geo) (l : String) :
    (_LITDSN01_rest E F mp st geo l).2 =
      l ++ LITDSN01_group geo ++ LITDSN01_colour E geo ++ LITDSN01_period geo ++
        LITDSN01_height E F mp geo ++ LITDSN01_range E F geo ++ LITDSN01_status E geo := by
  unfold _LITDSN01_rest LITDSN01_group LITDSN01_colour LITDSN01_period LITDSN01_height
    LITDSN01_range LITDSN01_status g_string_append_opt
  cases S57_getAttVal geo "SIGGRP" <;> cases S57_getAttVal geo "COLOUR" <;>
    cases S57_getAttVal geo "SIGPER" <;> cases S57_getAttVal geo "HEIGHT" <;>
    cases S57_getAttVal geo "VALNMR" <;> cases S57_getAttVal geo "STATUS" <;>
    simp only [] <;> (try rw [appendTimes_eq]) <;> (try split_ifs) <;>
    simp [String.append_assoc]

/-- The result of `_LITDSN01`: NULL for an emergency light, a failed assertion for a
`LITCHR` list of more than one code, else the tokens in the order category, character,
group, colour, period, height, range, status. -/
theorem LITDSN01_cases (E : S57_ext) (F : GLib_ext) (mp : S52_MP) (st : S57_state)
    (geo : Ptr) :
    (LITDSN01_category E (st.obj geo) = none ∧ _LITDSN01 E F mp st geo = .ret st none) ∨
    (∃ cat s, LITDSN01_category E (st.obj geo) = some cat ∧
      S57_getAttVal (st.obj geo) "LITCHR" = some s ∧ 1 < (_parseList E.S52_atoi (some s)).1 ∧
      (_LITDSN01 E F mp st geo).val? = none) ∨
    (∃ cat st', LITDSN01_category E (st.obj geo) = some cat ∧
      (∀ s, S57_getAttVal (st.obj geo) "LITCHR" = some s →
        ¬ 1 < (_parseList E.S52_atoi (some s)).1) ∧
      _LITDSN01 E F mp st geo = .ret st' (some
        (cat ++ LITDSN01_character E (st.obj geo) ++ LITDSN01_group (st.obj geo) ++
          LITDSN01_colour E (st.obj geo) ++ LITDSN01_period (st.obj geo) ++
          LITDSN01_height E F mp (st.obj geo) ++ LITDSN01_range E F (st.obj geo) ++
          LITDSN01_status E (st.obj geo)))) := by
  unfold _LITDSN01 LITDSN01_category
  cases hc : S57_getAttVal (st.obj geo) "CATLIT" with
  | none =>
    simp only []
    right
    cases hl : S57_getAttVal (st.obj geo) "LITCHR" with
    | none =>
      right
      refine ⟨"", (_LITDSN01_rest E F mp st (st.obj geo) "").1, rfl,
        (by intro s h; cases h), ?_⟩
      simp only [LITDSN01_rest_tokens, LITDSN01_character, hl]
      try simp [String.append_assoc]
    | some s =>
      simp only []
      by_cases h1 : 1 < (_parseList E.S52_atoi (some s)).1
      · left
        exact ⟨"", s, rfl, rfl, h1, (by simp [h1, CS_result.val?])⟩
      · right
        refine ⟨"", (_LITDSN01_rest E F mp st (st.obj geo)
          ("" ++ LITCHR_abbrev (bufAt (_parseList E.S52_atoi (some s)).2 0))).1, rfl,
          (by intro s' h; cases h; exact h1), ?_⟩
        simp only [if_neg h1, LITDSN01_rest_tokens, LITDSN01_character, hl]
        try simp [String.append_assoc]
  | some cs =>
    simp only []
    cases hk : _LITDSN01_catlit
        (List.take (_parseList E.S52_atoi (some cs)).1 (_parseList E.S52_atoi (some cs)).2)
        none with
    | none => left; exact ⟨rfl, rfl⟩
    | some tmp =>
      simp only []
      right
      cases hl : S57_getAttVal (st.obj geo) "LITCHR" with
      | none =>
        right
        refine ⟨tmp.getD "", (_LITDSN01_rest E F mp st (st.obj geo)
          (g_string_append_opt "" tmp)).1, rfl, (by intro s h; cases h), ?_⟩
        simp only [LITDSN01_rest_tokens, LITDSN01_character, hl]
        cases tmp <;> (try simp [String.append_assoc, g_string_append_opt])
      | some s =>
        simp only []
        by_cases h1 : 1 < (_parseList E.S52_atoi (some s)).1
        · left
          exact ⟨tmp.getD "", s, rfl, rfl, h1, (by simp [h1, CS_result.val?])⟩
        · right
          refine ⟨tmp.getD "", (_LITDSN01_rest E F mp st (st.obj geo)
            (g_string_append_opt "" tmp ++
              LITCHR_abbrev (bufAt (_parseList E.S52_atoi (some s)).2 0))).1, rfl,
            (by intro s' h; cases h; exact h1), ?_⟩
          simp only [if_neg h1, LITDSN01_rest_tokens, LITDSN01_character, hl]
          cases tmp <;> (try simp [String.append_assoc, g_string_append_opt])

/-- C31 (counterexample): the colour token stands before the period token - a light
`Fl(2)`, white, period 10 s, height 15 m, range 11 M is described as
`Fl(2)W 10s 15m 11M`, a red light of period 5 s as `R 5s ` - and a `COLOUR` list of
white and red gives `WW `, not one token per listed colour. -/
theorem LITDSN01_order_counterexample :
    (_LITDSN01 decExt decFmt mpScenario
      (mkState [lightWith [("LITCHR", "2"), ("SIGGRP", "(2)"), ("COLOUR", "1"),
        ("SIGPER", "10"), ("HEIGHT", "15"), ("VALNMR", "11")]]) 0).val? =
      some (some "Fl(2)W 10s 15m 11M") ∧
    (_LITDSN01 decExt decFmt mpScenario
      (mkState [lightWith [("COLOUR", "3"), ("SIGPER", "5")]]) 0).val? =
      some (some "R 5s ") ∧
    (_LITDSN01 decExt decFmt mpScenario
      (mkState [lightWith [("COLOUR", "1,3")]]) 0).val? = some (some "WW ") := by
  decide!

/-- C31 (amended): for a light that is not an emergency light (category token `cat`)
and whose `LITCHR` list has at most one code, the text of `_LITDSN01` is the
concatenation of the tokens in the order category, character, group, colour, period,
height, range, status; the colour token is empty without `COLOUR`, and for a `COLOUR`
list of one colour `c` it is the abbreviation of `c` followed by one space. -/
theorem LITDSN01_token_order (E : S57_ext) (F : GLib_ext) (mp : S52_MP) (st : S57_state)
    (geo : Ptr) (cat : String) (hcat : LITDSN01_category E (st.obj geo) = some cat)
    (hchr : ∀ s, S57_getAttVal (st.obj geo) "LITCHR" = some s →
      ¬ 1 < (_parseList E.S52_atoi (some s)).1) :
    ∃ st' col, _LITDSN01 E F mp st geo = .ret st' (some
        (cat ++ LITDSN01_character E (st.obj geo) ++ LITDSN01_group (st.obj geo) ++ col ++
          LITDSN01_period (st.obj geo) ++ LITDSN01_height E F mp (st.obj geo) ++
          LITDSN01_range E F (st.obj geo) ++ LITDSN01_status E (st.obj geo))) ∧
      (S57_getAttVal (st.obj geo) "COLOUR" = none → col = "") ∧
      (∀ s c, S57_getAttVal (st.obj geo) "COLOUR" = some s →
        _parseList E.S52_atoi (some s) = (1, [c, 0]) → col = COLOUR_abbrev c ++ " ") := by
  rcases LITDSN01_cases E F mp st geo with ⟨h, _⟩ | ⟨c, s, _, hs, h1, _⟩ | ⟨c, st', hc, _, h⟩
  · rw [hcat] at h; cases h
  · exact absurd h1 (hchr s hs)
  · rw [hcat] at hc
    cases hc
    refine ⟨st', LITDSN01_colour E (st.obj geo), h, ?_, ?_⟩
    · intro hn
      unfold LITDSN01_colour
      rw [hn]
    · intro s c hs hp
      unfold LITDSN01_colour
      rw [hs]
      simp only [hp]
      simp [appendTimes, bufAt]

theorem LITDSN01_token_order_witness :
    ∃ st' col, _LITDSN01 decExt decFmt mpScenario
        (mkState [lightWith [("LITCHR", "2"), ("SIGGRP", "(2)"), ("COLOUR", "1"),
          ("SIGPER", "10"), ("HEIGHT", "15"), ("VALNMR", "11")]]) 0 = .ret st' (some
        ("" ++ LITDSN01_character decExt ((mkState [lightWith [("LITCHR", "2"),
            ("SIGGRP", "(2)"), ("COLOUR", "1"), ("SIGPER", "10"), ("HEIGHT", "15"),
            ("VALNMR", "11")]]).obj 0) ++
          LITDSN01_group ((mkState [lightWith [("LITCHR", "2"),
            ("SIGGRP", "(2)"), ("COLOUR", "1"), ("SIGPER", "10"), ("HEIGHT", "15"),
            ("VALNMR", "11")]]).obj 0) ++ col ++
          LITDSN01_period ((mkState [lightWith [("LITCHR", "2"),
            ("SIGGRP", "(2)"), ("COLOUR", "1"), ("SIGPER", "10"), ("HEIGHT", "15"),
            ("VALNMR", "11")]]).obj 0) ++
          LITDSN01_height decExt decFmt mpScenario ((mkState [lightWith [("LITCHR", "2"),
            ("SIGGRP", "(2)"), ("COLOUR", "1"), ("SIGPER", "10"), ("HEIGHT", "15"),
            ("VALNMR", "11")]]).obj 0) ++
          LITDSN01_range decExt decFmt ((mkState [lightWith [("LITCHR", "2"),
            ("SIGGRP", "(2)"), ("COLOUR", "1"), ("SIGPER", "10"), ("HEIGHT", "15"),
            ("VALNMR", "11")]]).obj 0) ++
          LITDSN01_status decExt ((mkState [lightWith [("LITCHR", "2"),
            ("SIGGRP", "(2)"), ("COLOUR", "1"), ("SIGPER", "10"), ("HEIGHT", "15"),
            ("VALNMR", "11")]]).obj 0))) ∧
      (S57_getAttVal ((mkState [lightWith [("LITCHR", "2"), ("SIGGRP", "(2)"),
          ("COLOUR", "1"), ("SIGPER", "10"), ("HEIGHT", "15"), ("VALNMR", "11")]]).obj 0)
          "COLOUR" = none → col = "") ∧
      (∀ s c, S57_getAttVal ((mkState [lightWith [("LITCHR", "2"), ("SIGGRP", "(2)"),
          ("COLOUR", "1"), ("SIGPER", "10"), ("HEIGHT", "15"), ("VALNMR", "11")]]).obj 0)
          "COLOUR" = some s →
        _parseList decExt.S52_atoi (some s) = (1, [c, 0]) → col = COLOUR_abbrev c ++ " ") :=
  LITDSN01_token_order decExt decFmt mpScenario
    (mkState [lightWith [("LITCHR", "2"), ("SIGGRP", "(2)"), ("COLOUR", "1"),
      ("SIGPER", "10"), ("HEIGHT", "15"), ("VALNMR", "11")]]) 0 "" (by decide!)
    (by intro s hs; cases hs; decide!)

/-- C32 (counterexample): a light whose `LITCHR` list has two codes makes `_LITDSN01`
fail its assertion, and `LIGHTS05` with it. -/
theorem LITDSN01_list_counterexample :
    (_LITDSN01 decExt decFmt mpScenario
      (mkState [lightWith [("LITCHR", "1,2")]]) 0).val? = none ∧
    (LIGHTS05 decExt decFmt mpScenario 0
      (mkState [lightWith [("LITCHR", "1,2")]]) 0).map CS_result.val? = some none ∧
    (LIGHTS05 decExt decFmt mpScenario 0
      (mkState [lightWith [("LITCHR", "2")]]) 0).map CS_result.val? =
      some (some ";SY(LIGHTDEF,135);TX('Fl',3,2,3,'15110',2,0,CHBLK,23)") := by
  decide!

/-- `LIGHTS05` fails an assertion only where `_LITDSN01` does. -/
theorem LIGHTS05_fatal (E : S57_ext) (F : GLib_ext) (mp : S52_MP) (fuel : Nat)
    (st : S57_state) (geo : Ptr) (r : CS_result String)
    (h : LIGHTS05 E F mp fuel st geo = some r) (hr : r.val? = none) :
    (_LITDSN01 E F mp st geo).val? = none := by
  unfold LIGHTS05 at h
  cases hc : LIGHTS05_catlit E (st.obj geo) with
  | inl l =>
    rw [hc] at h
    cases h
    cases hr
  | inr v =>
    rw [hc] at h
    simp only [] at h
    cases hl : _LITDSN01 E F mp st geo with
    | assertFail s => rfl
    | ret s l =>
      rw [hl] at h
      simp only [] at h
      split_ifs at h
      all_goals first
        | (cases h; cases hr)
        | (split at h
           · cases h
           · cases h; cases hr)

/-- C32 (amended): `_LITDSN01` fails its assertion exactly for a light that is not an
emergency light and whose `LITCHR` list has more than one code - whatever the values
of the `CATLIT`, `COLOUR` and `STATUS` lists; `LIGHTS05` returns when the chain of the
light ends within the fuel, and fails an assertion only where `_LITDSN01` does.  A code
without abbreviation is rendered as the placeholder of its attribute. -/
theorem LITDSN01_assert_iff (E : S57_ext) (F : GLib_ext) (mp : S52_MP) (st : S57_state)
    (geo : Ptr) :
    ((_LITDSN01 E F mp st geo).val? = none ↔
      (LITDSN01_category E (st.obj geo) ≠ none ∧
        ∃ s, S57_getAttVal (st.obj geo) "LITCHR" = some s ∧
          1 < (_parseList E.S52_atoi (some s)).1)) ∧
    (∀ fuel, followLIGHTS st.touchLIGHTS fuel (st.touchLIGHTS geo) = none →
      ∃ r, LIGHTS05 E F mp fuel st geo = some r ∧
        (r.val? = none → (_LITDSN01 E F mp st geo).val? = none)) ∧
    (∀ c, c ∉ [1, 2, 3, 4, 5, 6, 7, 8, 9, 10, 11, 12, 13, 14, 15, 16, 17, 18, 19, 20, 25, 26,
        27, 28, 29] → LITCHR_abbrev c = "FIXME:LITCHR ") ∧
    (∀ c, c ∉ [1, 3, 4, 5, 6, 9, 10, 11] → COLOUR_abbrev c = "FIXME:COLOUR ") ∧
    (∀ c, c ∉ [2, 7, 8, 11] → STATUS_abbrev c = "FIXME:STATUS ") ∧
    (∀ c tmp, c ∉ [0, 1, 3, 4, 5, 6, 12, 13, 17] →
      _LITDSN01_catlit [c] tmp = some (some "FIXME:CATLIT ")) := by
  refine ⟨?_, ?_, ?_, ?_, ?_, ?_⟩
  · rcases LITDSN01_cases E F mp st geo with ⟨h, e⟩ | ⟨c, s, hc, hs, h1, e⟩ | ⟨c, st', hc, hn, e⟩
    · rw [e, h]
      simp [CS_result.val?]
    · rw [e, hc]
      simp only [true_iff]
      exact ⟨by simp, s, hs, h1⟩
    · rw [e]
      simp only [CS_result.val?]
      constructor
      · intro h; cases h
      · rintro ⟨_, s, hs, h1⟩
        exact absurd h1 (hn s hs)
  · intro fuel hf
    obtain ⟨r, hr⟩ := LIGHTS05_returns E F mp fuel st geo hf
    exact ⟨r, hr, LIGHTS05_fatal E F mp fuel st geo r hr⟩
  · intro c hc
    simp only [List.mem_cons, List.mem_singleton, List.not_mem_nil, not_or, or_false] at hc
    unfold LITCHR_abbrev
    simp [hc]
  · intro c hc
    simp only [List.mem_cons, List.mem_singleton, List.not_mem_nil, not_or, or_false] at hc
    unfold COLOUR_abbrev
    simp [hc]
  · intro c hc
    simp only [List.mem_cons, List.mem_singleton, List.not_mem_nil, not_or, or_false] at hc
    unfold STATUS_abbrev
    simp [hc]
  · intro c tmp hc
    simp only [List.mem_cons, List.mem_singleton, List.not_mem_nil, not_or, or_false] at hc
    unfold _LITDSN01_catlit
    simp [hc, _LITDSN01_catlit]

/-! ## Stores that differ in the notice flags and the log only -/

theorem sameStore_refl (s : S57_state) : sameStore s s :=
  ⟨rfl, rfl, rfl, rfl, rfl, rfl, rfl⟩

theorem sameStore_symm {s s' : S57_state} (h : sameStore s s') : sameStore s' s :=
  ⟨h.1.symm, h.2.1.symm, h.2.2.1.symm, h.2.2.2.1.symm, h.2.2.2.2.1.symm, h.2.2.2.2.2.1.symm,
    h.2.2.2.2.2.2.symm⟩

theorem sameStore_trans {s s' s'' : S57_state} (h : sameStore s s') (h' : sameStore s' s'') :
    sameStore s s'' :=
  ⟨h.1.trans h'.1, h.2.1.trans h'.2.1, h.2.2.1.trans h'.2.2.1, h.2.2.2.1.trans h'.2.2.2.1,
    h.2.2.2.2.1.trans h'.2.2.2.2.1, h.2.2.2.2.2.1.trans h'.2.2.2.2.2.1,
    h.2.2.2.2.2.2.trans h'.2.2.2.2.2.2⟩

theorem sameStore_PRINTF (s : S57_state) (m : String) : sameStore s (PRINTF s m) :=
  ⟨rfl, rfl, rfl, rfl, rfl, rfl, rfl⟩

theorem sameStore_setSilent (s : S57_state) (k : String) : sameStore s (setSilent s k) :=
  ⟨rfl, rfl, rfl, rfl, rfl, rfl, rfl⟩

theorem sameStore_notice (s : S57_state) (k m : String) : sameStore s (CS_notice s k m) := by
  unfold CS_notice
  split_ifs
  · exact ⟨rfl, rfl, rfl, rfl, rfl, rfl, rfl⟩
  · exact sameStore_refl s

/-- Two stores with the same features, references and overrides are one store up to the
notice flags and the log. -/
theorem sameStore_eq {s s' : S57_state} (h : sameStore s s') :
    s' = { s with silent := s'.silent, log := s'.log } := by
  obtain ⟨h0, h1, h2, h3, h4, h5, h6⟩ := h
  cases s
  cases s'
  simp only at h0 h1 h2 h3 h4 h5 h6
  subst h0 h1 h2 h3 h4 h5 h6
  rfl

theorem UDWHAZ03_same (E : S57_ext) (mp : S52_MP) (s s' : S57_state) (geo : Ptr) (d : ℚ)
    (h : sameStore s s') :
    sameStore (_UDWHAZ03 E mp s geo d).1 (_UDWHAZ03 E mp s' geo d).1 ∧
    (_UDWHAZ03 E mp s geo d).2 = (_UDWHAZ03 E mp s' geo d).2 := by
  rw [sameStore_eq h]
  generalize s'.silent = sil
  generalize s'.log = lg
  unfold _UDWHAZ03
  simp only [S57_setScamin, PRINTF]
  repeat' split
  all_goals exact ⟨⟨rfl, rfl, rfl, rfl, rfl, rfl, rfl⟩, rfl⟩

theorem UDWHAZ03_writes (E : S57_ext) (mp : S52_MP) (s : S57_state) (geo : Ptr) (d : ℚ) :
    writesScamin geo s (_UDWHAZ03 E mp s geo d).1 := by
  unfold _UDWHAZ03
  simp only [S57_setScamin, PRINTF]
  repeat' split
  all_goals
    refine ⟨rfl, rfl, rfl, rfl, rfl, rfl, fun p hp => ?_⟩
    simp [Function.update, hp]

theorem DEPVAL01_same (E : S57_ext) (mp : S52_MP) (s s' : S57_state) (geo : Ptr) (d : ℚ)
    (h : sameStore s s') :
    sameResult (_DEPVAL01 E mp s geo d) (_DEPVAL01 E mp s' geo d) := by
  rw [sameStore_eq h]
  generalize s'.silent = sil
  generalize s'.log = lg
  unfold _DEPVAL01 sameResult
  simp only [PRINTF]
  repeat' split
  all_goals exact ⟨rfl, ⟨rfl, rfl, rfl, rfl, rfl, rfl, rfl⟩⟩

theorem DEPVAL01_writes (E : S57_ext) (mp : S52_MP) (s : S57_state) (geo : Ptr) (d : ℚ) :
    sameStore s (_DEPVAL01 E mp s geo d).state := by
  unfold _DEPVAL01
  simp only [PRINTF]
  repeat' split
  all_goals exact ⟨rfl, rfl, rfl, rfl, rfl, rfl, rfl⟩

/-- Outcomes that agree are two failed assertions or two returns of one value, in
stores that agree. -/
theorem sameResult_cases {α : Type} {r r' : CS_result α} (h : sameResult r r') :
    (∃ t t', r = .assertFail t ∧ r' = .assertFail t' ∧ sameStore t t') ∨
    (∃ t t' v, r = .ret t v ∧ r' = .ret t' v ∧ sameStore t t') := by
  obtain ⟨hv, hs⟩ := h
  cases r with
  | assertFail t =>
    cases r' with
    | assertFail t' => exact Or.inl ⟨t, t', rfl, rfl, hs⟩
    | ret t' v' => cases hv
  | ret t v =>
    cases r' with
    | assertFail t' => cases hv
    | ret t' v' =>
      simp only [CS_result.val?, Option.some.injEq] at hv
      subst hv
      exact Or.inr ⟨t, t', v, rfl, rfl, hs⟩

theorem OBSTRN04_depth_same (E : S57_ext) (mp : S52_MP) (s s' : S57_state) (geo : Ptr)
    (h : sameStore s s') :
    sameResult (OBSTRN04_depth E mp s geo) (OBSTRN04_depth E mp s' geo) := by
  unfold OBSTRN04_depth
  rw [← h.1]
  cases S57_getAttVal (s.obj geo) "VALSOU" with
  | some v => exact ⟨rfl, h⟩
  | none =>
    simp only []
    have hd : sameResult
        (if (s.obj geo).objtype = .S57_AREAS_T then _DEPVAL01 E mp s geo UNKNOWN_DEPTH
          else .ret s UNKNOWN_DEPTH)
        (if (s.obj geo).objtype = .S57_AREAS_T then _DEPVAL01 E mp s' geo UNKNOWN_DEPTH
          else .ret s' UNKNOWN_DEPTH) := by
      split_ifs
      · exact DEPVAL01_same E mp s s' geo _ h
      · exact ⟨rfl, h⟩
    rcases sameResult_cases hd with ⟨t, t', e, e', ht⟩ | ⟨t, t', v, e, e', ht⟩
    · rw [e, e']; exact ⟨rfl, ht⟩
    · rw [e, e']
      simp only []
      rw [← ht.1]
      split_ifs <;> exact ⟨rfl, ht⟩

theorem OBSTRN04_depth_writes (E : S57_ext) (mp : S52_MP) (s : S57_state) (geo : Ptr) :
    sameStore s (OBSTRN04_depth E mp s geo).state := by
  unfold OBSTRN04_depth
  cases S57_getAttVal (s.obj geo) "VALSOU" with
  | some v => exact sameStore_refl s
  | none =>
    simp only []
    have hd : sameStore s
        (if (s.obj geo).objtype = .S57_AREAS_T then _DEPVAL01 E mp s geo UNKNOWN_DEPTH
          else .ret s UNKNOWN_DEPTH).state := by
      split_ifs
      · exact DEPVAL01_writes E mp s geo _
      · exact sameStore_refl s
    cases hr : (if (s.obj geo).objtype = .S57_AREAS_T then _DEPVAL01 E mp s geo UNKNOWN_DEPTH
          else CS_result.ret s UNKNOWN_DEPTH) with
    | assertFail t => rw [hr] at hd; exact hd
    | ret t v =>
      rw [hr] at hd
      simp only []
      split_ifs <;> exact hd

theorem OBSTRN04_area_same (E : S57_ext) (s s' : S57_state) (geo : Ptr) (valsou : ℚ)
    (sndfrm02 udwhaz03 : Option String) (h : sameStore s s') :
    sameStore (OBSTRN04_area E s geo valsou sndfrm02 udwhaz03).1
      (OBSTRN04_area E s' geo valsou sndfrm02 udwhaz03).1 ∧
    (OBSTRN04_area E s geo valsou sndfrm02 udwhaz03).2 =
      (OBSTRN04_area E s' geo valsou sndfrm02 udwhaz03).2 := by
  rw [sameStore_eq h]
  generalize s'.silent = sil
  generalize s'.log = lg
  unfold OBSTRN04_area
  simp only [PRINTF]
  repeat' split
  all_goals exact ⟨⟨rfl, rfl, rfl, rfl, rfl, rfl, rfl⟩, rfl⟩

theorem OBSTRN04_area_writes (E : S57_ext) (s : S57_state) (geo : Ptr) (valsou : ℚ)
    (sndfrm02 udwhaz03 : Option String) :
    sameStore s (OBSTRN04_area E s geo valsou sndfrm02 udwhaz03).1 := by
  unfold OBSTRN04_area
  simp only [PRINTF]
  repeat' split
  all_goals exact ⟨rfl, rfl, rfl, rfl, rfl, rfl, rfl⟩

theorem writesScamin_of_same {geo : Ptr} {s t : S57_state} (h : sameStore s t) :
    writesScamin geo s t :=
  ⟨h.1, h.2.1, h.2.2.1, h.2.2.2.1, h.2.2.2.2.1, h.2.2.2.2.2.1, fun p _ => by rw [h.2.2.2.2.2.2]⟩

theorem writesScamin_trans {geo : Ptr} {s t u : S57_state} (h : writesScamin geo s t)
    (h' : writesScamin geo t u) : writesScamin geo s u :=
  ⟨h.1.trans h'.1, h.2.1.trans h'.2.1, h.2.2.1.trans h'.2.2.1, h.2.2.2.1.trans h'.2.2.2.1,
    h.2.2.2.2.1.trans h'.2.2.2.2.1, h.2.2.2.2.2.1.trans h'.2.2.2.2.2.1,
    fun p hp => by rw [h'.2.2.2.2.2.2 p hp, h.2.2.2.2.2.2 p hp]⟩

theorem OBSTRN04_same (E : S57_ext) (mp : S52_MP) (s s' : S57_state) (geo : Ptr)
    (h : sameStore s s') :
    sameResult (OBSTRN04 E mp s geo) (OBSTRN04 E mp s' geo) := by
  unfold OBSTRN04
  rcases sameResult_cases (OBSTRN04_depth_same E mp s s' geo h) with
    ⟨t, t', e, e', ht⟩ | ⟨t, t', v, e, e', ht⟩
  · rw [e, e']; exact ⟨rfl, ht⟩
  · rw [e, e']
    simp only []
    obtain ⟨hu, hv⟩ := UDWHAZ03_same E mp t t' geo v.2.1 ht
    rw [← hv, ← hu.1]
    split_ifs
    · exact ⟨rfl, hu⟩
    · exact ⟨rfl, hu⟩
    · obtain ⟨ha, hb⟩ := OBSTRN04_area_same E _ _ geo v.1 v.2.2 (_UDWHAZ03 E mp t geo v.2.1).2 hu
      exact ⟨by simp only [CS_result.val?]; rw [hb], ha⟩

theorem OBSTRN04_writes (E : S57_ext) (mp : S52_MP) (s : S57_state) (geo : Ptr) :
    writesScamin geo s (OBSTRN04 E mp s geo).state := by
  unfold OBSTRN04
  have hd := OBSTRN04_depth_writes E mp s geo
  cases hr : OBSTRN04_depth E mp s geo with
  | assertFail t => rw [hr] at hd; exact writesScamin_of_same hd
  | ret t v =>
    rw [hr] at hd
    simp only []
    have hu := writesScamin_trans (writesScamin_of_same hd) (UDWHAZ03_writes E mp t geo v.2.1)
    split_ifs
    · exact hu
    · exact hu
    · exact writesScamin_trans hu (writesScamin_of_same (OBSTRN04_area_writes E _ geo _ _ _))

theorem WRECKS02_depth_same (E : S57_ext) (mp : S52_MP) (s s' : S57_state) (geo : Ptr)
    (h : sameStore s s') :
    sameResult (WRECKS02_depth E mp s geo) (WRECKS02_depth E mp s' geo) := by
  unfold WRECKS02_depth
  rw [← h.1]
  cases S57_getAttVal (s.obj geo) "VALSOU" with
  | some v => exact ⟨rfl, h⟩
  | none =>
    simp only []
    have hd : sameResult
        (if (s.obj geo).objtype = .S57_AREAS_T then _DEPVAL01 E mp s geo UNKNOWN_DEPTH
          else .ret s UNKNOWN_DEPTH)
        (if (s.obj geo).objtype = .S57_AREAS_T then _DEPVAL01 E mp s' geo UNKNOWN_DEPTH
          else .ret s' UNKNOWN_DEPTH) := by
      split_ifs
      · exact DEPVAL01_same E mp s s' geo _ h
      · exact ⟨rfl, h⟩
    rcases sameResult_cases hd with ⟨t, t', e, e', ht⟩ | ⟨t, t', v, e, e', ht⟩
    · rw [e, e']; exact ⟨rfl, ht⟩
    · rw [e, e']
      simp only []
      rw [← ht.1]
      split_ifs <;> exact ⟨rfl, ht⟩

theorem WRECKS02_depth_writes (E : S57_ext) (mp : S52_MP) (s : S57_state) (geo : Ptr) :
    sameStore s (WRECKS02_depth E mp s geo).state := by
  unfold WRECKS02_depth
  cases S57_getAttVal (s.obj geo) "VALSOU" with
  | some v => exact sameStore_refl s
  | none =>
    simp only []
    have hd : sameStore s
        (if (s.obj geo).objtype = .S57_AREAS_T then _DEPVAL01 E mp s geo UNKNOWN_DEPTH
          else .ret s UNKNOWN_DEPTH).state := by
      split_ifs
      · exact DEPVAL01_writes E mp s geo _
      · exact sameStore_refl s
    cases hr : (if (s.obj geo).objtype = .S57_AREAS_T then _DEPVAL01 E mp s geo UNKNOWN_DEPTH
          else CS_result.ret s UNKNOWN_DEPTH) with
    | assertFail t => rw [hr] at hd; exact hd
    | ret t v =>
      rw [hr] at hd
      simp only []
      split_ifs <;> exact hd

theorem WRECKS02_same (E : S57_ext) (mp : S52_MP) (s s' : S57_state) (geo : Ptr)
    (h : sameStore s s') :
    sameResult (WRECKS02 E mp s geo) (WRECKS02 E mp s' geo) := by
  unfold WRECKS02
  rcases sameResult_cases (WRECKS02_depth_same E mp s s' geo h) with
    ⟨t, t', e, e', ht⟩ | ⟨t, t', v, e, e', ht⟩
  · rw [e, e']; exact ⟨rfl, ht⟩
  · rw [e, e']
    simp only []
    obtain ⟨hu, hv⟩ := UDWHAZ03_same E mp t t' geo v.2.1 ht
    rw [← hv, ← hu.1]
    split_ifs <;> exact ⟨rfl, hu⟩

theorem WRECKS02_writes (E : S57_ext) (mp : S52_MP) (s : S57_state) (geo : Ptr) :
    writesScamin geo s (WRECKS02 E mp s geo).state := by
  unfold WRECKS02
  have hd := WRECKS02_depth_writes E mp s geo
  cases hr : WRECKS02_depth E mp s geo with
  | assertFail t => rw [hr] at hd; exact writesScamin_of_same hd
  | ret t v =>
    rw [hr] at hd
    simp only []
    have hu := writesScamin_trans (writesScamin_of_same hd) (UDWHAZ03_writes E mp t geo v.2.1)
    split_ifs <;> exact hu

theorem DEPCNT02_same (E : S57_ext) (mp : S52_MP) (s s' : S57_state) (geo : Ptr)
    (h : sameStore s s') :
    sameStore (DEPCNT02 E mp s geo).1 (DEPCNT02 E mp s' geo).1 ∧
    (DEPCNT02 E mp s geo).2 = (DEPCNT02 E mp s' geo).2 := by
  rw [sameStore_eq h]
  generalize s'.silent = sil
  generalize s'.log = lg
  have hsc : DEPCNT02_safety_contour E mp
      (S57_setScamin { s with silent := sil, log := lg } geo .S57_RESET_SCAMIN) geo =
      DEPCNT02_safety_contour E mp (S57_setScamin s geo .S57_RESET_SCAMIN) geo := rfl
  unfold DEPCNT02
  simp only [hsc]
  simp only [S57_setScamin]
  split_ifs <;> exact ⟨⟨rfl, rfl, rfl, rfl, rfl, rfl, rfl⟩, rfl⟩

theorem DEPCNT02_writes (E : S57_ext) (mp : S52_MP) (s : S57_state) (geo : Ptr) :
    writesScamin geo s (DEPCNT02 E mp s geo).1 := by
  unfold DEPCNT02
  simp only [S57_setScamin]
  split_ifs
  all_goals
    refine ⟨rfl, rfl, rfl, rfl, rfl, rfl, fun p hp => ?_⟩
    simp [Function.update, hp]

theorem SOUNDG02_same (E : S57_ext) (mp : S52_MP) (s s' : S57_state) (geo : Ptr)
    (h : sameStore s s') :
    sameResult (SOUNDG02 E mp s geo) (SOUNDG02 E mp s' geo) := by
  rw [sameStore_eq h]
  generalize s'.silent = sil
  generalize s'.log = lg
  unfold SOUNDG02 sameResult
  simp only [PRINTF]
  repeat' split
  all_goals exact ⟨rfl, ⟨rfl, rfl, rfl, rfl, rfl, rfl, rfl⟩⟩

theorem SOUNDG02_writes (E : S57_ext) (mp : S52_MP) (s : S57_state) (geo : Ptr) :
    sameStore s (SOUNDG02 E mp s geo).state := by
  unfold SOUNDG02
  simp only [PRINTF]
  repeat' split
  all_goals exact ⟨rfl, rfl, rfl, rfl, rfl, rfl, rfl⟩

theorem DATCVR01_same (s s' : S57_state) (geo : Ptr) (h : sameStore s s') :
    sameResult (DATCVR01 s geo) (DATCVR01 s' geo) := by
  rw [sameStore_eq h]
  generalize s'.silent = sil
  generalize s'.log = lg
  unfold DATCVR01 sameResult
  simp only [PRINTF, setSilent]
  repeat' split
  all_goals exact ⟨rfl, ⟨rfl, rfl, rfl, rfl, rfl, rfl, rfl⟩⟩

theorem DATCVR01_writes (s : S57_state) (geo : Ptr) :
    sameStore s (DATCVR01 s geo).state := by
  unfold DATCVR01
  simp only [PRINTF, setSilent]
  repeat' split
  all_goals exact ⟨rfl, rfl, rfl, rfl, rfl, rfl, rfl⟩

theorem VESSEL01_same (s s' : S57_state) (geo : Ptr) (h : sameStore s s') :
    sameResult (VESSEL01 s geo) (VESSEL01 s' geo) := by
  rw [sameStore_eq h]
  generalize s'.silent = sil
  generalize s'.log = lg
  unfold VESSEL01 sameResult
  simp only [PRINTF]
  split_ifs <;> exact ⟨rfl, ⟨rfl, rfl, rfl, rfl, rfl, rfl, rfl⟩⟩

theorem VESSEL01_writes (s : S57_state) (geo : Ptr) :
    sameStore s (VESSEL01 s geo).state := by
  unfold VESSEL01
  simp only [PRINTF]
  split_ifs <;> exact ⟨rfl, rfl, rfl, rfl, rfl, rfl, rfl⟩

theorem QUESMRK1_writes (s : S57_state) (geo : Ptr) : sameStore s (QUESMRK1 s geo).1 := by
  unfold QUESMRK1
  split <;> exact ⟨rfl, rfl, rfl, rfl, rfl, rfl, rfl⟩

theorem LITDSN01_rest_same (E : S57_ext) (F : GLib_ext) (mp : S52_MP) (s s' : S57_state)
    (g : S57_geo) (l : String) (h : sameStore s s') :
    sameStore (_LITDSN01_rest E F mp s g l).1 (_LITDSN01_rest E F mp s' g l).1 ∧
    (_LITDSN01_rest E F mp s g l).2 = (_LITDSN01_rest E F mp s' g l).2 := by
  unfold _LITDSN01_rest
  simp only []
  cases S57_getAttVal g "STATUS" with
  | none => exact ⟨h, rfl⟩
  | some v =>
    simp only []
    refine ⟨?_, by simp⟩
    split_ifs
    · exact sameStore_trans (sameStore_symm (sameStore_PRINTF s _))
        (sameStore_trans h (sameStore_PRINTF s' _))
    · exact h

theorem LITDSN01_rest_writes (E : S57_ext) (F : GLib_ext) (mp : S52_MP) (s : S57_state)
    (g : S57_geo) (l : String) : sameStore s (_LITDSN01_rest E F mp s g l).1 := by
  unfold _LITDSN01_rest
  simp only []
  cases S57_getAttVal g "STATUS" with
  | none => exact sameStore_refl s
  | some v =>
    simp only []
    split_ifs
    · exact sameStore_PRINTF s _
    · exact sameStore_refl s

theorem LITDSN01_same (E : S57_ext) (F : GLib_ext) (mp : S52_MP) (s s' : S57_state)
    (geo : Ptr) (h : sameStore s s') :
    sameResult (_LITDSN01 E F mp s geo) (_LITDSN01 E F mp s' geo) := by
  unfold _LITDSN01
  rw [← h.1]
  simp only []
  split
  · exact ⟨rfl, h⟩
  · split
    · split_ifs
      · exact ⟨rfl, sameStore_trans (sameStore_symm (sameStore_PRINTF s _))
          (sameStore_trans h (sameStore_PRINTF s' _))⟩
      · obtain ⟨h1, h2⟩ := LITDSN01_rest_same E F mp s s' (s.obj geo) _ h
        exact ⟨by simp only [CS_result.val?]; rw [h2], h1⟩
    · obtain ⟨h1, h2⟩ := LITDSN01_rest_same E F mp s s' (s.obj geo) _ h
      exact ⟨by simp only [CS_result.val?]; rw [h2], h1⟩

theorem LITDSN01_writes (E : S57_ext) (F : GLib_ext) (mp : S52_MP) (s : S57_state)
    (geo : Ptr) : sameStore s (_LITDSN01 E F mp s geo).state := by
  unfold _LITDSN01
  simp only []
  split
  · exact sameStore_refl s
  · split
    · split_ifs
      · exact sameStore_PRINTF s _
      · exact LITDSN01_rest_writes E F mp s _ _
    · exact LITDSN01_rest_writes E F mp s _ _

theorem setAtt_relog (s : S57_state) (sil : String → Bool) (lg : List String) (p : Ptr)
    (n v : String) :
    S57_setAtt { s with silent := sil, log := lg } p n v =
      { S57_setAtt s p n v with silent := sil, log := lg } := rfl

/-- The sector loop of `LIGHTS05` neither reads nor writes the notice flags and the
log. -/
theorem LIGHTS05_chain_relog (E : S57_ext) (geo : Ptr) (sil : String → Bool)
    (lg : List String) :
    ∀ (fuel : Nat) (start : Option Ptr) (s : S57_state),
      LIGHTS05_chain E geo fuel start { s with silent := sil, log := lg } =
        (LIGHTS05_chain E geo fuel start s).map (fun t => { t with silent := sil, log := lg }) := by
  intro fuel
  induction fuel with
  | zero =>
    intro start s
    cases start <;> rfl
  | succ f ih =>
    intro start s
    cases start with
    | none => rfl
    | some g =>
      unfold LIGHTS05_chain
      simp only []
      split_ifs
      all_goals
        simp only [setAtt_relog]
        exact ih _ _

theorem LIGHTS05_same (E : S57_ext) (F : GLib_ext) (mp : S52_MP) (fuel : Nat)
    (s s' : S57_state) (geo : Ptr) (h : sameStore s s') :
    sameRun (LIGHTS05 E F mp fuel s geo) (LIGHTS05 E F mp fuel s' geo) := by
  have hl := LITDSN01_same E F mp s s' geo h
  rw [sameStore_eq h] at hl ⊢
  generalize s'.silent = sil at hl ⊢
  generalize s'.log = lg at hl ⊢
  unfold LIGHTS05
  cases LIGHTS05_catlit E (s.obj geo) with
  | inl l => exact ⟨rfl, ⟨rfl, rfl, rfl, rfl, rfl, rfl, rfl⟩⟩
  | inr v =>
    simp only []
    split_ifs
    all_goals first
      | (rcases sameResult_cases hl with ⟨t, t', e, e', ht⟩ | ⟨t, t', v, e, e', ht⟩
         · rw [e, e']; exact ⟨rfl, ht⟩
         · rw [e, e']; exact ⟨rfl, ht⟩)
      | exact ⟨rfl, ⟨rfl, rfl, rfl, rfl, rfl, rfl, rfl⟩⟩
      | (simp only [setAtt_relog, LIGHTS05_chain_relog]
         cases LIGHTS05_chain E geo fuel
            ((S57_setAtt s geo "_extend_arc_radius" "N").touchLIGHTS geo)
            (S57_setAtt s geo "_extend_arc_radius" "N") with
         | none => exact trivial
         | some t => exact ⟨rfl, ⟨rfl, rfl, rfl, rfl, rfl, rfl, rfl⟩⟩)

/-! ## What the procedures write -/

theorem setAttr_lookup_ne (n v m : String) (hm : m ≠ n) :
    ∀ l : List (String × String), (setAttr l n v).lookup m = l.lookup m := by
  intro l
  induction l with
  | nil =>
    have : (m == n) = false := by simpa using hm
    simp [setAttr, List.lookup, this]
  | cons e r ih =>
    obtain ⟨k, w⟩ := e
    unfold setAttr
    by_cases hk : k = n
    · subst hk
      have : (m == k) = false := by simpa using hm
      simp [List.lookup, this]
    · rw [if_neg hk]
      simp only [List.lookup]
      rw [ih]

theorem sameButAtt_refl (n : String) (g : S57_geo) : sameButAtt n g g :=
  ⟨rfl, rfl, rfl, rfl, fun _ _ => rfl⟩

theorem sameButAtt_trans {n : String} {g g' g'' : S57_geo} (h : sameButAtt n g g')
    (h' : sameButAtt n g' g'') : sameButAtt n g g'' :=
  ⟨h.1.trans h'.1, h.2.1.trans h'.2.1, h.2.2.1.trans h'.2.2.1, h.2.2.2.1.trans h'.2.2.2.1,
    fun m hm => (h.2.2.2.2 m hm).trans (h'.2.2.2.2 m hm)⟩

theorem writesAtt_of_same {n : String} {s t : S57_state} (h : sameStore s t) :
    writesAtt n s t :=
  ⟨fun p => by rw [h.1]; exact sameButAtt_refl n _, h.2.1, h.2.2.1, h.2.2.2.1, h.2.2.2.2.1,
    h.2.2.2.2.2.1, h.2.2.2.2.2.2⟩

theorem writesAtt_trans {n : String} {s t u : S57_state} (h : writesAtt n s t)
    (h' : writesAtt n t u) : writesAtt n s u :=
  ⟨fun p => sameButAtt_trans (h.1 p) (h'.1 p), h.2.1.trans h'.2.1, h.2.2.1.trans h'.2.2.1,
    h.2.2.2.1.trans h'.2.2.2.1, h.2.2.2.2.1.trans h'.2.2.2.2.1,
    h.2.2.2.2.2.1.trans h'.2.2.2.2.2.1, h.2.2.2.2.2.2.trans h'.2.2.2.2.2.2⟩

theorem setAtt_writes (s : S57_state) (p : Ptr) (n v : String) :
    writesAtt n s (S57_setAtt s p n v) := by
  refine ⟨fun q => ?_, rfl, rfl, rfl, rfl, rfl, rfl⟩
  unfold S57_setAtt
  by_cases hq : q = p
  · subst hq
    simp only [Function.update_same]
    exact ⟨rfl, rfl, rfl, rfl, fun m hm => (setAttr_lookup_ne n v m hm _).symm⟩
  · simp only [Function.update_noteq hq]
    exact sameButAtt_refl n _

theorem LIGHTS05_chain_writes (E : S57_ext) (geo : Ptr) :
    ∀ (fuel : Nat) (start : Option Ptr) (s t : S57_state),
      LIGHTS05_chain E geo fuel start s = some t → writesAtt "_extend_arc_radius" s t := by
  intro fuel
  induction fuel with
  | zero =>
    intro start s t h
    cases start with
    | none =>
      simp only [LIGHTS05_chain, Option.some.injEq] at h
      subst h
      exact writesAtt_of_same (sameStore_refl s)
    | some g => simp [LIGHTS05_chain] at h
  | succ f ih =>
    intro start s t h
    cases start with
    | none =>
      simp only [LIGHTS05_chain, Option.some.injEq] at h
      subst h
      exact writesAtt_of_same (sameStore_refl s)
    | some g =>
      unfold LIGHTS05_chain at h
      simp only [] at h
      have hw : ∀ u : S57_state, ∀ a b : String,
          writesAtt "_extend_arc_radius" u
            (S57_setAtt (S57_setAtt u geo "_extend_arc_radius" a) g "_extend_arc_radius" b) :=
        fun u a b => writesAtt_trans (setAtt_writes u geo _ a) (setAtt_writes _ g _ b)
      split_ifs at h
      · exact writesAtt_trans (writesAtt_trans (hw s _ _) (hw _ _ _)) (ih _ _ _ h)
      · exact writesAtt_trans (hw s _ _) (ih _ _ _ h)
      · exact writesAtt_trans (hw s _ _) (ih _ _ _ h)
      · exact ih _ _ _ h

theorem LIGHTS05_writes (E : S57_ext) (F : GLib_ext) (mp : S52_MP) (fuel : Nat)
    (s : S57_state) (geo : Ptr) (r : CS_result String)
    (h : LIGHTS05 E F mp fuel s geo = some r) :
    writesAtt "_extend_arc_radius" s r.state := by
  have hl := LITDSN01_writes E F mp s geo
  unfold LIGHTS05 at h
  cases hc : LIGHTS05_catlit E (s.obj geo) with
  | inl l =>
    rw [hc] at h
    cases h
    exact writesAtt_of_same (sameStore_refl s)
  | inr v =>
    rw [hc] at h
    simp only [] at h
    split_ifs at h
    all_goals first
      | (cases h; exact writesAtt_of_same (sameStore_refl s))
      | (cases hd : _LITDSN01 E F mp s geo with
         | assertFail t => rw [hd] at h hl; cases h; exact writesAtt_of_same hl
         | ret t v => rw [hd] at h hl; cases h; exact writesAtt_of_same hl)
      | (cases hw : LIGHTS05_chain E geo fuel
            ((S57_setAtt s geo "_extend_arc_radius" "N").touchLIGHTS geo)
            (S57_setAtt s geo "_extend_arc_radius" "N") with
         | none => rw [hw] at h; cases h
         | some t =>
           rw [hw] at h
           cases h
           exact writesAtt_trans (setAtt_writes s geo _ _)
             (LIGHTS05_chain_writes E geo _ _ _ _ hw))

/-! ## The stub procedures -/

theorem notice_silent_ne (st : S57_state) (key msg k : String) (hk : k ≠ key) :
    (CS_notice st key msg).silent k = st.silent k := by
  unfold CS_notice
  split_ifs
  · simp [setSilent, PRINTF, Function.update, hk]
  · rfl

theorem notice_silent (st : S57_state) (key msg : String) :
    (CS_notice st key msg).silent key = true := by
  unfold CS_notice
  split_ifs with h
  · simp [setSilent, Function.update]
  · simpa using h

theorem notice_id (st : S57_state) (key msg : String) (h : st.silent key = true) :
    CS_notice st key msg = st := by
  unfold CS_notice
  rw [if_neg (by simp [h])]

theorem sameResult_some_val (r r' : CS_result String) (h : sameResult r r') :
    sameResult r.some_val r'.some_val := by
  rcases sameResult_cases h with ⟨t, t', e, e', ht⟩ | ⟨t, t', v, e, e', ht⟩
  · rw [e, e']; exact ⟨rfl, ht⟩
  · rw [e, e']; exact ⟨rfl, ht⟩

theorem sameRun_map_some_val (r r' : Option (CS_result String)) (h : sameRun r r') :
    sameRun (r.map CS_result.some_val) (r'.map CS_result.some_val) := by
  cases r with
  | none =>
    cases r' with
    | none => exact trivial
    | some b => exact h
  | some a =>
    cases r' with
    | none => exact h
    | some b => exact sameResult_some_val a b h

/-- A stub that gives the notice and then calls a procedure which respects the
agreement of stores: the stub is the procedure run in a store that differs from the
given one in the notice flag of the stub (and the log) only, and agrees with the
procedure run in the given store. -/
theorem stub_spec (key msg : String) (stub target : S52_CS_condSymb)
    (hdef : ∀ E F mp fuel st geo,
      stub E F mp fuel st geo = target E F mp fuel (CS_notice st key msg) geo)
    (hsame : ∀ E F mp fuel s s' geo, sameStore s s' →
      sameRun (target E F mp fuel s geo) (target E F mp fuel s' geo))
    (E : S57_ext) (F : GLib_ext) (mp : S52_MP) (fuel : Nat) (st : S57_state) (geo : Ptr) :
    sameRun (stub E F mp fuel st geo) (target E F mp fuel st geo) ∧
    ∃ st', sameStore st st' ∧ (∀ k, k ≠ key → st'.silent k = st.silent k) ∧
      st'.silent key = true ∧ (st.silent key = true → st' = st) ∧
      stub E F mp fuel st geo = target E F mp fuel st' geo := by
  refine ⟨?_, CS_notice st key msg, sameStore_notice st key msg,
    fun k hk => notice_silent_ne st key msg k hk, notice_silent st key msg,
    notice_id st key msg, hdef E F mp fuel st geo⟩
  rw [hdef]
  exact hsame E F mp fuel _ _ geo (sameStore_symm (sameStore_notice st key msg))

/-- C33: every stub procedure of the jump table (`DATCVR02`, `DEPARE02`, `DEPARE03`,
`DEPCNT03`, `LEGLIN03`, `LIGHTS06`, `OBSTRN05`, `OBSTRN06`, `RESARE03`, `VESSEL02`,
`VRMEBL02`, `WRECKS03`, `WRECKS04`, `WRECKS05`) agrees with the procedure it stands for
(`DATCVR01`, `DEPARE01`, `DEPCNT02`, `LEGLIN02`, `LIGHTS05`, `OBSTRN04`, `RESARE02`,
`VESSEL01`, `VRMEBL01`, `WRECKS02`): in every store and on every feature both return
the same instruction, or both fail an assertion, or both leave the sector loop
unfinished, and the stores they leave hold the same features, touch references and
scale-minimum overrides.  The stub is the procedure run after the notice, which sets
the flag of the stub (and prints two lines) the first time and is nothing afterwards. -/
theorem stubs_agree :
    ∀ p ∈ S52_CS_stubs, ∃ stub target,
      S52_CS_lookup p.1 = some stub ∧ S52_CS_lookup p.2 = some target ∧
      ∀ (E : S57_ext) (F : GLib_ext) (mp : S52_MP) (fuel : Nat) (st : S57_state) (geo : Ptr),
        sameRun (stub E F mp fuel st geo) (target E F mp fuel st geo) ∧
        ∃ st', sameStore st st' ∧ (∀ k, k ≠ p.1 → st'.silent k = st.silent k) ∧
          st'.silent p.1 = true ∧ (st.silent p.1 = true → st' = st) ∧
          stub E F mp fuel st geo = target E F mp fuel st' geo := by
  intro p hp
  simp only [S52_CS_stubs, List.mem_cons, List.mem_singleton, List.not_mem_nil, or_false] at hp
  have pure : ∀ (f : S57_ext → S52_MP → S57_geo → Option String) (s s' : S57_state)
      (E : S57_ext) (mp : S52_MP) (geo : Ptr), sameStore s s' →
      sameRun (some (CS_result.ret s (f E mp (s.obj geo))))
        (some (CS_result.ret s' (f E mp (s'.obj geo)))) := by
    intro f s s' E mp geo h
    rw [← h.1]
    exact ⟨rfl, h⟩
  rcases hp with rfl | rfl | rfl | rfl | rfl | rfl | rfl | rfl | rfl | rfl | rfl | rfl | rfl | rfl
  · exact ⟨_, _, rfl, rfl, stub_spec "DATCVR02" _ _ _ (fun _ _ _ _ _ _ => rfl)
      (fun _ _ _ _ s s' geo h => sameResult_some_val _ _ (DATCVR01_same s s' geo h))⟩
  · exact ⟨_, _, rfl, rfl, stub_spec "DEPARE02" _ _ _ (fun _ _ _ _ _ _ => rfl)
      (fun E _ mp _ s s' geo h => pure (fun E mp g => some (DEPARE01 E mp g)) s s' E mp geo h)⟩
  · exact ⟨_, _, rfl, rfl, stub_spec "DEPARE03" _ _ _ (fun _ _ _ _ _ _ => rfl)
      (fun E _ mp _ s s' geo h => pure (fun E mp g => some (DEPARE01 E mp g)) s s' E mp geo h)⟩
  · exact ⟨_, _, rfl, rfl, stub_spec "DEPCNT03" _ _ _ (fun _ _ _ _ _ _ => rfl)
      (fun E _ mp _ s s' geo h =>
        ⟨by simp only [CS_result.val?]; rw [(DEPCNT02_same E mp s s' geo h).2],
          (DEPCNT02_same E mp s s' geo h).1⟩)⟩
  · exact ⟨_, _, rfl, rfl, stub_spec "LEGLIN03" _ _ _ (fun _ _ _ _ _ _ => rfl)
      (fun E _ mp _ s s' geo h => pure (fun E _ g => some (LEGLIN02 E g)) s s' E mp geo h)⟩
  · exact ⟨_, _, rfl, rfl, stub_spec "LIGHTS06" _ _ _ (fun _ _ _ _ _ _ => rfl)
      (fun E F mp fuel s s' geo h =>
        sameRun_map_some_val _ _ (LIGHTS05_same E F mp fuel s s' geo h))⟩
  · exact ⟨_, _, rfl, rfl, stub_spec "OBSTRN05" _ _ _ (fun _ _ _ _ _ _ => rfl)
      (fun E _ mp _ s s' geo h => OBSTRN04_same E mp s s' geo h)⟩
  · exact ⟨_, _, rfl, rfl, stub_spec "OBSTRN06" _ _ _ (fun _ _ _ _ _ _ => rfl)
      (fun E _ mp _ s s' geo h => OBSTRN04_same E mp s s' geo h)⟩
  · exact ⟨_, _, rfl, rfl, stub_spec "RESARE03" _ _ _ (fun _ _ _ _ _ _ => rfl)
      (fun E _ mp _ s s' geo h => pure (fun E mp g => some (RESARE02 E mp g)) s s' E mp geo h)⟩
  · exact ⟨_, _, rfl, rfl, stub_spec "VESSEL02" _ _ _ (fun _ _ _ _ _ _ => rfl)
      (fun _ _ _ _ s s' geo h => sameResult_some_val _ _ (VESSEL01_same s s' geo h))⟩
  · exact ⟨_, _, rfl, rfl, stub_spec "VRMEBL02" _ _ _ (fun _ _ _ _ _ _ => rfl)
      (fun E _ mp _ s s' geo h => pure (fun _ _ g => some (VRMEBL01 g)) s s' E mp geo h)⟩
  · exact ⟨_, _, rfl, rfl, stub_spec "WRECKS03" _ _ _ (fun _ _ _ _ _ _ => rfl)
      (fun E _ mp _ s s' geo h => WRECKS02_same E mp s s' geo h)⟩
  · exact ⟨_, _, rfl, rfl, stub_spec "WRECKS04" _ _ _ (fun _ _ _ _ _ _ => rfl)
      (fun E _ mp _ s s' geo h => WRECKS02_same E mp s s' geo h)⟩
  · exact ⟨_, _, rfl, rfl, stub_spec "WRECKS05" _ _ _ (fun _ _ _ _ _ _ => rfl)
      (fun E _ mp _ s s' geo h => WRECKS02_same E mp s s' geo h)⟩

theorem stubs_agree_witness :
    ∃ stub target,
      S52_CS_lookup ("OBSTRN05", "OBSTRN04").1 = some stub ∧
      S52_CS_lookup ("OBSTRN05", "OBSTRN04").2 = some target ∧
      ∀ (E : S57_ext) (F : GLib_ext) (mp : S52_MP) (fuel : Nat) (st : S57_state) (geo : Ptr),
        sameRun (stub E F mp fuel st geo) (target E F mp fuel st geo) ∧
        ∃ st', sameStore st st' ∧
          (∀ k, k ≠ ("OBSTRN05", "OBSTRN04").1 → st'.silent k = st.silent k) ∧
          st'.silent ("OBSTRN05", "OBSTRN04").1 = true ∧
          (st.silent ("OBSTRN05", "OBSTRN04").1 = true → st' = st) ∧
          stub E F mp fuel st geo = target E F mp fuel st' geo :=
  stubs_agree ("OBSTRN05", "OBSTRN04") (by decide)

/-! ## What the procedures of the jump table write -/

theorem procEffect_same (name : String) (geo : Ptr) {st t : S57_state} (h : sameStore st t) :
    procEffect name geo st t :=
  ⟨⟨h.2.1.symm, h.2.2.1.symm, h.2.2.2.1.symm, h.2.2.2.2.1.symm, h.2.2.2.2.2.1.symm⟩,
    fun p _ => by rw [h.2.2.2.2.2.2], fun _ => h.2.2.2.2.2.2.symm,
    fun p => by rw [h.1]; exact sameButAtt_refl _ _, fun _ => h.1.symm,
    fun p _ _ => by rw [h.1]⟩

theorem procEffect_scamin (name : String) (geo : Ptr) {st t : S57_state}
    (hn : name ∈ S52_CS_writesScamin) (h : writesScamin geo st t) :
    procEffect name geo st t :=
  ⟨⟨h.2.1.symm, h.2.2.1.symm, h.2.2.2.1.symm, h.2.2.2.2.1.symm, h.2.2.2.2.2.1.symm⟩,
    h.2.2.2.2.2.2, fun hc => absurd hn hc,
    fun p => by rw [h.1]; exact sameButAtt_refl _ _, fun _ => h.1.symm,
    fun p _ _ => by rw [h.1]⟩

theorem procEffect_att (name : String) (geo : Ptr) {st t : S57_state}
    (hn : name ∈ S52_CS_writesAtt) (h : writesAtt "_extend_arc_radius" st t)
    (hloc : ∀ p, p ≠ geo →
      (∀ n, followLIGHTS st.touchLIGHTS n (st.touchLIGHTS geo) ≠ some p) → t.obj p = st.obj p) :
    procEffect name geo st t :=
  ⟨⟨h.2.1.symm, h.2.2.1.symm, h.2.2.2.1.symm, h.2.2.2.2.1.symm, h.2.2.2.2.2.1.symm⟩,
    fun p _ => by rw [h.2.2.2.2.2.2], fun _ => h.2.2.2.2.2.2.symm, h.1,
    fun hc => absurd hn hc, hloc⟩

/-- The sector loop writes the light itself and the features it walks along only. -/
theorem LIGHTS05_chain_local (E : S57_ext) (geo : Ptr) :
    ∀ (fuel : Nat) (start : Option Ptr) (u t : S57_state),
      LIGHTS05_chain E geo fuel start u = some t →
      ∀ p, p ≠ geo → (∀ n, followLIGHTS u.touchLIGHTS n start ≠ some p) →
        t.obj p = u.obj p := by
  intro fuel
  induction fuel with
  | zero =>
    intro start u t h p _ _
    cases start with
    | none =>
      simp only [LIGHTS05_chain, Option.some.injEq] at h
      rw [h]
    | some g => simp [LIGHTS05_chain] at h
  | succ f ih =>
    intro start u t h p hp hn
    cases start with
    | none =>
      simp only [LIGHTS05_chain, Option.some.injEq] at h
      rw [h]
    | some g =>
      have hg : p ≠ g := by
        intro e
        exact hn 0 (by rw [e]; rfl)
      have hnext : ∀ n, followLIGHTS u.touchLIGHTS n (u.touchLIGHTS g) ≠ some p :=
        fun n => hn (n + 1)
      have hset : ∀ (w : S57_state) (a b : String),
          (S57_setAtt (S57_setAtt w geo "_extend_arc_radius" a) g "_extend_arc_radius" b).obj p =
            w.obj p := by
        intro w a b
        simp [S57_setAtt, Function.update_noteq hg, Function.update_noteq hp]
      unfold LIGHTS05_chain at h
      simp only [] at h
      split_ifs at h
      · rw [ih _ _ _ h p hp hnext, hset, hset]
      · rw [ih _ _ _ h p hp hnext, hset]
      · rw [ih _ _ _ h p hp hnext, hset]
      · exact ih _ _ _ h p hp hnext

/-- `LIGHTS05` writes the light itself and the features on its light chain only. -/
theorem LIGHTS05_local (E : S57_ext) (F : GLib_ext) (mp : S52_MP) (fuel : Nat)
    (s : S57_state) (geo : Ptr) (r : CS_result String)
    (h : LIGHTS05 E F mp fuel s geo = some r) :
    ∀ p, p ≠ geo → (∀ n, followLIGHTS s.touchLIGHTS n (s.touchLIGHTS geo) ≠ some p) →
      r.state.obj p = s.obj p := by
  intro p hp hn
  have hl := LITDSN01_writes E F mp s geo
  unfold LIGHTS05 at h
  cases hc : LIGHTS05_catlit E (s.obj geo) with
  | inl l =>
    rw [hc] at h
    cases h
    rfl
  | inr v =>
    rw [hc] at h
    simp only [] at h
    split_ifs at h
    all_goals first
      | (cases h; rfl)
      | (cases hd : _LITDSN01 E F mp s geo with
         | assertFail t => rw [hd] at h hl; cases h; exact congrFun hl.1.symm p
         | ret t v => rw [hd] at h hl; cases h; exact congrFun hl.1.symm p)
      | (cases hw : LIGHTS05_chain E geo fuel
            ((S57_setAtt s geo "_extend_arc_radius" "N").touchLIGHTS geo)
            (S57_setAtt s geo "_extend_arc_radius" "N") with
         | none => rw [hw] at h; cases h
         | some t =>
           rw [hw] at h
           cases h
           exact (LIGHTS05_chain_local E geo _ _ _ _ hw p hp hn).trans
             (by simp [S57_setAtt, Function.update_noteq hp]))

theorem some_val_state (r : CS_result String) : r.some_val.state = r.state := by
  cases r <;> rfl

/-- C35 (counterexample): `DEPCNT02` on a depth contour at the safety contour writes
the scale-minimum override of the contour, and `LIGHTS05` on the first of two
overlapping sector lights writes the attribute `_extend_arc_radius` of both lights. -/
theorem procedures_write_counterexample :
    (mkState [depcnt_10]).scamin 0 = .unset ∧
    (DEPCNT02 decExt mpScenario (mkState [depcnt_10]) 0).1.scamin 0 = .INFINITY ∧
    S57_getAttVal ((stSectors "0" "30" "10" "100").obj 1) "_extend_arc_radius" = none ∧
    (LIGHTS05 decExt decFmt mpScenario 5 (stSectors "0" "30" "10" "100") 0).map
      (fun r => (S57_getAttVal (r.state.obj 0) "_extend_arc_radius",
        S57_getAttVal (r.state.obj 1) "_extend_arc_radius")) =
      some (some "Y", some "N") := by
  decide!

/-- C35 (amended): every procedure of `S52_CS_condTable` leaves the touch references
unchanged (the five lists of `_localObj` are not among its arguments); it writes a
scale-minimum override only of the feature it is called on, and only when it is
`DEPCNT02`, `OBSTRN04`, `WRECKS02` or one of their stubs; it writes an attribute only
when it is `LIGHTS05` or `LIGHTS06`, and then only the attribute `_extend_arc_radius`
of that feature and of the features on its light chain. -/
theorem procedures_write (e : String × S52_CS_condSymb) (he : e ∈ S52_CS_condTable)
    (E : S57_ext) (F : GLib_ext) (mp : S52_MP) (fuel : Nat) (st : S57_state) (geo : Ptr)
    (r : CS_result (Option String)) (h : e.2 E F mp fuel st geo = some r) :
    procEffect e.1 geo st r.state := by
  simp only [S52_CS_condTable, List.mem_cons, List.mem_singleton, List.not_mem_nil,
    or_false] at he
  rcases he with
    rfl | rfl | rfl | rfl | rfl | rfl | rfl | rfl | rfl | rfl | rfl | rfl | rfl | rfl | rfl | rfl | rfl | rfl | rfl | rfl | rfl | rfl | rfl | rfl | rfl | rfl | rfl | rfl | rfl | rfl | rfl | rfl | rfl
  all_goals dsimp only at h ⊢
  · cases h; exact procEffect_same _ _ (sameStore_refl st)
  · cases h; rw [some_val_state]; exact procEffect_same _ _ (DATCVR01_writes st geo)
  · cases h; rw [some_val_state]
    exact procEffect_same _ _ (sameStore_trans (sameStore_notice st _ _) (DATCVR01_writes _ geo))
  · cases h; exact procEffect_same _ _ (sameStore_refl st)
  · cases h; exact procEffect_same _ _ (sameStore_notice st _ _)
  · cases h; exact procEffect_same _ _ (sameStore_notice st _ _)
  · cases h; exact procEffect_scamin _ _ (by decide) (DEPCNT02_writes E mp st geo)
  · cases h
    exact procEffect_scamin _ _ (by decide) (writesScamin_trans
      (writesScamin_of_same (sameStore_notice st _ _)) (DEPCNT02_writes E mp _ geo))
  · cases h; exact procEffect_same _ _ (sameStore_refl st)
  · cases h; exact procEffect_same _ _ (sameStore_notice st _ _)
  · cases hr : LIGHTS05 E F mp fuel st geo with
    | none => rw [hr] at h; cases h
    | some r0 =>
      rw [hr] at h
      cases h
      rw [some_val_state]
      exact procEffect_att _ _ (by decide) (LIGHTS05_writes E F mp fuel st geo r0 hr)
        (LIGHTS05_local E F mp fuel st geo r0 hr)
  · unfold LIGHTS06 at h
    cases hr : LIGHTS05 E F mp fuel
        (CS_notice st "LIGHTS06" "FIXME: CS(LIGHTS06) --> CS(LIGHTS05)\n") geo with
    | none => rw [hr] at h; cases h
    | some r0 =>
      rw [hr] at h
      cases h
      rw [some_val_state]
      have hn := sameStore_notice st "LIGHTS06" "FIXME: CS(LIGHTS06) --> CS(LIGHTS05)\n"
      refine procEffect_att _ _ (by decide) (writesAtt_trans
        (writesAtt_of_same hn) (LIGHTS05_writes E F mp fuel _ geo r0 hr)) ?_
      intro p hp hq
      rw [LIGHTS05_local E F mp fuel _ geo r0 hr p hp (by rw [← hn.2.2.1]; exact hq), ← hn.1]
  · cases h; exact procEffect_scamin _ _ (by decide) (OBSTRN04_writes E mp st geo)
  · cases h
    exact procEffect_scamin _ _ (by decide) (writesScamin_trans
      (writesScamin_of_same (sameStore_notice st _ _)) (OBSTRN04_writes E mp _ geo))
  · cases h
    exact procEffect_scamin _ _ (by decide) (writesScamin_trans
      (writesScamin_of_same (sameStore_notice st _ _)) (OBSTRN04_writes E mp _ geo))
  · cases h; exact procEffect_same _ _ (sameStore_refl st)
  · cases h; exact procEffect_same _ _ (sameStore_refl st)
  · cases h; exact procEffect_same _ _ (sameStore_refl st)
  · cases h; exact procEffect_same _ _ (sameStore_refl st)
  · cases h; exact procEffect_same _ _ (sameStore_notice st _ _)
  · cases h; exact procEffect_same _ _ (sameStore_refl st)
  · cases h; exact procEffect_same _ _ (sameStore_refl st)
  · cases h; exact procEffect_same _ _ (SOUNDG02_writes E mp st geo)
  · cases h; exact procEffect_same _ _ (sameStore_refl st)
  · cases h; rw [some_val_state]; exact procEffect_same _ _ (VESSEL01_writes st geo)
  · cases h; rw [some_val_state]
    exact procEffect_same _ _ (sameStore_trans (sameStore_notice st _ _) (VESSEL01_writes _ geo))
  · cases h; exact procEffect_same _ _ (sameStore_refl st)
  · cases h; exact procEffect_same _ _ (sameStore_notice st _ _)
  · cases h; exact procEffect_scamin _ _ (by decide) (WRECKS02_writes E mp st geo)
  · cases h
    exact procEffect_scamin _ _ (by decide) (writesScamin_trans
      (writesScamin_of_same (sameStore_notice st _ _)) (WRECKS02_writes E mp _ geo))
  · cases h
    exact procEffect_scamin _ _ (by decide) (writesScamin_trans
      (writesScamin_of_same (sameStore_notice st _ _)) (WRECKS02_writes E mp _ geo))
  · cases h
    exact procEffect_scamin _ _ (by decide) (writesScamin_trans
      (writesScamin_of_same (sameStore_notice st _ _)) (WRECKS02_writes E mp _ geo))
  · cases h; exact procEffect_same _ _ (QUESMRK1_writes st geo)

theorem procedures_write_witness :
    procEffect ("DEPCNT02", (fun E _ mp _ st geo =>
        some (CS_result.ret (DEPCNT02 E mp st geo).1 (DEPCNT02 E mp st geo).2) :
          S52_CS_condSymb)).1 0 (mkState [depcnt_10])
      (CS_result.ret (DEPCNT02 decExt mpScenario (mkState [depcnt_10]) 0).1
        (DEPCNT02 decExt mpScenario (mkState [depcnt_10]) 0).2).state :=
  procedures_write ("DEPCNT02", fun E _ mp _ st geo =>
      some (CS_result.ret (DEPCNT02 E mp st geo).1 (DEPCNT02 E mp st geo).2))
    (by simp [S52_CS_condTable]) decExt decFmt mpScenario 0 (mkState [depcnt_10]) 0 _ rfl

/-! ## `LIGHTS05` in sequence -/

/-- C36 (counterexample): three sector lights at one position, sectors `20..30`,
`10..40`, `0..90`, chained first to second to third.  Invoked in the order first,
second, third, `LIGHTS05` leaves the flag `_extend_arc_radius` of the second light at
`Y`; invoked in the order second, first, third it leaves it at `N`.  And after the
invocations on the second and the first light, a second invocation on the second light
changes its flag from `N` to `Y`. -/
theorem LIGHTS05_order_counterexample :
    stThreeSectors.touchLIGHTS 0 = some 1 ∧ stThreeSectors.touchLIGHTS 1 = some 2 ∧
    stThreeSectors.touchLIGHTS 2 = none ∧
    (LIGHTS05_all decExt decFmt mpScenario 5 [0, 1, 2] stThreeSectors).map
      (fun st => [extendFlag st 0, extendFlag st 1, extendFlag st 2]) =
      some [some "Y", some "Y", some "N"] ∧
    (LIGHTS05_all decExt decFmt mpScenario 5 [1, 0, 2] stThreeSectors).map
      (fun st => [extendFlag st 0, extendFlag st 1, extendFlag st 2]) =
      some [some "Y", some "N", some "N"] ∧
    (LIGHTS05_all decExt decFmt mpScenario 5 [1, 0] stThreeSectors).map
      (fun st => extendFlag st 1) = some (some "N") ∧
    (LIGHTS05_all decExt decFmt mpScenario 5 [1, 0, 1] stThreeSectors).map
      (fun st => extendFlag st 1) = some (some "Y") := by
  decide!

theorem getAttVal_congr {n : String} {g g' : S57_geo} (h : sameButAtt n g g') (m : String)
    (hm : m ≠ n) : S57_getAttVal g m = S57_getAttVal g' m := by
  unfold S57_getAttVal
  rw [h.2.2.2.2 m hm]

theorem sameButAtt_symm {n : String} {g g' : S57_geo} (h : sameButAtt n g g') :
    sameButAtt n g' g :=
  ⟨h.1.symm, h.2.1.symm, h.2.2.1.symm, h.2.2.2.1.symm, fun m hm => (h.2.2.2.2 m hm).symm⟩

theorem writesAtt_symm {n : String} {s t : S57_state} (h : writesAtt n s t) :
    writesAtt n t s :=
  ⟨fun p => sameButAtt_symm (h.1 p), h.2.1.symm, h.2.2.1.symm, h.2.2.2.1.symm,
    h.2.2.2.2.1.symm, h.2.2.2.2.2.1.symm, h.2.2.2.2.2.2.symm⟩

theorem cmpSector_congr (E : S57_ext) {a a' b b' : S57_geo}
    (ha : sameButAtt "_extend_arc_radius" a a') (hb : sameButAtt "_extend_arc_radius" b b') :
    _LIGHTS05_cmpSector E a b = _LIGHTS05_cmpSector E a' b' := by
  unfold _LIGHTS05_cmpSector
  rw [getAttVal_congr ha "SECTR1" (by decide), getAttVal_congr ha "SECTR2" (by decide),
    getAttVal_congr hb "SECTR1" (by decide), getAttVal_congr hb "SECTR2" (by decide)]

theorem LIGHTS05_catlit_congr (E : S57_ext) {g g' : S57_geo}
    (h : sameButAtt "_extend_arc_radius" g g') :
    LIGHTS05_catlit E g = LIGHTS05_catlit E g' := by
  unfold LIGHTS05_catlit
  rw [getAttVal_congr h "CATLIT" (by decide), getAttVal_congr h "ORIENT" (by decide)]

theorem LIGHTS05_arc_congr (E : S57_ext) {g g' : S57_geo}
    (h : sameButAtt "_extend_arc_radius" g g') (colist : List Nat) (l : String) :
    LIGHTS05_arc E g colist l = LIGHTS05_arc E g' colist l := by
  unfold LIGHTS05_arc
  rw [getAttVal_congr h "LITVIS" (by decide)]

theorem LITDSN01_value_congr (E : S57_ext) (F : GLib_ext) (mp : S52_MP) {g g' : S57_geo}
    (h : sameButAtt "_extend_arc_radius" g g') :
    LITDSN01_value E F mp g = LITDSN01_value E F mp g' := by
  unfold LITDSN01_value LITDSN01_category LITDSN01_character LITDSN01_group LITDSN01_colour
    LITDSN01_period LITDSN01_height LITDSN01_range LITDSN01_status
  rw [getAttVal_congr h "CATLIT" (by decide), getAttVal_congr h "LITCHR" (by decide),
    getAttVal_congr h "SIGGRP" (by decide), getAttVal_congr h "COLOUR" (by decide),
    getAttVal_congr h "SIGPER" (by decide), getAttVal_congr h "HEIGHT" (by decide),
    getAttVal_congr h "VALNMR" (by decide), getAttVal_congr h "STATUS" (by decide)]

/-- What `_LITDSN01` returns is a function of the feature record. -/
theorem LITDSN01_val (E : S57_ext) (F : GLib_ext) (mp : S52_MP) (s : S57_state) (geo : Ptr) :
    (_LITDSN01 E F mp s geo).val? = LITDSN01_value E F mp (s.obj geo) := by
  unfold LITDSN01_value
  rcases LITDSN01_cases E F mp s geo with ⟨h, e⟩ | ⟨c, x, hc, hx, h1, e⟩ | ⟨c, st', hc, hn, e⟩
  · rw [h, e]; rfl
  · rw [hc, e, hx]
    simp [h1]
  · rw [hc, e]
    cases hx : S57_getAttVal (s.obj geo) "LITCHR" with
    | none => simp [CS_result.val?]
    | some x => simp [CS_result.val?, hn x hx]

theorem LIGHTS05_value_congr (E : S57_ext) (F : GLib_ext) (mp : S52_MP) {g g' : S57_geo}
    (h : sameButAtt "_extend_arc_radius" g g') (touch : Option Ptr) :
    LIGHTS05_value E F mp g touch = LIGHTS05_value E F mp g' touch := by
  unfold LIGHTS05_value
  rw [LIGHTS05_catlit_congr E h, getAttVal_congr h "CATLIT" (by decide),
    getAttVal_congr h "COLOUR" (by decide), getAttVal_congr h "SECTR1" (by decide),
    getAttVal_congr h "SECTR2" (by decide), LITDSN01_value_congr E F mp h]
  simp only [LIGHTS05_arc_congr E h]

/-- The instruction of `LIGHTS05`, when it returns, is `LIGHTS05_value` of the feature
record and its light-chain reference; the store it leaves differs from the given one
at most in flags `_extend_arc_radius` (and the log). -/
theorem LIGHTS05_val (E : S57_ext) (F : GLib_ext) (mp : S52_MP) (fuel : Nat)
    (s : S57_state) (geo : Ptr) (r : CS_result String)
    (h : LIGHTS05 E F mp fuel s geo = some r) :
    r.val? = LIGHTS05_value E F mp (s.obj geo) (s.touchLIGHTS geo) := by
  have hl := LITDSN01_val E F mp s geo
  unfold LIGHTS05 at h
  unfold LIGHTS05_value
  cases hc : LIGHTS05_catlit E (s.obj geo) with
  | inl l =>
    rw [hc] at h
    cases h
    rfl
  | inr v =>
    rw [hc] at h
    simp only [] at h ⊢
    split_ifs at h ⊢
    all_goals first
      | contradiction
      | (cases hd : _LITDSN01 E F mp s geo with
         | assertFail t =>
           rw [hd] at h hl
           cases h
           rw [← hl]
           rfl
         | ret t v =>
           rw [hd] at h hl
           cases h
           rw [← hl]
           rfl)
      | (cases hw : LIGHTS05_chain E geo fuel
            ((S57_setAtt s geo "_extend_arc_radius" "N").touchLIGHTS geo)
            (S57_setAtt s geo "_extend_arc_radius" "N") with
         | none => rw [hw] at h; simp at h
         | some t =>
           rw [hw] at h
           simp only [Option.some.injEq] at h
           subst h
           have hg := (writesAtt_trans (setAtt_writes s geo _ _)
             (LIGHTS05_chain_writes E geo _ _ _ _ hw)).1 geo
           exact congrArg some (LIGHTS05_arc_congr E (sameButAtt_symm hg) _ _))
      | (cases h; rfl)

theorem setAttr_setAttr (n v v' : String) :
    ∀ l : List (String × String), setAttr (setAttr l n v) n v' = setAttr l n v' := by
  intro l
  induction l with
  | nil => simp [setAttr]
  | cons e r ih =>
    obtain ⟨k, w⟩ := e
    by_cases hk : k = n
    · simp [setAttr, hk]
    · simp [setAttr, hk, ih]

theorem setAtt_setAtt (u : S57_state) (p : Ptr) (n v v' : String) :
    S57_setAtt (S57_setAtt u p n v) p n v' = S57_setAtt u p n v' := by
  unfold S57_setAtt
  simp [Function.update_same, setAttr_setAttr]

theorem setAtt_comm (u : S57_state) (p q : Ptr) (n v w : String) (h : p ≠ q) :
    S57_setAtt (S57_setAtt u p n v) q n w = S57_setAtt (S57_setAtt u q n w) p n v := by
  unfold S57_setAtt
  simp only [Function.update_noteq (Ne.symm h), Function.update_noteq h]
  rw [Function.update_comm h]

theorem applyWrites_append (V W : List (Ptr × String)) :
    ∀ u : S57_state, applyWrites u (V ++ W) = applyWrites (applyWrites u V) W := by
  induction V with
  | nil => intro u; rfl
  | cons x V ih => intro u; exact ih _

/-- A write is absorbed by a list of writes that writes the same feature again. -/
theorem applyWrites_absorb :
    ∀ (W : List (Ptr × String)) (u : S57_state) (p : Ptr) (v : String),
      p ∈ W.map Prod.fst →
      applyWrites (S57_setAtt u p "_extend_arc_radius" v) W = applyWrites u W := by
  intro W
  induction W with
  | nil => intro u p v h; cases h
  | cons x W ih =>
    intro u p v h
    obtain ⟨q, w⟩ := x
    show applyWrites (S57_setAtt (S57_setAtt u p _ v) q _ w) W = applyWrites (S57_setAtt u q _ w) W
    by_cases hq : p = q
    · subst hq
      rw [setAtt_setAtt]
    · rw [setAtt_comm u p q _ v w hq]
      apply ih
      simp only [List.map_cons, List.mem_cons] at h
      rcases h with h | h
      · exact absurd h hq
      · exact h

/-- Writes are absorbed by a list of writes that writes all their features again. -/
theorem applyWrites_idem (W : List (Ptr × String)) :
    ∀ (V : List (Ptr × String)) (u : S57_state), (∀ x ∈ V, x.1 ∈ W.map Prod.fst) →
      applyWrites (applyWrites u V) W = applyWrites u W := by
  intro V
  induction V with
  | nil => intro u _; rfl
  | cons x V ih =>
    intro u h
    show applyWrites (applyWrites (S57_setAtt u x.1 _ x.2) V) W = applyWrites u W
    rw [ih _ (fun y hy => h y (List.mem_cons_of_mem _ hy))]
    exact applyWrites_absorb W u x.1 x.2 (h x (List.mem_cons_self _ _))

theorem applyWrites_writes :
    ∀ (W : List (Ptr × String)) (u : S57_state),
      writesAtt "_extend_arc_radius" u (applyWrites u W) := by
  intro W
  induction W with
  | nil => intro u; exact writesAtt_of_same (sameStore_refl u)
  | cons x W ih => intro u; exact writesAtt_trans (setAtt_writes u x.1 _ x.2) (ih _)

/-- The sector loop as a list of writes: when the loop returns, its store is the given
one after a list of writes of the flag, and from every store that differs from the
given one in flags only the loop returns after the same writes. -/
theorem LIGHTS05_chain_writes_list (E : S57_ext) (geo : Ptr) :
    ∀ (fuel : Nat) (start : Option Ptr) (u t : S57_state),
      LIGHTS05_chain E geo fuel start u = some t →
      ∃ ws, t = applyWrites u ws ∧
        ∀ u', writesAtt "_extend_arc_radius" u u' →
          LIGHTS05_chain E geo fuel start u' = some (applyWrites u' ws) := by
  intro fuel
  induction fuel with
  | zero =>
    intro start u t h
    cases start with
    | none =>
      simp only [LIGHTS05_chain, Option.some.injEq] at h
      exact ⟨[], h.symm, fun u' _ => rfl⟩
    | some g => simp [LIGHTS05_chain] at h
  | succ f ih =>
    intro start u t h
    cases start with
    | none =>
      simp only [LIGHTS05_chain, Option.some.injEq] at h
      exact ⟨[], h.symm, fun u' _ => rfl⟩
    | some g =>
      unfold LIGHTS05_chain at h
      simp only [] at h
      have key : ∀ (W : List (Ptr × String)),
          LIGHTS05_chain E geo f ((applyWrites u W).touchLIGHTS g) (applyWrites u W) = some t →
          (∀ u', writesAtt "_extend_arc_radius" u u' →
            LIGHTS05_chain E geo (f + 1) (some g) u' =
              LIGHTS05_chain E geo f ((applyWrites u' W).touchLIGHTS g) (applyWrites u' W)) →
          ∃ ws, t = applyWrites u ws ∧
            ∀ u', writesAtt "_extend_arc_radius" u u' →
              LIGHTS05_chain E geo (f + 1) (some g) u' = some (applyWrites u' ws) := by
        intro W hW hstep
        obtain ⟨ws, e, hws⟩ := ih _ _ _ hW
        refine ⟨W ++ ws, by rw [applyWrites_append]; exact e, fun u' hu => ?_⟩
        rw [hstep u' hu, applyWrites_append]
        have hrel : writesAtt "_extend_arc_radius" (applyWrites u W) (applyWrites u' W) :=
          writesAtt_trans (writesAtt_symm (applyWrites_writes W u))
            (writesAtt_trans hu (applyWrites_writes W u'))
        rw [← hrel.2.2.1]
        exact hws _ hrel
      have hcmp : ∀ u', writesAtt "_extend_arc_radius" u u' →
          _LIGHTS05_cmpSector E (u'.obj geo) (u'.obj g) =
            _LIGHTS05_cmpSector E (u.obj geo) (u.obj g) :=
        fun u' hu => (cmpSector_congr E (hu.1 geo) (hu.1 g)).symm
      split_ifs at h with h1 h2 h2
      · exact key [(geo, "Y"), (g, "N"), (geo, "N"), (g, "Y")] h (fun u' hu => by
          simp only [LIGHTS05_chain, hcmp u' hu, if_pos h1, if_pos h2]
          rfl)
      · exact key [(geo, "N"), (g, "Y")] h (fun u' hu => by
          simp only [LIGHTS05_chain, hcmp u' hu, if_pos h1, if_neg h2]
          rfl)
      · exact key [(geo, "Y"), (g, "N")] h (fun u' hu => by
          simp only [LIGHTS05_chain, hcmp u' hu, if_neg h1, if_pos h2]
          rfl)
      · exact key [] h (fun u' hu => by
          simp only [LIGHTS05_chain, hcmp u' hu, if_neg h1, if_neg h2]
          rfl)

/-- The sector loop run again in the store it left performs the same writes and leaves
the store as it is. -/
theorem LIGHTS05_chain_again (E : S57_ext) (geo : Ptr) (fuel : Nat) (s t : S57_state)
    (h : LIGHTS05_chain E geo fuel ((S57_setAtt s geo "_extend_arc_radius" "N").touchLIGHTS geo)
      (S57_setAtt s geo "_extend_arc_radius" "N") = some t) :
    LIGHTS05_chain E geo fuel ((S57_setAtt t geo "_extend_arc_radius" "N").touchLIGHTS geo)
      (S57_setAtt t geo "_extend_arc_radius" "N") = some t := by
  obtain ⟨ws, e, hws⟩ := LIGHTS05_chain_writes_list E geo fuel _ _ _ h
  have hrel : writesAtt "_extend_arc_radius" (S57_setAtt s geo "_extend_arc_radius" "N")
      (S57_setAtt t geo "_extend_arc_radius" "N") := by
    refine writesAtt_trans ?_ (setAtt_writes t geo _ _)
    rw [e]
    exact applyWrites_writes ws _
  have hstart : (S57_setAtt t geo "_extend_arc_radius" "N").touchLIGHTS geo =
      (S57_setAtt s geo "_extend_arc_radius" "N").touchLIGHTS geo := by
    rw [hrel.2.2.1]
  rw [hstart, hws _ hrel]
  have e1 : t = applyWrites s ((geo, "N") :: ws) := e
  have e2 : applyWrites (S57_setAtt t geo "_extend_arc_radius" "N") ws =
      applyWrites t ((geo, "N") :: ws) := rfl
  rw [e2]
  conv_lhs => rw [e1]
  rw [applyWrites_idem ((geo, "N") :: ws) ((geo, "N") :: ws) s
    (fun x hx => List.mem_map_of_mem Prod.fst hx)]
  rw [← e1]

/-- `LIGHTS05` invoked again in the store it left returns, and leaves the features,
touch references and scale-minimum overrides as they are. -/
theorem LIGHTS05_again (E : S57_ext) (F : GLib_ext) (mp : S52_MP) (fuel : Nat)
    (s : S57_state) (geo : Ptr) (r : CS_result String)
    (h : LIGHTS05 E F mp fuel s geo = some r) :
    ∃ r2, LIGHTS05 E F mp fuel r.state geo = some r2 ∧ sameStore r.state r2.state := by
  have hst := LIGHTS05_writes E F mp fuel s geo r h
  obtain ⟨t, ht⟩ : ∃ t, t = r.state := ⟨_, rfl⟩
  rw [← ht] at hst ⊢
  have hg := sameButAtt_symm (hst.1 geo)
  have hl := LITDSN01_writes E F mp t geo
  unfold LIGHTS05 at h ⊢
  rw [LIGHTS05_catlit_congr E hg, getAttVal_congr hg "CATLIT" (by decide),
    getAttVal_congr hg "COLOUR" (by decide), getAttVal_congr hg "SECTR1" (by decide),
    getAttVal_congr hg "SECTR2" (by decide), ← hst.2.2.1]
  cases hc : LIGHTS05_catlit E (s.obj geo) with
  | inl l => exact ⟨_, rfl, sameStore_refl t⟩
  | inr v =>
    rw [hc] at h
    simp only [] at h ⊢
    by_cases h1 : S57_getAttVal (s.obj geo) "SECTR1" = none ∨
        S57_getAttVal (s.obj geo) "SECTR2" = none
    · rw [if_pos h1]
      cases hd : _LITDSN01 E F mp t geo with
      | assertFail u => rw [hd] at hl; exact ⟨_, rfl, hl⟩
      | ret u x => rw [hd] at hl; exact ⟨_, rfl, hl⟩
    · rw [if_neg h1] at h ⊢
      split_ifs at h ⊢ with h2 h3 h4 h5
      all_goals first
        | (cases hd : _LITDSN01 E F mp t geo with
           | assertFail u => rw [hd] at hl; exact ⟨_, rfl, hl⟩
           | ret u x => rw [hd] at hl; exact ⟨_, rfl, hl⟩)
        | exact ⟨_, rfl, sameStore_refl t⟩
        | (cases hw : LIGHTS05_chain E geo fuel
              ((S57_setAtt s geo "_extend_arc_radius" "N").touchLIGHTS geo)
              (S57_setAtt s geo "_extend_arc_radius" "N") with
           | none => rw [hw] at h; simp at h
           | some t' =>
             rw [hw] at h
             simp only [Option.some.injEq] at h
             subst h
             simp only [CS_result.state] at ht
             subst ht
             rw [LIGHTS05_chain_again E geo fuel s _ hw]
             exact ⟨_, rfl, sameStore_refl _⟩)
        | (simp only [Option.some.injEq] at h
           subst h
           simp only [CS_result.state] at ht
           subst ht
           contradiction)

theorem LIGHTS05_all_writes (E : S57_ext) (F : GLib_ext) (mp : S52_MP) (fuel : Nat) :
    ∀ (l : List Ptr) (s t : S57_state), LIGHTS05_all E F mp fuel l s = some t →
      writesAtt "_extend_arc_radius" s t := by
  intro l
  induction l with
  | nil =>
    intro s t h
    simp only [LIGHTS05_all, Option.some.injEq] at h
    subst h
    exact writesAtt_of_same (sameStore_refl s)
  | cons g rest ih =>
    intro s t h
    unfold LIGHTS05_all at h
    cases hr : LIGHTS05 E F mp fuel s g with
    | none => rw [hr] at h; simp at h
    | some r =>
      cases r with
      | assertFail u => rw [hr] at h; simp at h
      | ret u v =>
        rw [hr] at h
        simp only [] at h
        exact writesAtt_trans (LIGHTS05_writes E F mp fuel s g _ hr) (ih _ _ h)

/-- C36 (amended): take any two lists of invocations of `LIGHTS05`, in any order, that
return, started in the same store, and a light whose chain ends within the fuel.
Invoked after either list, `LIGHTS05` returns for the light, with the same outcome:
the instruction (or the failed assertion of `_LITDSN01`) is a function of the
attributes of the light other than the flag `_extend_arc_radius` and of its light-chain
reference.  Invoked a second time right after, `LIGHTS05` returns the same instruction
and leaves every feature, flag, touch reference and scale-minimum override as it is.
The flags themselves depend on the order of the invocations. -/
theorem LIGHTS05_order_free (E : S57_ext) (F : GLib_ext) (mp : S52_MP) (fuel : Nat)
    (st : S57_state) (pre pre' : List Ptr) (geo : Ptr)
    (hfuel : followLIGHTS st.touchLIGHTS fuel (st.touchLIGHTS geo) = none) :
    ∀ st1 st2, LIGHTS05_all E F mp fuel pre st = some st1 →
      LIGHTS05_all E F mp fuel pre' st = some st2 →
      ∃ r1 r2, LIGHTS05 E F mp fuel st1 geo = some r1 ∧ LIGHTS05 E F mp fuel st2 geo = some r2 ∧
        r1.val? = r2.val? ∧
        r1.val? = LIGHTS05_value E F mp (st.obj geo) (st.touchLIGHTS geo) ∧
        ∃ r3, LIGHTS05 E F mp fuel r1.state geo = some r3 ∧ r3.val? = r1.val? ∧
          sameStore r1.state r3.state := by
  intro st1 st2 h1 h2
  have hw1 := LIGHTS05_all_writes E F mp fuel pre st st1 h1
  have hw2 := LIGHTS05_all_writes E F mp fuel pre' st st2 h2
  have hv : ∀ (u : S57_state) (r : CS_result String), writesAtt "_extend_arc_radius" st u →
      LIGHTS05 E F mp fuel u geo = some r →
      r.val? = LIGHTS05_value E F mp (st.obj geo) (st.touchLIGHTS geo) := by
    intro u r hu hr
    rw [LIGHTS05_val E F mp fuel u geo r hr, ← hu.2.2.1]
    exact (LIGHTS05_value_congr E F mp (hu.1 geo) _).symm
  obtain ⟨r1, hr1⟩ := LIGHTS05_returns E F mp fuel st1 geo (by rw [← hw1.2.2.1]; exact hfuel)
  obtain ⟨r2, hr2⟩ := LIGHTS05_returns E F mp fuel st2 geo (by rw [← hw2.2.2.1]; exact hfuel)
  obtain ⟨r3, hr3, hs3⟩ := LIGHTS05_again E F mp fuel st1 geo r1 hr1
  refine ⟨r1, r2, hr1, hr2, ?_, hv st1 r1 hw1 hr1, r3, hr3, ?_, hs3⟩
  · rw [hv st1 r1 hw1 hr1, hv st2 r2 hw2 hr2]
  · rw [hv st1 r1 hw1 hr1]
    exact hv r1.state r3 (writesAtt_trans hw1 (LIGHTS05_writes E F mp fuel st1 geo r1 hr1)) hr3

theorem LIGHTS05_order_free_witness :
    (LIGHTS05_all decExt decFmt mpScenario 5 [1, 0] stThreeSectors).isSome = true ∧
    (LIGHTS05_all decExt decFmt mpScenario 5 [0, 1] stThreeSectors).isSome = true ∧
    ∀ st1 st2, LIGHTS05_all decExt decFmt mpScenario 5 [1, 0] stThreeSectors = some st1 →
      LIGHTS05_all decExt decFmt mpScenario 5 [0, 1] stThreeSectors = some st2 →
      ∃ r1 r2, LIGHTS05 decExt decFmt mpScenario 5 st1 1 = some r1 ∧
        LIGHTS05 decExt decFmt mpScenario 5 st2 1 = some r2 ∧
        r1.val? = r2.val? ∧
        r1.val? = LIGHTS05_value decExt decFmt mpScenario (stThreeSectors.obj 1)
          (stThreeSectors.touchLIGHTS 1) ∧
        ∃ r3, LIGHTS05 decExt decFmt mpScenario 5 r1.state 1 = some r3 ∧ r3.val? = r1.val? ∧
          sameStore r1.state r3.state :=
  ⟨by decide!, by decide!,
   LIGHTS05_order_free decExt decFmt mpScenario 5 stThreeSectors [1, 0] [0, 1] 1 (by decide!)⟩

end S52CS
